import Mathlib

/-! Framebuffer attachment layer of `source/blender/gpu/intern/gpu_framebuffer.c`

A shallow embedding of the framebuffer / renderbuffer / offscreen code.

* C pointers are indices into per-type heaps (`List (Option α)`); `NULL` is
  `Option.none` at the pointer level, a freed or never allocated cell reads as
  `none`.  Allocation always yields a fresh index.
* Every operation runs in `Option`: `none` stands for undefined behaviour of the
  C code (dereferencing a pointer that is not live, indexing `colortex[slot]`
  outside `0..3`).
* The OpenGL driver is external.  Only the part of its state that the code
  depends on is kept: the draw / read framebuffer bindings and the sets of live
  object names.  Answers of the driver (generated names, completeness status)
  are explicit arguments.
* The off-screen pool of `source/gameengine/Rasterizer/RAS_Rasterizer.cpp`
  (`OffScreens::Update`, `OffScreens::GetOffScreen`, `NextFilterOffScreen`,
  `NextRenderOffScreen`) is embedded as pure functions on the pool record; a
  surface is the record of its constructor arguments, and whether a creation
  request yields a valid surface is an explicit predicate.  `GetRenderArea` is a
  pure function on C `int`s.
* `float` values (`GPU_framebuffer_blur`, `KX_MovementSensor::Evaluate`) are
  rationals, finite numbers only, with the rounding of an operation as an
  explicit function; the conversion of an `int` to `float` is `floatOfInt`.
-/

namespace GPUFramebuffer

/-! ## Heaps -/

/-- Dereference pointer `p`. -/
def heapRead {α : Type} (h : List (Option α)) (p : Nat) : Option α :=
  (h[p]?).join

/-- Store `v` through the live pointer `p`. -/
def heapWrite {α : Type} (h : List (Option α)) (p : Nat) (v : α) : List (Option α) :=
  h.set p (some v)

/-- Allocation (`MEM_callocN`): a fresh cell, returned together with the grown heap. -/
def heapAlloc {α : Type} (h : List (Option α)) (v : α) : Nat × List (Option α) :=
  (h.length, h ++ [some v])

/-- Deallocation (`MEM_freeN`). -/
def heapFree {α : Type} (h : List (Option α)) (p : Nat) : List (Option α) :=
  h.set p none

/-! ## Constants -/

/-- The macro `GPU_FB_MAX_SLOTS`, the number of colour slots. -/
def GPU_FB_MAX_SLOTS : Int := 4

def GL_FRAMEBUFFER : Nat := 0x8D40
def GL_READ_FRAMEBUFFER : Nat := 0x8CA8
def GL_DRAW_FRAMEBUFFER : Nat := 0x8CA9

def GL_FRAMEBUFFER_COMPLETE : Nat := 0x8CD5
def GL_FRAMEBUFFER_INCOMPLETE_ATTACHMENT : Nat := 0x8CD6
def GL_FRAMEBUFFER_INCOMPLETE_MISSING_ATTACHMENT : Nat := 0x8CD7
def GL_FRAMEBUFFER_INCOMPLETE_DRAW_BUFFER : Nat := 0x8CDB
def GL_FRAMEBUFFER_INCOMPLETE_READ_BUFFER : Nat := 0x8CDC
def GL_FRAMEBUFFER_UNSUPPORTED : Nat := 0x8CDD
def GL_FRAMEBUFFER_INCOMPLETE_MULTISAMPLE : Nat := 0x8D56
def GL_FRAMEBUFFER_UNDEFINED : Nat := 0x8219

def GL_TEXTURE_2D : Nat := 0x0DE1
def GL_TEXTURE_2D_MULTISAMPLE : Nat := 0x9100

/-! ## Data model -/

/-- The C `struct GPUFrameBuffer`; the two colour tables have `GPU_FB_MAX_SLOTS` entries. -/
structure GPUFrameBuffer where
  object : Nat
  colortex : Fin 4 → Option Nat
  depthtex : Option Nat
  colorrb : Fin 4 → Option Nat
  depthrb : Option Nat

/-- Modelled from the spec: `struct GPUTexture` lives in `gpu_texture.c`, which is not part of
the sources.  It is the texture variant of the Attachable: dimensions, sample count,
depth-vs-colour kind, GL name and target, the texture unit it is bound to, and the
back-reference (owning framebuffer, slot). -/
structure GPUTexture where
  w : Int
  h : Int
  samples : Int
  number : Int
  target : Nat
  bindcode : Nat
  depth : Bool
  fb : Option Nat
  fb_attachment : Int
deriving DecidableEq

/-- The C `struct GPURenderBuffer`. -/
structure GPURenderBuffer where
  width : Int
  height : Int
  samples : Int
  fb : Option Nat
  fb_attachment : Int
  depth : Bool
  bindcode : Nat
deriving DecidableEq

/-- The C `struct GPUOffScreen`. -/
structure GPUOffScreen where
  fb : Option Nat
  color : Option Nat
  depth : Option Nat
  rbcolor : Option Nat
  rbdepth : Option Nat
  samples : Int
deriving DecidableEq

/-- The part of the OpenGL context the code depends on. -/
structure GLState where
  drawfb : Nat
  readfb : Nat
  framebuffers : List Nat
  renderbuffers : List Nat
  textures : List Nat
  EXT_framebuffer_multisample : Bool
  ARB_texture_multisample : Bool
  EXT_framebuffer_blit : Bool
deriving DecidableEq

/-- Program state: `GG.currentfb`, the heaps of the four struct types, and the GL context. -/
structure GPUState where
  currentfb : Nat
  fbs : List (Option GPUFrameBuffer)
  texs : List (Option GPUTexture)
  rbs : List (Option GPURenderBuffer)
  ofss : List (Option GPUOffScreen)
  gl : GLState

/-! ## OpenGL calls -/

/-- Call `glBindFramebuffer(target, name)`: `GL_FRAMEBUFFER` sets both bindings. -/
def glBindFramebuffer (target name : Nat) (gl : GLState) : GLState :=
  if target = GL_FRAMEBUFFER then { gl with drawfb := name, readfb := name }
  else if target = GL_DRAW_FRAMEBUFFER then { gl with drawfb := name }
  else if target = GL_READ_FRAMEBUFFER then { gl with readfb := name }
  else gl

/-- Call `glGenFramebuffers(1, &out)` with the driver answering `name` (`0`: nothing generated). -/
def glGenFramebuffers (name : Nat) (gl : GLState) : GLState :=
  if name = 0 then gl else { gl with framebuffers := name :: gl.framebuffers }

/-- Call `glDeleteFramebuffers(1, &name)`: the name dies, and a binding to it reverts to `0`. -/
def glDeleteFramebuffers (name : Nat) (gl : GLState) : GLState :=
  { gl with
    framebuffers := gl.framebuffers.filter (fun n => n != name)
    drawfb := if gl.drawfb = name then 0 else gl.drawfb
    readfb := if gl.readfb = name then 0 else gl.readfb }

/-- Call `glGenRenderbuffers(1, &out)` with the driver answering `name`. -/
def glGenRenderbuffers (name : Nat) (gl : GLState) : GLState :=
  if name = 0 then gl else { gl with renderbuffers := name :: gl.renderbuffers }

/-- Call `glDeleteRenderbuffersEXT(1, &name)`. -/
def glDeleteRenderbuffers (name : Nat) (gl : GLState) : GLState :=
  { gl with renderbuffers := gl.renderbuffers.filter (fun n => n != name) }

/-- Call `glGenTextures(1, &out)` with the driver answering `name`. -/
def glGenTextures (name : Nat) (gl : GLState) : GLState :=
  if name = 0 then gl else { gl with textures := name :: gl.textures }

/-- Call `glDeleteTextures(1, &name)`. -/
def glDeleteTextures (name : Nat) (gl : GLState) : GLState :=
  { gl with textures := gl.textures.filter (fun n => n != name) }

/-! ## Attachment tables -/

/-- The array index denoted by a C `int`, when it is inside `0 .. GPU_FB_MAX_SLOTS - 1`. -/
def slotIdx (slot : Int) : Option (Fin 4) :=
  if h : 0 ≤ slot ∧ slot < 4 then some ⟨slot.toNat, by omega⟩ else none

/-- Assignment `table[i] = v`. -/
def setSlot (table : Fin 4 → Option Nat) (i : Fin 4) (v : Option Nat) : Fin 4 → Option Nat :=
  fun j => if j = i then v else table j

/-- Modelled from the spec: `GPU_texture_framebuffer_set` of the absent `gpu_texture.c`; it
stores the back-reference, like `GPU_renderbuffer_framebuffer_set`. -/
def GPU_texture_framebuffer_set (t : GPUTexture) (fb : Option Nat) (attachment : Int) :
    GPUTexture :=
  { t with fb := fb, fb_attachment := attachment }

/-- Function `GPU_renderbuffer_framebuffer_set`. -/
def GPU_renderbuffer_framebuffer_set (rb : GPURenderBuffer) (fb : Option Nat)
    (attachement : Int) : GPURenderBuffer :=
  { rb with fb := fb, fb_attachment := attachement }

/-! ## Attach -/

/-- Function `GPU_framebuffer_texture_attach_target`.  The debug-only feedback-loop warning and
`glFramebufferTexture2D` touch no modelled state. -/
def GPU_framebuffer_texture_attach_target (fb tex : Nat) (_target : Nat) (slot : Int)
    (s : GPUState) : Option (Bool × GPUState) :=
  if slot ≥ GPU_FB_MAX_SLOTS then some (false, s)
  else do
    let t ← heapRead s.texs tex
    let f ← heapRead s.fbs fb
    let gl := glBindFramebuffer GL_FRAMEBUFFER f.object s.gl
    let f' ←
      if t.depth then some { f with depthtex := some tex }
      else (slotIdx slot).map (fun i => { f with colortex := setSlot f.colortex i (some tex) })
    some (true,
      { s with
        currentfb := f.object
        gl := gl
        fbs := heapWrite s.fbs fb f'
        texs := heapWrite s.texs tex (GPU_texture_framebuffer_set t (some fb) slot) })

/-- Function `GPU_framebuffer_texture_attach`: reads `GPU_texture_target(tex)` first. -/
def GPU_framebuffer_texture_attach (fb tex : Nat) (slot : Int) (s : GPUState) :
    Option (Bool × GPUState) := do
  let t ← heapRead s.texs tex
  GPU_framebuffer_texture_attach_target fb tex t.target slot s

/-- Function `GPU_framebuffer_renderbuffer_attach`. -/
def GPU_framebuffer_renderbuffer_attach (fb rb : Nat) (slot : Int) (s : GPUState) :
    Option (Bool × GPUState) :=
  if slot ≥ GPU_FB_MAX_SLOTS then some (false, s)
  else do
    let r ← heapRead s.rbs rb
    let f ← heapRead s.fbs fb
    let gl := glBindFramebuffer GL_FRAMEBUFFER f.object s.gl
    let f' ←
      if r.depth then some { f with depthrb := some rb }
      else (slotIdx slot).map (fun i => { f with colorrb := setSlot f.colorrb i (some rb) })
    some (true,
      { s with
        currentfb := f.object
        gl := gl
        fbs := heapWrite s.fbs fb f'
        rbs := heapWrite s.rbs rb (GPU_renderbuffer_framebuffer_set r (some fb) slot) })

/-! ## Detach -/

/-- Function `GPU_framebuffer_texture_detach_target`. -/
def GPU_framebuffer_texture_detach_target (tex : Nat) (_target : Nat) (s : GPUState) :
    Option GPUState := do
  let t ← heapRead s.texs tex
  match t.fb with
  | none => some s
  | some fb =>
    let f ← heapRead s.fbs fb
    let s1 : GPUState :=
      if s.currentfb ≠ f.object then
        { s with gl := glBindFramebuffer GL_FRAMEBUFFER f.object s.gl, currentfb := f.object }
      else s
    let f' ←
      if t.depth then some { f with depthtex := none }
      else (slotIdx t.fb_attachment).map (fun i => { f with colortex := setSlot f.colortex i none })
    some
      { s1 with
        fbs := heapWrite s1.fbs fb f'
        texs := heapWrite s1.texs tex (GPU_texture_framebuffer_set t none (-1)) }

/-- Function `GPU_framebuffer_texture_detach`. -/
def GPU_framebuffer_texture_detach (tex : Nat) (s : GPUState) : Option GPUState := do
  let t ← heapRead s.texs tex
  GPU_framebuffer_texture_detach_target tex t.target s

/-- The condition of `BLI_assert(fb->colortex[fb_attachment] == tex)` in
`GPU_framebuffer_texture_detach_target`, evaluated where the assertion stands; `true` on the
paths that do not reach it. -/
def GPU_framebuffer_texture_detach_assert (tex : Nat) (s : GPUState) : Option Bool := do
  let t ← heapRead s.texs tex
  match t.fb with
  | none => some true
  | some fb =>
    let f ← heapRead s.fbs fb
    if t.depth then some true
    else (slotIdx t.fb_attachment).map (fun i => f.colortex i == some tex)

/-- Function `GPU_framebuffer_renderbuffer_detach`. -/
def GPU_framebuffer_renderbuffer_detach (rb : Nat) (s : GPUState) : Option GPUState := do
  let r ← heapRead s.rbs rb
  match r.fb with
  | none => some s
  | some fb =>
    let f ← heapRead s.fbs fb
    let s1 : GPUState :=
      if s.currentfb ≠ f.object then
        { s with gl := glBindFramebuffer GL_FRAMEBUFFER f.object s.gl, currentfb := f.object }
      else s
    let f' ←
      if r.depth then some { f with depthrb := none }
      else (slotIdx r.fb_attachment).map (fun i => { f with colorrb := setSlot f.colorrb i none })
    some
      { s1 with
        fbs := heapWrite s1.fbs fb f'
        rbs := heapWrite s1.rbs rb (GPU_renderbuffer_framebuffer_set r none (-1)) }

/-- The condition of `BLI_assert(fb->colorrb[fb_attachment] == rb)` in
`GPU_framebuffer_renderbuffer_detach`. -/
def GPU_framebuffer_renderbuffer_detach_assert (rb : Nat) (s : GPUState) : Option Bool := do
  let r ← heapRead s.rbs rb
  match r.fb with
  | none => some true
  | some fb =>
    let f ← heapRead s.fbs fb
    if r.depth then some true
    else (slotIdx r.fb_attachment).map (fun i => f.colorrb i == some rb)

/-! ## Free, restore, completeness check -/

/-- One round of the first loop of `GPU_framebuffer_free`:
`if (fb->colortex[i]) GPU_framebuffer_texture_detach(fb->colortex[i]);` -/
def freeColortexStep (fb : Nat) (s : GPUState) (i : Fin 4) : Option GPUState := do
  let f ← heapRead s.fbs fb
  match f.colortex i with
  | some tex => GPU_framebuffer_texture_detach tex s
  | none => some s

/-- One round of the second loop of `GPU_framebuffer_free`:
`if (fb->colorrb[i]) GPU_framebuffer_renderbuffer_detach(fb->colorrb[i]);` -/
def freeColorrbStep (fb : Nat) (s : GPUState) (i : Fin 4) : Option GPUState := do
  let f ← heapRead s.fbs fb
  match f.colorrb i with
  | some rb => GPU_framebuffer_renderbuffer_detach rb s
  | none => some s

/-- The first statement of `GPU_framebuffer_free`:
`if (fb->depthtex) GPU_framebuffer_texture_detach(fb->depthtex);` -/
def freeDepthtexStep (fb : Nat) (s : GPUState) : Option GPUState := do
  let f ← heapRead s.fbs fb
  match f.depthtex with
  | some tex => GPU_framebuffer_texture_detach tex s
  | none => some s

/-- The statement between the two loops of `GPU_framebuffer_free`:
`if (fb->depthrb) GPU_framebuffer_renderbuffer_detach(fb->depthrb);` -/
def freeDepthrbStep (fb : Nat) (s : GPUState) : Option GPUState := do
  let f ← heapRead s.fbs fb
  match f.depthrb with
  | some rb => GPU_framebuffer_renderbuffer_detach rb s
  | none => some s

/-- The detaching part of `GPU_framebuffer_free`: depth texture, colour textures `0..3`,
depth renderbuffer, colour renderbuffers `0..3`, each table entry read when its turn comes. -/
def freeDetachAll (fb : Nat) (s : GPUState) : Option GPUState := do
  let s ← freeDepthtexStep fb s
  let s ← (List.finRange 4).foldlM (freeColortexStep fb) s
  let s ← freeDepthrbStep fb s
  (List.finRange 4).foldlM (freeColorrbStep fb) s

/-- Function `GPU_framebuffer_free`. -/
def GPU_framebuffer_free (fb : Nat) (s : GPUState) : Option GPUState := do
  let s ← freeDetachAll fb s
  let f ← heapRead s.fbs fb
  let s : GPUState :=
    if f.object ≠ 0 then
      let s1 : GPUState := { s with gl := glDeleteFramebuffers f.object s.gl }
      if s1.currentfb = f.object then
        { s1 with gl := glBindFramebuffer GL_FRAMEBUFFER 0 s1.gl, currentfb := 0 }
      else s1
    else s
  some { s with fbs := heapFree s.fbs fb }

/-- Function `GPU_framebuffer_restore`. -/
def GPU_framebuffer_restore (s : GPUState) : GPUState :=
  if s.currentfb ≠ 0 then
    { s with gl := glBindFramebuffer GL_FRAMEBUFFER 0 s.gl, currentfb := 0 }
  else s

/-- The status name chosen by the `switch` of `GPU_print_framebuffer_error`. -/
def framebufferStatusName (status : Nat) : String :=
  if status = GL_FRAMEBUFFER_COMPLETE then "GL_FRAMEBUFFER_COMPLETE"
  else if status = GL_FRAMEBUFFER_INCOMPLETE_ATTACHMENT then
    "GL_FRAMEBUFFER_INCOMPLETE_ATTACHMENT"
  else if status = GL_FRAMEBUFFER_INCOMPLETE_MISSING_ATTACHMENT then
    "GL_FRAMEBUFFER_INCOMPLETE_MISSING_ATTACHMENT"
  else if status = GL_FRAMEBUFFER_UNSUPPORTED then "GL_FRAMEBUFFER_UNSUPPORTED"
  else if status = GL_FRAMEBUFFER_INCOMPLETE_DRAW_BUFFER then
    "GL_FRAMEBUFFER_INCOMPLETE_DRAW_BUFFER"
  else if status = GL_FRAMEBUFFER_INCOMPLETE_READ_BUFFER then
    "GL_FRAMEBUFFER_INCOMPLETE_READ_BUFFER"
  else if status = GL_FRAMEBUFFER_INCOMPLETE_MULTISAMPLE then
    "GL_FRAMEBUFFER_INCOMPLETE_MULTISAMPLE"
  else if status = GL_FRAMEBUFFER_UNDEFINED then "GL_FRAMEBUFFER_UNDEFINED"
  else "unknown"

/-- Text emitted by the code, and where it goes: into the caller's `err_out` buffer or, when
the caller passed `NULL`, to `stderr`. -/
structure Report where
  toErrOut : Bool
  text : List Char
deriving DecidableEq

/-- Function `GPU_print_framebuffer_error`: `BLI_snprintf(err_out, 256, format, err)` keeps at
most 255 characters, `fprintf(stderr, format, err)` keeps all. -/
def GPU_print_framebuffer_error (status : Nat) (err_out : Bool) : Report :=
  let msg := ("GPUFrameBuffer: framebuffer status " ++ framebufferStatusName status).data
  if err_out then { toErrOut := true, text := msg.take 255 }
  else { toErrOut := false, text := msg }

/-- Function `GPU_framebuffer_check_valid`; `status` is the answer of
`glCheckFramebufferStatus(GL_FRAMEBUFFER)`. -/
def GPU_framebuffer_check_valid (fb : Nat) (err_out : Bool) (status : Nat) (s : GPUState) :
    Option (Bool × Option Report × GPUState) := do
  let f ← heapRead s.fbs fb
  let s : GPUState :=
    { s with gl := glBindFramebuffer GL_FRAMEBUFFER f.object s.gl, currentfb := f.object }
  if status ≠ GL_FRAMEBUFFER_COMPLETE then
    some (false, some (GPU_print_framebuffer_error status err_out), GPU_framebuffer_restore s)
  else
    some (true, none, s)

/-! ## Creation of framebuffers, renderbuffers, textures -/

/-- Function `GPU_framebuffer_create`; `name` is the answer of `glGenFramebuffers`.
`glReadBuffer(GL_NONE)` and `glDrawBuffer(GL_NONE)` touch no modelled state. -/
def GPU_framebuffer_create (name : Nat) (s : GPUState) : Option (Option Nat × GPUState) :=
  let cell := heapAlloc s.fbs
    { object := name, colortex := fun _ => none, depthtex := none,
      colorrb := fun _ => none, depthrb := none }
  let fb := cell.1
  let s : GPUState := { s with fbs := cell.2, gl := glGenFramebuffers name s.gl }
  if name = 0 then do
    let s ← GPU_framebuffer_free fb s
    some (none, s)
  else
    let gl := glBindFramebuffer GL_FRAMEBUFFER name s.gl
    let gl := glBindFramebuffer GL_FRAMEBUFFER 0 gl
    some (some fb, { s with gl := gl })

/-- The enumeration `GPUHDRType`. -/
inductive GPUHDRType where
  | GPU_HDR_NONE
  | GPU_HDR_HALF_FLOAT
  | GPU_HDR_FULL_FLOAT
deriving DecidableEq

/-- The enumeration `GPURenderBufferType`. -/
inductive GPURenderBufferType where
  | GPU_RENDERBUFFER_COLOR
  | GPU_RENDERBUFFER_DEPTH
deriving DecidableEq

/-- Function `GPU_renderbuffer_free`. -/
def GPU_renderbuffer_free (rb : Nat) (s : GPUState) : Option GPUState := do
  let r ← heapRead s.rbs rb
  let gl := if r.bindcode ≠ 0 then glDeleteRenderbuffers r.bindcode s.gl else s.gl
  some { s with gl := gl, rbs := heapFree s.rbs rb }

/-- Function `GPU_renderbuffer_create`; `name` is the answer of `glGenRenderbuffers`.  The
storage calls (`glBindRenderbufferEXT`, `glRenderbufferStorage...`) touch no modelled state. -/
def GPU_renderbuffer_create (width height samples : Int) (_hdrtype : GPUHDRType)
    (type : GPURenderBufferType) (name : Nat) (s : GPUState) :
    Option (Option Nat × GPUState) :=
  let cell := heapAlloc s.rbs
    { width := 0, height := 0, samples := 0, fb := none, fb_attachment := 0,
      depth := false, bindcode := name }
  let rb := cell.1
  let s : GPUState := { s with rbs := cell.2, gl := glGenRenderbuffers name s.gl }
  if name = 0 then do
    let s ← GPU_renderbuffer_free rb s
    some (none, s)
  else do
    let r ← heapRead s.rbs rb
    let r : GPURenderBuffer := { r with width := width, height := height, samples := samples }
    let r : GPURenderBuffer :=
      if type = GPURenderBufferType.GPU_RENDERBUFFER_DEPTH then { r with depth := true } else r
    some (some rb, { s with rbs := heapWrite s.rbs rb r })

/-- Modelled from the spec: the texture constructors `GPU_texture_create_2D_multisample` and
`GPU_texture_create_depth_multisample` of the absent `gpu_texture.c`.  A texture is created
unattached (owning = none, slot = -1); an allocation failure (`name = 0`) returns no object
and leaves nothing allocated. -/
def GPU_texture_create_multisample (w h samples : Int) (depth : Bool) (name : Nat)
    (s : GPUState) : Option Nat × GPUState :=
  if name = 0 then (none, s)
  else
    let cell := heapAlloc s.texs
      { w := w, h := h, samples := samples, number := -1,
        target := if samples > 0 then GL_TEXTURE_2D_MULTISAMPLE else GL_TEXTURE_2D,
        bindcode := name, depth := depth, fb := none, fb_attachment := -1 }
    (some cell.1, { s with texs := cell.2, gl := glGenTextures name s.gl })

/-- Modelled from the spec: `GPU_texture_free` of the absent `gpu_texture.c`; the destroy
operation of an Attachable releases its GPU storage and its memory. -/
def GPU_texture_free (tex : Nat) (s : GPUState) : Option GPUState := do
  let t ← heapRead s.texs tex
  let gl := if t.bindcode ≠ 0 then glDeleteTextures t.bindcode s.gl else s.gl
  some { s with gl := gl, texs := heapFree s.texs tex }

/-! ## Offscreen surfaces -/

/-- Modelled from the spec: the flags of `GPUOffScreenMode`, declared in the absent header
`GPU_framebuffer.h`; storage policy bits, independent for colour and depth. -/
def GPU_OFFSCREEN_RENDERBUFFER_COLOR : Nat := 1

/-- Modelled from the spec: see `GPU_OFFSCREEN_RENDERBUFFER_COLOR`. -/
def GPU_OFFSCREEN_RENDERBUFFER_DEPTH : Nat := 2

/-- Modelled from the spec: see `GPU_OFFSCREEN_RENDERBUFFER_COLOR`. -/
def GPU_OFFSCREEN_DEPTH_COMPARE : Nat := 4

/-- The statement `if (ofs->fb) GPU_framebuffer_free(ofs->fb);` of `GPU_offscreen_free`. -/
def freeFbIfSet (fb : Option Nat) (s : GPUState) : Option GPUState :=
  match fb with
  | some fb => GPU_framebuffer_free fb s
  | none => some s

/-- The statement `if (tex) GPU_texture_free(tex);` of `GPU_offscreen_free`, used for
`ofs->color` and for `ofs->depth`. -/
def freeTexIfSet (tex : Option Nat) (s : GPUState) : Option GPUState :=
  match tex with
  | some tex => GPU_texture_free tex s
  | none => some s

/-- The statement `if (rb) GPU_renderbuffer_free(rb);` of `GPU_offscreen_free`, used for
`ofs->rbcolor` and for `ofs->rbdepth`. -/
def freeRbIfSet (rb : Option Nat) (s : GPUState) : Option GPUState :=
  match rb with
  | some rb => GPU_renderbuffer_free rb s
  | none => some s

/-- Function `GPU_offscreen_free`. -/
def GPU_offscreen_free (ofs : Nat) (s : GPUState) : Option GPUState := do
  let o ← heapRead s.ofss ofs
  let s ← freeFbIfSet o.fb s
  let s ← freeTexIfSet o.color s
  let s ← freeTexIfSet o.depth s
  let s ← freeRbIfSet o.rbcolor s
  let s ← freeRbIfSet o.rbdepth s
  some { s with ofss := heapFree s.ofss ofs }

/-- The failure exit used throughout `GPU_offscreen_create`:
`GPU_offscreen_free(ofs); return NULL;` -/
def offscreenAbort (ofs : Nat) (s : GPUState) : Option (Option Nat × GPUState) := do
  let s ← GPU_offscreen_free ofs s
  some (none, s)

/-- Assignment to a field of `*ofs`. -/
def ofsUpdate (ofs : Nat) (g : GPUOffScreen → GPUOffScreen) (s : GPUState) :
    Option GPUState := do
  let o ← heapRead s.ofss ofs
  some { s with ofss := heapWrite s.ofss ofs (g o) }

/-- The answers of the OpenGL driver consumed by one run of `GPU_offscreen_create`: the
generated framebuffer name, the names generated for the colour and for the depth resource
(`0`: generation failed), and the completeness status. -/
structure GLReplies where
  fbName : Nat
  colorName : Nat
  depthName : Nat
  status : Nat
deriving DecidableEq

/-- The sample count kept by `GPU_offscreen_create` (the `if (samples)` block). -/
def offscreenSamples (gl : GLState) (mode : Nat) (samples : Int) : Int :=
  if samples ≠ 0 then
    if !gl.EXT_framebuffer_multisample
        || (!gl.ARB_texture_multisample
            && (mode &&& GPU_OFFSCREEN_RENDERBUFFER_COLOR == 0
                || mode &&& GPU_OFFSCREEN_RENDERBUFFER_DEPTH == 0))
        || !gl.EXT_framebuffer_blit then 0
    else samples
  else samples

/-- The colour block of `GPU_offscreen_create` for `GPU_OFFSCREEN_RENDERBUFFER_COLOR`: create
the colour renderbuffer, store it in `ofs->rbcolor`, attach it to slot `0`.  The result is
`Sum.inl` when the block ends in `GPU_offscreen_free(ofs); return NULL;` and `Sum.inr` when
the function goes on. -/
def offscreenColorRb (ofs fb : Nat) (width height samples : Int) (hdrtype : GPUHDRType)
    (name : Nat) (s : GPUState) : Option (GPUState ⊕ GPUState) := do
  let (rb, s) ← GPU_renderbuffer_create width height samples hdrtype
    GPURenderBufferType.GPU_RENDERBUFFER_COLOR name s
  let s ← ofsUpdate ofs (fun o => { o with rbcolor := rb }) s
  match rb with
  | none => some (Sum.inl s)
  | some rb =>
    let (ok, s) ← GPU_framebuffer_renderbuffer_attach fb rb 0 s
    if !ok then some (Sum.inl s) else some (Sum.inr s)

/-- The colour block of `GPU_offscreen_create` without `GPU_OFFSCREEN_RENDERBUFFER_COLOR`:
create the colour texture, store it in `ofs->color`, attach it to slot `0`. -/
def offscreenColorTex (ofs fb : Nat) (width height samples : Int) (name : Nat)
    (s : GPUState) : Option (GPUState ⊕ GPUState) := do
  let (tex, s) := GPU_texture_create_multisample width height samples false name s
  let s ← ofsUpdate ofs (fun o => { o with color := tex }) s
  match tex with
  | none => some (Sum.inl s)
  | some tex =>
    let (ok, s) ← GPU_framebuffer_texture_attach fb tex 0 s
    if !ok then some (Sum.inl s) else some (Sum.inr s)

/-- The depth block of `GPU_offscreen_create` for `GPU_OFFSCREEN_RENDERBUFFER_DEPTH`: create
the depth renderbuffer, store it in `ofs->rbdepth`, attach it with slot argument `0`. -/
def offscreenDepthRb (ofs fb : Nat) (width height samples : Int) (name : Nat)
    (s : GPUState) : Option (GPUState ⊕ GPUState) := do
  let (rb, s) ← GPU_renderbuffer_create width height samples GPUHDRType.GPU_HDR_NONE
    GPURenderBufferType.GPU_RENDERBUFFER_DEPTH name s
  let s ← ofsUpdate ofs (fun o => { o with rbdepth := rb }) s
  match rb with
  | none => some (Sum.inl s)
  | some rb =>
    let (ok, s) ← GPU_framebuffer_renderbuffer_attach fb rb 0 s
    if !ok then some (Sum.inl s) else some (Sum.inr s)

/-- The depth block of `GPU_offscreen_create` without `GPU_OFFSCREEN_RENDERBUFFER_DEPTH`:
create the depth texture, store it in `ofs->depth`, attach it with slot argument `0`. -/
def offscreenDepthTex (ofs fb : Nat) (width height samples : Int) (name : Nat)
    (s : GPUState) : Option (GPUState ⊕ GPUState) := do
  let (tex, s) := GPU_texture_create_multisample width height samples true name s
  let s ← ofsUpdate ofs (fun o => { o with depth := tex }) s
  match tex with
  | none => some (Sum.inl s)
  | some tex =>
    let (ok, s) ← GPU_framebuffer_texture_attach fb tex 0 s
    if !ok then some (Sum.inl s) else some (Sum.inr s)

/-- The end of `GPU_offscreen_create`: completeness check, then restore the default target. -/
def offscreenCreateCheck (ofs fb : Nat) (err_out : Bool) (status : Nat) (s : GPUState) :
    Option (Option Nat × GPUState) := do
  let (ok, _, s) ← GPU_framebuffer_check_valid fb err_out status s
  if !ok then offscreenAbort ofs s
  else some (some ofs, GPU_framebuffer_restore s)

/-- The colour block of `GPU_offscreen_create`:
`if (mode & GPU_OFFSCREEN_RENDERBUFFER_COLOR) { renderbuffer } else { texture }`. -/
def offscreenColorBlock (ofs fb : Nat) (width height samples : Int) (hdrtype : GPUHDRType)
    (mode : Nat) (name : Nat) (s : GPUState) : Option (GPUState ⊕ GPUState) :=
  if mode &&& GPU_OFFSCREEN_RENDERBUFFER_COLOR ≠ 0 then
    offscreenColorRb ofs fb width height samples hdrtype name s
  else
    offscreenColorTex ofs fb width height samples name s

/-- The depth block of `GPU_offscreen_create`:
`if (mode & GPU_OFFSCREEN_RENDERBUFFER_DEPTH) { renderbuffer } else { texture }`. -/
def offscreenDepthBlock (ofs fb : Nat) (width height samples : Int) (mode : Nat)
    (name : Nat) (s : GPUState) : Option (GPUState ⊕ GPUState) :=
  if mode &&& GPU_OFFSCREEN_RENDERBUFFER_DEPTH ≠ 0 then
    offscreenDepthRb ofs fb width height samples name s
  else
    offscreenDepthTex ofs fb width height samples name s

/-- The part of `GPU_offscreen_create` after the sample count is stored: colour block, depth
block, completeness check. -/
def offscreenCreateResources (ofs fb : Nat) (width height samples : Int)
    (hdrtype : GPUHDRType) (mode : Nat) (err_out : Bool) (r : GLReplies) (s : GPUState) :
    Option (Option Nat × GPUState) := do
  let c ← offscreenColorBlock ofs fb width height samples hdrtype mode r.colorName s
  match c with
  | Sum.inl s => offscreenAbort ofs s
  | Sum.inr s =>
    let d ← offscreenDepthBlock ofs fb width height samples mode r.depthName s
    match d with
    | Sum.inl s => offscreenAbort ofs s
    | Sum.inr s => offscreenCreateCheck ofs fb err_out r.status s

/-- Function `GPU_offscreen_create`. -/
def GPU_offscreen_create (width height samples : Int) (hdrtype : GPUHDRType) (mode : Nat)
    (err_out : Bool) (r : GLReplies) (s : GPUState) : Option (Option Nat × GPUState) := do
  let cell := heapAlloc s.ofss
    { fb := none, color := none, depth := none, rbcolor := none, rbdepth := none, samples := 0 }
  let ofs := cell.1
  let s : GPUState := { s with ofss := cell.2 }
  let (fb, s) ← GPU_framebuffer_create r.fbName s
  let s ← ofsUpdate ofs (fun o => { o with fb := fb }) s
  match fb with
  | none => offscreenAbort ofs s
  | some fb =>
    let samples := offscreenSamples s.gl mode samples
    let s ← ofsUpdate ofs (fun o => { o with samples := samples }) s
    offscreenCreateResources ofs fb width height samples hdrtype mode err_out r s

/-! ## Example states -/

/-- A small state for the worked examples: framebuffer `0` with GL name `7`, colour texture
`0`, depth texture `1`, colour renderbuffer `0`, depth renderbuffer `1`, nothing attached. -/
def exampleGL : GLState :=
  { drawfb := 0, readfb := 0, framebuffers := [7], renderbuffers := [3, 4], textures := [5, 6],
    EXT_framebuffer_multisample := true, ARB_texture_multisample := true,
    EXT_framebuffer_blit := true }

/-- An empty framebuffer struct with GL name `name`. -/
def emptyFrameBuffer (name : Nat) : GPUFrameBuffer :=
  { object := name, colortex := fun _ => none, depthtex := none,
    colorrb := fun _ => none, depthrb := none }

/-- An unattached 16x16 texture. -/
def exampleTexture (name : Nat) (depth : Bool) : GPUTexture :=
  { w := 16, h := 16, samples := 0, number := -1, target := GL_TEXTURE_2D, bindcode := name,
    depth := depth, fb := none, fb_attachment := -1 }

/-- An unattached 16x16 renderbuffer. -/
def exampleRenderBuffer (name : Nat) (depth : Bool) : GPURenderBuffer :=
  { width := 16, height := 16, samples := 0, fb := none, fb_attachment := -1, depth := depth,
    bindcode := name }

/-- The example state. -/
def exampleState : GPUState :=
  { currentfb := 0
    fbs := [some (emptyFrameBuffer 7)]
    texs := [some (exampleTexture 5 false), some (exampleTexture 6 true)]
    rbs := [some (exampleRenderBuffer 3 false), some (exampleRenderBuffer 4 true)]
    ofss := []
    gl := exampleGL }

/-- The GL context after the conditional rebind at the start of a detach. -/
def detachBind (s : GPUState) (f : GPUFrameBuffer) : GLState :=
  if s.currentfb ≠ f.object then glBindFramebuffer GL_FRAMEBUFFER f.object s.gl else s.gl

/-- The example state after attaching colour texture `0` to slot `2`, depth texture `1`,
colour renderbuffer `0` to slot `1` and depth renderbuffer `1` to framebuffer `0`. -/
def attachedState : GPUState :=
  { currentfb := 7
    fbs := [some { object := 7, colortex := setSlot (fun _ => none) 2 (some 0),
                   depthtex := some 1, colorrb := setSlot (fun _ => none) 1 (some 0),
                   depthrb := some 1 }]
    texs := [some (GPU_texture_framebuffer_set (exampleTexture 5 false) (some 0) 2),
             some (GPU_texture_framebuffer_set (exampleTexture 6 true) (some 0) 0)]
    rbs := [some (GPU_renderbuffer_framebuffer_set (exampleRenderBuffer 3 false) (some 0) 1),
            some (GPU_renderbuffer_framebuffer_set (exampleRenderBuffer 4 true) (some 0) 0)]
    ofss := []
    gl := glBindFramebuffer GL_FRAMEBUFFER 7 exampleGL }

/-- Two framebuffers (GL names `7` and `8`) and colour texture `0`, attached to slot `0` of
framebuffer `0`. -/
def twoTargetsState : GPUState :=
  { currentfb := 7
    fbs := [some { object := 7, colortex := setSlot (fun _ => none) 0 (some 0),
                   depthtex := none, colorrb := fun _ => none, depthrb := none },
            some (emptyFrameBuffer 8)]
    texs := [some (GPU_texture_framebuffer_set (exampleTexture 5 false) (some 0) 0)]
    rbs := []
    ofss := []
    gl := glBindFramebuffer GL_FRAMEBUFFER 7
      { exampleGL with framebuffers := [7, 8], textures := [5], renderbuffers := [] } }

/-- The empty state: nothing allocated, default framebuffer bound, all capabilities present. -/
def emptyState : GPUState :=
  { currentfb := 0, fbs := [], texs := [], rbs := [], ofss := []
    gl := { drawfb := 0, readfb := 0, framebuffers := [], renderbuffers := [], textures := [],
            EXT_framebuffer_multisample := true, ARB_texture_multisample := true,
            EXT_framebuffer_blit := true } }

/-- From the empty state: create a framebuffer, create colour textures `A` and `B`, attach
`A` to slot `0`, then attach `B` to slot `0`. -/
def occupiedSlotRun : Option GPUState := do
  let (fb, s) ← GPU_framebuffer_create 7 emptyState
  let fb ← fb
  let (a, s) := GPU_texture_create_multisample 16 16 0 false 5 s
  let a ← a
  let (b, s) := GPU_texture_create_multisample 16 16 0 false 6 s
  let b ← b
  let (_, s) ← GPU_framebuffer_texture_attach fb a 0 s
  let (_, s) ← GPU_framebuffer_texture_attach fb b 0 s
  some s

/-! ## Consistency of back-references and tables -/

/-- Texture `A` is live and unattached: back-reference `(none, -1)`. -/
def DetachedTex (s : GPUState) (A : Nat) : Prop :=
  ∃ t, heapRead s.texs A = some t ∧ t.fb = none ∧ t.fb_attachment = -1

/-- Renderbuffer `A` is live and unattached: back-reference `(none, -1)`. -/
def DetachedRb (s : GPUState) (A : Nat) : Prop :=
  ∃ r, heapRead s.rbs A = some r ∧ r.fb = none ∧ r.fb_attachment = -1

/-- The framebuffer struct `f` holds texture `A`, whose struct is `t`, at the place named by
the back-reference of `t`: in the depth entry for a depth texture, else in `colortex` at the
slot `t.fb_attachment`. -/
def TexHeld (f : GPUFrameBuffer) (t : GPUTexture) (A : Nat) : Prop :=
  if t.depth then f.depthtex = some A
  else ∃ i, slotIdx t.fb_attachment = some i ∧ f.colortex i = some A

instance (f : GPUFrameBuffer) (t : GPUTexture) (A : Nat) : Decidable (TexHeld f t A) := by
  unfold TexHeld
  infer_instance

/-- The framebuffer struct `f` holds renderbuffer `A`, whose struct is `r`, at the place named
by the back-reference of `r`. -/
def RbHeld (f : GPUFrameBuffer) (r : GPURenderBuffer) (A : Nat) : Prop :=
  if r.depth then f.depthrb = some A
  else ∃ i, slotIdx r.fb_attachment = some i ∧ f.colorrb i = some A

instance (f : GPUFrameBuffer) (r : GPURenderBuffer) (A : Nat) : Decidable (RbHeld f r A) := by
  unfold RbHeld
  infer_instance

/-- Every live texture whose back-reference names `(T, slot)` sits in the table of the live
framebuffer `T` at `slot`, in the depth entry when it is a depth texture. -/
def TexBackrefsOK (s : GPUState) : Prop :=
  ∀ A < s.texs.length, ∀ t ∈ heapRead s.texs A, ∀ T ∈ t.fb, ∃ f ∈ heapRead s.fbs T,
    TexHeld f t A

instance (s : GPUState) : Decidable (TexBackrefsOK s) := by
  unfold TexBackrefsOK
  infer_instance

/-- Every live renderbuffer whose back-reference names `(T, slot)` sits in the table of the
live framebuffer `T` at `slot`, in the depth entry when it is a depth renderbuffer. -/
def RbBackrefsOK (s : GPUState) : Prop :=
  ∀ A < s.rbs.length, ∀ r ∈ heapRead s.rbs A, ∀ T ∈ r.fb, ∃ f ∈ heapRead s.fbs T,
    RbHeld f r A

instance (s : GPUState) : Decidable (RbBackrefsOK s) := by
  unfold RbBackrefsOK
  infer_instance

/-- Every texture in a table of the framebuffer struct `f` at `T` is live, of the kind of
that table, and refers back to `T` and to its slot. -/
def TexEntriesOK (s : GPUState) (T : Nat) (f : GPUFrameBuffer) : Prop :=
  (∀ A ∈ f.depthtex, ∃ t ∈ heapRead s.texs A, t.fb = some T ∧ t.depth = true) ∧
  (∀ i, ∀ A ∈ f.colortex i, ∃ t ∈ heapRead s.texs A,
      t.fb = some T ∧ t.depth = false ∧ slotIdx t.fb_attachment = some i)

instance (s : GPUState) (T : Nat) (f : GPUFrameBuffer) : Decidable (TexEntriesOK s T f) := by
  unfold TexEntriesOK
  infer_instance

/-- Every renderbuffer in a table of the framebuffer struct `f` at `T` is live, of the kind
of that table, and refers back to `T` and to its slot. -/
def RbEntriesOK (s : GPUState) (T : Nat) (f : GPUFrameBuffer) : Prop :=
  (∀ A ∈ f.depthrb, ∃ r ∈ heapRead s.rbs A, r.fb = some T ∧ r.depth = true) ∧
  (∀ i, ∀ A ∈ f.colorrb i, ∃ r ∈ heapRead s.rbs A,
      r.fb = some T ∧ r.depth = false ∧ slotIdx r.fb_attachment = some i)

instance (s : GPUState) (T : Nat) (f : GPUFrameBuffer) : Decidable (RbEntriesOK s T f) := by
  unfold RbEntriesOK
  infer_instance

/-- Back-references and attachment tables agree in both directions, for every live texture,
renderbuffer and framebuffer. -/
def Consistent (s : GPUState) : Prop :=
  TexBackrefsOK s ∧ RbBackrefsOK s ∧
  ∀ T < s.fbs.length, ∀ f ∈ heapRead s.fbs T, TexEntriesOK s T f ∧ RbEntriesOK s T f

instance (s : GPUState) : Decidable (Consistent s) := by
  unfold Consistent
  infer_instance

/-- The tables of framebuffer `T`, whose struct is `f`, are consistent with the
back-references of the resources they hold. -/
structure TableOK (s : GPUState) (T : Nat) (f : GPUFrameBuffer) : Prop where
  live : heapRead s.fbs T = some f
  depthtex : ∀ A, f.depthtex = some A →
    ∃ t, heapRead s.texs A = some t ∧ t.fb = some T ∧ t.depth = true
  colortex : ∀ i A, f.colortex i = some A →
    ∃ t, heapRead s.texs A = some t ∧ t.fb = some T ∧ t.depth = false ∧
      slotIdx t.fb_attachment = some i
  depthrb : ∀ A, f.depthrb = some A →
    ∃ r, heapRead s.rbs A = some r ∧ r.fb = some T ∧ r.depth = true
  colorrb : ∀ i A, f.colorrb i = some A →
    ∃ r, heapRead s.rbs A = some r ∧ r.fb = some T ∧ r.depth = false ∧
      slotIdx r.fb_attachment = some i

/-- The state `s'` has the same skeleton as `s`: the same offscreen heap, the same live GL
names, and in the other heaps the same live pointers carrying the same GL names. -/
structure Skel (s s' : GPUState) : Prop where
  ofss : s'.ofss = s.ofss
  glfb : s'.gl.framebuffers = s.gl.framebuffers
  gltex : s'.gl.textures = s.gl.textures
  glrb : s'.gl.renderbuffers = s.gl.renderbuffers
  fbs : ∀ p, (heapRead s'.fbs p).map (fun f => f.object)
    = (heapRead s.fbs p).map (fun f => f.object)
  texs : ∀ p, (heapRead s'.texs p).map (fun t => t.bindcode)
    = (heapRead s.texs p).map (fun t => t.bindcode)
  rbs : ∀ p, (heapRead s'.rbs p).map (fun r => r.bindcode)
    = (heapRead s.rbs p).map (fun r => r.bindcode)

/-- The relation between the state `s` (framebuffer struct `f` at `T`) before and the state
`s'` (struct `f'`) after some rounds of the detaching part of `GPU_framebuffer_free`: the
tables stay consistent, entries are only ever cleared, a resource whose entry was cleared is
detached, and detached resources stay detached. -/
structure FreeProgress (T : Nat) (s s' : GPUState) (f f' : GPUFrameBuffer) : Prop where
  ok : TableOK s' T f'
  skel : Skel s s'
  object : f'.object = f.object
  tracker : s'.currentfb = s.currentfb ∨ s'.currentfb = f.object
  depthtex : f'.depthtex = none ∨ f'.depthtex = f.depthtex
  colortex : ∀ i, f'.colortex i = none ∨ f'.colortex i = f.colortex i
  depthrb : f'.depthrb = none ∨ f'.depthrb = f.depthrb
  colorrb : ∀ i, f'.colorrb i = none ∨ f'.colorrb i = f.colorrb i
  texKeep : ∀ A, DetachedTex s A → DetachedTex s' A
  rbKeep : ∀ A, DetachedRb s A → DetachedRb s' A
  depthtexDone : ∀ A, f.depthtex = some A → f'.depthtex = some A ∨ DetachedTex s' A
  colortexDone : ∀ i A, f.colortex i = some A → f'.colortex i = some A ∨ DetachedTex s' A
  depthrbDone : ∀ A, f.depthrb = some A → f'.depthrb = some A ∨ DetachedRb s' A
  colorrbDone : ∀ i A, f.colorrb i = some A → f'.colorrb i = some A ∨ DetachedRb s' A

/-- The status codes named by the `switch` of `GPU_print_framebuffer_error`. -/
def listedStatusCodes : List Nat :=
  [GL_FRAMEBUFFER_COMPLETE, GL_FRAMEBUFFER_INCOMPLETE_ATTACHMENT,
   GL_FRAMEBUFFER_INCOMPLETE_MISSING_ATTACHMENT, GL_FRAMEBUFFER_UNSUPPORTED,
   GL_FRAMEBUFFER_INCOMPLETE_DRAW_BUFFER, GL_FRAMEBUFFER_INCOMPLETE_READ_BUFFER,
   GL_FRAMEBUFFER_INCOMPLETE_MULTISAMPLE, GL_FRAMEBUFFER_UNDEFINED]

/-! ## Binding and read-back -/

/-- Function `GPU_framebuffer_bind_simple`; the draw / read buffer selection
(`glDrawBuffer`, `glReadBuffer`) is no part of the modelled state. -/
def GPU_framebuffer_bind_simple (fb : Nat) (s : GPUState) : Option GPUState := do
  let f ← heapRead s.fbs fb
  some { s with gl := glBindFramebuffer GL_FRAMEBUFFER f.object s.gl, currentfb := f.object }

/-- Function `GPU_offscreen_bind_simple`. -/
def GPU_offscreen_bind_simple (ofs : Nat) (s : GPUState) : Option GPUState := do
  let o ← heapRead s.ofss ofs
  let fb ← o.fb
  GPU_framebuffer_bind_simple fb s

/-- Function `GPU_offscreen_read_pixels`, as far as the GL object names and framebuffer
bindings go (the pixel transfer itself is no part of the modelled state).  The driver answers
`texBlit` to `glGenTextures`, `fboBlit` to `glGenFramebuffers` and `status` to
`glCheckFramebufferStatus(GL_DRAW_FRAMEBUFFER)`.  `USE_FBO_CTX_SWITCH` is not defined. -/
def GPU_offscreen_read_pixels (ofs : Nat) (texBlit fboBlit status : Nat) (s : GPUState) :
    Option GPUState := do
  let o ← heapRead s.ofss ofs
  let color ← o.color
  let t ← heapRead s.texs color
  if t.target = GL_TEXTURE_2D_MULTISAMPLE then
    let gl := glGenTextures texBlit s.gl
    let gl :=
      if texBlit = 0 then gl
      else
        let gl := glGenFramebuffers fboBlit gl
        let gl := glBindFramebuffer GL_DRAW_FRAMEBUFFER fboBlit gl
        if status ≠ GL_FRAMEBUFFER_COMPLETE then gl
        else glBindFramebuffer GL_READ_FRAMEBUFFER fboBlit gl
    let gl := if texBlit ≠ 0 then glDeleteTextures texBlit gl else gl
    let gl := if texBlit ≠ 0 ∧ fboBlit ≠ 0 then glDeleteFramebuffers fboBlit gl else gl
    some { s with gl := gl }
  else some s

/-- The tracker `GG.currentfb` names the framebuffer that the GL context has bound, for
drawing and for reading. -/
def trackerInSync (s : GPUState) : Prop :=
  s.gl.drawfb = s.currentfb ∧ s.gl.readfb = s.currentfb

instance (s : GPUState) : Decidable (trackerInSync s) := by
  unfold trackerInSync
  infer_instance

/-- From the empty state: create a multisampled texture offscreen (GL names `1`, `2`, `3`)
and bind it with `GPU_offscreen_bind_simple`. -/
def boundOffscreenRun : Option GPUState := do
  let (ofs, s) ← GPU_offscreen_create 16 16 4 GPUHDRType.GPU_HDR_NONE 0 true
    ⟨1, 2, 3, GL_FRAMEBUFFER_COMPLETE⟩ emptyState
  let ofs ← ofs
  GPU_offscreen_bind_simple ofs s

/-- The sets of live resources of `s'` and `s` are equal: the same pointers are live in the
four heaps and the same GL names are live for framebuffers, textures and renderbuffers. -/
def SameLive (s s' : GPUState) : Prop :=
  (∀ p, (heapRead s'.fbs p).isSome = (heapRead s.fbs p).isSome) ∧
  (∀ p, (heapRead s'.texs p).isSome = (heapRead s.texs p).isSome) ∧
  (∀ p, (heapRead s'.rbs p).isSome = (heapRead s.rbs p).isSome) ∧
  (∀ p, (heapRead s'.ofss p).isSome = (heapRead s.ofss p).isSome) ∧
  (∀ n, n ∈ s'.gl.framebuffers ↔ n ∈ s.gl.framebuffers) ∧
  (∀ n, n ∈ s'.gl.textures ↔ n ∈ s.gl.textures) ∧
  (∀ n, n ∈ s'.gl.renderbuffers ↔ n ∈ s.gl.renderbuffers)

/-- The GL framebuffer name `n` belongs to the framebuffer of the offscreen struct `o`. -/
def ownsFbName (s : GPUState) (o : GPUOffScreen) (n : Nat) : Prop :=
  n ≠ 0 ∧ ∃ F f, o.fb = some F ∧ heapRead s.fbs F = some f ∧ f.object = n

/-- The GL texture name `n` belongs to the colour or depth texture of `o`. -/
def ownsTexName (s : GPUState) (o : GPUOffScreen) (n : Nat) : Prop :=
  n ≠ 0 ∧ ∃ p t, (o.color = some p ∨ o.depth = some p) ∧ heapRead s.texs p = some t ∧
    t.bindcode = n

/-- The GL renderbuffer name `n` belongs to the colour or depth renderbuffer of `o`. -/
def ownsRbName (s : GPUState) (o : GPUOffScreen) (n : Nat) : Prop :=
  n ≠ 0 ∧ ∃ p r, (o.rbcolor = some p ∨ o.rbdepth = some p) ∧ heapRead s.rbs p = some r ∧
    r.bindcode = n

/-- The invariant of `GPU_offscreen_create`: `S` is the state `s` at entry plus the offscreen
struct `o` under construction at pointer `P` and the resources `o` owns so far.  The owned
framebuffer has consistent tables; the live pointers of `S` are those of `s` plus the owned
ones, which are fresh; the live GL names of `S` are those of `s` plus the names of the owned
resources, which are fresh too. -/
structure Building (s S : GPUState) (P : Nat) (o : GPUOffScreen) : Prop where
  ptr : P = s.ofss.length
  ofs : S.ofss = s.ofss ++ [some o]
  table : ∀ F, o.fb = some F → ∃ f, TableOK S F f
  fbsLen : s.fbs.length ≤ S.fbs.length
  texsLen : s.texs.length ≤ S.texs.length
  rbsLen : s.rbs.length ≤ S.rbs.length
  fbs : ∀ p, (heapRead S.fbs p).isSome = true ↔
    (heapRead s.fbs p).isSome = true ∨ o.fb = some p
  texs : ∀ p, (heapRead S.texs p).isSome = true ↔
    (heapRead s.texs p).isSome = true ∨ o.color = some p ∨ o.depth = some p
  rbs : ∀ p, (heapRead S.rbs p).isSome = true ↔
    (heapRead s.rbs p).isSome = true ∨ o.rbcolor = some p ∨ o.rbdepth = some p
  fbFresh : ∀ p, o.fb = some p → heapRead s.fbs p = none
  texFresh : ∀ p, o.color = some p ∨ o.depth = some p → heapRead s.texs p = none
  rbFresh : ∀ p, o.rbcolor = some p ∨ o.rbdepth = some p → heapRead s.rbs p = none
  texDistinct : ∀ c, o.color = some c → o.depth ≠ some c
  rbDistinct : ∀ c, o.rbcolor = some c → o.rbdepth ≠ some c
  glfb : ∀ n, n ∈ S.gl.framebuffers ↔ n ∈ s.gl.framebuffers ∨ ownsFbName S o n
  gltex : ∀ n, n ∈ S.gl.textures ↔ n ∈ s.gl.textures ∨ ownsTexName S o n
  glrb : ∀ n, n ∈ S.gl.renderbuffers ↔ n ∈ s.gl.renderbuffers ∨ ownsRbName S o n
  fbNameFresh : ∀ n, ownsFbName S o n → n ∉ s.gl.framebuffers
  texNameFresh : ∀ n, ownsTexName S o n → n ∉ s.gl.textures
  rbNameFresh : ∀ n, ownsRbName S o n → n ∉ s.gl.renderbuffers

/-- The struct left by `MEM_callocN(sizeof(GPUOffScreen), ...)`. -/
def blankOffScreen : GPUOffScreen :=
  { fb := none, color := none, depth := none, rbcolor := none, rbdepth := none, samples := 0 }

/-- The states reached from the empty state by creating framebuffers, textures and
renderbuffers, attaching an unattached resource at a slot in `0..3` to an empty entry,
detaching, and freeing framebuffers. -/
inductive Reachable : GPUState → Prop where
  | empty : Reachable emptyState
  | framebuffer_create (s s' : GPUState) (name : Nat) (res : Option Nat) :
      Reachable s → GPU_framebuffer_create name s = some (res, s') → Reachable s'
  | texture_create (s : GPUState) (w h samples : Int) (depth : Bool) (name : Nat) :
      Reachable s → Reachable (GPU_texture_create_multisample w h samples depth name s).2
  | renderbuffer_create (s s' : GPUState) (w h samples : Int) (hdrtype : GPUHDRType)
      (type : GPURenderBufferType) (name : Nat) (res : Option Nat) :
      Reachable s → GPU_renderbuffer_create w h samples hdrtype type name s = some (res, s') →
      Reachable s'
  | texture_attach (s s' : GPUState) (T A : Nat) (slot : Int) (ok : Bool)
      (f : GPUFrameBuffer) (t : GPUTexture) :
      Reachable s → 0 ≤ slot → slot < 4 →
      heapRead s.fbs T = some f → heapRead s.texs A = some t → t.fb = none →
      (if t.depth then f.depthtex = none
        else ∀ i, slotIdx slot = some i → f.colortex i = none) →
      GPU_framebuffer_texture_attach T A slot s = some (ok, s') → Reachable s'
  | renderbuffer_attach (s s' : GPUState) (T A : Nat) (slot : Int) (ok : Bool)
      (f : GPUFrameBuffer) (r : GPURenderBuffer) :
      Reachable s → 0 ≤ slot → slot < 4 →
      heapRead s.fbs T = some f → heapRead s.rbs A = some r → r.fb = none →
      (if r.depth then f.depthrb = none
        else ∀ i, slotIdx slot = some i → f.colorrb i = none) →
      GPU_framebuffer_renderbuffer_attach T A slot s = some (ok, s') → Reachable s'
  | texture_detach (s s' : GPUState) (A : Nat) :
      Reachable s → GPU_framebuffer_texture_detach A s = some s' → Reachable s'
  | renderbuffer_detach (s s' : GPUState) (A : Nat) :
      Reachable s → GPU_framebuffer_renderbuffer_detach A s = some s' → Reachable s'
  | framebuffer_free (s s' : GPUState) (T : Nat) :
      Reachable s → GPU_framebuffer_free T s = some s' → Reachable s'

/-- The state after, from the empty state: create a framebuffer (GL name `7`), create a colour
texture (GL name `5`), attach it to slot `0`. -/
def emptySlotState : GPUState :=
  { currentfb := 7
    fbs := [some { object := 7, colortex := setSlot (fun _ => none) 0 (some 0),
                   depthtex := none, colorrb := fun _ => none, depthrb := none }]
    texs := [some (GPU_texture_framebuffer_set (exampleTexture 5 false) (some 0) 0)]
    rbs := []
    ofss := []
    gl := { emptyState.gl with drawfb := 7, readfb := 7, framebuffers := [7],
                               textures := [5] } }

/-! ## Binding with and without saved state -/

/-- Function `GPU_texture_bind_as_framebuffer`.  The calls `glPushAttrib(GL_ENABLE_BIT |
GL_VIEWPORT_BIT)`, `glDisable`, `glEnable`, `glDrawBuffer`, `glReadBuffer`, `glViewport`,
`glMatrixMode` and `glPushMatrix` touch no modelled state: the attribute groups pushed hold
enable flags and the viewport, not the framebuffer binding, and `GG.currentfb` is a C
variable that no GL call saves. -/
def GPU_texture_bind_as_framebuffer (tex : Nat) (s : GPUState) : Option GPUState := do
  let t ← heapRead s.texs tex
  match t.fb with
  | none => some s
  | some fb =>
    let f ← heapRead s.fbs fb
    some { s with gl := glBindFramebuffer GL_FRAMEBUFFER f.object s.gl, currentfb := f.object }

/-- Function `GPU_framebuffer_texture_unbind`: `glPopMatrix` twice and `glPopAttrib`, none of
which touches modelled state; both arguments are unused. -/
def GPU_framebuffer_texture_unbind (_fb _tex : Option Nat) (s : GPUState) : GPUState := s

/-- Function `GPU_framebuffer_bind_no_save`; `GPU_texture_width(fb->colortex[slot])`
dereferences the table entry.  Draw / read buffer and viewport are no part of the modelled
state. -/
def GPU_framebuffer_bind_no_save (fb : Nat) (slot : Int) (s : GPUState) : Option GPUState := do
  let f ← heapRead s.fbs fb
  let gl := glBindFramebuffer GL_FRAMEBUFFER f.object s.gl
  let i ← slotIdx slot
  let tex ← f.colortex i
  let _ ← heapRead s.texs tex
  some { s with gl := gl, currentfb := f.object }

/-- Function `GPU_offscreen_bind`. -/
def GPU_offscreen_bind (ofs : Nat) (save : Bool) (s : GPUState) : Option GPUState := do
  let o ← heapRead s.ofss ofs
  if save then do
    let color ← o.color
    GPU_texture_bind_as_framebuffer color s
  else do
    let fb ← o.fb
    GPU_framebuffer_bind_no_save fb 0 s

/-- The statement `if (restore) GPU_framebuffer_texture_unbind(ofs->fb, ofs->color);` of
`GPU_offscreen_unbind`. -/
def offscreenUnbindPop (ofs : Nat) (restore : Bool) (s : GPUState) : Option GPUState :=
  if restore then do
    let o ← heapRead s.ofss ofs
    some (GPU_framebuffer_texture_unbind o.fb o.color s)
  else some s

/-- Function `GPU_offscreen_unbind`. -/
def GPU_offscreen_unbind (ofs : Nat) (restore : Bool) (s : GPUState) : Option GPUState := do
  let s ← offscreenUnbindPop ofs restore s
  some (GPU_framebuffer_restore s)

/-- From the empty state: create a texture offscreen (GL names `1`, `2`, `3`), create a second
framebuffer (GL name `9`) and bind it with `GPU_framebuffer_bind_simple`, so that the tracker
is `9` when the offscreen gets bound. -/
def otherTargetBoundRun : Option GPUState := do
  let (_, s) ← GPU_offscreen_create 16 16 0 GPUHDRType.GPU_HDR_NONE 0 true
    ⟨1, 2, 3, GL_FRAMEBUFFER_COMPLETE⟩ emptyState
  let (fb, s) ← GPU_framebuffer_create 9 s
  let fb ← fb
  GPU_framebuffer_bind_simple fb s

/-- Modelled from the spec: the enumeration `RAS_Rasterizer::OffScreenType` is declared in the
absent header `RAS_Rasterizer.h`.  These are the slots of the OffscreenPool of §3 under the
names that `RAS_Rasterizer.cpp` uses: two filter passes, primary and resolve slot per eye,
and the depth blit scratch. -/
inductive RAS_Rasterizer.OffScreenType where
  | RAS_OFFSCREEN_FILTER0
  | RAS_OFFSCREEN_FILTER1
  | RAS_OFFSCREEN_EYE_LEFT0
  | RAS_OFFSCREEN_EYE_RIGHT0
  | RAS_OFFSCREEN_EYE_LEFT1
  | RAS_OFFSCREEN_EYE_RIGHT1
  | RAS_OFFSCREEN_BLIT_DEPTH
deriving DecidableEq

open RAS_Rasterizer.OffScreenType

/-- Modelled from the spec: the enumeration `RAS_Rasterizer::HdrType` of the absent header,
the precision class (none / half-float / full-float), in the order that the table `hdrEnums`
of `GetOffScreen` relies on. -/
inductive RAS_Rasterizer.HdrType where
  | RAS_HDR_NONE
  | RAS_HDR_HALF_FLOAT
  | RAS_HDR_FULL_FLOAT
deriving DecidableEq

/-- Modelled from the spec: the canvas collaborator of §6 (class `RAS_ICanvas`, absent): what
`GetWidth()`, `GetHeight()`, `GetSamples()` and `GetHdrType()` answer; the first three are C
`int`s. -/
structure RAS_ICanvas where
  width : Int
  height : Int
  samples : Int
  hdr : RAS_Rasterizer.HdrType
deriving DecidableEq

/-- Modelled from the spec: the flag value `GPU_OFFSCREEN_MODE_NONE` of `GPUOffScreenMode`
(absent header `GPU_framebuffer.h`): no storage flag set, textures for colour and depth. -/
def GPU_OFFSCREEN_MODE_NONE : Nat := 0

/-- Modelled from the spec: class `RAS_OffScreen` is absent.  A surface is described by the
arguments of the constructor call that made it,
`RAS_OffScreen(width, height, samples, hdrtype, mode, nullptr, type)`. -/
structure RAS_OffScreen where
  width : Nat
  height : Nat
  samples : Int
  hdrtype : GPUHDRType
  mode : Nat
  type : RAS_Rasterizer.OffScreenType
deriving DecidableEq

/-- The class `RAS_Rasterizer::OffScreens`: the slot table `m_offScreens` (a null
`unique_ptr` is `none`) and the recorded baseline. -/
structure RAS_Rasterizer.OffScreens where
  m_offScreens : RAS_Rasterizer.OffScreenType → Option RAS_OffScreen
  m_width : Nat
  m_height : Nat
  m_samples : Int
  m_hdr : RAS_Rasterizer.HdrType

/-- The constructor `OffScreens::OffScreens()`. -/
def RAS_Rasterizer.OffScreens.new : RAS_Rasterizer.OffScreens :=
  { m_offScreens := fun _ => none, m_width := 0, m_height := 0, m_samples := 0,
    m_hdr := RAS_Rasterizer.HdrType.RAS_HDR_NONE }

/-- Conversion of an `int` value to `unsigned int` (32 bits). -/
def toUnsignedInt (x : Int) : Nat := (x % 2 ^ 32).toNat

/-- Function `RAS_Rasterizer::OffScreens::Update`. -/
def RAS_Rasterizer.OffScreens.Update (canvas : RAS_ICanvas) (p : RAS_Rasterizer.OffScreens) :
    RAS_Rasterizer.OffScreens :=
  let width := toUnsignedInt (canvas.width + 1)
  let height := toUnsignedInt (canvas.height + 1)
  if width = p.m_width ∧ height = p.m_height then p
  else
    { m_width := width
      m_height := height
      m_samples := canvas.samples
      m_hdr := canvas.hdr
      m_offScreens := fun _ => none }

/-- The table `hdrEnums` of `GetOffScreen`. -/
def hdrEnums : RAS_Rasterizer.HdrType → GPUHDRType
  | RAS_Rasterizer.HdrType.RAS_HDR_NONE => GPUHDRType.GPU_HDR_NONE
  | RAS_Rasterizer.HdrType.RAS_HDR_HALF_FLOAT => GPUHDRType.GPU_HDR_HALF_FLOAT
  | RAS_Rasterizer.HdrType.RAS_HDR_FULL_FLOAT => GPUHDRType.GPU_HDR_FULL_FLOAT

/-- The surface requested by one round of the loop of `GetOffScreen`, the round of the loop
variable `samples`: storage mode and constructor arguments. -/
def offScreenRequest (p : RAS_Rasterizer.OffScreens) (type : RAS_Rasterizer.OffScreenType)
    (samples : Int) : RAS_OffScreen :=
  let sampleofs : Bool := type = RAS_OFFSCREEN_EYE_LEFT0 || type = RAS_OFFSCREEN_EYE_RIGHT0
  let mode :=
    if sampleofs && samples > 0 then
      GPU_OFFSCREEN_RENDERBUFFER_COLOR ||| GPU_OFFSCREEN_RENDERBUFFER_DEPTH
    else GPU_OFFSCREEN_MODE_NONE
  { width := p.m_width, height := p.m_height, samples := if sampleofs then samples else 0,
    hdrtype := hdrEnums p.m_hdr, mode := mode, type := type }

/-- The loop `for (int samples = m_samples; samples >= 0; --samples)` of `GetOffScreen`, from
the round `samples = k` on.  `valid` is the answer of `ofs->GetValid()` for a surface made
from the given request.  The result lists the requests made, in order, and gives the surface
that ended the loop through `break` together with the value of `samples` in that round. -/
def getOffScreenLoop (valid : RAS_OffScreen → Bool) (p : RAS_Rasterizer.OffScreens)
    (type : RAS_Rasterizer.OffScreenType) : Nat → List RAS_OffScreen × Option (RAS_OffScreen × Int)
  | 0 =>
    let ofs := offScreenRequest p type 0
    if valid ofs then ([ofs], some (ofs, 0)) else ([ofs], none)
  | k + 1 =>
    let ofs := offScreenRequest p type ((k : Int) + 1)
    if valid ofs then ([ofs], some (ofs, (k : Int) + 1))
    else
      let rest := getOffScreenLoop valid p type k
      (ofs :: rest.1, rest.2)

/-- Function `RAS_Rasterizer::OffScreens::GetOffScreen`: the surface returned, the pool
afterwards, and the creation requests made.  The rebind of `GetLastOffScreen()` at the end
concerns the GPU binding, not the pool. -/
def RAS_Rasterizer.OffScreens.GetOffScreen (valid : RAS_OffScreen → Bool)
    (type : RAS_Rasterizer.OffScreenType) (p : RAS_Rasterizer.OffScreens) :
    Option RAS_OffScreen × RAS_Rasterizer.OffScreens × List RAS_OffScreen :=
  match p.m_offScreens type with
  | some ofs => (some ofs, p, [])
  | none =>
    if p.m_samples < 0 then (none, p, [])
    else
      let r := getOffScreenLoop valid p type p.m_samples.toNat
      match r.2 with
      | some (ofs, samples) =>
        (some ofs,
         { p with
           m_offScreens := fun t => if t = type then some ofs else p.m_offScreens t
           m_samples := samples },
         r.1)
      | none => (none, p, r.1)

/-- Function `RAS_Rasterizer::NextFilterOffScreen`. -/
def RAS_Rasterizer.NextFilterOffScreen (index : RAS_Rasterizer.OffScreenType) :
    RAS_Rasterizer.OffScreenType :=
  match index with
  | RAS_OFFSCREEN_FILTER0 => RAS_OFFSCREEN_FILTER1
  | RAS_OFFSCREEN_FILTER1 => RAS_OFFSCREEN_FILTER0
  | _ => RAS_OFFSCREEN_FILTER0

/-- Function `RAS_Rasterizer::NextRenderOffScreen`: whether `BLI_assert(false)` is reached,
and the value returned (in a build without assertions, for the `default` branch). -/
def RAS_Rasterizer.NextRenderOffScreen (index : RAS_Rasterizer.OffScreenType) :
    Bool × RAS_Rasterizer.OffScreenType :=
  match index with
  | RAS_OFFSCREEN_EYE_LEFT0 => (false, RAS_OFFSCREEN_EYE_LEFT1)
  | RAS_OFFSCREEN_EYE_LEFT1 => (false, RAS_OFFSCREEN_EYE_LEFT0)
  | RAS_OFFSCREEN_EYE_RIGHT0 => (false, RAS_OFFSCREEN_EYE_RIGHT1)
  | RAS_OFFSCREEN_EYE_RIGHT1 => (false, RAS_OFFSCREEN_EYE_RIGHT0)
  | _ => (true, RAS_OFFSCREEN_EYE_LEFT0)

/-- The canvas of the worked examples: 800 x 600, 4 samples. -/
def exampleCanvas : RAS_ICanvas :=
  { width := 800, height := 600, samples := 4, hdr := RAS_Rasterizer.HdrType.RAS_HDR_NONE }

/-- A pool sized for `exampleCanvas` whose left-eye primary slot is populated. -/
def examplePool : RAS_Rasterizer.OffScreens :=
  (RAS_Rasterizer.OffScreens.GetOffScreen (fun _ => true) RAS_OFFSCREEN_EYE_LEFT0
    (RAS_Rasterizer.OffScreens.Update exampleCanvas RAS_Rasterizer.OffScreens.new)).2.1

/-- A validity answer for the worked examples: creation works up to 2 samples. -/
def validUpToTwo (ofs : RAS_OffScreen) : Bool := decide (ofs.samples ≤ 2)

/-! ## Render areas (`RAS_Rasterizer::GetRenderArea`) -/

/-- Modelled from the spec: the enumeration `RAS_Rasterizer::StereoMode` of the absent header
`RAS_Rasterizer.h`, with the stereo layouts that `RAS_Rasterizer.cpp` names. -/
inductive RAS_Rasterizer.StereoMode where
  | RAS_STEREO_NOSTEREO
  | RAS_STEREO_ABOVEBELOW
  | RAS_STEREO_INTERLACED
  | RAS_STEREO_ANAGLYPH
  | RAS_STEREO_SIDEBYSIDE
  | RAS_STEREO_VINTERLACE
  | RAS_STEREO_3DTVTOPBOTTOM
deriving DecidableEq

/-- Modelled from the spec: the enumeration `RAS_Rasterizer::StereoEye` of the absent header:
which eye. -/
inductive RAS_Rasterizer.StereoEye where
  | RAS_STEREO_LEFTEYE
  | RAS_STEREO_RIGHTEYE
deriving DecidableEq

/-- Modelled from the spec: class `RAS_Rect` of the absent header `RAS_Rect.h`, a pixel
rectangle with `int` sides, written through `SetLeft`, `SetBottom`, `SetRight`, `SetTop`. -/
structure RAS_Rect where
  left : Int
  bottom : Int
  right : Int
  top : Int
deriving DecidableEq

/-- Function `RAS_Rasterizer::GetRenderArea`; `m_noOfScanlines` is the member of the
rasterizer.  The operands are C `int`s, `/` is the truncating division of C, and the
differences are taken without overflow. -/
def RAS_Rasterizer.GetRenderArea (m_noOfScanlines : Int) (canvas : RAS_ICanvas)
    (stereoMode : RAS_Rasterizer.StereoMode) (eye : RAS_Rasterizer.StereoEye) : RAS_Rect :=
  match stereoMode with
  | RAS_Rasterizer.StereoMode.RAS_STEREO_ABOVEBELOW =>
    match eye with
    | RAS_Rasterizer.StereoEye.RAS_STEREO_LEFTEYE =>
      { left := 0
        bottom := canvas.height - Int.tdiv (canvas.height - m_noOfScanlines) 2
        right := canvas.width
        top := canvas.height }
    | RAS_Rasterizer.StereoEye.RAS_STEREO_RIGHTEYE =>
      { left := 0
        bottom := 0
        right := canvas.width
        top := Int.tdiv (canvas.height - m_noOfScanlines) 2 }
  | RAS_Rasterizer.StereoMode.RAS_STEREO_3DTVTOPBOTTOM =>
    match eye with
    | RAS_Rasterizer.StereoEye.RAS_STEREO_LEFTEYE =>
      { left := 0
        bottom := canvas.height - Int.tdiv canvas.height 2
        right := canvas.width
        top := canvas.height }
    | RAS_Rasterizer.StereoEye.RAS_STEREO_RIGHTEYE =>
      { left := 0
        bottom := 0
        right := canvas.width
        top := Int.tdiv canvas.height 2 }
  | RAS_Rasterizer.StereoMode.RAS_STEREO_SIDEBYSIDE =>
    match eye with
    | RAS_Rasterizer.StereoEye.RAS_STEREO_LEFTEYE =>
      { left := 0
        bottom := 0
        right := Int.tdiv canvas.width 2
        top := canvas.height }
    | RAS_Rasterizer.StereoEye.RAS_STEREO_RIGHTEYE =>
      { left := Int.tdiv canvas.width 2
        bottom := 0
        right := canvas.width
        top := canvas.height }
  | _ =>
    { left := 0, bottom := 0, right := canvas.width, top := canvas.height }

/-! ## Blit between offscreens -/

def GL_COLOR_BUFFER_BIT : Nat := 0x00004000
def GL_DEPTH_BUFFER_BIT : Nat := 0x00000100
def GL_NEAREST : Nat := 0x2600

/-- The number of low bits that the 24-bit significand of a `float` cannot hold for the
magnitude `a`; `fuel` bounds the search (8 is enough for 32-bit values). -/
def floatShift : Nat → Nat → Nat
  | 0, _ => 0
  | fuel + 1, a => if a < 2 ^ 24 then 0 else floatShift fuel (a / 2) + 1

/-- The value of `(float)x` for an `int` `x`, as an integer: `x` rounded to 24 significant
bits, ties to even. -/
def floatOfInt (x : Int) : Int :=
  let a := x.natAbs
  let sh := floatShift 8 a
  if sh = 0 then x
  else
    let q := a / 2 ^ sh
    let r := a % 2 ^ sh
    let half := 2 ^ (sh - 1)
    let q' := if r > half ∨ (r = half ∧ q % 2 = 1) then q + 1 else q
    Int.sign x * ((q' * 2 ^ sh : Nat) : Int)

/-- Modelled from the spec: `min_ff` belongs to the absent BLI math library.  It yields the
minimum of the two sizes (§4.3, `blit`), computed in `float` as its suffix says: the `int`
arguments are converted to `float`, the smaller one is returned and assigned to an `int`. -/
def min_ff (a b : Int) : Int := min (floatOfInt a) (floatOfInt b)

/-- Modelled from the spec: the accessor `GPU_texture_width` of the absent `gpu_texture.c`. -/
def GPU_texture_width (tex : Nat) (s : GPUState) : Option Int :=
  (heapRead s.texs tex).map (fun t => t.w)

/-- Modelled from the spec: the accessor `GPU_texture_height` of the absent
`gpu_texture.c`. -/
def GPU_texture_height (tex : Nat) (s : GPUState) : Option Int :=
  (heapRead s.texs tex).map (fun t => t.h)

/-- Function `GPU_renderbuffer_width`. -/
def GPU_renderbuffer_width (rb : Nat) (s : GPUState) : Option Int :=
  (heapRead s.rbs rb).map (fun r => r.width)

/-- Function `GPU_renderbuffer_height`. -/
def GPU_renderbuffer_height (rb : Nat) (s : GPUState) : Option Int :=
  (heapRead s.rbs rb).map (fun r => r.height)

/-- Function `GPU_offscreen_width`. -/
def GPU_offscreen_width (ofs : Nat) (s : GPUState) : Option Int := do
  let o ← heapRead s.ofss ofs
  match o.color with
  | some color => GPU_texture_width color s
  | none =>
    match o.rbcolor with
    | some rbcolor => GPU_renderbuffer_width rbcolor s
    | none => some 0

/-- Function `GPU_offscreen_height`. -/
def GPU_offscreen_height (ofs : Nat) (s : GPUState) : Option Int := do
  let o ← heapRead s.ofss ofs
  match o.color with
  | some color => GPU_texture_height color s
  | none =>
    match o.rbcolor with
    | some rbcolor => GPU_renderbuffer_height rbcolor s
    | none => some 0

/-- The arguments of a `glBlitFramebufferEXT` call, and the framebuffers bound for reading
and for drawing when it is made. -/
structure BlitCall where
  srcX0 : Int
  srcY0 : Int
  srcX1 : Int
  srcY1 : Int
  dstX0 : Int
  dstY0 : Int
  dstX1 : Int
  dstY1 : Int
  mask : Nat
  filter : Nat
  readfb : Nat
  drawfb : Nat
deriving DecidableEq

/-- The `mask` computed by `GPU_offscreen_blit`. -/
def blitMask (color depth : Bool) : Nat :=
  let mask := 0
  let mask := if color then mask ||| GL_COLOR_BUFFER_BIT else mask
  if depth then mask ||| GL_DEPTH_BUFFER_BIT else mask

/-- Function `GPU_offscreen_blit`: the blit it issues and the state it leaves.  The draw /
read buffer selection is no part of the modelled state; `BLI_assert(color || depth)` guards
the entry. -/
def GPU_offscreen_blit (srcofs dstofs : Nat) (color depth : Bool) (s : GPUState) :
    Option (BlitCall × GPUState) := do
  let so ← heapRead s.ofss srcofs
  let sfb ← so.fb
  let sf ← heapRead s.fbs sfb
  let gl := glBindFramebuffer GL_READ_FRAMEBUFFER sf.object s.gl
  let dofs ← heapRead s.ofss dstofs
  let dfb ← dofs.fb
  let df ← heapRead s.fbs dfb
  let gl := glBindFramebuffer GL_DRAW_FRAMEBUFFER df.object gl
  let hs ← GPU_offscreen_height srcofs s
  let hd ← GPU_offscreen_height dstofs s
  let height := min_ff hs hd
  let ws ← GPU_offscreen_width srcofs s
  let wd ← GPU_offscreen_width dstofs s
  let width := min_ff ws wd
  let blit : BlitCall :=
    { srcX0 := 0, srcY0 := 0, srcX1 := width, srcY1 := height
      dstX0 := 0, dstY0 := 0, dstX1 := width, dstY1 := height
      mask := blitMask color depth, filter := GL_NEAREST
      readfb := gl.readfb, drawfb := gl.drawfb }
  let s ← GPU_framebuffer_bind_simple dfb { s with gl := gl }
  some (blit, s)

/-- From the empty state: create a 16 x 16 texture offscreen (GL names `1`, `2`, `3`) and an
8 x 24 texture offscreen (GL names `4`, `5`, `6`). -/
def twoOffscreensRun : Option GPUState := do
  let (_, s) ← GPU_offscreen_create 16 16 0 GPUHDRType.GPU_HDR_NONE 0 true
    ⟨1, 2, 3, GL_FRAMEBUFFER_COMPLETE⟩ emptyState
  let (_, s) ← GPU_offscreen_create 8 24 0 GPUHDRType.GPU_HDR_NONE 0 true
    ⟨4, 5, 6, GL_FRAMEBUFFER_COMPLETE⟩ s
  some s

/-! ## Blur scale vectors -/

/-- Division of two `float`s; `rnd` rounds the exact quotient to a `float`, and `none` stands
for the results that are no finite number (division by zero gives an infinity or NaN). -/
def floatDiv (rnd : ℚ → ℚ) (a b : ℚ) : Option ℚ :=
  if b = 0 then none else some (rnd (a / b))

/-- The initialiser of `scaleh` in `GPU_framebuffer_blur`,
`{(1.0f - sharpness) / GPU_texture_width(blurtex), 0.0f}`; `width` is the answer of
`GPU_texture_width(blurtex)`, an `int` that the division converts to `float`. -/
def GPU_framebuffer_blur_scaleh (rnd : ℚ → ℚ) (sharpness : ℚ) (width : Int) :
    Option ℚ × Option ℚ :=
  (floatDiv rnd (rnd (1 - sharpness)) (floatOfInt width), some 0)

/-- The initialiser of `scalev` in `GPU_framebuffer_blur`,
`{0.0f, (1.0f - sharpness) / GPU_texture_height(tex)}`. -/
def GPU_framebuffer_blur_scalev (rnd : ℚ → ℚ) (sharpness : ℚ) (height : Int) :
    Option ℚ × Option ℚ :=
  (some 0, floatDiv rnd (rnd (1 - sharpness)) (floatOfInt height))

/-- Function `GPU_framebuffer_slots_bind`; `fb->colortex[slot]` is read first, and
`GPU_texture_width(fb->colortex[slot])` dereferences the texture.  Attribute and matrix
stacks, draw / read buffers and viewport are no part of the modelled state. -/
def GPU_framebuffer_slots_bind (fb : Nat) (slot : Int) (s : GPUState) : Option GPUState := do
  let f ← heapRead s.fbs fb
  let i ← slotIdx slot
  match f.colortex i with
  | none => some s
  | some tex =>
    let _ ← heapRead s.texs tex
    some { s with gl := glBindFramebuffer GL_FRAMEBUFFER f.object s.gl, currentfb := f.object }

/-- From the empty state: create a framebuffer and a colour renderbuffer, attach the
renderbuffer to slot `0` and detach it again.  The result is the renderbuffer struct as
`GPU_renderbuffer_create` returned it and as `GPU_framebuffer_renderbuffer_detach` left it. -/
def renderbufferRoundRun : Option (GPURenderBuffer × GPURenderBuffer) := do
  let (fb, s) ← GPU_framebuffer_create 7 emptyState
  let fb ← fb
  let (rb, s) ← GPU_renderbuffer_create 16 16 0 GPUHDRType.GPU_HDR_NONE
    GPURenderBufferType.GPU_RENDERBUFFER_COLOR 3 s
  let rb ← rb
  let created ← heapRead s.rbs rb
  let (_, s) ← GPU_framebuffer_renderbuffer_attach fb rb 0 s
  let s ← GPU_framebuffer_renderbuffer_detach rb s
  let detached ← heapRead s.rbs rb
  some (created, detached)

/-- What some rounds of the detaching part of `GPU_framebuffer_free` do to the tracker: a
round that detaches leaves `GG.currentfb` at the handle of the framebuffer being freed, a
round that finds its entry empty changes nothing. -/
def TrackerProgress (s s' : GPUState) (f f' : GPUFrameBuffer) : Prop :=
  s'.currentfb = f.object ∨
  (s'.currentfb = s.currentfb ∧ f'.depthtex = f.depthtex ∧ f'.colortex = f.colortex ∧
    f'.depthrb = f.depthrb ∧ f'.colorrb = f.colorrb)

/-- Two framebuffers (GL names `7` and `8`), colour texture `0` attached to slot `0` of
framebuffer `0`, and framebuffer `1` the bound target. -/
def otherTargetState : GPUState :=
  { twoTargetsState with
    currentfb := 8
    gl := glBindFramebuffer GL_FRAMEBUFFER 8 twoTargetsState.gl }

/-! ## Movement sensor (`gameengine/Ketsji/KX_MovementSensor.cpp`) -/

/-- Modelled from the spec: the values of the `int` member `m_axis`.  The constants
`SENS_MOVEMENT_*` are defined in the absent header `DNA_sensor_types.h`; they are the seven
`case` labels of the `switch` in `Evaluate`, and `other` stands for every value of `m_axis`
that is none of them. -/
inductive SensMovementAxis where
  | SENS_MOVEMENT_X_AXIS
  | SENS_MOVEMENT_Y_AXIS
  | SENS_MOVEMENT_Z_AXIS
  | SENS_MOVEMENT_NEG_X_AXIS
  | SENS_MOVEMENT_NEG_Y_AXIS
  | SENS_MOVEMENT_NEG_Z_AXIS
  | SENS_MOVEMENT_ALL_AXIS
  | other
deriving DecidableEq

/-- Modelled from the spec: the vector type `mt::vec3` of the absent math library, three
`float` components, here finite numbers. -/
structure Vec3 where
  x : ℚ
  y : ℚ
  z : ℚ
deriving DecidableEq

/-- The class `KX_MovementSensor` with the members of `SCA_ISensor` that `Evaluate` reads
(`m_reset`, `m_level`, `m_invert`). -/
structure KX_MovementSensor where
  m_localflag : Bool
  m_axis : SensMovementAxis
  m_threshold : ℚ
  m_previousPosition : Vec3
  m_positionHasChanged : Bool
  m_triggered : Bool
  m_invert : Bool
  m_reset : Bool
  m_level : Bool
deriving DecidableEq

/-- The `switch (m_axis)` of `KX_MovementSensor::Evaluate`: the value that
`m_positionHasChanged`, set to `false` before, has after it.  `rnd` rounds the exact
difference of two components to a `float`. -/
def evaluateAxisSwitch (rnd : ℚ → ℚ) (currentposition : Vec3) (self : KX_MovementSensor) :
    Bool :=
  match self.m_axis with
  | SensMovementAxis.SENS_MOVEMENT_X_AXIS =>
    decide (rnd (currentposition.x - self.m_previousPosition.x) > self.m_threshold)
  | SensMovementAxis.SENS_MOVEMENT_Y_AXIS =>
    decide (rnd (currentposition.y - self.m_previousPosition.y) > self.m_threshold)
  | SensMovementAxis.SENS_MOVEMENT_Z_AXIS =>
    decide (rnd (currentposition.z - self.m_previousPosition.z) > self.m_threshold)
  | SensMovementAxis.SENS_MOVEMENT_NEG_X_AXIS =>
    decide (rnd (currentposition.x - self.m_previousPosition.x) < -self.m_threshold)
  | SensMovementAxis.SENS_MOVEMENT_NEG_Y_AXIS =>
    decide (rnd (currentposition.y - self.m_previousPosition.y) < -self.m_threshold)
  | SensMovementAxis.SENS_MOVEMENT_NEG_Z_AXIS =>
    decide (rnd (currentposition.z - self.m_previousPosition.z) < -self.m_threshold)
  | SensMovementAxis.SENS_MOVEMENT_ALL_AXIS =>
    if abs (rnd (currentposition.x - self.m_previousPosition.x)) > self.m_threshold ∨
        abs (rnd (currentposition.y - self.m_previousPosition.y)) > self.m_threshold ∨
        abs (rnd (currentposition.z - self.m_previousPosition.z)) > self.m_threshold then true
    else false
  | SensMovementAxis.other => false

/-- Function `KX_MovementSensor::Evaluate`; `currentposition` is the answer of
`GetOwnerPosition(m_localflag)`.  The value returned and the sensor afterwards. -/
def KX_MovementSensor.Evaluate (rnd : ℚ → ℚ) (currentposition : Vec3)
    (self : KX_MovementSensor) : Bool × KX_MovementSensor :=
  let reset := self.m_reset && self.m_level
  let changed := evaluateAxisSwitch rnd currentposition self
  let self : KX_MovementSensor :=
    { self with m_positionHasChanged := changed, m_previousPosition := currentposition }
  let r : Bool × KX_MovementSensor :=
    if self.m_positionHasChanged then
      if !self.m_triggered then (true, { self with m_triggered := true })
      else (false, self)
    else
      if self.m_triggered then (true, { self with m_triggered := false })
      else (false, self)
  if reset then (true, r.2) else r

/-- The movement test as the specification words it: the signed test on one component of
`current - previous` for the six single-axis modes, the absolute value on any component for
`ALL`, and `false` for any other axis value. -/
def movedSpec (rnd : ℚ → ℚ) (axis : SensMovementAxis) (threshold : ℚ)
    (previous current : Vec3) : Bool :=
  let dx := rnd (current.x - previous.x)
  let dy := rnd (current.y - previous.y)
  let dz := rnd (current.z - previous.z)
  match axis with
  | SensMovementAxis.SENS_MOVEMENT_X_AXIS => decide (threshold < dx)
  | SensMovementAxis.SENS_MOVEMENT_Y_AXIS => decide (threshold < dy)
  | SensMovementAxis.SENS_MOVEMENT_Z_AXIS => decide (threshold < dz)
  | SensMovementAxis.SENS_MOVEMENT_NEG_X_AXIS => decide (dx < -threshold)
  | SensMovementAxis.SENS_MOVEMENT_NEG_Y_AXIS => decide (dy < -threshold)
  | SensMovementAxis.SENS_MOVEMENT_NEG_Z_AXIS => decide (dz < -threshold)
  | SensMovementAxis.SENS_MOVEMENT_ALL_AXIS =>
    decide (threshold < abs dx) || decide (threshold < abs dy) || decide (threshold < abs dz)
  | SensMovementAxis.other => false

/-- A sensor on the X axis with threshold 1/2, at rest at the origin, not triggered. -/
def exampleSensor : KX_MovementSensor :=
  { m_localflag := false, m_axis := SensMovementAxis.SENS_MOVEMENT_X_AXIS, m_threshold := 1 / 2
    m_previousPosition := { x := 0, y := 0, z := 0 }, m_positionHasChanged := false
    m_triggered := false, m_invert := false, m_reset := false, m_level := false }

/-- Rounding of an exact number to the nearest integer, ties to the even one. -/
def roundHalfEven (x : ℚ) : Int :=
  let f := ⌊x⌋
  let r := x - f
  if r < 1 / 2 then f
  else if 1 / 2 < r then f + 1
  else if f % 2 = 0 then f else f + 1

/-- Rounding of an exact number to the nearest `float` (IEEE binary32: 24 significant bits,
ties to even), for the numbers in the range of the normal `float`s. -/
def roundFloat (x : ℚ) : ℚ :=
  if x = 0 then 0
  else
    let e := Int.log 2 |x|
    let ulp : ℚ := 2 ^ (e - 23)
    roundHalfEven (x / ulp) * ulp

/-! ## Heap lemmas -/

theorem heapRead_write_same {α : Type} (h : List (Option α)) (p : Nat) (v w : α)
    (hp : heapRead h p = some w) : heapRead (heapWrite h p v) p = some v := by
  unfold heapRead heapWrite at *
  have hlt : p < h.length := by
    by_contra hc
    rw [List.getElem?_eq_none (by omega)] at hp
    simp at hp
  simp [List.getElem?_set, hlt]

theorem heapRead_write_other {α : Type} (h : List (Option α)) (p q : Nat) (v : α)
    (hpq : p ≠ q) : heapRead (heapWrite h p v) q = heapRead h q := by
  unfold heapRead heapWrite
  simp [List.getElem?_set, hpq]

theorem slotIdx_of_range (slot : Int) (h0 : 0 ≤ slot) (h4 : slot < 4) :
    ∃ i : Fin 4, slotIdx slot = some i ∧ ((i : Nat) : Int) = slot := by
  refine ⟨⟨slot.toNat, by omega⟩, ?_, ?_⟩
  · simp [slotIdx, h0, h4]
  · simp [Int.toNat_of_nonneg h0]

theorem slotIdx_none_of_neg (slot : Int) (h : slot < 0) : slotIdx slot = none := by
  simp [slotIdx]; omega

theorem not_ge_max_slots (slot : Int) (h4 : slot < 4) : ¬ slot ≥ GPU_FB_MAX_SLOTS := by
  unfold GPU_FB_MAX_SLOTS; omega

/-- The state left by a successful colour-texture attach. -/
theorem texture_attach_color_eq (s : GPUState) (T A : Nat) (slot : Int) (i : Fin 4)
    (f : GPUFrameBuffer) (t : GPUTexture)
    (hf : heapRead s.fbs T = some f) (ht : heapRead s.texs A = some t)
    (hd : t.depth = false) (hi : slotIdx slot = some i) :
    GPU_framebuffer_texture_attach T A slot s = some (true,
      { s with
        currentfb := f.object
        gl := glBindFramebuffer GL_FRAMEBUFFER f.object s.gl
        fbs := heapWrite s.fbs T { f with colortex := setSlot f.colortex i (some A) }
        texs := heapWrite s.texs A (GPU_texture_framebuffer_set t (some T) slot) }) := by
  have h4 : ¬ slot ≥ GPU_FB_MAX_SLOTS := by
    unfold slotIdx at hi
    split at hi
    · apply not_ge_max_slots; omega
    · cases hi
  simp [GPU_framebuffer_texture_attach, GPU_framebuffer_texture_attach_target, ht, hf, hd, hi, h4]

theorem slotIdx_lt_max (slot : Int) (i : Fin 4) (hi : slotIdx slot = some i) :
    ¬ slot ≥ GPU_FB_MAX_SLOTS := by
  unfold slotIdx at hi
  split at hi
  · apply not_ge_max_slots; omega
  · cases hi

/-- The state left by a depth-texture attach. -/
theorem texture_attach_depth_eq (s : GPUState) (T A : Nat) (slot : Int)
    (f : GPUFrameBuffer) (t : GPUTexture)
    (hf : heapRead s.fbs T = some f) (ht : heapRead s.texs A = some t)
    (hd : t.depth = true) (h4 : slot < 4) :
    GPU_framebuffer_texture_attach T A slot s = some (true,
      { s with
        currentfb := f.object
        gl := glBindFramebuffer GL_FRAMEBUFFER f.object s.gl
        fbs := heapWrite s.fbs T { f with depthtex := some A }
        texs := heapWrite s.texs A (GPU_texture_framebuffer_set t (some T) slot) }) := by
  have h4 := not_ge_max_slots slot h4
  simp [GPU_framebuffer_texture_attach, GPU_framebuffer_texture_attach_target, ht, hf, hd, h4]

/-- The state left by a successful colour-renderbuffer attach. -/
theorem renderbuffer_attach_color_eq (s : GPUState) (T A : Nat) (slot : Int) (i : Fin 4)
    (f : GPUFrameBuffer) (r : GPURenderBuffer)
    (hf : heapRead s.fbs T = some f) (hr : heapRead s.rbs A = some r)
    (hd : r.depth = false) (hi : slotIdx slot = some i) :
    GPU_framebuffer_renderbuffer_attach T A slot s = some (true,
      { s with
        currentfb := f.object
        gl := glBindFramebuffer GL_FRAMEBUFFER f.object s.gl
        fbs := heapWrite s.fbs T { f with colorrb := setSlot f.colorrb i (some A) }
        rbs := heapWrite s.rbs A (GPU_renderbuffer_framebuffer_set r (some T) slot) }) := by
  have h4 := slotIdx_lt_max slot i hi
  simp [GPU_framebuffer_renderbuffer_attach, hr, hf, hd, hi, h4]

/-- The state left by a depth-renderbuffer attach. -/
theorem renderbuffer_attach_depth_eq (s : GPUState) (T A : Nat) (slot : Int)
    (f : GPUFrameBuffer) (r : GPURenderBuffer)
    (hf : heapRead s.fbs T = some f) (hr : heapRead s.rbs A = some r)
    (hd : r.depth = true) (h4 : slot < 4) :
    GPU_framebuffer_renderbuffer_attach T A slot s = some (true,
      { s with
        currentfb := f.object
        gl := glBindFramebuffer GL_FRAMEBUFFER f.object s.gl
        fbs := heapWrite s.fbs T { f with depthrb := some A }
        rbs := heapWrite s.rbs A (GPU_renderbuffer_framebuffer_set r (some T) slot) }) := by
  have h4 := not_ge_max_slots slot h4
  simp [GPU_framebuffer_renderbuffer_attach, hr, hf, hd, h4]

theorem setSlot_same (table : Fin 4 → Option Nat) (i : Fin 4) (v : Option Nat) :
    setSlot table i v i = v := by
  simp [setSlot]

theorem setSlot_other (table : Fin 4 → Option Nat) (i j : Fin 4) (v : Option Nat)
    (h : j ≠ i) : setSlot table i v j = table j := by
  simp [setSlot, h]

/-- C1: for every live framebuffer `T`, every live colour texture or colour renderbuffer `A` and
every slot in `0..3`, the attach call returns success, and afterwards the back-reference of
`A` is `(T, slot)`, the colour table of `T` (`colortex` resp. `colorrb`) holds `A` at `slot`,
and `GG.currentfb` is the GL handle of `T`. -/
theorem attach_color_bijection (s : GPUState) (T A : Nat) (slot : Int) (f : GPUFrameBuffer)
    (hf : heapRead s.fbs T = some f) (h0 : 0 ≤ slot) (h4 : slot < 4) :
    (∀ t, heapRead s.texs A = some t → t.depth = false →
      ∃ s' f' t' i, GPU_framebuffer_texture_attach T A slot s = some (true, s') ∧
        heapRead s'.texs A = some t' ∧ t'.fb = some T ∧ t'.fb_attachment = slot ∧
        heapRead s'.fbs T = some f' ∧ slotIdx slot = some i ∧ f'.colortex i = some A ∧
        f'.object = f.object ∧ s'.currentfb = f.object) ∧
    (∀ r, heapRead s.rbs A = some r → r.depth = false →
      ∃ s' f' r' i, GPU_framebuffer_renderbuffer_attach T A slot s = some (true, s') ∧
        heapRead s'.rbs A = some r' ∧ r'.fb = some T ∧ r'.fb_attachment = slot ∧
        heapRead s'.fbs T = some f' ∧ slotIdx slot = some i ∧ f'.colorrb i = some A ∧
        f'.object = f.object ∧ s'.currentfb = f.object) := by
  obtain ⟨i, hi, -⟩ := slotIdx_of_range slot h0 h4
  constructor
  · intro t ht hd
    refine ⟨_, _, _, i, texture_attach_color_eq s T A slot i f t hf ht hd hi,
      heapRead_write_same _ _ _ _ ht, rfl, rfl, heapRead_write_same _ _ _ _ hf, hi, ?_, rfl, rfl⟩
    exact setSlot_same _ _ _
  · intro r hr hd
    refine ⟨_, _, _, i, renderbuffer_attach_color_eq s T A slot i f r hf hr hd hi,
      heapRead_write_same _ _ _ _ hr, rfl, rfl, heapRead_write_same _ _ _ _ hf, hi, ?_, rfl, rfl⟩
    exact setSlot_same _ _ _

/-- Witness of `attach_color_bijection`: colour texture `0` and colour renderbuffer `0` attached
to slot `2` of framebuffer `0` of the example state. -/
theorem attach_color_bijection_witness :
    (∃ s' f' t' i, GPU_framebuffer_texture_attach 0 0 2 exampleState = some (true, s') ∧
        heapRead s'.texs 0 = some t' ∧ t'.fb = some 0 ∧ t'.fb_attachment = 2 ∧
        heapRead s'.fbs 0 = some f' ∧ slotIdx 2 = some i ∧ f'.colortex i = some 0 ∧
        f'.object = (emptyFrameBuffer 7).object ∧ s'.currentfb = (emptyFrameBuffer 7).object) ∧
    (∃ s' f' r' i, GPU_framebuffer_renderbuffer_attach 0 0 2 exampleState = some (true, s') ∧
        heapRead s'.rbs 0 = some r' ∧ r'.fb = some 0 ∧ r'.fb_attachment = 2 ∧
        heapRead s'.fbs 0 = some f' ∧ slotIdx 2 = some i ∧ f'.colorrb i = some 0 ∧
        f'.object = (emptyFrameBuffer 7).object ∧ s'.currentfb = (emptyFrameBuffer 7).object) :=
  ⟨(attach_color_bijection exampleState 0 0 2 (emptyFrameBuffer 7) rfl (by decide)
      (by decide)).1 (exampleTexture 5 false) rfl rfl,
   (attach_color_bijection exampleState 0 0 2 (emptyFrameBuffer 7) rfl (by decide)
      (by decide)).2 (exampleRenderBuffer 3 false) rfl rfl⟩

/-- The state left by detaching an attached colour texture. -/
theorem texture_detach_color_eq (s : GPUState) (T A : Nat) (i : Fin 4)
    (f : GPUFrameBuffer) (t : GPUTexture)
    (ht : heapRead s.texs A = some t) (hT : t.fb = some T) (hf : heapRead s.fbs T = some f)
    (hd : t.depth = false) (hi : slotIdx t.fb_attachment = some i) :
    GPU_framebuffer_texture_detach A s = some
      { s with
        currentfb := f.object
        gl := detachBind s f
        fbs := heapWrite s.fbs T { f with colortex := setSlot f.colortex i none }
        texs := heapWrite s.texs A (GPU_texture_framebuffer_set t none (-1)) } := by
  by_cases hc : s.currentfb = f.object
  · simp [GPU_framebuffer_texture_detach, GPU_framebuffer_texture_detach_target, ht, hT, hf, hd,
      hi, hc, detachBind]
  · simp [GPU_framebuffer_texture_detach, GPU_framebuffer_texture_detach_target, ht, hT, hf, hd,
      hi, hc, detachBind]

/-- The state left by detaching an attached depth texture. -/
theorem texture_detach_depth_eq (s : GPUState) (T A : Nat)
    (f : GPUFrameBuffer) (t : GPUTexture)
    (ht : heapRead s.texs A = some t) (hT : t.fb = some T) (hf : heapRead s.fbs T = some f)
    (hd : t.depth = true) :
    GPU_framebuffer_texture_detach A s = some
      { s with
        currentfb := f.object
        gl := detachBind s f
        fbs := heapWrite s.fbs T { f with depthtex := none }
        texs := heapWrite s.texs A (GPU_texture_framebuffer_set t none (-1)) } := by
  by_cases hc : s.currentfb = f.object
  · simp [GPU_framebuffer_texture_detach, GPU_framebuffer_texture_detach_target, ht, hT, hf, hd,
      hc, detachBind]
  · simp [GPU_framebuffer_texture_detach, GPU_framebuffer_texture_detach_target, ht, hT, hf, hd,
      hc, detachBind]

/-- Detaching an unattached texture does nothing. -/
theorem texture_detach_unattached (s : GPUState) (A : Nat) (t : GPUTexture)
    (ht : heapRead s.texs A = some t) (hT : t.fb = none) :
    GPU_framebuffer_texture_detach A s = some s := by
  simp [GPU_framebuffer_texture_detach, GPU_framebuffer_texture_detach_target, ht, hT]

/-- The state left by detaching an attached colour renderbuffer. -/
theorem renderbuffer_detach_color_eq (s : GPUState) (T A : Nat) (i : Fin 4)
    (f : GPUFrameBuffer) (r : GPURenderBuffer)
    (hr : heapRead s.rbs A = some r) (hT : r.fb = some T) (hf : heapRead s.fbs T = some f)
    (hd : r.depth = false) (hi : slotIdx r.fb_attachment = some i) :
    GPU_framebuffer_renderbuffer_detach A s = some
      { s with
        currentfb := f.object
        gl := detachBind s f
        fbs := heapWrite s.fbs T { f with colorrb := setSlot f.colorrb i none }
        rbs := heapWrite s.rbs A (GPU_renderbuffer_framebuffer_set r none (-1)) } := by
  by_cases hc : s.currentfb = f.object
  · simp [GPU_framebuffer_renderbuffer_detach, hr, hT, hf, hd, hi, hc, detachBind]
  · simp [GPU_framebuffer_renderbuffer_detach, hr, hT, hf, hd, hi, hc, detachBind]

/-- The state left by detaching an attached depth renderbuffer. -/
theorem renderbuffer_detach_depth_eq (s : GPUState) (T A : Nat)
    (f : GPUFrameBuffer) (r : GPURenderBuffer)
    (hr : heapRead s.rbs A = some r) (hT : r.fb = some T) (hf : heapRead s.fbs T = some f)
    (hd : r.depth = true) :
    GPU_framebuffer_renderbuffer_detach A s = some
      { s with
        currentfb := f.object
        gl := detachBind s f
        fbs := heapWrite s.fbs T { f with depthrb := none }
        rbs := heapWrite s.rbs A (GPU_renderbuffer_framebuffer_set r none (-1)) } := by
  by_cases hc : s.currentfb = f.object
  · simp [GPU_framebuffer_renderbuffer_detach, hr, hT, hf, hd, hc, detachBind]
  · simp [GPU_framebuffer_renderbuffer_detach, hr, hT, hf, hd, hc, detachBind]

/-- Detaching an unattached renderbuffer does nothing. -/
theorem renderbuffer_detach_unattached (s : GPUState) (A : Nat) (r : GPURenderBuffer)
    (hr : heapRead s.rbs A = some r) (hT : r.fb = none) :
    GPU_framebuffer_renderbuffer_detach A s = some s := by
  simp [GPU_framebuffer_renderbuffer_detach, hr, hT]

/-- C2: let `A` be a texture or renderbuffer whose back-reference is `(T, s)` and which the
table of `T` holds at `s` (in the depth entry when `A` is a depth resource).  Then the detach
call returns, afterwards the back-reference of `A` is `(none, -1)`, the entry of `T` that
held `A` is empty, and every other entry of the four attachment tables of `T` is unchanged. -/
theorem detach_clears_link (s : GPUState) (T A : Nat) (f : GPUFrameBuffer)
    (hf : heapRead s.fbs T = some f) :
    (∀ t i, heapRead s.texs A = some t → t.fb = some T → t.depth = false →
        slotIdx t.fb_attachment = some i → f.colortex i = some A →
      ∃ s' t' f', GPU_framebuffer_texture_detach A s = some s' ∧
        heapRead s'.texs A = some t' ∧ t'.fb = none ∧ t'.fb_attachment = -1 ∧
        heapRead s'.fbs T = some f' ∧ f'.colortex i = none ∧
        (∀ j, j ≠ i → f'.colortex j = f.colortex j) ∧ f'.depthtex = f.depthtex ∧
        f'.colorrb = f.colorrb ∧ f'.depthrb = f.depthrb) ∧
    (∀ t, heapRead s.texs A = some t → t.fb = some T → t.depth = true →
        f.depthtex = some A →
      ∃ s' t' f', GPU_framebuffer_texture_detach A s = some s' ∧
        heapRead s'.texs A = some t' ∧ t'.fb = none ∧ t'.fb_attachment = -1 ∧
        heapRead s'.fbs T = some f' ∧ f'.depthtex = none ∧
        f'.colortex = f.colortex ∧ f'.colorrb = f.colorrb ∧ f'.depthrb = f.depthrb) ∧
    (∀ r i, heapRead s.rbs A = some r → r.fb = some T → r.depth = false →
        slotIdx r.fb_attachment = some i → f.colorrb i = some A →
      ∃ s' r' f', GPU_framebuffer_renderbuffer_detach A s = some s' ∧
        heapRead s'.rbs A = some r' ∧ r'.fb = none ∧ r'.fb_attachment = -1 ∧
        heapRead s'.fbs T = some f' ∧ f'.colorrb i = none ∧
        (∀ j, j ≠ i → f'.colorrb j = f.colorrb j) ∧ f'.depthrb = f.depthrb ∧
        f'.colortex = f.colortex ∧ f'.depthtex = f.depthtex) ∧
    (∀ r, heapRead s.rbs A = some r → r.fb = some T → r.depth = true →
        f.depthrb = some A →
      ∃ s' r' f', GPU_framebuffer_renderbuffer_detach A s = some s' ∧
        heapRead s'.rbs A = some r' ∧ r'.fb = none ∧ r'.fb_attachment = -1 ∧
        heapRead s'.fbs T = some f' ∧ f'.depthrb = none ∧
        f'.colorrb = f.colorrb ∧ f'.colortex = f.colortex ∧ f'.depthtex = f.depthtex) := by
  refine ⟨?_, ?_, ?_, ?_⟩
  · intro t i ht hT hd hi _
    exact ⟨_, _, _, texture_detach_color_eq s T A i f t ht hT hf hd hi,
      heapRead_write_same _ _ _ _ ht, rfl, rfl, heapRead_write_same _ _ _ _ hf,
      setSlot_same _ _ _, fun j hj => setSlot_other _ _ _ _ hj, rfl, rfl, rfl⟩
  · intro t ht hT hd _
    exact ⟨_, _, _, texture_detach_depth_eq s T A f t ht hT hf hd,
      heapRead_write_same _ _ _ _ ht, rfl, rfl, heapRead_write_same _ _ _ _ hf,
      rfl, rfl, rfl, rfl⟩
  · intro r i hr hT hd hi _
    exact ⟨_, _, _, renderbuffer_detach_color_eq s T A i f r hr hT hf hd hi,
      heapRead_write_same _ _ _ _ hr, rfl, rfl, heapRead_write_same _ _ _ _ hf,
      setSlot_same _ _ _, fun j hj => setSlot_other _ _ _ _ hj, rfl, rfl, rfl⟩
  · intro r hr hT hd _
    exact ⟨_, _, _, renderbuffer_detach_depth_eq s T A f r hr hT hf hd,
      heapRead_write_same _ _ _ _ hr, rfl, rfl, heapRead_write_same _ _ _ _ hf,
      rfl, rfl, rfl, rfl⟩

/-- Witness of `detach_clears_link`: colour texture `0` (slot `2`) is detached from
framebuffer `0` of `attachedState`. -/
theorem detach_clears_link_witness :
    ∃ s' t' f', GPU_framebuffer_texture_detach 0 attachedState = some s' ∧
      heapRead s'.texs 0 = some t' ∧ t'.fb = none ∧ t'.fb_attachment = -1 ∧
      heapRead s'.fbs 0 = some f' ∧ f'.colortex 2 = none ∧
      (∀ j, j ≠ 2 → f'.colortex j = setSlot (fun _ => none) 2 (some 0) j) ∧
      f'.depthtex = some 1 ∧
      f'.colorrb = setSlot (fun _ => none) 1 (some 0) ∧ f'.depthrb = some 1 :=
  (detach_clears_link attachedState 0 0 _ rfl).1
    (GPU_texture_framebuffer_set (exampleTexture 5 false) (some 0) 2) 2 rfl rfl rfl rfl rfl

/-- C5: for every slot `>= 4` the attach calls report failure and return the state they were
given: the attachment tables of `T`, the back-reference of `A` and `GG.currentfb` are exactly
as before.  (The texture wrapper reads `GPU_texture_target(tex)` first, so its texture must
be live.) -/
theorem attach_slot_too_large_noop (s : GPUState) (T A target : Nat) (slot : Int)
    (h : 4 ≤ slot) :
    GPU_framebuffer_texture_attach_target T A target slot s = some (false, s) ∧
    GPU_framebuffer_renderbuffer_attach T A slot s = some (false, s) ∧
    (∀ t, heapRead s.texs A = some t →
      GPU_framebuffer_texture_attach T A slot s = some (false, s)) := by
  have h4 : slot ≥ GPU_FB_MAX_SLOTS := by unfold GPU_FB_MAX_SLOTS; omega
  refine ⟨?_, ?_, ?_⟩
  · simp [GPU_framebuffer_texture_attach_target, h4]
  · simp [GPU_framebuffer_renderbuffer_attach, h4]
  · intro t ht
    simp [GPU_framebuffer_texture_attach, GPU_framebuffer_texture_attach_target, h4, ht]

/-- Witness of `attach_slot_too_large_noop` at slot `4` of the example state. -/
theorem attach_slot_too_large_noop_witness :
    GPU_framebuffer_texture_attach_target 0 0 GL_TEXTURE_2D 4 exampleState
      = some (false, exampleState) ∧
    GPU_framebuffer_renderbuffer_attach 0 0 4 exampleState = some (false, exampleState) ∧
    GPU_framebuffer_texture_attach 0 0 4 exampleState = some (false, exampleState) :=
  have h := attach_slot_too_large_noop exampleState 0 0 GL_TEXTURE_2D 4 (by decide)
  ⟨h.1, h.2.1, h.2.2 (exampleTexture 5 false) rfl⟩

/-- C6: for every live framebuffer `T`, every live depth texture or depth renderbuffer `A` and
every requested slot in `0..3`, attach succeeds, stores `A` in the depth entry of `T`
(`depthtex` resp. `depthrb`) and leaves both colour tables `colortex` and `colorrb`
unchanged. -/
theorem attach_depth_reserved_slot (s : GPUState) (T A : Nat) (slot : Int)
    (f : GPUFrameBuffer) (hf : heapRead s.fbs T = some f) (h0 : 0 ≤ slot) (h4 : slot < 4) :
    (∀ t, heapRead s.texs A = some t → t.depth = true →
      ∃ s' f', GPU_framebuffer_texture_attach T A slot s = some (true, s') ∧
        heapRead s'.fbs T = some f' ∧ f'.depthtex = some A ∧
        f'.colortex = f.colortex ∧ f'.colorrb = f.colorrb) ∧
    (∀ r, heapRead s.rbs A = some r → r.depth = true →
      ∃ s' f', GPU_framebuffer_renderbuffer_attach T A slot s = some (true, s') ∧
        heapRead s'.fbs T = some f' ∧ f'.depthrb = some A ∧
        f'.colortex = f.colortex ∧ f'.colorrb = f.colorrb) := by
  have _ := h0
  constructor
  · intro t ht hd
    exact ⟨_, _, texture_attach_depth_eq s T A slot f t hf ht hd h4,
      heapRead_write_same _ _ _ _ hf, rfl, rfl, rfl⟩
  · intro r hr hd
    exact ⟨_, _, renderbuffer_attach_depth_eq s T A slot f r hf hr hd h4,
      heapRead_write_same _ _ _ _ hf, rfl, rfl, rfl⟩

/-- Witness of `attach_depth_reserved_slot`: depth texture `1` and depth renderbuffer `1`
attached with requested slot `3`. -/
theorem attach_depth_reserved_slot_witness :
    (∃ s' f', GPU_framebuffer_texture_attach 0 1 3 exampleState = some (true, s') ∧
        heapRead s'.fbs 0 = some f' ∧ f'.depthtex = some 1 ∧
        f'.colortex = (emptyFrameBuffer 7).colortex ∧
        f'.colorrb = (emptyFrameBuffer 7).colorrb) ∧
    (∃ s' f', GPU_framebuffer_renderbuffer_attach 0 1 3 exampleState = some (true, s') ∧
        heapRead s'.fbs 0 = some f' ∧ f'.depthrb = some 1 ∧
        f'.colortex = (emptyFrameBuffer 7).colortex ∧
        f'.colorrb = (emptyFrameBuffer 7).colorrb) :=
  have h := attach_depth_reserved_slot exampleState 0 1 3 (emptyFrameBuffer 7) rfl
    (by decide) (by decide)
  ⟨h.1 (exampleTexture 6 true) rfl rfl, h.2 (exampleRenderBuffer 4 true) rfl rfl⟩

/-- C3, counterexample: texture `0` is attached to framebuffer `0` at slot `0`; attaching it
to framebuffer `1` (slot `1`) succeeds, and afterwards slot `0` of framebuffer `0` still holds
the texture: the entry is not empty. -/
theorem attach_elsewhere_old_entry_not_cleared :
    ∃ s' f1, GPU_framebuffer_texture_attach 1 0 1 twoTargetsState = some (true, s') ∧
      heapRead s'.fbs 0 = some f1 ∧ f1.colortex 0 = some 0 ∧ f1.colortex 0 ≠ none := by
  refine ⟨_, _, texture_attach_color_eq twoTargetsState 1 0 1 1 (emptyFrameBuffer 8) _
    rfl rfl rfl rfl, rfl, rfl, by decide⟩

/-- Every successful attach writes the framebuffer heap only at the target framebuffer. -/
theorem texture_attach_frame (s s' : GPUState) (T2 A : Nat) (slot : Int) (ok : Bool)
    (h : GPU_framebuffer_texture_attach T2 A slot s = some (ok, s')) (T1 : Nat)
    (hne : T1 ≠ T2) : heapRead s'.fbs T1 = heapRead s.fbs T1 := by
  unfold GPU_framebuffer_texture_attach GPU_framebuffer_texture_attach_target at h
  cases ht : heapRead s.texs A with
  | none => simp [ht] at h
  | some t =>
    simp only [ht, Option.bind_eq_bind, Option.some_bind] at h
    split at h
    · cases h; rfl
    · cases hf : heapRead s.fbs T2 with
      | none => simp [hf] at h
      | some f =>
        simp only [hf, Option.some_bind] at h
        split at h
        · simp only [Option.some_bind, Option.some.injEq, Prod.mk.injEq] at h
          rw [← h.2]
          exact heapRead_write_other _ _ _ _ (Ne.symm hne)
        · cases hi : slotIdx slot with
          | none => simp [hi] at h
          | some i =>
            simp only [hi, Option.map_some', Option.some_bind, Option.some.injEq,
              Prod.mk.injEq] at h
            rw [← h.2]
            exact heapRead_write_other _ _ _ _ (Ne.symm hne)

/-- Every successful renderbuffer attach writes the framebuffer heap only at the target
framebuffer. -/
theorem renderbuffer_attach_frame (s s' : GPUState) (T2 A : Nat) (slot : Int) (ok : Bool)
    (h : GPU_framebuffer_renderbuffer_attach T2 A slot s = some (ok, s')) (T1 : Nat)
    (hne : T1 ≠ T2) : heapRead s'.fbs T1 = heapRead s.fbs T1 := by
  unfold GPU_framebuffer_renderbuffer_attach at h
  split at h
  · cases h; rfl
  · cases hr : heapRead s.rbs A with
    | none => simp [hr] at h
    | some r =>
      cases hf : heapRead s.fbs T2 with
      | none => simp [hr, hf] at h
      | some f =>
        simp only [hr, hf, Option.bind_eq_bind, Option.some_bind] at h
        split at h
        · simp only [Option.some_bind, Option.some.injEq, Prod.mk.injEq] at h
          rw [← h.2]
          exact heapRead_write_other _ _ _ _ (Ne.symm hne)
        · cases hi : slotIdx slot with
          | none => simp [hi] at h
          | some i =>
            simp only [hi, Option.map_some', Option.some_bind, Option.some.injEq,
              Prod.mk.injEq] at h
            rw [← h.2]
            exact heapRead_write_other _ _ _ _ (Ne.symm hne)

/-- A texture attach with a slot in `0..3` succeeds and stores the back-reference. -/
theorem texture_attach_succeeds (s : GPUState) (T A : Nat) (slot : Int)
    (f : GPUFrameBuffer) (t : GPUTexture)
    (hf : heapRead s.fbs T = some f) (ht : heapRead s.texs A = some t)
    (h0 : 0 ≤ slot) (h4 : slot < 4) :
    ∃ s', GPU_framebuffer_texture_attach T A slot s = some (true, s') ∧
      heapRead s'.texs A = some (GPU_texture_framebuffer_set t (some T) slot) := by
  obtain ⟨i, hi, -⟩ := slotIdx_of_range slot h0 h4
  cases hd : t.depth with
  | false =>
    exact ⟨_, texture_attach_color_eq s T A slot i f t hf ht hd hi,
      heapRead_write_same _ _ _ _ ht⟩
  | true =>
    exact ⟨_, texture_attach_depth_eq s T A slot f t hf ht hd h4,
      heapRead_write_same _ _ _ _ ht⟩

/-- A renderbuffer attach with a slot in `0..3` succeeds and stores the back-reference. -/
theorem renderbuffer_attach_succeeds (s : GPUState) (T A : Nat) (slot : Int)
    (f : GPUFrameBuffer) (r : GPURenderBuffer)
    (hf : heapRead s.fbs T = some f) (hr : heapRead s.rbs A = some r)
    (h0 : 0 ≤ slot) (h4 : slot < 4) :
    ∃ s', GPU_framebuffer_renderbuffer_attach T A slot s = some (true, s') ∧
      heapRead s'.rbs A = some (GPU_renderbuffer_framebuffer_set r (some T) slot) := by
  obtain ⟨i, hi, -⟩ := slotIdx_of_range slot h0 h4
  cases hd : r.depth with
  | false =>
    exact ⟨_, renderbuffer_attach_color_eq s T A slot i f r hf hr hd hi,
      heapRead_write_same _ _ _ _ hr⟩
  | true =>
    exact ⟨_, renderbuffer_attach_depth_eq s T A slot f r hf hr hd h4,
      heapRead_write_same _ _ _ _ hr⟩

/-- C3, amended: let `A` be a texture or renderbuffer attached to framebuffer `T1`, and `T2`
another live framebuffer.  Attaching `A` to `T2` at a slot in `0..3` succeeds and re-points
the back-reference of `A` to `(T2, slot)`, but nothing is detached: the struct of `T1` is
exactly as before, so each of its table entries that held `A` still holds `A`. -/
theorem attach_elsewhere_keeps_old_entry (s : GPUState) (T1 T2 A : Nat) (slot : Int)
    (f1 f2 : GPUFrameBuffer) (hne : T1 ≠ T2)
    (hf1 : heapRead s.fbs T1 = some f1) (hf2 : heapRead s.fbs T2 = some f2)
    (h0 : 0 ≤ slot) (h4 : slot < 4) :
    (∀ t, heapRead s.texs A = some t → t.fb = some T1 →
      ∃ s' t', GPU_framebuffer_texture_attach T2 A slot s = some (true, s') ∧
        heapRead s'.fbs T1 = some f1 ∧
        heapRead s'.texs A = some t' ∧ t'.fb = some T2 ∧ t'.fb_attachment = slot) ∧
    (∀ r, heapRead s.rbs A = some r → r.fb = some T1 →
      ∃ s' r', GPU_framebuffer_renderbuffer_attach T2 A slot s = some (true, s') ∧
        heapRead s'.fbs T1 = some f1 ∧
        heapRead s'.rbs A = some r' ∧ r'.fb = some T2 ∧ r'.fb_attachment = slot) := by
  constructor
  · intro t ht _
    obtain ⟨s', hs', hA⟩ := texture_attach_succeeds s T2 A slot f2 t hf2 ht h0 h4
    exact ⟨s', _, hs', (texture_attach_frame s s' T2 A slot true hs' T1 hne).trans hf1,
      hA, rfl, rfl⟩
  · intro r hr _
    obtain ⟨s', hs', hA⟩ := renderbuffer_attach_succeeds s T2 A slot f2 r hf2 hr h0 h4
    exact ⟨s', _, hs', (renderbuffer_attach_frame s s' T2 A slot true hs' T1 hne).trans hf1,
      hA, rfl, rfl⟩

/-- Witness of `attach_elsewhere_keeps_old_entry` on `twoTargetsState`: texture `0`, held by
framebuffer `0`, is attached to slot `1` of framebuffer `1`. -/
theorem attach_elsewhere_keeps_old_entry_witness :
    ∃ s' t', GPU_framebuffer_texture_attach 1 0 1 twoTargetsState = some (true, s') ∧
      heapRead s'.fbs 0 = some
        { object := 7, colortex := setSlot (fun _ => none) 0 (some 0), depthtex := none,
          colorrb := fun _ => none, depthrb := none } ∧
      heapRead s'.texs 0 = some t' ∧ t'.fb = some 1 ∧ t'.fb_attachment = 1 :=
  (attach_elsewhere_keeps_old_entry twoTargetsState 0 1 0 1 _ (emptyFrameBuffer 8)
    (by decide) rfl rfl (by decide) (by decide)).1 _ rfl rfl

/-- C4, counterexample: from the empty state, create a framebuffer and two colour textures `A`
and `B`, attach `A` to slot `0`, then attach `B` to the occupied slot `0`.  Afterwards `A`
(pointer `0`) is not left unattached: it still has the back-reference `(framebuffer 0, slot 0)`
while `colortex[0]` of that framebuffer holds `B` (pointer `1`); the condition of the
`BLI_assert` in the texture detach is false for `A`, and the state is not consistent. -/
theorem occupied_slot_attach_breaks_link :
    ∃ s tA f, occupiedSlotRun = some s ∧
      heapRead s.texs 0 = some tA ∧ tA.fb = some 0 ∧ tA.fb_attachment = 0 ∧
      heapRead s.fbs 0 = some f ∧ f.colortex 0 = some 1 ∧
      GPU_framebuffer_texture_detach_assert 0 s = some false ∧ ¬ Consistent s :=
  ⟨_, _, _, rfl, rfl, rfl, rfl, rfl, rfl, rfl, by decide⟩

theorem heapRead_lt {α : Type} (h : List (Option α)) (p : Nat) (v : α)
    (hp : heapRead h p = some v) : p < h.length := by
  unfold heapRead at hp
  by_contra hc
  rw [List.getElem?_eq_none (by omega)] at hp
  simp at hp

theorem Consistent.tableOK (s : GPUState) (hc : Consistent s) (T : Nat) (f : GPUFrameBuffer)
    (hf : heapRead s.fbs T = some f) : TableOK s T f := by
  obtain ⟨-, -, h3⟩ := hc
  obtain ⟨⟨h1, h2⟩, h3, h4⟩ := h3 T (heapRead_lt _ _ _ hf) f hf
  refine ⟨hf, ?_, ?_, ?_, ?_⟩
  · intro A hA
    obtain ⟨t, ht, h⟩ := h1 A hA
    exact ⟨t, ht, h⟩
  · intro i A hA
    obtain ⟨t, ht, h⟩ := h2 i A hA
    exact ⟨t, ht, h⟩
  · intro A hA
    obtain ⟨t, ht, h⟩ := h3 A hA
    exact ⟨t, ht, h⟩
  · intro i A hA
    obtain ⟨t, ht, h⟩ := h4 i A hA
    exact ⟨t, ht, h⟩

theorem heapRead_write_map {α β : Type} (g : α → β) (h : List (Option α)) (p : Nat) (v w : α)
    (hp : heapRead h p = some w) (hg : g v = g w) (q : Nat) :
    (heapRead (heapWrite h p v) q).map g = (heapRead h q).map g := by
  by_cases hq : p = q
  · subst hq
    rw [heapRead_write_same h p v w hp, hp]
    simp [hg]
  · rw [heapRead_write_other h p q v hq]

theorem glBindFramebuffer_names (target name : Nat) (gl : GLState) :
    (glBindFramebuffer target name gl).framebuffers = gl.framebuffers ∧
    (glBindFramebuffer target name gl).textures = gl.textures ∧
    (glBindFramebuffer target name gl).renderbuffers = gl.renderbuffers := by
  unfold glBindFramebuffer
  split_ifs <;> exact ⟨rfl, rfl, rfl⟩

theorem detachBind_names (s : GPUState) (f : GPUFrameBuffer) :
    (detachBind s f).framebuffers = s.gl.framebuffers ∧
    (detachBind s f).textures = s.gl.textures ∧
    (detachBind s f).renderbuffers = s.gl.renderbuffers := by
  unfold detachBind
  split_ifs
  · exact glBindFramebuffer_names _ _ _
  · exact ⟨rfl, rfl, rfl⟩

theorem skel_refl (s : GPUState) : Skel s s :=
  ⟨rfl, rfl, rfl, rfl, fun _ => rfl, fun _ => rfl, fun _ => rfl⟩

theorem skel_trans (s1 s2 s3 : GPUState) (h12 : Skel s1 s2) (h23 : Skel s2 s3) : Skel s1 s3 :=
  ⟨h23.ofss.trans h12.ofss, h23.glfb.trans h12.glfb, h23.gltex.trans h12.gltex,
    h23.glrb.trans h12.glrb, fun p => (h23.fbs p).trans (h12.fbs p),
    fun p => (h23.texs p).trans (h12.texs p), fun p => (h23.rbs p).trans (h12.rbs p)⟩

/-- A texture detach keeps the skeleton. -/
theorem skel_texture_detach (s : GPUState) (T A : Nat) (f f' : GPUFrameBuffer)
    (t t' : GPUTexture) (hf : heapRead s.fbs T = some f) (ht : heapRead s.texs A = some t)
    (ho : f'.object = f.object) (hb : t'.bindcode = t.bindcode) :
    Skel s
      { s with
        currentfb := f.object
        gl := detachBind s f
        fbs := heapWrite s.fbs T f'
        texs := heapWrite s.texs A t' } :=
  ⟨rfl, (detachBind_names s f).1, (detachBind_names s f).2.1, (detachBind_names s f).2.2,
    heapRead_write_map _ _ _ _ _ hf ho, heapRead_write_map _ _ _ _ _ ht hb, fun _ => rfl⟩

/-- A renderbuffer detach keeps the skeleton. -/
theorem skel_renderbuffer_detach (s : GPUState) (T A : Nat) (f f' : GPUFrameBuffer)
    (r r' : GPURenderBuffer) (hf : heapRead s.fbs T = some f)
    (hr : heapRead s.rbs A = some r)
    (ho : f'.object = f.object) (hb : r'.bindcode = r.bindcode) :
    Skel s
      { s with
        currentfb := f.object
        gl := detachBind s f
        fbs := heapWrite s.fbs T f'
        rbs := heapWrite s.rbs A r' } :=
  ⟨rfl, (detachBind_names s f).1, (detachBind_names s f).2.1, (detachBind_names s f).2.2,
    heapRead_write_map _ _ _ _ _ hf ho, fun _ => rfl, heapRead_write_map _ _ _ _ _ hr hb⟩

theorem freeProgress_refl (T : Nat) (s : GPUState) (f : GPUFrameBuffer) (ok : TableOK s T f) :
    FreeProgress T s s f f :=
  { ok := ok, skel := skel_refl s, object := rfl, tracker := Or.inl rfl
    depthtex := Or.inr rfl, colortex := fun _ => Or.inr rfl
    depthrb := Or.inr rfl, colorrb := fun _ => Or.inr rfl
    texKeep := fun _ h => h, rbKeep := fun _ h => h
    depthtexDone := fun _ h => Or.inl h, colortexDone := fun _ _ h => Or.inl h
    depthrbDone := fun _ h => Or.inl h, colorrbDone := fun _ _ h => Or.inl h }

theorem freeProgress_trans (T : Nat) (s1 s2 s3 : GPUState) (f1 f2 f3 : GPUFrameBuffer)
    (h12 : FreeProgress T s1 s2 f1 f2) (h23 : FreeProgress T s2 s3 f2 f3) :
    FreeProgress T s1 s3 f1 f3 where
  ok := h23.ok
  skel := skel_trans _ _ _ h12.skel h23.skel
  object := h23.object.trans h12.object
  tracker := by
    rcases h23.tracker with h | h
    · rcases h12.tracker with h' | h'
      · exact Or.inl (h.trans h')
      · exact Or.inr (h.trans h')
    · exact Or.inr (h.trans h12.object)
  depthtex := by
    rcases h23.depthtex with h | h
    · exact Or.inl h
    · rw [h]; exact h12.depthtex
  colortex := by
    intro i
    rcases h23.colortex i with h | h
    · exact Or.inl h
    · rw [h]; exact h12.colortex i
  depthrb := by
    rcases h23.depthrb with h | h
    · exact Or.inl h
    · rw [h]; exact h12.depthrb
  colorrb := by
    intro i
    rcases h23.colorrb i with h | h
    · exact Or.inl h
    · rw [h]; exact h12.colorrb i
  texKeep := fun A h => h23.texKeep A (h12.texKeep A h)
  rbKeep := fun A h => h23.rbKeep A (h12.rbKeep A h)
  depthtexDone := by
    intro A hA
    rcases h12.depthtexDone A hA with h | h
    · exact h23.depthtexDone A h
    · exact Or.inr (h23.texKeep A h)
  colortexDone := by
    intro i A hA
    rcases h12.colortexDone i A hA with h | h
    · exact h23.colortexDone i A h
    · exact Or.inr (h23.texKeep A h)
  depthrbDone := by
    intro A hA
    rcases h12.depthrbDone A hA with h | h
    · exact h23.depthrbDone A h
    · exact Or.inr (h23.rbKeep A h)
  colorrbDone := by
    intro i A hA
    rcases h12.colorrbDone i A hA with h | h
    · exact h23.colorrbDone i A h
    · exact Or.inr (h23.rbKeep A h)

/-- Detaching the colour texture in entry `i` of a consistent framebuffer. -/
theorem texture_detach_color_step (s : GPUState) (T A : Nat) (i : Fin 4) (f : GPUFrameBuffer)
    (ok : TableOK s T f) (hA : f.colortex i = some A) :
    ∃ s' f', GPU_framebuffer_texture_detach A s = some s' ∧ FreeProgress T s s' f f' ∧
      f'.colortex i = none ∧ s'.currentfb = f.object := by
  obtain ⟨t, ht, hT, hd, hi⟩ := ok.colortex i A hA
  refine ⟨_, { f with colortex := setSlot f.colortex i none },
    texture_detach_color_eq s T A i f t ht hT ok.live hd hi, ?_, setSlot_same _ _ _, rfl⟩
  have hdet : DetachedTex
      { s with
        currentfb := f.object
        gl := detachBind s f
        fbs := heapWrite s.fbs T { f with colortex := setSlot f.colortex i none }
        texs := heapWrite s.texs A (GPU_texture_framebuffer_set t none (-1)) } A :=
    ⟨_, heapRead_write_same _ _ _ _ ht, rfl, rfl⟩
  refine
    { ok := ⟨heapRead_write_same _ _ _ _ ok.live, ?_, ?_, ok.depthrb, ok.colorrb⟩
      skel := skel_texture_detach s T A f _ t _ ok.live ht rfl rfl
      object := rfl, tracker := Or.inr rfl
      depthtex := Or.inr rfl, colortex := ?_
      depthrb := Or.inr rfl, colorrb := fun _ => Or.inr rfl
      texKeep := ?_, rbKeep := fun _ h => h
      depthtexDone := fun _ h => Or.inl h, colortexDone := ?_
      depthrbDone := fun _ h => Or.inl h, colorrbDone := fun _ _ h => Or.inl h }
  · intro B hB
    obtain ⟨tB, htB, hTB, hdB⟩ := ok.depthtex B hB
    have hne : A ≠ B := by
      rintro rfl
      rw [ht] at htB
      cases htB
      rw [hd] at hdB
      cases hdB
    exact ⟨tB, (heapRead_write_other _ _ _ _ hne).trans htB, hTB, hdB⟩
  · intro j B hB
    have hj : j ≠ i := by
      rintro rfl
      simp [setSlot] at hB
    have hB' : f.colortex j = some B := by
      simpa [setSlot, hj] using hB
    obtain ⟨tB, htB, hTB, hdB, hiB⟩ := ok.colortex j B hB'
    have hne : A ≠ B := by
      rintro rfl
      rw [ht] at htB
      cases htB
      rw [hi] at hiB
      exact hj (Option.some.inj hiB).symm
    exact ⟨tB, (heapRead_write_other _ _ _ _ hne).trans htB, hTB, hdB, hiB⟩
  · intro j
    by_cases hj : j = i
    · exact Or.inl (by simp [setSlot, hj])
    · exact Or.inr (by simp [setSlot, hj])
  · intro B hB
    by_cases hne : A = B
    · exact hne ▸ hdet
    · obtain ⟨tB, htB, h⟩ := hB
      exact ⟨tB, (heapRead_write_other _ _ _ _ hne).trans htB, h⟩
  · intro j B hB
    by_cases hj : j = i
    · subst hj
      rw [hA] at hB
      cases hB
      exact Or.inr hdet
    · exact Or.inl (by simpa [setSlot, hj] using hB)

/-- Detaching the depth texture of a consistent framebuffer. -/
theorem texture_detach_depth_step (s : GPUState) (T A : Nat) (f : GPUFrameBuffer)
    (ok : TableOK s T f) (hA : f.depthtex = some A) :
    ∃ s' f', GPU_framebuffer_texture_detach A s = some s' ∧ FreeProgress T s s' f f' ∧
      f'.depthtex = none ∧ s'.currentfb = f.object := by
  obtain ⟨t, ht, hT, hd⟩ := ok.depthtex A hA
  refine ⟨_, { f with depthtex := none },
    texture_detach_depth_eq s T A f t ht hT ok.live hd, ?_, rfl, rfl⟩
  have hdet : DetachedTex
      { s with
        currentfb := f.object
        gl := detachBind s f
        fbs := heapWrite s.fbs T { f with depthtex := none }
        texs := heapWrite s.texs A (GPU_texture_framebuffer_set t none (-1)) } A :=
    ⟨_, heapRead_write_same _ _ _ _ ht, rfl, rfl⟩
  refine
    { ok := ⟨heapRead_write_same _ _ _ _ ok.live, ?_, ?_, ok.depthrb, ok.colorrb⟩
      skel := skel_texture_detach s T A f _ t _ ok.live ht rfl rfl
      object := rfl, tracker := Or.inr rfl
      depthtex := Or.inl rfl, colortex := fun _ => Or.inr rfl
      depthrb := Or.inr rfl, colorrb := fun _ => Or.inr rfl
      texKeep := ?_, rbKeep := fun _ h => h
      depthtexDone := ?_, colortexDone := fun _ _ h => Or.inl h
      depthrbDone := fun _ h => Or.inl h, colorrbDone := fun _ _ h => Or.inl h }
  · intro B hB
    cases hB
  · intro j B hB
    obtain ⟨tB, htB, hTB, hdB, hiB⟩ := ok.colortex j B hB
    have hne : A ≠ B := by
      rintro rfl
      rw [ht] at htB
      cases htB
      rw [hd] at hdB
      cases hdB
    exact ⟨tB, (heapRead_write_other _ _ _ _ hne).trans htB, hTB, hdB, hiB⟩
  · intro B hB
    by_cases hne : A = B
    · exact hne ▸ hdet
    · obtain ⟨tB, htB, h⟩ := hB
      exact ⟨tB, (heapRead_write_other _ _ _ _ hne).trans htB, h⟩
  · intro B hB
    rw [hA] at hB
    cases hB
    exact Or.inr hdet

/-- Detaching the colour renderbuffer in entry `i` of a consistent framebuffer. -/
theorem renderbuffer_detach_color_step (s : GPUState) (T A : Nat) (i : Fin 4)
    (f : GPUFrameBuffer) (ok : TableOK s T f) (hA : f.colorrb i = some A) :
    ∃ s' f', GPU_framebuffer_renderbuffer_detach A s = some s' ∧ FreeProgress T s s' f f' ∧
      f'.colorrb i = none ∧ s'.currentfb = f.object := by
  obtain ⟨r, hr, hT, hd, hi⟩ := ok.colorrb i A hA
  refine ⟨_, { f with colorrb := setSlot f.colorrb i none },
    renderbuffer_detach_color_eq s T A i f r hr hT ok.live hd hi, ?_, setSlot_same _ _ _, rfl⟩
  have hdet : DetachedRb
      { s with
        currentfb := f.object
        gl := detachBind s f
        fbs := heapWrite s.fbs T { f with colorrb := setSlot f.colorrb i none }
        rbs := heapWrite s.rbs A (GPU_renderbuffer_framebuffer_set r none (-1)) } A :=
    ⟨_, heapRead_write_same _ _ _ _ hr, rfl, rfl⟩
  refine
    { ok := ⟨heapRead_write_same _ _ _ _ ok.live, ok.depthtex, ok.colortex, ?_, ?_⟩
      skel := skel_renderbuffer_detach s T A f _ r _ ok.live hr rfl rfl
      object := rfl, tracker := Or.inr rfl
      depthtex := Or.inr rfl, colortex := fun _ => Or.inr rfl
      depthrb := Or.inr rfl, colorrb := ?_
      texKeep := fun _ h => h, rbKeep := ?_
      depthtexDone := fun _ h => Or.inl h, colortexDone := fun _ _ h => Or.inl h
      depthrbDone := fun _ h => Or.inl h, colorrbDone := ?_ }
  · intro B hB
    obtain ⟨rB, hrB, hTB, hdB⟩ := ok.depthrb B hB
    have hne : A ≠ B := by
      rintro rfl
      rw [hr] at hrB
      cases hrB
      rw [hd] at hdB
      cases hdB
    exact ⟨rB, (heapRead_write_other _ _ _ _ hne).trans hrB, hTB, hdB⟩
  · intro j B hB
    have hj : j ≠ i := by
      rintro rfl
      simp [setSlot] at hB
    have hB' : f.colorrb j = some B := by
      simpa [setSlot, hj] using hB
    obtain ⟨rB, hrB, hTB, hdB, hiB⟩ := ok.colorrb j B hB'
    have hne : A ≠ B := by
      rintro rfl
      rw [hr] at hrB
      cases hrB
      rw [hi] at hiB
      exact hj (Option.some.inj hiB).symm
    exact ⟨rB, (heapRead_write_other _ _ _ _ hne).trans hrB, hTB, hdB, hiB⟩
  · intro j
    by_cases hj : j = i
    · exact Or.inl (by simp [setSlot, hj])
    · exact Or.inr (by simp [setSlot, hj])
  · intro B hB
    by_cases hne : A = B
    · exact hne ▸ hdet
    · obtain ⟨rB, hrB, h⟩ := hB
      exact ⟨rB, (heapRead_write_other _ _ _ _ hne).trans hrB, h⟩
  · intro j B hB
    by_cases hj : j = i
    · subst hj
      rw [hA] at hB
      cases hB
      exact Or.inr hdet
    · exact Or.inl (by simpa [setSlot, hj] using hB)

/-- Detaching the depth renderbuffer of a consistent framebuffer. -/
theorem renderbuffer_detach_depth_step (s : GPUState) (T A : Nat) (f : GPUFrameBuffer)
    (ok : TableOK s T f) (hA : f.depthrb = some A) :
    ∃ s' f', GPU_framebuffer_renderbuffer_detach A s = some s' ∧ FreeProgress T s s' f f' ∧
      f'.depthrb = none ∧ s'.currentfb = f.object := by
  obtain ⟨r, hr, hT, hd⟩ := ok.depthrb A hA
  refine ⟨_, { f with depthrb := none },
    renderbuffer_detach_depth_eq s T A f r hr hT ok.live hd, ?_, rfl, rfl⟩
  have hdet : DetachedRb
      { s with
        currentfb := f.object
        gl := detachBind s f
        fbs := heapWrite s.fbs T { f with depthrb := none }
        rbs := heapWrite s.rbs A (GPU_renderbuffer_framebuffer_set r none (-1)) } A :=
    ⟨_, heapRead_write_same _ _ _ _ hr, rfl, rfl⟩
  refine
    { ok := ⟨heapRead_write_same _ _ _ _ ok.live, ok.depthtex, ok.colortex, ?_, ?_⟩
      skel := skel_renderbuffer_detach s T A f _ r _ ok.live hr rfl rfl
      object := rfl, tracker := Or.inr rfl
      depthtex := Or.inr rfl, colortex := fun _ => Or.inr rfl
      depthrb := Or.inl rfl, colorrb := fun _ => Or.inr rfl
      texKeep := fun _ h => h, rbKeep := ?_
      depthtexDone := fun _ h => Or.inl h, colortexDone := fun _ _ h => Or.inl h
      depthrbDone := ?_, colorrbDone := fun _ _ h => Or.inl h }
  · intro B hB
    cases hB
  · intro j B hB
    obtain ⟨rB, hrB, hTB, hdB, hiB⟩ := ok.colorrb j B hB
    have hne : A ≠ B := by
      rintro rfl
      rw [hr] at hrB
      cases hrB
      rw [hd] at hdB
      cases hdB
    exact ⟨rB, (heapRead_write_other _ _ _ _ hne).trans hrB, hTB, hdB, hiB⟩
  · intro B hB
    by_cases hne : A = B
    · exact hne ▸ hdet
    · obtain ⟨rB, hrB, h⟩ := hB
      exact ⟨rB, (heapRead_write_other _ _ _ _ hne).trans hrB, h⟩
  · intro B hB
    rw [hA] at hB
    cases hB
    exact Or.inr hdet

theorem heapRead_free_same {α : Type} (h : List (Option α)) (p : Nat) :
    heapRead (heapFree h p) p = none := by
  unfold heapRead heapFree
  by_cases hp : p < h.length
  · simp [List.getElem?_set, hp]
  · rw [List.getElem?_eq_none (by simpa using hp)]
    rfl

theorem heapRead_free_other {α : Type} (h : List (Option α)) (p q : Nat) (hpq : p ≠ q) :
    heapRead (heapFree h p) q = heapRead h q := by
  unfold heapRead heapFree
  simp [List.getElem?_set, hpq]

/-- One round of the colour-texture loop of `GPU_framebuffer_free`. -/
theorem freeColortexStep_progress (s : GPUState) (T : Nat) (i : Fin 4) (f : GPUFrameBuffer)
    (ok : TableOK s T f) :
    ∃ s' f', freeColortexStep T s i = some s' ∧ FreeProgress T s s' f f' ∧
      f'.colortex i = none := by
  cases hA : f.colortex i with
  | none =>
    exact ⟨s, f, by simp [freeColortexStep, ok.live, hA], freeProgress_refl T s f ok, hA⟩
  | some A =>
    obtain ⟨s', f', h1, h2, h3, -⟩ := texture_detach_color_step s T A i f ok hA
    exact ⟨s', f', by simp [freeColortexStep, ok.live, hA, h1], h2, h3⟩

/-- One round of the colour-renderbuffer loop of `GPU_framebuffer_free`. -/
theorem freeColorrbStep_progress (s : GPUState) (T : Nat) (i : Fin 4) (f : GPUFrameBuffer)
    (ok : TableOK s T f) :
    ∃ s' f', freeColorrbStep T s i = some s' ∧ FreeProgress T s s' f f' ∧
      f'.colorrb i = none := by
  cases hA : f.colorrb i with
  | none =>
    exact ⟨s, f, by simp [freeColorrbStep, ok.live, hA], freeProgress_refl T s f ok, hA⟩
  | some A =>
    obtain ⟨s', f', h1, h2, h3, -⟩ := renderbuffer_detach_color_step s T A i f ok hA
    exact ⟨s', f', by simp [freeColorrbStep, ok.live, hA, h1], h2, h3⟩

/-- The colour-texture loop of `GPU_framebuffer_free` over the slots in `l`. -/
theorem freeColortexLoop_progress (T : Nat) (l : List (Fin 4)) :
    ∀ (s : GPUState) (f : GPUFrameBuffer), TableOK s T f →
      ∃ s' f', l.foldlM (freeColortexStep T) s = some s' ∧ FreeProgress T s s' f f' ∧
        ∀ i ∈ l, f'.colortex i = none := by
  induction l with
  | nil =>
    intro s f ok
    exact ⟨s, f, rfl, freeProgress_refl T s f ok, fun i hi => by cases hi⟩
  | cons i l ih =>
    intro s f ok
    obtain ⟨s1, f1, h1, p1, e1⟩ := freeColortexStep_progress s T i f ok
    obtain ⟨s2, f2, h2, p2, e2⟩ := ih s1 f1 p1.ok
    refine ⟨s2, f2, by simp [List.foldlM_cons, h1, h2], freeProgress_trans T _ _ _ _ _ _ p1 p2, ?_⟩
    intro j hj
    rcases List.mem_cons.mp hj with rfl | hj
    · rcases p2.colortex j with h | h
      · exact h
      · exact h.trans e1
    · exact e2 j hj

/-- The colour-renderbuffer loop of `GPU_framebuffer_free` over the slots in `l`. -/
theorem freeColorrbLoop_progress (T : Nat) (l : List (Fin 4)) :
    ∀ (s : GPUState) (f : GPUFrameBuffer), TableOK s T f →
      ∃ s' f', l.foldlM (freeColorrbStep T) s = some s' ∧ FreeProgress T s s' f f' ∧
        ∀ i ∈ l, f'.colorrb i = none := by
  induction l with
  | nil =>
    intro s f ok
    exact ⟨s, f, rfl, freeProgress_refl T s f ok, fun i hi => by cases hi⟩
  | cons i l ih =>
    intro s f ok
    obtain ⟨s1, f1, h1, p1, e1⟩ := freeColorrbStep_progress s T i f ok
    obtain ⟨s2, f2, h2, p2, e2⟩ := ih s1 f1 p1.ok
    refine ⟨s2, f2, by simp [List.foldlM_cons, h1, h2], freeProgress_trans T _ _ _ _ _ _ p1 p2, ?_⟩
    intro j hj
    rcases List.mem_cons.mp hj with rfl | hj
    · rcases p2.colorrb j with h | h
      · exact h
      · exact h.trans e1
    · exact e2 j hj

/-- The detaching part of `GPU_framebuffer_free` on a consistent framebuffer returns and
leaves all four tables empty. -/
theorem freeDetachAll_progress (s : GPUState) (T : Nat) (f : GPUFrameBuffer)
    (ok : TableOK s T f) :
    ∃ s' f', freeDetachAll T s = some s' ∧ FreeProgress T s s' f f' ∧
      f'.depthtex = none ∧ (∀ i, f'.colortex i = none) ∧
      f'.depthrb = none ∧ (∀ i, f'.colorrb i = none) := by
  -- depth texture
  have step1 : ∃ s1 f1, freeDepthtexStep T s = some s1 ∧ FreeProgress T s s1 f f1 ∧
      f1.depthtex = none := by
    cases hA : f.depthtex with
    | none =>
      exact ⟨s, f, by simp [freeDepthtexStep, ok.live, hA], freeProgress_refl T s f ok, hA⟩
    | some A =>
      obtain ⟨s', f', h1, h2, h3, -⟩ := texture_detach_depth_step s T A f ok hA
      exact ⟨s', f', by simp [freeDepthtexStep, ok.live, hA, h1], h2, h3⟩
  obtain ⟨s1, f1, h1, p1, e1⟩ := step1
  -- colour textures
  obtain ⟨s2, f2, h2, p2, e2⟩ := freeColortexLoop_progress T (List.finRange 4) s1 f1 p1.ok
  -- depth renderbuffer
  have step3 : ∃ s3 f3, freeDepthrbStep T s2 = some s3 ∧ FreeProgress T s2 s3 f2 f3 ∧
      f3.depthrb = none := by
    cases hA : f2.depthrb with
    | none =>
      exact ⟨s2, f2, by simp [freeDepthrbStep, p2.ok.live, hA],
        freeProgress_refl T s2 f2 p2.ok, hA⟩
    | some A =>
      obtain ⟨s', f', h1, h2, h3, -⟩ := renderbuffer_detach_depth_step s2 T A f2 p2.ok hA
      exact ⟨s', f', by simp [freeDepthrbStep, p2.ok.live, hA, h1], h2, h3⟩
  obtain ⟨s3, f3, h3, p3, e3⟩ := step3
  -- colour renderbuffers
  obtain ⟨s4, f4, h4, p4, e4⟩ := freeColorrbLoop_progress T (List.finRange 4) s3 f3 p3.ok
  have p12 := freeProgress_trans T _ _ _ _ _ _ p1 p2
  have p34 := freeProgress_trans T _ _ _ _ _ _ p3 p4
  refine ⟨s4, f4, ?_, freeProgress_trans T _ _ _ _ _ _ p12 p34, ?_, ?_, ?_, ?_⟩
  · unfold freeDetachAll
    simp only [Option.bind_eq_bind, Option.some_bind, h1, h2, h3, h4]
  · rcases p34.depthtex with h | h
    · exact h
    · rw [h]
      rcases p2.depthtex with h' | h'
      · exact h'
      · exact h'.trans e1
  · intro i
    rcases p34.colortex i with h | h
    · exact h
    · exact h.trans (e2 i (List.mem_finRange i))
  · rcases p4.depthrb with h | h
    · exact h
    · exact h.trans e3
  · intro i
    exact e4 i (List.mem_finRange i)

/-- The tail of `GPU_framebuffer_free` (delete the GL object, rebind the default target when
the tracker names the deleted object, release the struct) after the detaching part. -/
theorem framebuffer_free_tail (s s1 : GPUState) (T : Nat) (f1 : GPUFrameBuffer)
    (h1 : freeDetachAll T s = some s1) (hf1 : heapRead s1.fbs T = some f1) :
    ∃ s', GPU_framebuffer_free T s = some s' ∧ s'.texs = s1.texs ∧ s'.rbs = s1.rbs ∧
      s'.fbs = heapFree s1.fbs T ∧
      s'.currentfb = (if f1.object ≠ 0 ∧ s1.currentfb = f1.object then 0 else s1.currentfb) := by
  unfold GPU_framebuffer_free
  simp only [h1, hf1, Option.bind_eq_bind, Option.some_bind]
  by_cases h0 : f1.object = 0
  · exact ⟨_, rfl, by simp [h0], by simp [h0], by simp [h0], by simp [h0]⟩
  · by_cases hc : s1.currentfb = f1.object
    · exact ⟨_, rfl, by simp [h0, hc], by simp [h0, hc], by simp [h0, hc], by simp [h0, hc]⟩
    · exact ⟨_, rfl, by simp [h0, hc], by simp [h0, hc], by simp [h0, hc], by simp [h0, hc]⟩

/-- C7: run from a state where back-references and tables are consistent,
`GPU_framebuffer_free(T)` returns, every texture and renderbuffer that was in the depth or
colour entries of `T` ends with the back-reference `(none, -1)`, the struct of `T` is
released, and if `T` was the globally bound target (`GG.currentfb == fb->object`) the tracker
is `0` afterwards. -/
theorem framebuffer_free_detaches_all (s : GPUState) (T : Nat) (f : GPUFrameBuffer)
    (hc : Consistent s) (hf : heapRead s.fbs T = some f) :
    ∃ s', GPU_framebuffer_free T s = some s' ∧
      (∀ A, f.depthtex = some A → DetachedTex s' A) ∧
      (∀ i A, f.colortex i = some A → DetachedTex s' A) ∧
      (∀ A, f.depthrb = some A → DetachedRb s' A) ∧
      (∀ i A, f.colorrb i = some A → DetachedRb s' A) ∧
      (s.currentfb = f.object → s'.currentfb = 0) ∧
      heapRead s'.fbs T = none := by
  obtain ⟨s1, f1, h1, p, e1, e2, e3, e4⟩ :=
    freeDetachAll_progress s T f (Consistent.tableOK s hc T f hf)
  obtain ⟨s', hs', htex, hrb, hfbs, hcur⟩ := framebuffer_free_tail s s1 T f1 h1 p.ok.live
  have tex_iff : ∀ A, DetachedTex s1 A → DetachedTex s' A := by
    intro A h
    unfold DetachedTex at *
    rw [htex]
    exact h
  have rb_iff : ∀ A, DetachedRb s1 A → DetachedRb s' A := by
    intro A h
    unfold DetachedRb at *
    rw [hrb]
    exact h
  refine ⟨s', hs', ?_, ?_, ?_, ?_, ?_, ?_⟩
  · intro A hA
    rcases p.depthtexDone A hA with h | h
    · rw [e1] at h
      cases h
    · exact tex_iff A h
  · intro i A hA
    rcases p.colortexDone i A hA with h | h
    · rw [e2 i] at h
      cases h
    · exact tex_iff A h
  · intro A hA
    rcases p.depthrbDone A hA with h | h
    · rw [e3] at h
      cases h
    · exact rb_iff A h
  · intro i A hA
    rcases p.colorrbDone i A hA with h | h
    · rw [e4 i] at h
      cases h
    · exact rb_iff A h
  · intro hbound
    have hs1 : s1.currentfb = f1.object := by
      rcases p.tracker with h | h
      · rw [h, hbound, p.object]
      · rw [h, p.object]
    rw [hcur]
    by_cases h0 : f1.object = 0
    · simp [h0, hs1]
    · simp [h0, hs1]
  · rw [hfbs]
    exact heapRead_free_same _ _

/-- Witness of `framebuffer_free_detaches_all`: freeing framebuffer `0` of `attachedState`,
which is the bound target and holds a resource in each of its four tables. -/
theorem framebuffer_free_detaches_all_witness :
    ∃ s', GPU_framebuffer_free 0 attachedState = some s' ∧
      DetachedTex s' 1 ∧ DetachedTex s' 0 ∧ DetachedRb s' 1 ∧ DetachedRb s' 0 ∧
      s'.currentfb = 0 ∧ heapRead s'.fbs 0 = none := by
  obtain ⟨s', h, h1, h2, h3, h4, h5, h6⟩ :=
    framebuffer_free_detaches_all attachedState 0 _ (by decide) rfl
  exact ⟨s', h, h1 1 rfl, h2 2 0 rfl, h3 1 rfl, h4 1 0 rfl, h5 rfl, h6⟩

theorem framebufferStatusName_unknown (status : Nat) (h : status ∉ listedStatusCodes) :
    framebufferStatusName status = "unknown" := by
  simp only [listedStatusCodes, List.mem_cons, List.mem_singleton, not_or, List.not_mem_nil,
    or_false] at h
  obtain ⟨h1, h2, h3, h4, h5, h6, h7, h8⟩ := h
  simp [framebufferStatusName, h1, h2, h3, h4, h5, h6, h7, h8]

/-- The text of the framebuffer status message fits the 256-byte buffer, so `BLI_snprintf`
stores it whole. -/
theorem print_framebuffer_error_text (status : Nat) (err_out : Bool) :
    (GPU_print_framebuffer_error status err_out).text
      = ("GPUFrameBuffer: framebuffer status " ++ framebufferStatusName status).data ∧
    (GPU_print_framebuffer_error status err_out).toErrOut = err_out := by
  cases err_out with
  | false => exact ⟨rfl, rfl⟩
  | true =>
    refine ⟨?_, rfl⟩
    simp only [GPU_print_framebuffer_error, if_true]
    unfold framebufferStatusName
    split_ifs <;> rfl

/-- C9: `GPU_framebuffer_check_valid(T)` on a live framebuffer returns true exactly when the
queried status is `GL_FRAMEBUFFER_COMPLETE`.  On true the tracker is the handle of `T` and no
message is produced; on false the tracker is `0` and the message, delivered to `err_out`
when the caller gave a buffer and to `stderr` otherwise, is
"GPUFrameBuffer: framebuffer status " followed by the status name.  The name is the macro
name for each listed code and "unknown" for every other status code. -/
theorem check_valid_spec (s : GPUState) (T : Nat) (f : GPUFrameBuffer) (err_out : Bool)
    (status : Nat) (hf : heapRead s.fbs T = some f) :
    ∃ ok msg s', GPU_framebuffer_check_valid T err_out status s = some (ok, msg, s') ∧
      (ok = true ↔ status = GL_FRAMEBUFFER_COMPLETE) ∧
      (ok = true → s'.currentfb = f.object ∧ msg = none) ∧
      (ok = false → s'.currentfb = 0 ∧
        ∃ r, msg = some r ∧ r.toErrOut = err_out ∧
          r.text = ("GPUFrameBuffer: framebuffer status "
            ++ framebufferStatusName status).data) ∧
      (status ∉ listedStatusCodes → framebufferStatusName status = "unknown") ∧
      framebufferStatusName GL_FRAMEBUFFER_INCOMPLETE_ATTACHMENT
        = "GL_FRAMEBUFFER_INCOMPLETE_ATTACHMENT" ∧
      framebufferStatusName GL_FRAMEBUFFER_INCOMPLETE_MISSING_ATTACHMENT
        = "GL_FRAMEBUFFER_INCOMPLETE_MISSING_ATTACHMENT" ∧
      framebufferStatusName GL_FRAMEBUFFER_UNSUPPORTED = "GL_FRAMEBUFFER_UNSUPPORTED" ∧
      framebufferStatusName GL_FRAMEBUFFER_INCOMPLETE_DRAW_BUFFER
        = "GL_FRAMEBUFFER_INCOMPLETE_DRAW_BUFFER" ∧
      framebufferStatusName GL_FRAMEBUFFER_INCOMPLETE_READ_BUFFER
        = "GL_FRAMEBUFFER_INCOMPLETE_READ_BUFFER" ∧
      framebufferStatusName GL_FRAMEBUFFER_INCOMPLETE_MULTISAMPLE
        = "GL_FRAMEBUFFER_INCOMPLETE_MULTISAMPLE" ∧
      framebufferStatusName GL_FRAMEBUFFER_UNDEFINED = "GL_FRAMEBUFFER_UNDEFINED" := by
  have names : (status ∉ listedStatusCodes → framebufferStatusName status = "unknown") ∧
      framebufferStatusName GL_FRAMEBUFFER_INCOMPLETE_ATTACHMENT
        = "GL_FRAMEBUFFER_INCOMPLETE_ATTACHMENT" ∧
      framebufferStatusName GL_FRAMEBUFFER_INCOMPLETE_MISSING_ATTACHMENT
        = "GL_FRAMEBUFFER_INCOMPLETE_MISSING_ATTACHMENT" ∧
      framebufferStatusName GL_FRAMEBUFFER_UNSUPPORTED = "GL_FRAMEBUFFER_UNSUPPORTED" ∧
      framebufferStatusName GL_FRAMEBUFFER_INCOMPLETE_DRAW_BUFFER
        = "GL_FRAMEBUFFER_INCOMPLETE_DRAW_BUFFER" ∧
      framebufferStatusName GL_FRAMEBUFFER_INCOMPLETE_READ_BUFFER
        = "GL_FRAMEBUFFER_INCOMPLETE_READ_BUFFER" ∧
      framebufferStatusName GL_FRAMEBUFFER_INCOMPLETE_MULTISAMPLE
        = "GL_FRAMEBUFFER_INCOMPLETE_MULTISAMPLE" ∧
      framebufferStatusName GL_FRAMEBUFFER_UNDEFINED = "GL_FRAMEBUFFER_UNDEFINED" :=
    ⟨framebufferStatusName_unknown status, by decide, by decide, by decide, by decide,
      by decide, by decide, by decide⟩
  by_cases hst : status = GL_FRAMEBUFFER_COMPLETE
  · refine ⟨true, none,
      { s with gl := glBindFramebuffer GL_FRAMEBUFFER f.object s.gl, currentfb := f.object },
      ?_, ?_, ?_, ?_, names⟩
    · simp [GPU_framebuffer_check_valid, hf, hst]
    · simp [hst]
    · intro _
      exact ⟨rfl, rfl⟩
    · intro h
      cases h
  · refine ⟨false, some (GPU_print_framebuffer_error status err_out),
      GPU_framebuffer_restore
        { s with gl := glBindFramebuffer GL_FRAMEBUFFER f.object s.gl, currentfb := f.object },
      ?_, ?_, ?_, ?_, names⟩
    · simp [GPU_framebuffer_check_valid, hf, hst]
    · simp [hst]
    · intro h
      cases h
    · intro _
      refine ⟨?_, _, rfl, (print_framebuffer_error_text status err_out).2,
        (print_framebuffer_error_text status err_out).1⟩
      unfold GPU_framebuffer_restore
      split_ifs with h0
      · rfl
      · simpa using h0

/-- Witness of `check_valid_spec`: framebuffer `0` of the example state, a caller-provided
buffer, and the status code `0`, which is none of the listed codes. -/
theorem check_valid_spec_witness :
    ∃ s', GPU_framebuffer_check_valid 0 true 0 exampleState
        = some (false, some ⟨true, "GPUFrameBuffer: framebuffer status unknown".data⟩, s') ∧
      s'.currentfb = 0 := by
  obtain ⟨ok, msg, s', h, hiff, -, hfalse, hunk, -⟩ :=
    check_valid_spec exampleState 0 (emptyFrameBuffer 7) true 0 rfl
  have hok : ok = false := by
    cases ok with
    | false => rfl
    | true => exact absurd (hiff.mp rfl) (by decide)
  obtain ⟨hcur, r, hmsg, hdest, htext⟩ := hfalse hok
  rw [hunk (by decide)] at htext
  refine ⟨s', ?_, hcur⟩
  rw [h, hok, hmsg]
  obtain ⟨d, t⟩ := r
  simp only at hdest htext
  rw [hdest, htext]
  rfl

/-- C10, the code at the failing inputs.  (1) `attachedState` has framebuffer `7` bound and
tracked; `GPU_framebuffer_create` returns a new framebuffer, leaves the GL binding at `0` and
the tracker at `7`.  (2) With a multisampled offscreen bound and tracked (GL name `1`),
`GPU_offscreen_read_pixels` leaves the GL bindings at `0` and the tracker at `1`. -/
theorem public_operations_desync_tracker :
    (trackerInSync attachedState ∧
      ∃ fb s', GPU_framebuffer_create 9 attachedState = some (some fb, s') ∧
        s'.currentfb = 7 ∧ s'.gl.drawfb = 0 ∧ s'.gl.readfb = 0 ∧ ¬ trackerInSync s') ∧
    (∃ s s', boundOffscreenRun = some s ∧ trackerInSync s ∧
        GPU_offscreen_read_pixels 0 4 5 GL_FRAMEBUFFER_COMPLETE s = some s' ∧
        s'.currentfb = 1 ∧ s'.gl.drawfb = 0 ∧ s'.gl.readfb = 0 ∧ ¬ trackerInSync s') :=
  ⟨⟨by decide, _, _, rfl, rfl, rfl, rfl, by decide⟩,
   ⟨_, _, rfl, by decide, rfl, rfl, rfl, rfl, by decide⟩⟩

theorem heapRead_append_lt {α : Type} (h l : List (Option α)) (p : Nat) (hp : p < h.length) :
    heapRead (h ++ l) p = heapRead h p := by
  unfold heapRead
  rw [List.getElem?_append_left hp]

theorem heapRead_append_length {α : Type} (h : List (Option α)) (x : Option α) :
    heapRead (h ++ [x]) h.length = x := by
  unfold heapRead
  simp

theorem heapWrite_append_lt {α : Type} (h l : List (Option α)) (p : Nat) (v : α)
    (hp : p < h.length) : heapWrite (h ++ l) p v = heapWrite h p v ++ l := by
  unfold heapWrite
  rw [List.set_append_left _ _ hp]

theorem heapWrite_append_length {α : Type} (h : List (Option α)) (x : Option α) (v : α) :
    heapWrite (h ++ [x]) h.length v = h ++ [some v] := by
  unfold heapWrite
  rw [List.set_append_right _ _ (le_refl _)]
  simp

theorem heapFree_append_lt {α : Type} (h l : List (Option α)) (p : Nat)
    (hp : p < h.length) : heapFree (h ++ l) p = heapFree h p ++ l := by
  unfold heapFree
  rw [List.set_append_left _ _ hp]

theorem heapFree_append_length {α : Type} (h : List (Option α)) (x : Option α) :
    heapFree (h ++ [x]) h.length = h ++ [none] := by
  unfold heapFree
  rw [List.set_append_right _ _ (le_refl _)]
  simp

theorem heapRead_append_none_isSome {α : Type} (h : List (Option α)) (p : Nat) :
    (heapRead (h ++ [none]) p).isSome = (heapRead h p).isSome := by
  unfold heapRead
  rcases Nat.lt_trichotomy p h.length with hp | hp | hp
  · rw [List.getElem?_append_left hp]
  · subst hp
    simp
  · rw [List.getElem?_eq_none (by simp; omega), List.getElem?_eq_none (by omega)]

theorem heapAlloc_fst {α : Type} (h : List (Option α)) (v : α) :
    (heapAlloc h v).1 = h.length := rfl

theorem heapAlloc_snd {α : Type} (h : List (Option α)) (v : α) :
    (heapAlloc h v).2 = h ++ [some v] := rfl

theorem finRange_four : List.finRange 4 = [0, 1, 2, 3] := rfl

theorem fresh_filter_cons (l : List Nat) (name : Nat) (h : name ∉ l) :
    (name :: l).filter (fun n => n != name) = l := by
  simp only [List.filter_cons, bne_self_eq_false, Bool.false_eq_true, if_false]
  rw [List.filter_eq_self]
  intro a ha
  simp only [bne_iff_ne, ne_eq]
  rintro rfl
  exact h ha

theorem freeDetachAll_empty (s : GPUState) (T : Nat) (f : GPUFrameBuffer)
    (hf : heapRead s.fbs T = some f) (h1 : f.depthtex = none) (h2 : ∀ i, f.colortex i = none)
    (h3 : f.depthrb = none) (h4 : ∀ i, f.colorrb i = none) :
    freeDetachAll T s = some s := by
  simp [freeDetachAll, freeDepthtexStep, freeDepthrbStep, finRange_four, freeColortexStep,
    freeColorrbStep, hf, h1, h2, h3, h4]

/-- The tail of `GPU_framebuffer_free`, what it does to everything but the tracker. -/
theorem framebuffer_free_tail_names (s s1 : GPUState) (T : Nat) (f1 : GPUFrameBuffer)
    (h1 : freeDetachAll T s = some s1) (hf1 : heapRead s1.fbs T = some f1) :
    ∃ s', GPU_framebuffer_free T s = some s' ∧ s'.texs = s1.texs ∧ s'.rbs = s1.rbs ∧
      s'.ofss = s1.ofss ∧ s'.fbs = heapFree s1.fbs T ∧
      s'.gl.textures = s1.gl.textures ∧ s'.gl.renderbuffers = s1.gl.renderbuffers ∧
      s'.gl.framebuffers = (if f1.object ≠ 0 then
        s1.gl.framebuffers.filter (fun n => n != f1.object) else s1.gl.framebuffers) := by
  unfold GPU_framebuffer_free
  simp only [h1, hf1, Option.bind_eq_bind, Option.some_bind]
  by_cases h0 : f1.object = 0
  · exact ⟨_, rfl, by simp [h0], by simp [h0], by simp [h0], by simp [h0], by simp [h0],
      by simp [h0], by simp [h0]⟩
  · by_cases hc : s1.currentfb = f1.object
    · refine ⟨_, rfl, by simp [h0, hc], by simp [h0, hc], by simp [h0, hc], by simp [h0, hc],
        ?_, ?_, ?_⟩
      · simp [h0, hc, (glBindFramebuffer_names _ _ _).2.1, glDeleteFramebuffers]
      · simp [h0, hc, (glBindFramebuffer_names _ _ _).2.2, glDeleteFramebuffers]
      · simp [h0, hc, (glBindFramebuffer_names _ _ _).1, glDeleteFramebuffers]
    · exact ⟨_, rfl, by simp [h0, hc], by simp [h0, hc], by simp [h0, hc], by simp [h0, hc],
        by simp [h0, hc, glDeleteFramebuffers], by simp [h0, hc, glDeleteFramebuffers],
        by simp [h0, hc, glDeleteFramebuffers]⟩

/-- Summary of `GPU_framebuffer_free` on a framebuffer with consistent tables: it returns,
the struct is released, the GL name is deleted, and textures, renderbuffers and offscreens
keep their skeleton. -/
theorem framebuffer_free_summary (s : GPUState) (T : Nat) (f : GPUFrameBuffer)
    (ok : TableOK s T f) :
    ∃ s', GPU_framebuffer_free T s = some s' ∧ s'.ofss = s.ofss ∧
      s'.gl.textures = s.gl.textures ∧ s'.gl.renderbuffers = s.gl.renderbuffers ∧
      (∀ p, (heapRead s'.texs p).map (fun t => t.bindcode)
        = (heapRead s.texs p).map (fun t => t.bindcode)) ∧
      (∀ p, (heapRead s'.rbs p).map (fun r => r.bindcode)
        = (heapRead s.rbs p).map (fun r => r.bindcode)) ∧
      heapRead s'.fbs T = none ∧
      (∀ p, p ≠ T → (heapRead s'.fbs p).isSome = (heapRead s.fbs p).isSome) ∧
      (∀ n, n ∈ s'.gl.framebuffers ↔ n ∈ s.gl.framebuffers ∧ ¬ (n ≠ 0 ∧ f.object = n)) := by
  obtain ⟨s1, f1, h1, p, -⟩ := freeDetachAll_progress s T f ok
  obtain ⟨s', hs', htex, hrb, hofs, hfbs, hgt, hgr, hgf⟩ :=
    framebuffer_free_tail_names s s1 T f1 h1 p.ok.live
  refine ⟨s', hs', hofs.trans p.skel.ofss, hgt.trans p.skel.gltex, hgr.trans p.skel.glrb,
    ?_, ?_, ?_, ?_, ?_⟩
  · intro q
    rw [htex]
    exact p.skel.texs q
  · intro q
    rw [hrb]
    exact p.skel.rbs q
  · rw [hfbs]
    exact heapRead_free_same _ _
  · intro q hq
    rw [hfbs, heapRead_free_other _ _ _ (Ne.symm hq)]
    have := congrArg Option.isSome (p.skel.fbs q)
    simpa using this
  · intro n
    rw [hgf, p.object, p.skel.glfb]
    by_cases h0 : f.object = 0
    · simp only [h0, ne_eq, not_true_eq_false, if_false]
      constructor
      · intro hn
        exact ⟨hn, fun h => h.1 h.2.symm⟩
      · intro hn
        exact hn.1
    · simp only [ne_eq, h0, not_false_eq_true, if_true, List.mem_filter, bne_iff_ne]
      constructor
      · rintro ⟨hn, hne⟩
        exact ⟨hn, fun h => hne h.2.symm⟩
      · rintro ⟨hn, hne⟩
        refine ⟨hn, fun h => hne ⟨?_, h.symm⟩⟩
        rw [h]
        exact h0

theorem mem_filter_bne (l : List Nat) (name n : Nat) :
    n ∈ l.filter (fun m => m != name) ↔ n ∈ l ∧ n ≠ name := by
  simp [List.mem_filter]

/-- The optional framebuffer free of `GPU_offscreen_free`. -/
theorem freeFbIfSet_spec (s : GPUState) (x : Option Nat)
    (hx : ∀ F, x = some F → ∃ f, TableOK s F f) :
    ∃ s', freeFbIfSet x s = some s' ∧ s'.ofss = s.ofss ∧
      s'.gl.textures = s.gl.textures ∧ s'.gl.renderbuffers = s.gl.renderbuffers ∧
      (∀ p, (heapRead s'.texs p).map (fun t => t.bindcode)
        = (heapRead s.texs p).map (fun t => t.bindcode)) ∧
      (∀ p, (heapRead s'.rbs p).map (fun r => r.bindcode)
        = (heapRead s.rbs p).map (fun r => r.bindcode)) ∧
      (∀ p, (heapRead s'.fbs p).isSome = true ↔
        x ≠ some p ∧ (heapRead s.fbs p).isSome = true) ∧
      (∀ n, n ∈ s'.gl.framebuffers ↔ n ∈ s.gl.framebuffers ∧
        ¬ (n ≠ 0 ∧ ∃ F f, x = some F ∧ heapRead s.fbs F = some f ∧ f.object = n)) := by
  cases x with
  | none =>
    refine ⟨s, rfl, rfl, rfl, rfl, fun _ => rfl, fun _ => rfl, fun p => by simp, fun n => ?_⟩
    simp
  | some F =>
    obtain ⟨f, ok⟩ := hx F rfl
    obtain ⟨s', h, h1, h2, h3, h4, h5, h6, h7, h8⟩ := framebuffer_free_summary s F f ok
    refine ⟨s', h, h1, h2, h3, h4, h5, ?_, ?_⟩
    · intro p
      by_cases hp : p = F
      · subst hp
        simp [h6]
      · rw [h7 p hp]
        constructor
        · intro hl
          exact ⟨fun hc => hp (Option.some.inj hc).symm, hl⟩
        · intro hl
          exact hl.2
    · intro n
      rw [h8 n]
      constructor
      · rintro ⟨hn, hne⟩
        refine ⟨hn, ?_⟩
        rintro ⟨h0, F', f', hF, hf', hobj⟩
        cases hF
        rw [ok.live] at hf'
        cases hf'
        exact hne ⟨h0, hobj⟩
      · rintro ⟨hn, hne⟩
        exact ⟨hn, fun h => hne ⟨h.1, F, f, rfl, ok.live, h.2⟩⟩

/-- The optional texture free of `GPU_offscreen_free`. -/
theorem freeTexIfSet_spec (s : GPUState) (x : Option Nat)
    (hx : ∀ c, x = some c → ∃ t, heapRead s.texs c = some t) :
    ∃ s', freeTexIfSet x s = some s' ∧ s'.ofss = s.ofss ∧ s'.fbs = s.fbs ∧ s'.rbs = s.rbs ∧
      s'.gl.framebuffers = s.gl.framebuffers ∧ s'.gl.renderbuffers = s.gl.renderbuffers ∧
      (∀ p, heapRead s'.texs p = if x = some p then none else heapRead s.texs p) ∧
      (∀ n, n ∈ s'.gl.textures ↔ n ∈ s.gl.textures ∧
        ¬ (n ≠ 0 ∧ ∃ c t, x = some c ∧ heapRead s.texs c = some t ∧ t.bindcode = n)) := by
  cases x with
  | none =>
    refine ⟨s, rfl, rfl, rfl, rfl, rfl, rfl, fun p => by simp, fun n => by simp⟩
  | some c =>
    obtain ⟨t, ht⟩ := hx c rfl
    refine ⟨{ s with
        gl := if t.bindcode ≠ 0 then glDeleteTextures t.bindcode s.gl else s.gl
        texs := heapFree s.texs c },
      by simp [freeTexIfSet, GPU_texture_free, ht], rfl, rfl, rfl, ?_, ?_, ?_, ?_⟩
    · show (if t.bindcode ≠ 0 then glDeleteTextures t.bindcode s.gl else s.gl).framebuffers = _
      split_ifs <;> rfl
    · show (if t.bindcode ≠ 0 then glDeleteTextures t.bindcode s.gl else s.gl).renderbuffers = _
      split_ifs <;> rfl
    · intro p
      show heapRead (heapFree s.texs c) p = _
      by_cases hp : c = p
      · subst hp
        simp [heapRead_free_same]
      · rw [heapRead_free_other _ _ _ hp]
        simp [hp]
    · intro n
      show n ∈ (if t.bindcode ≠ 0 then glDeleteTextures t.bindcode s.gl else s.gl).textures ↔ _
      by_cases h0 : t.bindcode = 0
      · simp only [h0, ne_eq, not_true_eq_false, if_false]
        constructor
        · intro hn
          refine ⟨hn, ?_⟩
          rintro ⟨hn0, c', t', hc, ht', hb⟩
          cases hc
          rw [ht] at ht'
          cases ht'
          exact hn0 (hb.symm.trans h0)
        · intro hn
          exact hn.1
      · simp only [ne_eq, h0, not_false_eq_true, if_true, glDeleteTextures, mem_filter_bne]
        constructor
        · rintro ⟨hn, hne⟩
          refine ⟨hn, ?_⟩
          rintro ⟨-, c', t', hc, ht', hb⟩
          cases hc
          rw [ht] at ht'
          cases ht'
          exact hne hb.symm
        · rintro ⟨hn, hne⟩
          refine ⟨hn, fun h => hne ⟨?_, c, t, rfl, ht, h.symm⟩⟩
          rw [h]
          exact h0

/-- The optional renderbuffer free of `GPU_offscreen_free`. -/
theorem freeRbIfSet_spec (s : GPUState) (x : Option Nat)
    (hx : ∀ c, x = some c → ∃ r, heapRead s.rbs c = some r) :
    ∃ s', freeRbIfSet x s = some s' ∧ s'.ofss = s.ofss ∧ s'.fbs = s.fbs ∧ s'.texs = s.texs ∧
      s'.gl.framebuffers = s.gl.framebuffers ∧ s'.gl.textures = s.gl.textures ∧
      (∀ p, heapRead s'.rbs p = if x = some p then none else heapRead s.rbs p) ∧
      (∀ n, n ∈ s'.gl.renderbuffers ↔ n ∈ s.gl.renderbuffers ∧
        ¬ (n ≠ 0 ∧ ∃ c r, x = some c ∧ heapRead s.rbs c = some r ∧ r.bindcode = n)) := by
  cases x with
  | none =>
    refine ⟨s, rfl, rfl, rfl, rfl, rfl, rfl, fun p => by simp, fun n => by simp⟩
  | some c =>
    obtain ⟨r, hr⟩ := hx c rfl
    refine ⟨{ s with
        gl := if r.bindcode ≠ 0 then glDeleteRenderbuffers r.bindcode s.gl else s.gl
        rbs := heapFree s.rbs c },
      by simp [freeRbIfSet, GPU_renderbuffer_free, hr], rfl, rfl, rfl, ?_, ?_, ?_, ?_⟩
    · show (if r.bindcode ≠ 0 then glDeleteRenderbuffers r.bindcode s.gl
        else s.gl).framebuffers = _
      split_ifs <;> rfl
    · show (if r.bindcode ≠ 0 then glDeleteRenderbuffers r.bindcode s.gl
        else s.gl).textures = _
      split_ifs <;> rfl
    · intro p
      show heapRead (heapFree s.rbs c) p = _
      by_cases hp : c = p
      · subst hp
        simp [heapRead_free_same]
      · rw [heapRead_free_other _ _ _ hp]
        simp [hp]
    · intro n
      show n ∈ (if r.bindcode ≠ 0 then glDeleteRenderbuffers r.bindcode s.gl
        else s.gl).renderbuffers ↔ _
      by_cases h0 : r.bindcode = 0
      · simp only [h0, ne_eq, not_true_eq_false, if_false]
        constructor
        · intro hn
          refine ⟨hn, ?_⟩
          rintro ⟨hn0, c', r', hc, hr', hb⟩
          cases hc
          rw [hr] at hr'
          cases hr'
          exact hn0 (hb.symm.trans h0)
        · intro hn
          exact hn.1
      · simp only [ne_eq, h0, not_false_eq_true, if_true, glDeleteRenderbuffers,
          mem_filter_bne]
        constructor
        · rintro ⟨hn, hne⟩
          refine ⟨hn, ?_⟩
          rintro ⟨-, c', r', hc, hr', hb⟩
          cases hc
          rw [hr] at hr'
          cases hr'
          exact hne hb.symm
        · rintro ⟨hn, hne⟩
          refine ⟨hn, fun h => hne ⟨?_, c, r, rfl, hr, h.symm⟩⟩
          rw [h]
          exact h0

theorem exists_read_iff_map {α : Type} (o : Option α) (g : α → Nat) (n : Nat) :
    (∃ t, o = some t ∧ g t = n) ↔ o.map g = some n := by
  cases o <;> simp

theorem isSome_of_map_eq {α : Type} (o o' : Option α) (g : α → Nat)
    (h : o'.map g = o.map g) : o'.isSome = o.isSome := by
  have := congrArg Option.isSome h
  simpa using this

/-- What `GPU_offscreen_free` does to the sets of live resources, when the framebuffer of the
offscreen has consistent tables and its textures and renderbuffers are live and distinct:
exactly the offscreen struct and the resources it owns die. -/
theorem offscreen_free_spec (s : GPUState) (P : Nat) (o : GPUOffScreen)
    (ho : heapRead s.ofss P = some o)
    (hfb : ∀ F, o.fb = some F → ∃ f, TableOK s F f)
    (hcol : ∀ c, o.color = some c → ∃ t, heapRead s.texs c = some t)
    (hdep : ∀ c, o.depth = some c → ∃ t, heapRead s.texs c = some t)
    (hcd : ∀ c, o.color = some c → o.depth ≠ some c)
    (hrc : ∀ c, o.rbcolor = some c → ∃ r, heapRead s.rbs c = some r)
    (hrd : ∀ c, o.rbdepth = some c → ∃ r, heapRead s.rbs c = some r)
    (hrcd : ∀ c, o.rbcolor = some c → o.rbdepth ≠ some c) :
    ∃ s', GPU_offscreen_free P s = some s' ∧
      (∀ p, heapRead s'.ofss p = if P = p then none else heapRead s.ofss p) ∧
      (∀ p, (heapRead s'.fbs p).isSome = true ↔
        o.fb ≠ some p ∧ (heapRead s.fbs p).isSome = true) ∧
      (∀ p, (heapRead s'.texs p).isSome = true ↔
        o.color ≠ some p ∧ o.depth ≠ some p ∧ (heapRead s.texs p).isSome = true) ∧
      (∀ p, (heapRead s'.rbs p).isSome = true ↔
        o.rbcolor ≠ some p ∧ o.rbdepth ≠ some p ∧ (heapRead s.rbs p).isSome = true) ∧
      (∀ n, n ∈ s'.gl.framebuffers ↔ n ∈ s.gl.framebuffers ∧ ¬ ownsFbName s o n) ∧
      (∀ n, n ∈ s'.gl.textures ↔ n ∈ s.gl.textures ∧ ¬ ownsTexName s o n) ∧
      (∀ n, n ∈ s'.gl.renderbuffers ↔ n ∈ s.gl.renderbuffers ∧ ¬ ownsRbName s o n) := by
  -- framebuffer
  obtain ⟨s1, e1, a1, a2, a3, a4, a5, a6, a7⟩ := freeFbIfSet_spec s o.fb hfb
  -- colour texture
  have hcol1 : ∀ c, o.color = some c → ∃ t, heapRead s1.texs c = some t := by
    intro c hc
    obtain ⟨t, ht⟩ := hcol c hc
    have h := a4 c
    rw [ht] at h
    cases h1 : heapRead s1.texs c with
    | none => simp [h1] at h
    | some t1 => exact ⟨t1, rfl⟩
  obtain ⟨s2, e2, b1, b2, b3, b4, b5, b6, b7⟩ := freeTexIfSet_spec s1 o.color hcol1
  -- depth texture
  have hdep2 : ∀ c, o.depth = some c → ∃ t, heapRead s2.texs c = some t := by
    intro c hc
    obtain ⟨t, ht⟩ := hdep c hc
    have hne : o.color ≠ some c := fun h => hcd c h hc
    rw [b6 c, if_neg hne]
    have h := a4 c
    rw [ht] at h
    cases h1 : heapRead s1.texs c with
    | none => simp [h1] at h
    | some t1 => exact ⟨t1, rfl⟩
  obtain ⟨s3, e3, c1, c2, c3, c4, c5, c6, c7⟩ := freeTexIfSet_spec s2 o.depth hdep2
  -- colour renderbuffer
  have hrbs3 : s3.rbs = s1.rbs := c3.trans b3
  have hrc3 : ∀ c, o.rbcolor = some c → ∃ r, heapRead s3.rbs c = some r := by
    intro c hc
    obtain ⟨r, hr⟩ := hrc c hc
    have h := a5 c
    rw [hr] at h
    rw [hrbs3]
    cases h1 : heapRead s1.rbs c with
    | none => simp [h1] at h
    | some r1 => exact ⟨r1, rfl⟩
  obtain ⟨s4, e4, d1, d2, d3, d4, d5, d6, d7⟩ := freeRbIfSet_spec s3 o.rbcolor hrc3
  -- depth renderbuffer
  have hrd4 : ∀ c, o.rbdepth = some c → ∃ r, heapRead s4.rbs c = some r := by
    intro c hc
    obtain ⟨r, hr⟩ := hrd c hc
    have hne : o.rbcolor ≠ some c := fun h => hrcd c h hc
    rw [d6 c, if_neg hne, hrbs3]
    have h := a5 c
    rw [hr] at h
    cases h1 : heapRead s1.rbs c with
    | none => simp [h1] at h
    | some r1 => exact ⟨r1, rfl⟩
  obtain ⟨s5, e5, f1, f2, f3, f4, f5, f6, f7⟩ := freeRbIfSet_spec s4 o.rbdepth hrd4
  have hofss : s5.ofss = s.ofss := f1.trans (d1.trans (c1.trans (b1.trans a1)))
  refine ⟨{ s5 with ofss := heapFree s5.ofss P }, ?_, ?_, ?_, ?_, ?_, ?_, ?_, ?_⟩
  · simp only [GPU_offscreen_free, ho, Option.bind_eq_bind, Option.some_bind, e1, e2, e3, e4,
      e5]
  · intro p
    show heapRead (heapFree s5.ofss P) p = _
    rw [hofss]
    by_cases hp : P = p
    · subst hp
      simp [heapRead_free_same]
    · rw [heapRead_free_other _ _ _ hp]
      simp [hp]
  · intro p
    show (heapRead s5.fbs p).isSome = true ↔ _
    rw [f2, d2, c2, b2]
    exact a6 p
  · intro p
    show (heapRead s5.texs p).isSome = true ↔ _
    rw [f3, d3, c6 p, b6 p]
    have h := isSome_of_map_eq _ _ _ (a4 p)
    by_cases hd : o.depth = some p
    · simp [hd]
    · by_cases hc : o.color = some p
      · simp [hc]
      · simp [hd, hc, h]
  · intro p
    show (heapRead s5.rbs p).isSome = true ↔ _
    rw [f6 p, d6 p, hrbs3]
    have h := isSome_of_map_eq _ _ _ (a5 p)
    by_cases hd : o.rbdepth = some p
    · simp [hd]
    · by_cases hc : o.rbcolor = some p
      · simp [hc]
      · simp [hd, hc, h]
  · intro n
    show n ∈ s5.gl.framebuffers ↔ _
    rw [f4, d4, c4, b4, a7 n]
    rfl
  · intro n
    show n ∈ s5.gl.textures ↔ _
    rw [f5, d5, c7 n, b7 n, a2]
    unfold ownsTexName
    constructor
    · rintro ⟨⟨hn, hA⟩, hB⟩
      refine ⟨hn, ?_⟩
      rintro ⟨h0, p, t, hp | hp, ht, hb⟩
      · apply hA
        have h := a4 p
        rw [ht] at h
        cases h1 : heapRead s1.texs p with
        | none => simp [h1] at h
        | some t1 =>
          rw [h1] at h
          simp only [Option.map_some', Option.some.injEq] at h
          exact ⟨h0, p, t1, hp, h1, h.trans hb⟩
      · apply hB
        have hne : o.color ≠ some p := fun h => hcd p h hp
        have h := a4 p
        rw [ht] at h
        cases h1 : heapRead s1.texs p with
        | none => simp [h1] at h
        | some t1 =>
          rw [h1] at h
          simp only [Option.map_some', Option.some.injEq] at h
          refine ⟨h0, p, t1, hp, ?_, h.trans hb⟩
          rw [b6 p, if_neg hne, h1]
    · rintro ⟨hn, hO⟩
      refine ⟨⟨hn, ?_⟩, ?_⟩
      · rintro ⟨h0, p, t1, hp, ht1, hb⟩
        apply hO
        have h := a4 p
        rw [ht1] at h
        cases h2 : heapRead s.texs p with
        | none => simp [h2] at h
        | some t =>
          rw [h2] at h
          simp only [Option.map_some', Option.some.injEq] at h
          exact ⟨h0, p, t, Or.inl hp, h2, h.symm.trans hb⟩
      · rintro ⟨h0, p, t1, hp, ht1, hb⟩
        apply hO
        have hne : o.color ≠ some p := fun h => hcd p h hp
        rw [b6 p, if_neg hne] at ht1
        have h := a4 p
        rw [ht1] at h
        cases h2 : heapRead s.texs p with
        | none => simp [h2] at h
        | some t =>
          rw [h2] at h
          simp only [Option.map_some', Option.some.injEq] at h
          exact ⟨h0, p, t, Or.inr hp, h2, h.symm.trans hb⟩
  · intro n
    show n ∈ s5.gl.renderbuffers ↔ _
    rw [f7 n, d7 n, c5, b5, a3]
    unfold ownsRbName
    constructor
    · rintro ⟨⟨hn, hA⟩, hB⟩
      refine ⟨hn, ?_⟩
      rintro ⟨h0, p, r, hp | hp, hr, hb⟩
      · apply hA
        have h := a5 p
        rw [hr] at h
        cases h1 : heapRead s1.rbs p with
        | none => simp [h1] at h
        | some r1 =>
          rw [h1] at h
          simp only [Option.map_some', Option.some.injEq] at h
          refine ⟨h0, p, r1, hp, ?_, h.trans hb⟩
          rw [hrbs3, h1]
      · apply hB
        have hne : o.rbcolor ≠ some p := fun h => hrcd p h hp
        have h := a5 p
        rw [hr] at h
        cases h1 : heapRead s1.rbs p with
        | none => simp [h1] at h
        | some r1 =>
          rw [h1] at h
          simp only [Option.map_some', Option.some.injEq] at h
          refine ⟨h0, p, r1, hp, ?_, h.trans hb⟩
          rw [d6 p, if_neg hne, hrbs3, h1]
    · rintro ⟨hn, hO⟩
      refine ⟨⟨hn, ?_⟩, ?_⟩
      · rintro ⟨h0, p, r1, hp, hr1, hb⟩
        apply hO
        rw [hrbs3] at hr1
        have h := a5 p
        rw [hr1] at h
        cases h2 : heapRead s.rbs p with
        | none => simp [h2] at h
        | some r =>
          rw [h2] at h
          simp only [Option.map_some', Option.some.injEq] at h
          exact ⟨h0, p, r, Or.inl hp, h2, h.symm.trans hb⟩
      · rintro ⟨h0, p, r1, hp, hr1, hb⟩
        apply hO
        have hne : o.rbcolor ≠ some p := fun h => hrcd p h hp
        rw [d6 p, if_neg hne, hrbs3] at hr1
        have h := a5 p
        rw [hr1] at h
        cases h2 : heapRead s.rbs p with
        | none => simp [h2] at h
        | some r =>
          rw [h2] at h
          simp only [Option.map_some', Option.some.injEq] at h
          exact ⟨h0, p, r, Or.inr hp, h2, h.symm.trans hb⟩

theorem heapRead_append_ne {α : Type} (h : List (Option α)) (x : Option α) (p : Nat)
    (hp : p ≠ h.length) : heapRead (h ++ [x]) p = heapRead h p := by
  rcases Nat.lt_or_gt_of_ne hp with hlt | hgt
  · exact heapRead_append_lt h [x] p hlt
  · unfold heapRead
    rw [List.getElem?_eq_none (by simp; omega), List.getElem?_eq_none (by omega)]

theorem heapRead_length {α : Type} (h : List (Option α)) : heapRead h h.length = none := by
  unfold heapRead
  rw [List.getElem?_eq_none (le_refl _)]
  rfl

theorem heapRead_ge {α : Type} (h : List (Option α)) (p : Nat) (hp : h.length ≤ p) :
    heapRead h p = none := by
  unfold heapRead
  rw [List.getElem?_eq_none hp]
  rfl

theorem isSome_eq_of_iff (a b : Bool) (h : a = true ↔ b = true) : a = b := by
  cases a <;> cases b <;> simp at h ⊢

/-- The failure exit of `GPU_offscreen_create`, taken while the invariant holds, returns no
object and leaves the sets of live resources as they were at entry. -/
theorem Building.abort (s S : GPUState) (P : Nat) (o : GPUOffScreen) (b : Building s S P o) :
    ∃ s', offscreenAbort P S = some (none, s') ∧ SameLive s s' := by
  have ho : heapRead S.ofss P = some o := by
    rw [b.ofs, b.ptr]
    exact heapRead_append_length _ _
  have hlive : ∀ (h : List (Option GPUTexture)) p, (heapRead h p).isSome = true →
      ∃ t, heapRead h p = some t := by
    intro h p hp
    cases hr : heapRead h p with
    | none => simp [hr] at hp
    | some t => exact ⟨t, rfl⟩
  have hliveRb : ∀ (h : List (Option GPURenderBuffer)) p, (heapRead h p).isSome = true →
      ∃ t, heapRead h p = some t := by
    intro h p hp
    cases hr : heapRead h p with
    | none => simp [hr] at hp
    | some t => exact ⟨t, rfl⟩
  obtain ⟨s', hs', g1, g2, g3, g4, g5, g6, g7⟩ := offscreen_free_spec S P o ho b.table
    (fun c hc => hlive _ c ((b.texs c).mpr (Or.inr (Or.inl hc))))
    (fun c hc => hlive _ c ((b.texs c).mpr (Or.inr (Or.inr hc))))
    b.texDistinct
    (fun c hc => hliveRb _ c ((b.rbs c).mpr (Or.inr (Or.inl hc))))
    (fun c hc => hliveRb _ c ((b.rbs c).mpr (Or.inr (Or.inr hc))))
    b.rbDistinct
  refine ⟨s', by simp [offscreenAbort, hs'], ?_, ?_, ?_, ?_, ?_, ?_, ?_⟩
  · intro p
    apply isSome_eq_of_iff
    rw [g2 p, b.fbs p]
    constructor
    · rintro ⟨hne, h | h⟩
      · exact h
      · exact absurd h hne
    · intro h
      refine ⟨fun hc => ?_, Or.inl h⟩
      rw [b.fbFresh p hc] at h
      simp at h
  · intro p
    apply isSome_eq_of_iff
    rw [g3 p, b.texs p]
    constructor
    · rintro ⟨hc, hd, h | h | h⟩
      · exact h
      · exact absurd h hc
      · exact absurd h hd
    · intro h
      refine ⟨fun hc => ?_, fun hc => ?_, Or.inl h⟩
      · rw [b.texFresh p (Or.inl hc)] at h
        simp at h
      · rw [b.texFresh p (Or.inr hc)] at h
        simp at h
  · intro p
    apply isSome_eq_of_iff
    rw [g4 p, b.rbs p]
    constructor
    · rintro ⟨hc, hd, h | h | h⟩
      · exact h
      · exact absurd h hc
      · exact absurd h hd
    · intro h
      refine ⟨fun hc => ?_, fun hc => ?_, Or.inl h⟩
      · rw [b.rbFresh p (Or.inl hc)] at h
        simp at h
      · rw [b.rbFresh p (Or.inr hc)] at h
        simp at h
  · intro p
    rw [g1 p, b.ofs]
    by_cases hp : P = p
    · subst hp
      rw [if_pos rfl, b.ptr, heapRead_length]
    · rw [if_neg hp, heapRead_append_ne _ _ _ (fun h => hp (b.ptr.trans h.symm))]
  · intro n
    rw [g5 n, b.glfb n]
    constructor
    · rintro ⟨h | h, hne⟩
      · exact h
      · exact absurd h hne
    · intro h
      exact ⟨Or.inl h, fun hc => b.fbNameFresh n hc h⟩
  · intro n
    rw [g6 n, b.gltex n]
    constructor
    · rintro ⟨h | h, hne⟩
      · exact h
      · exact absurd h hne
    · intro h
      exact ⟨Or.inl h, fun hc => b.texNameFresh n hc h⟩
  · intro n
    rw [g7 n, b.glrb n]
    constructor
    · rintro ⟨h | h, hne⟩
      · exact h
      · exact absurd h hne
    · intro h
      exact ⟨Or.inl h, fun hc => b.rbNameFresh n hc h⟩

theorem heapRead_append_some {α : Type} (h : List (Option α)) (x : Option α) (p : Nat) (v : α)
    (hp : heapRead h p = some v) : heapRead (h ++ [x]) p = some v := by
  rw [heapRead_append_lt h [x] p (heapRead_lt h p v hp)]
  exact hp

/-- Tables stay consistent when a fresh colour texture is allocated and attached. -/
theorem TableOK.attach_tex_color (s s' : GPUState) (T : Nat) (f : GPUFrameBuffer) (i : Fin 4)
    (t' : GPUTexture) (ok : TableOK s T f)
    (h1 : s'.fbs = heapWrite s.fbs T { f with colortex := setSlot f.colortex i (some s.texs.length) })
    (h2 : s'.texs = s.texs ++ [some t']) (h3 : s'.rbs = s.rbs)
    (hfb : t'.fb = some T) (hd : t'.depth = false) (hi : slotIdx t'.fb_attachment = some i) :
    TableOK s' T { f with colortex := setSlot f.colortex i (some s.texs.length) } := by
  refine ⟨?_, ?_, ?_, ?_, ?_⟩
  · rw [h1]; exact heapRead_write_same _ _ _ _ ok.live
  · intro B hB
    obtain ⟨tB, htB, h⟩ := ok.depthtex B hB
    exact ⟨tB, by rw [h2]; exact heapRead_append_some _ _ _ _ htB, h⟩
  · intro j B hB
    by_cases hj : j = i
    · subst hj
      simp only [setSlot, if_true, Option.some.injEq] at hB
      subst hB
      exact ⟨t', by rw [h2]; exact heapRead_append_length _ _, hfb, hd, hi⟩
    · simp only [setSlot, hj, if_false] at hB
      obtain ⟨tB, htB, h⟩ := ok.colortex j B hB
      exact ⟨tB, by rw [h2]; exact heapRead_append_some _ _ _ _ htB, h⟩
  · rw [h3]; exact ok.depthrb
  · rw [h3]; exact ok.colorrb

/-- Tables stay consistent when a fresh depth texture is allocated and attached. -/
theorem TableOK.attach_tex_depth (s s' : GPUState) (T : Nat) (f : GPUFrameBuffer)
    (t' : GPUTexture) (ok : TableOK s T f)
    (h1 : s'.fbs = heapWrite s.fbs T { f with depthtex := some s.texs.length })
    (h2 : s'.texs = s.texs ++ [some t']) (h3 : s'.rbs = s.rbs)
    (hfb : t'.fb = some T) (hd : t'.depth = true) :
    TableOK s' T { f with depthtex := some s.texs.length } := by
  refine ⟨?_, ?_, ?_, ?_, ?_⟩
  · rw [h1]; exact heapRead_write_same _ _ _ _ ok.live
  · intro B hB
    simp only [Option.some.injEq] at hB
    subst hB
    exact ⟨t', by rw [h2]; exact heapRead_append_length _ _, hfb, hd⟩
  · intro j B hB
    obtain ⟨tB, htB, h⟩ := ok.colortex j B hB
    exact ⟨tB, by rw [h2]; exact heapRead_append_some _ _ _ _ htB, h⟩
  · rw [h3]; exact ok.depthrb
  · rw [h3]; exact ok.colorrb

/-- Tables stay consistent when a fresh colour renderbuffer is allocated and attached. -/
theorem TableOK.attach_rb_color (s s' : GPUState) (T : Nat) (f : GPUFrameBuffer) (i : Fin 4)
    (r' : GPURenderBuffer) (ok : TableOK s T f)
    (h1 : s'.fbs = heapWrite s.fbs T { f with colorrb := setSlot f.colorrb i (some s.rbs.length) })
    (h2 : s'.rbs = s.rbs ++ [some r']) (h3 : s'.texs = s.texs)
    (hfb : r'.fb = some T) (hd : r'.depth = false) (hi : slotIdx r'.fb_attachment = some i) :
    TableOK s' T { f with colorrb := setSlot f.colorrb i (some s.rbs.length) } := by
  refine ⟨?_, ?_, ?_, ?_, ?_⟩
  · rw [h1]; exact heapRead_write_same _ _ _ _ ok.live
  · rw [h3]; exact ok.depthtex
  · rw [h3]; exact ok.colortex
  · intro B hB
    obtain ⟨rB, hrB, h⟩ := ok.depthrb B hB
    exact ⟨rB, by rw [h2]; exact heapRead_append_some _ _ _ _ hrB, h⟩
  · intro j B hB
    by_cases hj : j = i
    · subst hj
      simp only [setSlot, if_true, Option.some.injEq] at hB
      subst hB
      exact ⟨r', by rw [h2]; exact heapRead_append_length _ _, hfb, hd, hi⟩
    · simp only [setSlot, hj, if_false] at hB
      obtain ⟨rB, hrB, h⟩ := ok.colorrb j B hB
      exact ⟨rB, by rw [h2]; exact heapRead_append_some _ _ _ _ hrB, h⟩

/-- Tables stay consistent when a fresh depth renderbuffer is allocated and attached. -/
theorem TableOK.attach_rb_depth (s s' : GPUState) (T : Nat) (f : GPUFrameBuffer)
    (r' : GPURenderBuffer) (ok : TableOK s T f)
    (h1 : s'.fbs = heapWrite s.fbs T { f with depthrb := some s.rbs.length })
    (h2 : s'.rbs = s.rbs ++ [some r']) (h3 : s'.texs = s.texs)
    (hfb : r'.fb = some T) (hd : r'.depth = true) :
    TableOK s' T { f with depthrb := some s.rbs.length } := by
  refine ⟨?_, ?_, ?_, ?_, ?_⟩
  · rw [h1]; exact heapRead_write_same _ _ _ _ ok.live
  · rw [h3]; exact ok.depthtex
  · rw [h3]; exact ok.colortex
  · intro B hB
    simp only [Option.some.injEq] at hB
    subst hB
    exact ⟨r', by rw [h2]; exact heapRead_append_length _ _, hfb, hd⟩
  · intro j B hB
    obtain ⟨rB, hrB, h⟩ := ok.colorrb j B hB
    exact ⟨rB, by rw [h2]; exact heapRead_append_some _ _ _ _ hrB, h⟩

theorem heapRead_append_none {α : Type} (h : List (Option α)) (p : Nat) :
    heapRead (h ++ [none]) p = heapRead h p := by
  by_cases hp : p = h.length
  · subst hp
    rw [heapRead_append_length, heapRead_length]
  · exact heapRead_append_ne h none p hp

theorem heapRead_write_isSome {α : Type} (h : List (Option α)) (p : Nat) (v w : α)
    (hp : heapRead h p = some w) (q : Nat) :
    (heapRead (heapWrite h p v) q).isSome = (heapRead h q).isSome := by
  by_cases hq : p = q
  · subst hq
    rw [heapRead_write_same h p v w hp, hp]
    rfl
  · rw [heapRead_write_other h p q v hq]

theorem heapRead_append_isSome {α : Type} (h : List (Option α)) (v : α) (p : Nat) :
    (heapRead (h ++ [some v]) p).isSome = true ↔
      (heapRead h p).isSome = true ∨ p = h.length := by
  by_cases hp : p = h.length
  · subst hp
    simp [heapRead_append_length]
  · rw [heapRead_append_ne h _ p hp]
    simp [hp]

theorem TableOK.congr_reads (s s' : GPUState) (T : Nat) (f : GPUFrameBuffer)
    (ok : TableOK s T f) (h1 : s'.fbs = s.fbs) (h2 : s'.texs = s.texs)
    (h3 : ∀ p, heapRead s'.rbs p = heapRead s.rbs p) : TableOK s' T f := by
  refine ⟨?_, ?_, ?_, ?_, ?_⟩
  · rw [h1]; exact ok.live
  · rw [h2]; exact ok.depthtex
  · rw [h2]; exact ok.colortex
  · simp only [h3]; exact ok.depthrb
  · simp only [h3]; exact ok.colorrb

theorem ownsFbName_congr (s s' : GPUState) (o o' : GPUOffScreen) (n : Nat)
    (h1 : s'.fbs = s.fbs) (h2 : o'.fb = o.fb) : ownsFbName s' o' n ↔ ownsFbName s o n := by
  unfold ownsFbName
  rw [h1, h2]

theorem ownsTexName_congr (s s' : GPUState) (o o' : GPUOffScreen) (n : Nat)
    (h1 : s'.texs = s.texs) (h2 : o'.color = o.color) (h3 : o'.depth = o.depth) :
    ownsTexName s' o' n ↔ ownsTexName s o n := by
  unfold ownsTexName
  rw [h1, h2, h3]

theorem ownsRbName_congr (s s' : GPUState) (o o' : GPUOffScreen) (n : Nat)
    (h1 : ∀ p, heapRead s'.rbs p = heapRead s.rbs p) (h2 : o'.rbcolor = o.rbcolor)
    (h3 : o'.rbdepth = o.rbdepth) :
    ownsRbName s' o' n ↔ ownsRbName s o n := by
  unfold ownsRbName
  simp only [h1, h2, h3]

/-- The invariant only looks at the heaps of framebuffers, textures and renderbuffers, at
the live GL names and at the five pointers of the offscreen struct; a dead cell appended to
the renderbuffer heap (a failed `GPU_renderbuffer_create`) does not matter. -/
theorem Building.congr (s S S' : GPUState) (P : Nat) (o o' : GPUOffScreen)
    (b : Building s S P o)
    (e_ofs : S'.ofss = s.ofss ++ [some o'])
    (e_fbs : S'.fbs = S.fbs) (e_texs : S'.texs = S.texs)
    (e_rbs : ∀ p, heapRead S'.rbs p = heapRead S.rbs p)
    (e_rbsLen : S.rbs.length ≤ S'.rbs.length)
    (e_glfb : S'.gl.framebuffers = S.gl.framebuffers)
    (e_gltex : S'.gl.textures = S.gl.textures)
    (e_glrb : S'.gl.renderbuffers = S.gl.renderbuffers)
    (o_fb : o'.fb = o.fb) (o_c : o'.color = o.color) (o_d : o'.depth = o.depth)
    (o_rc : o'.rbcolor = o.rbcolor) (o_rd : o'.rbdepth = o.rbdepth) :
    Building s S' P o' where
  ptr := b.ptr
  ofs := e_ofs
  table := by
    intro F hF
    rw [o_fb] at hF
    obtain ⟨f, ok⟩ := b.table F hF
    exact ⟨f, TableOK.congr_reads S S' F f ok e_fbs e_texs e_rbs⟩
  fbsLen := by rw [e_fbs]; exact b.fbsLen
  texsLen := by rw [e_texs]; exact b.texsLen
  rbsLen := le_trans b.rbsLen e_rbsLen
  fbs := by rw [e_fbs, o_fb]; exact b.fbs
  texs := by rw [e_texs, o_c, o_d]; exact b.texs
  rbs := by simp only [e_rbs, o_rc, o_rd]; exact b.rbs
  fbFresh := by rw [o_fb]; exact b.fbFresh
  texFresh := by rw [o_c, o_d]; exact b.texFresh
  rbFresh := by rw [o_rc, o_rd]; exact b.rbFresh
  texDistinct := by rw [o_c, o_d]; exact b.texDistinct
  rbDistinct := by rw [o_rc, o_rd]; exact b.rbDistinct
  glfb := by
    intro n
    rw [e_glfb, ownsFbName_congr S S' o o' n e_fbs o_fb]
    exact b.glfb n
  gltex := by
    intro n
    rw [e_gltex, ownsTexName_congr S S' o o' n e_texs o_c o_d]
    exact b.gltex n
  glrb := by
    intro n
    rw [e_glrb, ownsRbName_congr S S' o o' n e_rbs o_rc o_rd]
    exact b.glrb n
  fbNameFresh := by
    intro n
    rw [ownsFbName_congr S S' o o' n e_fbs o_fb]
    exact b.fbNameFresh n
  texNameFresh := by
    intro n
    rw [ownsTexName_congr S S' o o' n e_texs o_c o_d]
    exact b.texNameFresh n
  rbNameFresh := by
    intro n
    rw [ownsRbName_congr S S' o o' n e_rbs o_rc o_rd]
    exact b.rbNameFresh n

theorem ownsFbName_iff (s : GPUState) (o : GPUOffScreen) (F n : Nat) (f : GPUFrameBuffer)
    (hF : o.fb = some F) (hf : heapRead s.fbs F = some f) :
    ownsFbName s o n ↔ n ≠ 0 ∧ f.object = n := by
  unfold ownsFbName
  constructor
  · rintro ⟨h0, F', f', hF', hf', hn⟩
    rw [hF] at hF'
    cases hF'
    rw [hf] at hf'
    cases hf'
    exact ⟨h0, hn⟩
  · rintro ⟨h0, hn⟩
    exact ⟨h0, F, f, hF, hf, hn⟩

/-- The invariant after a fresh texture is allocated, registered in the offscreen struct and
attached to the owned framebuffer. -/
theorem Building.add_tex (s S S' : GPUState) (P : Nat) (o o' : GPUOffScreen)
    (b : Building s S P o) (F : Nat) (f f' : GPUFrameBuffer) (t' : GPUTexture) (name : Nat)
    (hF : o.fb = some F) (hf : heapRead S.fbs F = some f) (hobj : f'.object = f.object)
    (hname0 : name ≠ 0) (hfresh : name ∉ s.gl.textures) (hbind : t'.bindcode = name)
    (e_ofs : S'.ofss = s.ofss ++ [some o'])
    (e_fbs : S'.fbs = heapWrite S.fbs F f')
    (e_texs : S'.texs = S.texs ++ [some t'])
    (e_rbs : S'.rbs = S.rbs)
    (e_glfb : S'.gl.framebuffers = S.gl.framebuffers)
    (e_gltex : S'.gl.textures = name :: S.gl.textures)
    (e_glrb : S'.gl.renderbuffers = S.gl.renderbuffers)
    (o_fb : o'.fb = o.fb) (o_rc : o'.rbcolor = o.rbcolor) (o_rd : o'.rbdepth = o.rbdepth)
    (o_ptr : ∀ p, (o'.color = some p ∨ o'.depth = some p) ↔
      ((o.color = some p ∨ o.depth = some p) ∨ p = S.texs.length))
    (o_dist : ∀ c, o'.color = some c → o'.depth ≠ some c)
    (ok : TableOK S' F f') :
    Building s S' P o' := by
  have hf' : heapRead S'.fbs F = some f' := ok.live
  have hfbs : ∀ p, (heapRead S'.fbs p).isSome = (heapRead S.fbs p).isSome := by
    intro p
    rw [e_fbs]
    exact heapRead_write_isSome _ _ _ _ hf p
  have hownFb : ∀ n, ownsFbName S' o' n ↔ ownsFbName S o n := by
    intro n
    rw [ownsFbName_iff S' o' F n f' (o_fb.trans hF) hf', ownsFbName_iff S o F n f hF hf, hobj]
  have hownRb : ∀ n, ownsRbName S' o' n ↔ ownsRbName S o n := fun n =>
    ownsRbName_congr S S' o o' n (fun p => by rw [e_rbs]) o_rc o_rd
  have hownTex : ∀ n, ownsTexName S' o' n ↔ ownsTexName S o n ∨ n = name := by
    intro n
    unfold ownsTexName
    constructor
    · rintro ⟨h0, p, t, hp, ht, hb⟩
      rcases (o_ptr p).mp hp with hp' | hp'
      · left
        have hlive : (heapRead S.texs p).isSome = true := (b.texs p).mpr (Or.inr hp')
        cases hr : heapRead S.texs p with
        | none => simp [hr] at hlive
        | some t0 =>
          rw [e_texs, heapRead_append_some _ _ _ _ hr] at ht
          cases ht
          exact ⟨h0, p, _, hp', hr, hb⟩
      · right
        subst hp'
        rw [e_texs, heapRead_append_length] at ht
        cases ht
        exact hb.symm.trans hbind
    · rintro (⟨h0, p, t, hp, ht, hb⟩ | hn)
      · exact ⟨h0, p, t, (o_ptr p).mpr (Or.inl hp),
          by rw [e_texs]; exact heapRead_append_some _ _ _ _ ht, hb⟩
      · subst hn
        exact ⟨hname0, S.texs.length, t', (o_ptr _).mpr (Or.inr rfl),
          by rw [e_texs]; exact heapRead_append_length _ _, hbind⟩
  refine
    { ptr := b.ptr, ofs := e_ofs, table := ?_, fbsLen := ?_, texsLen := ?_, rbsLen := ?_
      fbs := ?_, texs := ?_, rbs := ?_, fbFresh := ?_, texFresh := ?_, rbFresh := ?_
      texDistinct := o_dist, rbDistinct := ?_, glfb := ?_, gltex := ?_, glrb := ?_
      fbNameFresh := ?_, texNameFresh := ?_, rbNameFresh := ?_ }
  · intro F' hF'
    rw [o_fb, hF] at hF'
    cases hF'
    exact ⟨f', ok⟩
  · rw [e_fbs]
    unfold heapWrite
    rw [List.length_set]
    exact b.fbsLen
  · rw [e_texs, List.length_append]
    exact Nat.le_add_right_of_le b.texsLen
  · rw [e_rbs]
    exact b.rbsLen
  · intro p
    rw [hfbs p, o_fb]
    exact b.fbs p
  · intro p
    rw [e_texs, heapRead_append_isSome, b.texs p, o_ptr p]
    constructor
    · rintro ((h | h) | h)
      · exact Or.inl h
      · exact Or.inr (Or.inl h)
      · exact Or.inr (Or.inr h)
    · rintro (h | h | h)
      · exact Or.inl (Or.inl h)
      · exact Or.inl (Or.inr h)
      · exact Or.inr h
  · intro p
    rw [e_rbs, o_rc, o_rd]
    exact b.rbs p
  · rw [o_fb]
    exact b.fbFresh
  · intro p hp
    rcases (o_ptr p).mp hp with hp' | hp'
    · exact b.texFresh p hp'
    · subst hp'
      exact heapRead_ge _ _ b.texsLen
  · rw [o_rc, o_rd]
    exact b.rbFresh
  · rw [o_rc, o_rd]
    exact b.rbDistinct
  · intro n
    rw [e_glfb, hownFb n]
    exact b.glfb n
  · intro n
    rw [e_gltex, hownTex n, List.mem_cons, b.gltex n]
    constructor
    · rintro (h | h | h)
      · exact Or.inr (Or.inr h)
      · exact Or.inl h
      · exact Or.inr (Or.inl h)
    · rintro (h | h | h)
      · exact Or.inr (Or.inl h)
      · exact Or.inr (Or.inr h)
      · exact Or.inl h
  · intro n
    rw [e_glrb, hownRb n]
    exact b.glrb n
  · intro n
    rw [hownFb n]
    exact b.fbNameFresh n
  · intro n
    rw [hownTex n]
    rintro (h | h)
    · exact b.texNameFresh n h
    · rw [h]
      exact hfresh
  · intro n
    rw [hownRb n]
    exact b.rbNameFresh n

/-- The invariant after a fresh renderbuffer is allocated, registered in the offscreen struct
and attached to the owned framebuffer. -/
theorem Building.add_rb (s S S' : GPUState) (P : Nat) (o o' : GPUOffScreen)
    (b : Building s S P o) (F : Nat) (f f' : GPUFrameBuffer) (r' : GPURenderBuffer)
    (name : Nat)
    (hF : o.fb = some F) (hf : heapRead S.fbs F = some f) (hobj : f'.object = f.object)
    (hname0 : name ≠ 0) (hfresh : name ∉ s.gl.renderbuffers) (hbind : r'.bindcode = name)
    (e_ofs : S'.ofss = s.ofss ++ [some o'])
    (e_fbs : S'.fbs = heapWrite S.fbs F f')
    (e_rbs : S'.rbs = S.rbs ++ [some r'])
    (e_texs : S'.texs = S.texs)
    (e_glfb : S'.gl.framebuffers = S.gl.framebuffers)
    (e_glrb : S'.gl.renderbuffers = name :: S.gl.renderbuffers)
    (e_gltex : S'.gl.textures = S.gl.textures)
    (o_fb : o'.fb = o.fb) (o_c : o'.color = o.color) (o_d : o'.depth = o.depth)
    (o_ptr : ∀ p, (o'.rbcolor = some p ∨ o'.rbdepth = some p) ↔
      ((o.rbcolor = some p ∨ o.rbdepth = some p) ∨ p = S.rbs.length))
    (o_dist : ∀ c, o'.rbcolor = some c → o'.rbdepth ≠ some c)
    (ok : TableOK S' F f') :
    Building s S' P o' := by
  have hf' : heapRead S'.fbs F = some f' := ok.live
  have hfbs : ∀ p, (heapRead S'.fbs p).isSome = (heapRead S.fbs p).isSome := by
    intro p
    rw [e_fbs]
    exact heapRead_write_isSome _ _ _ _ hf p
  have hownFb : ∀ n, ownsFbName S' o' n ↔ ownsFbName S o n := by
    intro n
    rw [ownsFbName_iff S' o' F n f' (o_fb.trans hF) hf', ownsFbName_iff S o F n f hF hf, hobj]
  have hownTex : ∀ n, ownsTexName S' o' n ↔ ownsTexName S o n := fun n =>
    ownsTexName_congr S S' o o' n e_texs o_c o_d
  have hownRb : ∀ n, ownsRbName S' o' n ↔ ownsRbName S o n ∨ n = name := by
    intro n
    unfold ownsRbName
    constructor
    · rintro ⟨h0, p, r, hp, hr, hb⟩
      rcases (o_ptr p).mp hp with hp' | hp'
      · left
        have hlive : (heapRead S.rbs p).isSome = true := (b.rbs p).mpr (Or.inr hp')
        cases hr0 : heapRead S.rbs p with
        | none => simp [hr0] at hlive
        | some r0 =>
          rw [e_rbs, heapRead_append_some _ _ _ _ hr0] at hr
          cases hr
          exact ⟨h0, p, _, hp', hr0, hb⟩
      · right
        subst hp'
        rw [e_rbs, heapRead_append_length] at hr
        cases hr
        exact hb.symm.trans hbind
    · rintro (⟨h0, p, r, hp, hr, hb⟩ | hn)
      · exact ⟨h0, p, r, (o_ptr p).mpr (Or.inl hp),
          by rw [e_rbs]; exact heapRead_append_some _ _ _ _ hr, hb⟩
      · subst hn
        exact ⟨hname0, S.rbs.length, r', (o_ptr _).mpr (Or.inr rfl),
          by rw [e_rbs]; exact heapRead_append_length _ _, hbind⟩
  refine
    { ptr := b.ptr, ofs := e_ofs, table := ?_, fbsLen := ?_, texsLen := ?_, rbsLen := ?_
      fbs := ?_, texs := ?_, rbs := ?_, fbFresh := ?_, texFresh := ?_, rbFresh := ?_
      texDistinct := ?_, rbDistinct := o_dist, glfb := ?_, gltex := ?_, glrb := ?_
      fbNameFresh := ?_, texNameFresh := ?_, rbNameFresh := ?_ }
  · intro F' hF'
    rw [o_fb, hF] at hF'
    cases hF'
    exact ⟨f', ok⟩
  · rw [e_fbs]
    unfold heapWrite
    rw [List.length_set]
    exact b.fbsLen
  · rw [e_texs]
    exact b.texsLen
  · rw [e_rbs, List.length_append]
    exact Nat.le_add_right_of_le b.rbsLen
  · intro p
    rw [hfbs p, o_fb]
    exact b.fbs p
  · intro p
    rw [e_texs, o_c, o_d]
    exact b.texs p
  · intro p
    rw [e_rbs, heapRead_append_isSome, b.rbs p, o_ptr p]
    constructor
    · rintro ((h | h) | h)
      · exact Or.inl h
      · exact Or.inr (Or.inl h)
      · exact Or.inr (Or.inr h)
    · rintro (h | h | h)
      · exact Or.inl (Or.inl h)
      · exact Or.inl (Or.inr h)
      · exact Or.inr h
  · rw [o_fb]
    exact b.fbFresh
  · rw [o_c, o_d]
    exact b.texFresh
  · intro p hp
    rcases (o_ptr p).mp hp with hp' | hp'
    · exact b.rbFresh p hp'
    · subst hp'
      exact heapRead_ge _ _ b.rbsLen
  · rw [o_c, o_d]
    exact b.texDistinct
  · intro n
    rw [e_glfb, hownFb n]
    exact b.glfb n
  · intro n
    rw [e_gltex, hownTex n]
    exact b.gltex n
  · intro n
    rw [e_glrb, hownRb n, List.mem_cons, b.glrb n]
    constructor
    · rintro (h | h | h)
      · exact Or.inr (Or.inr h)
      · exact Or.inl h
      · exact Or.inr (Or.inl h)
    · rintro (h | h | h)
      · exact Or.inr (Or.inl h)
      · exact Or.inr (Or.inr h)
      · exact Or.inl h
  · intro n
    rw [hownFb n]
    exact b.fbNameFresh n
  · intro n
    rw [hownTex n]
    exact b.texNameFresh n
  · intro n
    rw [hownRb n]
    rintro (h | h)
    · exact b.rbNameFresh n h
    · rw [h]
      exact hfresh

theorem ofsUpdate_eq (S : GPUState) (h : List (Option GPUOffScreen)) (o : GPUOffScreen)
    (g : GPUOffScreen → GPUOffScreen) (hS : S.ofss = h ++ [some o]) :
    ofsUpdate h.length g S = some { S with ofss := h ++ [some (g o)] } := by
  unfold ofsUpdate
  rw [hS, heapRead_append_length]
  simp only [Option.bind_eq_bind, Option.some_bind, heapWrite_append_length]

theorem renderbuffer_create_fails (S : GPUState) (w h smp : Int) (hdr : GPUHDRType)
    (type : GPURenderBufferType) :
    GPU_renderbuffer_create w h smp hdr type 0 S
      = some (none, { S with rbs := S.rbs ++ [none] }) := by
  simp [GPU_renderbuffer_create, heapAlloc_fst, heapAlloc_snd, glGenRenderbuffers,
    GPU_renderbuffer_free, heapRead_append_length, heapFree_append_length]

theorem renderbuffer_create_ok (S : GPUState) (w h smp : Int) (hdr : GPUHDRType)
    (type : GPURenderBufferType) (name : Nat) (hname : name ≠ 0) (d : Bool)
    (hd : d = decide (type = GPURenderBufferType.GPU_RENDERBUFFER_DEPTH)) :
    GPU_renderbuffer_create w h smp hdr type name S
      = some (some S.rbs.length,
          { S with
            rbs := S.rbs ++ [some
              { width := w, height := h, samples := smp, fb := none, fb_attachment := 0,
                depth := d, bindcode := name }]
            gl := { S.gl with renderbuffers := name :: S.gl.renderbuffers } }) := by
  subst hd
  cases type <;>
  simp [GPU_renderbuffer_create, heapAlloc_fst, heapAlloc_snd, glGenRenderbuffers, hname,
    heapRead_append_length, heapWrite_append_length]

theorem framebuffer_create_fails (S : GPUState) :
    GPU_framebuffer_create 0 S = some (none, { S with fbs := S.fbs ++ [none] }) := by
  have hd : freeDetachAll S.fbs.length
      { S with fbs := S.fbs ++ [some (emptyFrameBuffer 0)] }
      = some { S with fbs := S.fbs ++ [some (emptyFrameBuffer 0)] } :=
    freeDetachAll_empty _ _ (emptyFrameBuffer 0) (heapRead_append_length _ _) rfl
      (fun _ => rfl) rfl (fun _ => rfl)
  simp only [emptyFrameBuffer] at hd
  simp [GPU_framebuffer_create, heapAlloc_fst, heapAlloc_snd, glGenFramebuffers,
    GPU_framebuffer_free, hd, heapRead_append_length, heapFree_append_length]

theorem framebuffer_create_ok (S : GPUState) (name : Nat) (hname : name ≠ 0) :
    GPU_framebuffer_create name S
      = some (some S.fbs.length,
          { S with
            fbs := S.fbs ++ [some (emptyFrameBuffer name)]
            gl := glBindFramebuffer GL_FRAMEBUFFER 0 (glBindFramebuffer GL_FRAMEBUFFER name
              { S.gl with framebuffers := name :: S.gl.framebuffers }) }) := by
  simp [GPU_framebuffer_create, heapAlloc_fst, heapAlloc_snd, glGenFramebuffers, hname,
    emptyFrameBuffer]

theorem not_isSome_length {α : Type} (h : List (Option α)) :
    ¬ (heapRead h h.length).isSome = true := by
  rw [heapRead_length]
  simp

/-- The fields of the state after a colour-renderbuffer attach. -/
theorem renderbuffer_attach_color_fields (s : GPUState) (T A : Nat) (slot : Int) (i : Fin 4)
    (f : GPUFrameBuffer) (r : GPURenderBuffer)
    (hf : heapRead s.fbs T = some f) (hr : heapRead s.rbs A = some r)
    (hd : r.depth = false) (hi : slotIdx slot = some i) :
    ∃ s', GPU_framebuffer_renderbuffer_attach T A slot s = some (true, s') ∧
      s'.fbs = heapWrite s.fbs T { f with colorrb := setSlot f.colorrb i (some A) } ∧
      s'.rbs = heapWrite s.rbs A (GPU_renderbuffer_framebuffer_set r (some T) slot) ∧
      s'.texs = s.texs ∧ s'.ofss = s.ofss ∧
      s'.gl = glBindFramebuffer GL_FRAMEBUFFER f.object s.gl :=
  ⟨_, renderbuffer_attach_color_eq s T A slot i f r hf hr hd hi, rfl, rfl, rfl, rfl, rfl⟩

/-- The fields of the state after a depth-renderbuffer attach. -/
theorem renderbuffer_attach_depth_fields (s : GPUState) (T A : Nat) (slot : Int)
    (f : GPUFrameBuffer) (r : GPURenderBuffer)
    (hf : heapRead s.fbs T = some f) (hr : heapRead s.rbs A = some r)
    (hd : r.depth = true) (h4 : slot < 4) :
    ∃ s', GPU_framebuffer_renderbuffer_attach T A slot s = some (true, s') ∧
      s'.fbs = heapWrite s.fbs T { f with depthrb := some A } ∧
      s'.rbs = heapWrite s.rbs A (GPU_renderbuffer_framebuffer_set r (some T) slot) ∧
      s'.texs = s.texs ∧ s'.ofss = s.ofss ∧
      s'.gl = glBindFramebuffer GL_FRAMEBUFFER f.object s.gl :=
  ⟨_, renderbuffer_attach_depth_eq s T A slot f r hf hr hd h4, rfl, rfl, rfl, rfl, rfl⟩

/-- The fields of the state after a colour-texture attach. -/
theorem texture_attach_color_fields (s : GPUState) (T A : Nat) (slot : Int) (i : Fin 4)
    (f : GPUFrameBuffer) (t : GPUTexture)
    (hf : heapRead s.fbs T = some f) (ht : heapRead s.texs A = some t)
    (hd : t.depth = false) (hi : slotIdx slot = some i) :
    ∃ s', GPU_framebuffer_texture_attach T A slot s = some (true, s') ∧
      s'.fbs = heapWrite s.fbs T { f with colortex := setSlot f.colortex i (some A) } ∧
      s'.texs = heapWrite s.texs A (GPU_texture_framebuffer_set t (some T) slot) ∧
      s'.rbs = s.rbs ∧ s'.ofss = s.ofss ∧
      s'.gl = glBindFramebuffer GL_FRAMEBUFFER f.object s.gl :=
  ⟨_, texture_attach_color_eq s T A slot i f t hf ht hd hi, rfl, rfl, rfl, rfl, rfl⟩

/-- The fields of the state after a depth-texture attach. -/
theorem texture_attach_depth_fields (s : GPUState) (T A : Nat) (slot : Int)
    (f : GPUFrameBuffer) (t : GPUTexture)
    (hf : heapRead s.fbs T = some f) (ht : heapRead s.texs A = some t)
    (hd : t.depth = true) (h4 : slot < 4) :
    ∃ s', GPU_framebuffer_texture_attach T A slot s = some (true, s') ∧
      s'.fbs = heapWrite s.fbs T { f with depthtex := some A } ∧
      s'.texs = heapWrite s.texs A (GPU_texture_framebuffer_set t (some T) slot) ∧
      s'.rbs = s.rbs ∧ s'.ofss = s.ofss ∧
      s'.gl = glBindFramebuffer GL_FRAMEBUFFER f.object s.gl :=
  ⟨_, texture_attach_depth_eq s T A slot f t hf ht hd h4, rfl, rfl, rfl, rfl, rfl⟩

/-- The colour-renderbuffer block keeps the invariant: on failure nothing is owned anew, on
success the new renderbuffer is owned through `rbcolor`. -/
theorem offscreenColorRb_spec (s S : GPUState) (P F : Nat) (o : GPUOffScreen)
    (w h smp : Int) (hdr : GPUHDRType) (name : Nat) (b : Building s S P o)
    (hF : o.fb = some F) (hnone : o.rbcolor = none) (hfresh : name ≠ 0 → name ∉ s.gl.renderbuffers) :
    (name = 0 → ∃ S' o', offscreenColorRb P F w h smp hdr name S = some (Sum.inl S') ∧
      Building s S' P o') ∧
    (name ≠ 0 → ∃ S', offscreenColorRb P F w h smp hdr name S = some (Sum.inr S') ∧
      Building s S' P { o with rbcolor := some S.rbs.length }) := by
  constructor
  · intro hname
    subst hname
    refine ⟨{ S with rbs := S.rbs ++ [none], ofss := s.ofss ++ [some { o with rbcolor := none }] },
      { o with rbcolor := none }, ?_, ?_⟩
    · have e2 := ofsUpdate_eq { S with rbs := S.rbs ++ [none] } s.ofss o
        (fun o => { o with rbcolor := none }) b.ofs
      rw [← b.ptr] at e2
      simp only [offscreenColorRb, renderbuffer_create_fails, Option.bind_eq_bind,
        Option.some_bind, e2]
    · exact Building.congr s S _ P o _ b rfl rfl rfl (fun p => heapRead_append_none _ p)
        (by simp) rfl rfl rfl rfl rfl rfl hnone.symm rfl
  · intro hname
    obtain ⟨f, ok⟩ := b.table F hF
    have e1 := renderbuffer_create_ok S w h smp hdr
      GPURenderBufferType.GPU_RENDERBUFFER_COLOR name hname false rfl
    have e2 := ofsUpdate_eq
      { S with
        rbs := S.rbs ++ [some
          { width := w, height := h, samples := smp, fb := none, fb_attachment := 0,
            depth := false, bindcode := name }]
        gl := { S.gl with renderbuffers := name :: S.gl.renderbuffers } } s.ofss o
      (fun o => { o with rbcolor := some S.rbs.length }) b.ofs
    rw [← b.ptr] at e2
    obtain ⟨S3, e3, h_fbs, h_rbs, h_texs, h_ofss, h_gl⟩ := renderbuffer_attach_color_fields
      { S with
        rbs := S.rbs ++ [some
          { width := w, height := h, samples := smp, fb := none, fb_attachment := 0,
            depth := false, bindcode := name }]
        gl := { S.gl with renderbuffers := name :: S.gl.renderbuffers }
        ofss := s.ofss ++ [some { o with rbcolor := some S.rbs.length }] }
      F S.rbs.length 0 0 f _ ok.live (heapRead_append_length _ _) rfl rfl
    refine ⟨S3, ?_, ?_⟩
    · simp only [offscreenColorRb, e1, Option.bind_eq_bind, Option.some_bind, e2, e3,
        Bool.not_true, Bool.false_eq_true, if_false]
    · have h_rbs' := h_rbs.trans (heapWrite_append_length _ _ _)
      refine Building.add_rb s S S3 P o _ b F f
        { f with colorrb := setSlot f.colorrb 0 (some S.rbs.length) }
        (GPU_renderbuffer_framebuffer_set
          { width := w, height := h, samples := smp, fb := none, fb_attachment := 0,
            depth := false, bindcode := name } (some F) 0)
        name hF ok.live rfl hname (hfresh hname) rfl h_ofss h_fbs h_rbs' h_texs
        (by rw [h_gl]; exact (glBindFramebuffer_names _ _ _).1)
        (by rw [h_gl]; exact (glBindFramebuffer_names _ _ _).2.2)
        (by rw [h_gl]; exact (glBindFramebuffer_names _ _ _).2.1) rfl rfl rfl ?_ ?_ ?_
      · intro p
        simp only [hnone, Option.some.injEq]
        constructor
        · rintro (h | h)
          · exact Or.inr h.symm
          · exact Or.inl (Or.inr h)
        · rintro ((h | h) | h)
          · cases h
          · exact Or.inr h
          · exact Or.inl h.symm
      · intro c hc hd
        simp only [Option.some.injEq] at hc
        subst hc
        exact not_isSome_length S.rbs ((b.rbs _).mpr (Or.inr (Or.inr hd)))
      · exact TableOK.attach_rb_color S S3 F f 0 _ ok h_fbs h_rbs' h_texs rfl rfl rfl

/-- The depth-renderbuffer block keeps the invariant. -/
theorem offscreenDepthRb_spec (s S : GPUState) (P F : Nat) (o : GPUOffScreen)
    (w h smp : Int) (name : Nat) (b : Building s S P o)
    (hF : o.fb = some F) (hnone : o.rbdepth = none) (hfresh : name ≠ 0 → name ∉ s.gl.renderbuffers) :
    (name = 0 → ∃ S' o', offscreenDepthRb P F w h smp name S = some (Sum.inl S') ∧
      Building s S' P o') ∧
    (name ≠ 0 → ∃ S', offscreenDepthRb P F w h smp name S = some (Sum.inr S') ∧
      Building s S' P { o with rbdepth := some S.rbs.length }) := by
  constructor
  · intro hname
    subst hname
    refine ⟨{ S with rbs := S.rbs ++ [none], ofss := s.ofss ++ [some { o with rbdepth := none }] },
      { o with rbdepth := none }, ?_, ?_⟩
    · have e2 := ofsUpdate_eq { S with rbs := S.rbs ++ [none] } s.ofss o
        (fun o => { o with rbdepth := none }) b.ofs
      rw [← b.ptr] at e2
      simp only [offscreenDepthRb, renderbuffer_create_fails, Option.bind_eq_bind,
        Option.some_bind, e2]
    · exact Building.congr s S _ P o _ b rfl rfl rfl (fun p => heapRead_append_none _ p)
        (by simp) rfl rfl rfl rfl rfl rfl rfl hnone.symm
  · intro hname
    obtain ⟨f, ok⟩ := b.table F hF
    have e1 := renderbuffer_create_ok S w h smp GPUHDRType.GPU_HDR_NONE
      GPURenderBufferType.GPU_RENDERBUFFER_DEPTH name hname true rfl
    have e2 := ofsUpdate_eq
      { S with
        rbs := S.rbs ++ [some
          { width := w, height := h, samples := smp, fb := none, fb_attachment := 0,
            depth := true, bindcode := name }]
        gl := { S.gl with renderbuffers := name :: S.gl.renderbuffers } } s.ofss o
      (fun o => { o with rbdepth := some S.rbs.length }) b.ofs
    rw [← b.ptr] at e2
    obtain ⟨S3, e3, h_fbs, h_rbs, h_texs, h_ofss, h_gl⟩ := renderbuffer_attach_depth_fields
      { S with
        rbs := S.rbs ++ [some
          { width := w, height := h, samples := smp, fb := none, fb_attachment := 0,
            depth := true, bindcode := name }]
        gl := { S.gl with renderbuffers := name :: S.gl.renderbuffers }
        ofss := s.ofss ++ [some { o with rbdepth := some S.rbs.length }] }
      F S.rbs.length 0 f _ ok.live (heapRead_append_length _ _) rfl (by decide)
    refine ⟨S3, ?_, ?_⟩
    · simp only [offscreenDepthRb, e1, Option.bind_eq_bind, Option.some_bind, e2, e3,
        Bool.not_true, Bool.false_eq_true, if_false]
    · have h_rbs' := h_rbs.trans (heapWrite_append_length _ _ _)
      refine Building.add_rb s S S3 P o _ b F f
        { f with depthrb := some S.rbs.length }
        (GPU_renderbuffer_framebuffer_set
          { width := w, height := h, samples := smp, fb := none, fb_attachment := 0,
            depth := true, bindcode := name } (some F) 0)
        name hF ok.live rfl hname (hfresh hname) rfl h_ofss h_fbs h_rbs' h_texs
        (by rw [h_gl]; exact (glBindFramebuffer_names _ _ _).1)
        (by rw [h_gl]; exact (glBindFramebuffer_names _ _ _).2.2)
        (by rw [h_gl]; exact (glBindFramebuffer_names _ _ _).2.1) rfl rfl rfl ?_ ?_ ?_
      · intro p
        simp only [hnone, Option.some.injEq]
        constructor
        · rintro (h | h)
          · exact Or.inl (Or.inl h)
          · exact Or.inr h.symm
        · rintro ((h | h) | h)
          · exact Or.inl h
          · cases h
          · exact Or.inr h.symm
      · intro c hc hd
        simp only [Option.some.injEq] at hd
        subst hd
        exact not_isSome_length S.rbs ((b.rbs _).mpr (Or.inr (Or.inl hc)))
      · exact TableOK.attach_rb_depth S S3 F f _ ok h_fbs h_rbs' h_texs rfl rfl

theorem texture_create_fails (S : GPUState) (w h smp : Int) (depth : Bool) :
    GPU_texture_create_multisample w h smp depth 0 S = (none, S) := by
  simp [GPU_texture_create_multisample]

theorem texture_create_ok (S : GPUState) (w h smp : Int) (depth : Bool) (name : Nat)
    (hname : name ≠ 0) :
    GPU_texture_create_multisample w h smp depth name S
      = (some S.texs.length,
          { S with
            texs := S.texs ++ [some
              { w := w, h := h, samples := smp, number := -1,
                target := if smp > 0 then GL_TEXTURE_2D_MULTISAMPLE else GL_TEXTURE_2D,
                bindcode := name, depth := depth, fb := none, fb_attachment := -1 }]
            gl := { S.gl with textures := name :: S.gl.textures } }) := by
  simp [GPU_texture_create_multisample, hname, heapAlloc_fst, heapAlloc_snd, glGenTextures]

/-- The colour-texture block keeps the invariant. -/
theorem offscreenColorTex_spec (s S : GPUState) (P F : Nat) (o : GPUOffScreen)
    (w h smp : Int) (name : Nat) (b : Building s S P o)
    (hF : o.fb = some F) (hnone : o.color = none) (hfresh : name ≠ 0 → name ∉ s.gl.textures) :
    (name = 0 → ∃ S' o', offscreenColorTex P F w h smp name S = some (Sum.inl S') ∧
      Building s S' P o') ∧
    (name ≠ 0 → ∃ S', offscreenColorTex P F w h smp name S = some (Sum.inr S') ∧
      Building s S' P { o with color := some S.texs.length }) := by
  constructor
  · intro hname
    subst hname
    refine ⟨{ S with ofss := s.ofss ++ [some { o with color := none }] },
      { o with color := none }, ?_, ?_⟩
    · have e2 := ofsUpdate_eq S s.ofss o (fun o => { o with color := none }) b.ofs
      rw [← b.ptr] at e2
      simp only [offscreenColorTex, texture_create_fails, Option.bind_eq_bind,
        Option.some_bind, e2]
    · exact Building.congr s S _ P o _ b rfl rfl rfl (fun p => rfl)
        (le_refl _) rfl rfl rfl rfl hnone.symm rfl rfl rfl
  · intro hname
    obtain ⟨f, ok⟩ := b.table F hF
    have e1 := texture_create_ok S w h smp false name hname
    have e2 := ofsUpdate_eq
      { S with
        texs := S.texs ++ [some
          { w := w, h := h, samples := smp, number := -1,
            target := if smp > 0 then GL_TEXTURE_2D_MULTISAMPLE else GL_TEXTURE_2D,
            bindcode := name, depth := false, fb := none, fb_attachment := -1 }]
        gl := { S.gl with textures := name :: S.gl.textures } } s.ofss o
      (fun o => { o with color := some S.texs.length }) b.ofs
    rw [← b.ptr] at e2
    obtain ⟨S3, e3, h_fbs, h_texs, h_rbs, h_ofss, h_gl⟩ := texture_attach_color_fields
      { S with
        texs := S.texs ++ [some
          { w := w, h := h, samples := smp, number := -1,
            target := if smp > 0 then GL_TEXTURE_2D_MULTISAMPLE else GL_TEXTURE_2D,
            bindcode := name, depth := false, fb := none, fb_attachment := -1 }]
        gl := { S.gl with textures := name :: S.gl.textures }
        ofss := s.ofss ++ [some { o with color := some S.texs.length }] }
      F S.texs.length 0 0 f _ ok.live (heapRead_append_length _ _) rfl rfl
    refine ⟨S3, ?_, ?_⟩
    · simp only [offscreenColorTex, e1, Option.bind_eq_bind, Option.some_bind, e2, e3,
        Bool.not_true, Bool.false_eq_true, if_false]
    · have h_texs' := h_texs.trans (heapWrite_append_length _ _ _)
      refine Building.add_tex s S S3 P o _ b F f
        { f with colortex := setSlot f.colortex 0 (some S.texs.length) }
        (GPU_texture_framebuffer_set
          { w := w, h := h, samples := smp, number := -1,
            target := if smp > 0 then GL_TEXTURE_2D_MULTISAMPLE else GL_TEXTURE_2D,
            bindcode := name, depth := false, fb := none, fb_attachment := -1 } (some F) 0)
        name hF ok.live rfl hname (hfresh hname) rfl h_ofss h_fbs h_texs' h_rbs
        (by rw [h_gl]; exact (glBindFramebuffer_names _ _ _).1)
        (by rw [h_gl]; exact (glBindFramebuffer_names _ _ _).2.1)
        (by rw [h_gl]; exact (glBindFramebuffer_names _ _ _).2.2) rfl rfl rfl ?_ ?_ ?_
      · intro p
        simp only [hnone, Option.some.injEq]
        constructor
        · rintro (h | h)
          · exact Or.inr h.symm
          · exact Or.inl (Or.inr h)
        · rintro ((h | h) | h)
          · cases h
          · exact Or.inr h
          · exact Or.inl h.symm
      · intro c hc hd
        simp only [Option.some.injEq] at hc
        subst hc
        exact not_isSome_length S.texs ((b.texs _).mpr (Or.inr (Or.inr hd)))
      · exact TableOK.attach_tex_color S S3 F f 0 _ ok h_fbs h_texs' h_rbs rfl rfl rfl

/-- The depth-texture block keeps the invariant. -/
theorem offscreenDepthTex_spec (s S : GPUState) (P F : Nat) (o : GPUOffScreen)
    (w h smp : Int) (name : Nat) (b : Building s S P o)
    (hF : o.fb = some F) (hnone : o.depth = none) (hfresh : name ≠ 0 → name ∉ s.gl.textures) :
    (name = 0 → ∃ S' o', offscreenDepthTex P F w h smp name S = some (Sum.inl S') ∧
      Building s S' P o') ∧
    (name ≠ 0 → ∃ S', offscreenDepthTex P F w h smp name S = some (Sum.inr S') ∧
      Building s S' P { o with depth := some S.texs.length }) := by
  constructor
  · intro hname
    subst hname
    refine ⟨{ S with ofss := s.ofss ++ [some { o with depth := none }] },
      { o with depth := none }, ?_, ?_⟩
    · have e2 := ofsUpdate_eq S s.ofss o (fun o => { o with depth := none }) b.ofs
      rw [← b.ptr] at e2
      simp only [offscreenDepthTex, texture_create_fails, Option.bind_eq_bind,
        Option.some_bind, e2]
    · exact Building.congr s S _ P o _ b rfl rfl rfl (fun p => rfl)
        (le_refl _) rfl rfl rfl rfl rfl hnone.symm rfl rfl
  · intro hname
    obtain ⟨f, ok⟩ := b.table F hF
    have e1 := texture_create_ok S w h smp true name hname
    have e2 := ofsUpdate_eq
      { S with
        texs := S.texs ++ [some
          { w := w, h := h, samples := smp, number := -1,
            target := if smp > 0 then GL_TEXTURE_2D_MULTISAMPLE else GL_TEXTURE_2D,
            bindcode := name, depth := true, fb := none, fb_attachment := -1 }]
        gl := { S.gl with textures := name :: S.gl.textures } } s.ofss o
      (fun o => { o with depth := some S.texs.length }) b.ofs
    rw [← b.ptr] at e2
    obtain ⟨S3, e3, h_fbs, h_texs, h_rbs, h_ofss, h_gl⟩ := texture_attach_depth_fields
      { S with
        texs := S.texs ++ [some
          { w := w, h := h, samples := smp, number := -1,
            target := if smp > 0 then GL_TEXTURE_2D_MULTISAMPLE else GL_TEXTURE_2D,
            bindcode := name, depth := true, fb := none, fb_attachment := -1 }]
        gl := { S.gl with textures := name :: S.gl.textures }
        ofss := s.ofss ++ [some { o with depth := some S.texs.length }] }
      F S.texs.length 0 f _ ok.live (heapRead_append_length _ _) rfl (by decide)
    refine ⟨S3, ?_, ?_⟩
    · simp only [offscreenDepthTex, e1, Option.bind_eq_bind, Option.some_bind, e2, e3,
        Bool.not_true, Bool.false_eq_true, if_false]
    · have h_texs' := h_texs.trans (heapWrite_append_length _ _ _)
      refine Building.add_tex s S S3 P o _ b F f
        { f with depthtex := some S.texs.length }
        (GPU_texture_framebuffer_set
          { w := w, h := h, samples := smp, number := -1,
            target := if smp > 0 then GL_TEXTURE_2D_MULTISAMPLE else GL_TEXTURE_2D,
            bindcode := name, depth := true, fb := none, fb_attachment := -1 } (some F) 0)
        name hF ok.live rfl hname (hfresh hname) rfl h_ofss h_fbs h_texs' h_rbs
        (by rw [h_gl]; exact (glBindFramebuffer_names _ _ _).1)
        (by rw [h_gl]; exact (glBindFramebuffer_names _ _ _).2.1)
        (by rw [h_gl]; exact (glBindFramebuffer_names _ _ _).2.2) rfl rfl rfl ?_ ?_ ?_
      · intro p
        simp only [hnone, Option.some.injEq]
        constructor
        · rintro (h | h)
          · exact Or.inl (Or.inl h)
          · exact Or.inr h.symm
        · rintro ((h | h) | h)
          · exact Or.inl h
          · cases h
          · exact Or.inr h.symm
      · intro c hc hd
        simp only [Option.some.injEq] at hd
        subst hd
        exact not_isSome_length S.texs ((b.texs _).mpr (Or.inr (Or.inl hc)))
      · exact TableOK.attach_tex_depth S S3 F f _ ok h_fbs h_texs' h_rbs rfl rfl

theorem ownsTexName_none (S : GPUState) (o : GPUOffScreen) (n : Nat)
    (h1 : o.color = none) (h2 : o.depth = none) : ¬ ownsTexName S o n := by
  rintro ⟨-, p, t, hp | hp, -⟩
  · rw [h1] at hp; cases hp
  · rw [h2] at hp; cases hp

theorem ownsRbName_none (S : GPUState) (o : GPUOffScreen) (n : Nat)
    (h1 : o.rbcolor = none) (h2 : o.rbdepth = none) : ¬ ownsRbName S o n := by
  rintro ⟨-, p, t, hp | hp, -⟩
  · rw [h1] at hp; cases hp
  · rw [h2] at hp; cases hp

theorem ownsFbName_none (S : GPUState) (o : GPUOffScreen) (n : Nat)
    (h1 : o.fb = none) : ¬ ownsFbName S o n := by
  rintro ⟨-, F, f, hF, -⟩
  rw [h1] at hF; cases hF

/-- The invariant holds when `glGenFramebuffers` has failed: the offscreen struct owns
nothing, and the framebuffer heap has one dead cell more. -/
theorem Building.init_fail (s : GPUState) (o : GPUOffScreen)
    (h1 : o.fb = none) (h2 : o.color = none) (h3 : o.depth = none) (h4 : o.rbcolor = none)
    (h5 : o.rbdepth = none) :
    Building s { s with ofss := s.ofss ++ [some o], fbs := s.fbs ++ [none] }
      s.ofss.length o where
  ptr := rfl
  ofs := rfl
  table := by intro F hF; rw [h1] at hF; cases hF
  fbsLen := by simp
  texsLen := le_refl _
  rbsLen := le_refl _
  fbs := by
    intro p
    show (heapRead (s.fbs ++ [none]) p).isSome = true ↔ _
    rw [heapRead_append_none, h1]
    simp
  texs := by intro p; rw [h2, h3]; simp
  rbs := by intro p; rw [h4, h5]; simp
  fbFresh := by intro p hp; rw [h1] at hp; cases hp
  texFresh := by
    rintro p (hp | hp)
    · rw [h2] at hp; cases hp
    · rw [h3] at hp; cases hp
  rbFresh := by
    rintro p (hp | hp)
    · rw [h4] at hp; cases hp
    · rw [h5] at hp; cases hp
  texDistinct := by intro c hc; rw [h2] at hc; cases hc
  rbDistinct := by intro c hc; rw [h4] at hc; cases hc
  glfb := by
    intro n
    constructor
    · intro h; exact Or.inl h
    · rintro (h | h)
      · exact h
      · exact absurd h (ownsFbName_none _ o n h1)
  gltex := by
    intro n
    constructor
    · intro h; exact Or.inl h
    · rintro (h | h)
      · exact h
      · exact absurd h (ownsTexName_none _ o n h2 h3)
  glrb := by
    intro n
    constructor
    · intro h; exact Or.inl h
    · rintro (h | h)
      · exact h
      · exact absurd h (ownsRbName_none _ o n h4 h5)
  fbNameFresh := fun n h => absurd h (ownsFbName_none _ o n h1)
  texNameFresh := fun n h => absurd h (ownsTexName_none _ o n h2 h3)
  rbNameFresh := fun n h => absurd h (ownsRbName_none _ o n h4 h5)

/-- The invariant holds once the framebuffer is created and stored in `ofs->fb`. -/
theorem Building.init_ok (s : GPUState) (o : GPUOffScreen) (name : Nat) (gl : GLState)
    (hname : name ≠ 0) (hfresh : name ∉ s.gl.framebuffers)
    (h1 : o.fb = some s.fbs.length) (h2 : o.color = none) (h3 : o.depth = none)
    (h4 : o.rbcolor = none) (h5 : o.rbdepth = none)
    (g1 : gl.framebuffers = name :: s.gl.framebuffers) (g2 : gl.textures = s.gl.textures)
    (g3 : gl.renderbuffers = s.gl.renderbuffers) :
    Building s
      { s with
        ofss := s.ofss ++ [some o]
        fbs := s.fbs ++ [some (emptyFrameBuffer name)]
        gl := gl }
      s.ofss.length o := by
  have hown : ∀ n, ownsFbName
      { s with
        ofss := s.ofss ++ [some o]
        fbs := s.fbs ++ [some (emptyFrameBuffer name)]
        gl := gl } o n ↔ n = name := by
    intro n
    rw [ownsFbName_iff _ o s.fbs.length n (emptyFrameBuffer name) h1
      (heapRead_append_length _ _)]
    constructor
    · rintro ⟨-, h⟩
      exact h.symm
    · intro h
      exact ⟨h ▸ hname, h.symm⟩
  refine
    { ptr := rfl, ofs := rfl, table := ?_, fbsLen := by simp, texsLen := le_refl _
      rbsLen := le_refl _, fbs := ?_, texs := ?_, rbs := ?_, fbFresh := ?_, texFresh := ?_
      rbFresh := ?_, texDistinct := ?_, rbDistinct := ?_, glfb := ?_, gltex := ?_, glrb := ?_
      fbNameFresh := ?_, texNameFresh := ?_, rbNameFresh := ?_ }
  · intro F hF
    rw [h1] at hF
    cases hF
    refine ⟨emptyFrameBuffer name, heapRead_append_length _ _, ?_, ?_, ?_, ?_⟩
    · intro A hA; cases hA
    · intro i A hA; cases hA
    · intro A hA; cases hA
    · intro i A hA; cases hA
  · intro p
    show (heapRead (s.fbs ++ [some (emptyFrameBuffer name)]) p).isSome = true ↔ _
    rw [heapRead_append_isSome, h1]
    constructor
    · rintro (h | h)
      · exact Or.inl h
      · exact Or.inr (by rw [h])
    · rintro (h | h)
      · exact Or.inl h
      · exact Or.inr (Option.some.inj h).symm
  · intro p; rw [h2, h3]; simp
  · intro p; rw [h4, h5]; simp
  · intro p hp
    rw [h1] at hp
    cases hp
    exact heapRead_length _
  · rintro p (hp | hp)
    · rw [h2] at hp; cases hp
    · rw [h3] at hp; cases hp
  · rintro p (hp | hp)
    · rw [h4] at hp; cases hp
    · rw [h5] at hp; cases hp
  · intro c hc; rw [h2] at hc; cases hc
  · intro c hc; rw [h4] at hc; cases hc
  · intro n
    rw [hown n]
    show n ∈ gl.framebuffers ↔ _
    rw [g1, List.mem_cons]
    constructor
    · rintro (h | h)
      · exact Or.inr h
      · exact Or.inl h
    · rintro (h | h)
      · exact Or.inr h
      · exact Or.inl h
  · intro n
    show n ∈ gl.textures ↔ _
    rw [g2]
    constructor
    · intro h; exact Or.inl h
    · rintro (h | h)
      · exact h
      · exact absurd h (ownsTexName_none _ o n h2 h3)
  · intro n
    show n ∈ gl.renderbuffers ↔ _
    rw [g3]
    constructor
    · intro h; exact Or.inl h
    · rintro (h | h)
      · exact h
      · exact absurd h (ownsRbName_none _ o n h4 h5)
  · intro n hn
    rw [(hown n).mp hn]
    exact hfresh
  · exact fun n h => absurd h (ownsTexName_none _ o n h2 h3)
  · exact fun n h => absurd h (ownsRbName_none _ o n h4 h5)

theorem framebuffer_restore_fields (s : GPUState) :
    (GPU_framebuffer_restore s).fbs = s.fbs ∧ (GPU_framebuffer_restore s).texs = s.texs ∧
    (GPU_framebuffer_restore s).rbs = s.rbs ∧ (GPU_framebuffer_restore s).ofss = s.ofss ∧
    (GPU_framebuffer_restore s).gl.framebuffers = s.gl.framebuffers ∧
    (GPU_framebuffer_restore s).gl.textures = s.gl.textures ∧
    (GPU_framebuffer_restore s).gl.renderbuffers = s.gl.renderbuffers := by
  unfold GPU_framebuffer_restore
  split_ifs
  · exact ⟨rfl, rfl, rfl, rfl, (glBindFramebuffer_names _ _ _).1,
      (glBindFramebuffer_names _ _ _).2.1, (glBindFramebuffer_names _ _ _).2.2⟩
  · exact ⟨rfl, rfl, rfl, rfl, rfl, rfl, rfl⟩

/-- The completeness check at the end of `GPU_offscreen_create`: an incomplete framebuffer
leads to the failure exit, a complete one to the new offscreen. -/
theorem offscreenCreateCheck_spec (s S : GPUState) (P F : Nat) (o : GPUOffScreen)
    (err_out : Bool) (status : Nat) (b : Building s S P o) (hF : o.fb = some F) :
    ∃ res s', offscreenCreateCheck P F err_out status S = some (res, s') ∧
      (res = none ↔ status ≠ GL_FRAMEBUFFER_COMPLETE) ∧ (res = none → SameLive s s') := by
  obtain ⟨f, ok⟩ := b.table F hF
  by_cases hst : status = GL_FRAMEBUFFER_COMPLETE
  · refine ⟨some P, GPU_framebuffer_restore
      { S with gl := glBindFramebuffer GL_FRAMEBUFFER f.object S.gl, currentfb := f.object },
      ?_, ?_, ?_⟩
    · simp [offscreenCreateCheck, GPU_framebuffer_check_valid, ok.live, hst]
    · simp [hst]
    · intro h
      cases h
  · obtain ⟨e1, e2, e3, e4, e5, e6, e7⟩ := framebuffer_restore_fields
      { S with gl := glBindFramebuffer GL_FRAMEBUFFER f.object S.gl, currentfb := f.object }
    have b' : Building s (GPU_framebuffer_restore
        { S with gl := glBindFramebuffer GL_FRAMEBUFFER f.object S.gl,
                 currentfb := f.object }) P o :=
      Building.congr s S _ P o o b (e4.trans b.ofs) e1 e2 (fun p => by rw [e3])
        (by rw [e3]) (e5.trans (glBindFramebuffer_names _ _ _).1)
        (e6.trans (glBindFramebuffer_names _ _ _).2.1)
        (e7.trans (glBindFramebuffer_names _ _ _).2.2) rfl rfl rfl rfl rfl
    obtain ⟨s', hs', hlive⟩ := Building.abort s _ P o b'
    refine ⟨none, s', ?_, ?_, fun _ => hlive⟩
    · simp [offscreenCreateCheck, GPU_framebuffer_check_valid, ok.live, hst, hs']
    · simp [hst]

/-- The colour block, the depth block and the completeness check of `GPU_offscreen_create`,
run while the invariant holds: the result is no object exactly when a resource could not be
generated or the framebuffer is incomplete, and then the sets of live resources are those at
entry. -/
theorem offscreenCreateResources_spec (s S : GPUState) (P F : Nat) (o : GPUOffScreen)
    (w h smp : Int) (hdr : GPUHDRType) (mode : Nat) (err_out : Bool) (r : GLReplies)
    (b : Building s S P o) (hF : o.fb = some F) (hc : o.color = none) (hd : o.depth = none)
    (hrc : o.rbcolor = none) (hrd : o.rbdepth = none)
    (fresh_c : r.colorName ≠ 0 →
      if mode &&& GPU_OFFSCREEN_RENDERBUFFER_COLOR ≠ 0 then r.colorName ∉ s.gl.renderbuffers
      else r.colorName ∉ s.gl.textures)
    (fresh_d : r.depthName ≠ 0 →
      if mode &&& GPU_OFFSCREEN_RENDERBUFFER_DEPTH ≠ 0 then r.depthName ∉ s.gl.renderbuffers
      else r.depthName ∉ s.gl.textures) :
    ∃ res s', offscreenCreateResources P F w h smp hdr mode err_out r S = some (res, s') ∧
      (res = none ↔
        r.colorName = 0 ∨ r.depthName = 0 ∨ r.status ≠ GL_FRAMEBUFFER_COMPLETE) ∧
      (res = none → SameLive s s') := by
  -- colour block
  have hcol :
      (r.colorName = 0 → ∃ S' o',
        offscreenColorBlock P F w h smp hdr mode r.colorName S = some (Sum.inl S') ∧
        Building s S' P o') ∧
      (r.colorName ≠ 0 → ∃ S' o',
        offscreenColorBlock P F w h smp hdr mode r.colorName S = some (Sum.inr S') ∧
        Building s S' P o' ∧ o'.fb = some F ∧ o'.depth = none ∧ o'.rbdepth = none) := by
    by_cases hm : mode &&& GPU_OFFSCREEN_RENDERBUFFER_COLOR ≠ 0
    · simp only [offscreenColorBlock, if_pos hm] at fresh_c ⊢
      obtain ⟨k1, k2⟩ := offscreenColorRb_spec s S P F o w h smp hdr r.colorName b hF hrc fresh_c
      refine ⟨k1, fun hn => ?_⟩
      obtain ⟨S', e, b'⟩ := k2 hn
      exact ⟨S', _, e, b', hF, hd, hrd⟩
    · simp only [offscreenColorBlock, if_neg hm] at fresh_c ⊢
      obtain ⟨k1, k2⟩ := offscreenColorTex_spec s S P F o w h smp r.colorName b hF hc fresh_c
      refine ⟨k1, fun hn => ?_⟩
      obtain ⟨S', e, b'⟩ := k2 hn
      exact ⟨S', _, e, b', hF, hd, hrd⟩
  by_cases h2 : r.colorName = 0
  · obtain ⟨S1, o1, e1, b1⟩ := hcol.1 h2
    obtain ⟨s', hs', hlive⟩ := Building.abort s S1 P o1 b1
    refine ⟨none, s', ?_, ?_, fun _ => hlive⟩
    · simp only [offscreenCreateResources, e1, Option.bind_eq_bind, Option.some_bind, hs']
    · simp [h2]
  · obtain ⟨S1, o1, e1, b1, hF1, hd1, hrd1⟩ := hcol.2 h2
    -- depth block
    have hdep :
        (r.depthName = 0 → ∃ S' o',
          offscreenDepthBlock P F w h smp mode r.depthName S1 = some (Sum.inl S') ∧
          Building s S' P o') ∧
        (r.depthName ≠ 0 → ∃ S' o',
          offscreenDepthBlock P F w h smp mode r.depthName S1 = some (Sum.inr S') ∧
          Building s S' P o' ∧ o'.fb = some F) := by
      by_cases hm : mode &&& GPU_OFFSCREEN_RENDERBUFFER_DEPTH ≠ 0
      · simp only [offscreenDepthBlock, if_pos hm] at fresh_d ⊢
        obtain ⟨k1, k2⟩ := offscreenDepthRb_spec s S1 P F o1 w h smp r.depthName b1 hF1 hrd1
          fresh_d
        refine ⟨k1, fun hn => ?_⟩
        obtain ⟨S', e, b'⟩ := k2 hn
        exact ⟨S', _, e, b', hF1⟩
      · simp only [offscreenDepthBlock, if_neg hm] at fresh_d ⊢
        obtain ⟨k1, k2⟩ := offscreenDepthTex_spec s S1 P F o1 w h smp r.depthName b1 hF1 hd1
          fresh_d
        refine ⟨k1, fun hn => ?_⟩
        obtain ⟨S', e, b'⟩ := k2 hn
        exact ⟨S', _, e, b', hF1⟩
    by_cases h3 : r.depthName = 0
    · obtain ⟨S2, o2, e2, b2⟩ := hdep.1 h3
      obtain ⟨s', hs', hlive⟩ := Building.abort s S2 P o2 b2
      refine ⟨none, s', ?_, ?_, fun _ => hlive⟩
      · simp only [offscreenCreateResources, e1, Option.bind_eq_bind, Option.some_bind, e2,
          hs']
      · simp [h3]
    · obtain ⟨S2, o2, e2, b2, hF2⟩ := hdep.2 h3
      obtain ⟨res, s', e3, hres, hlive⟩ :=
        offscreenCreateCheck_spec s S2 P F o2 err_out r.status b2 hF2
      refine ⟨res, s', ?_, ?_, hlive⟩
      · simp only [offscreenCreateResources, e1, Option.bind_eq_bind, Option.some_bind, e2,
          e3]
      · rw [hres]
        simp [h2, h3]

/-- C8: `GPU_offscreen_create` is all-or-nothing.  For every request and every combination of
driver answers (generated names fresh or `0`, any completeness status) the call returns; it
returns no object exactly when a generation step failed (framebuffer, colour resource, depth
resource) or the completeness check failed (the two attach steps cannot fail: they use slot
`0`), and whenever it returns no object the sets of live resources (heap structs and GL
names of framebuffers, textures, renderbuffers, and offscreen structs) are those before the
call. -/
theorem offscreen_create_all_or_nothing (s : GPUState) (w h smp : Int) (hdr : GPUHDRType)
    (mode : Nat) (err_out : Bool) (r : GLReplies)
    (fresh_fb : r.fbName ≠ 0 → r.fbName ∉ s.gl.framebuffers)
    (fresh_c : r.colorName ≠ 0 →
      if mode &&& GPU_OFFSCREEN_RENDERBUFFER_COLOR ≠ 0 then r.colorName ∉ s.gl.renderbuffers
      else r.colorName ∉ s.gl.textures)
    (fresh_d : r.depthName ≠ 0 →
      if mode &&& GPU_OFFSCREEN_RENDERBUFFER_DEPTH ≠ 0 then r.depthName ∉ s.gl.renderbuffers
      else r.depthName ∉ s.gl.textures) :
    ∃ res s', GPU_offscreen_create w h smp hdr mode err_out r s = some (res, s') ∧
      (res = none ↔ r.fbName = 0 ∨ r.colorName = 0 ∨ r.depthName = 0 ∨
        r.status ≠ GL_FRAMEBUFFER_COMPLETE) ∧
      (res = none → SameLive s s') := by
  by_cases h1 : r.fbName = 0
  · have e1 := framebuffer_create_fails { s with ofss := s.ofss ++ [some blankOffScreen] }
    have e2 := ofsUpdate_eq
      { s with ofss := s.ofss ++ [some blankOffScreen], fbs := s.fbs ++ [none] }
      s.ofss blankOffScreen (fun o => { o with fb := none }) rfl
    have b := Building.init_fail s { blankOffScreen with fb := none } rfl rfl rfl rfl rfl
    obtain ⟨s', hs', hlive⟩ := Building.abort s _ _ _ b
    refine ⟨none, s', ?_, ?_, fun _ => hlive⟩
    · simp only [GPU_offscreen_create, heapAlloc_fst, heapAlloc_snd, h1]
      simp only [blankOffScreen] at e1 e2 hs'
      simp only [e1, Option.bind_eq_bind, Option.some_bind, e2, hs']
    · simp [h1]
  · have e1 := framebuffer_create_ok { s with ofss := s.ofss ++ [some blankOffScreen] }
      r.fbName h1
    have e2 := ofsUpdate_eq
      { s with
        ofss := s.ofss ++ [some blankOffScreen]
        fbs := s.fbs ++ [some (emptyFrameBuffer r.fbName)]
        gl := glBindFramebuffer GL_FRAMEBUFFER 0 (glBindFramebuffer GL_FRAMEBUFFER r.fbName
          { s.gl with framebuffers := r.fbName :: s.gl.framebuffers }) }
      s.ofss blankOffScreen (fun o => { o with fb := some s.fbs.length }) rfl
    have e3 := ofsUpdate_eq
      { s with
        ofss := s.ofss ++ [some { blankOffScreen with fb := some s.fbs.length }]
        fbs := s.fbs ++ [some (emptyFrameBuffer r.fbName)]
        gl := glBindFramebuffer GL_FRAMEBUFFER 0 (glBindFramebuffer GL_FRAMEBUFFER r.fbName
          { s.gl with framebuffers := r.fbName :: s.gl.framebuffers }) }
      s.ofss { blankOffScreen with fb := some s.fbs.length }
      (fun o => { o with samples := (offscreenSamples
        (glBindFramebuffer GL_FRAMEBUFFER 0 (glBindFramebuffer GL_FRAMEBUFFER r.fbName
          { s.gl with framebuffers := r.fbName :: s.gl.framebuffers })) mode smp) }) rfl
    have b := Building.init_ok s
      { blankOffScreen with
        fb := some s.fbs.length
        samples := (offscreenSamples
          (glBindFramebuffer GL_FRAMEBUFFER 0 (glBindFramebuffer GL_FRAMEBUFFER r.fbName
            { s.gl with framebuffers := r.fbName :: s.gl.framebuffers })) mode smp) }
      r.fbName
      (glBindFramebuffer GL_FRAMEBUFFER 0 (glBindFramebuffer GL_FRAMEBUFFER r.fbName
        { s.gl with framebuffers := r.fbName :: s.gl.framebuffers }))
      h1 (fresh_fb h1) rfl rfl rfl rfl rfl
      (((glBindFramebuffer_names _ _ _).1).trans (glBindFramebuffer_names _ _ _).1)
      (((glBindFramebuffer_names _ _ _).2.1).trans (glBindFramebuffer_names _ _ _).2.1)
      (((glBindFramebuffer_names _ _ _).2.2).trans (glBindFramebuffer_names _ _ _).2.2)
    obtain ⟨res, s', e4, hres, hlive⟩ := offscreenCreateResources_spec s _ s.ofss.length
      s.fbs.length _ w h
      (offscreenSamples
        (glBindFramebuffer GL_FRAMEBUFFER 0 (glBindFramebuffer GL_FRAMEBUFFER r.fbName
          { s.gl with framebuffers := r.fbName :: s.gl.framebuffers })) mode smp)
      hdr mode err_out r b rfl rfl rfl rfl rfl fresh_c fresh_d
    refine ⟨res, s', ?_, ?_, hlive⟩
    · simp only [GPU_offscreen_create, heapAlloc_fst, heapAlloc_snd]
      simp only [blankOffScreen] at e1 e2 e3 e4
      simp only [e1, Option.bind_eq_bind, Option.some_bind, e2, e3, e4]
    · rw [hres]
      simp [h1]

/-- Witness of `offscreen_create_all_or_nothing`: on the example state, with a colour
renderbuffer and a depth texture requested, the driver generates framebuffer `8` and
renderbuffer `9` and then fails to generate the depth texture. -/
theorem offscreen_create_all_or_nothing_witness :
    ∃ s', GPU_offscreen_create 16 16 0 GPUHDRType.GPU_HDR_NONE
        GPU_OFFSCREEN_RENDERBUFFER_COLOR true ⟨8, 9, 0, GL_FRAMEBUFFER_COMPLETE⟩ exampleState
          = some (none, s') ∧
      SameLive exampleState s' := by
  obtain ⟨res, s', h, hiff, hlive⟩ := offscreen_create_all_or_nothing exampleState 16 16 0
    GPUHDRType.GPU_HDR_NONE GPU_OFFSCREEN_RENDERBUFFER_COLOR true
    ⟨8, 9, 0, GL_FRAMEBUFFER_COMPLETE⟩ (by decide) (by decide) (by decide)
  have hres : res = none := hiff.mpr (Or.inr (Or.inr (Or.inl rfl)))
  subst hres
  exact ⟨s', h, hlive rfl⟩

theorem consistent_texBack (s : GPUState) (hc : Consistent s) (A T : Nat) (t : GPUTexture)
    (ht : heapRead s.texs A = some t) (hT : t.fb = some T) :
    ∃ f, heapRead s.fbs T = some f ∧ TexHeld f t A := by
  obtain ⟨f, hf, h⟩ := hc.1 A (heapRead_lt _ _ _ ht) t ht T hT
  exact ⟨f, hf, h⟩

theorem consistent_rbBack (s : GPUState) (hc : Consistent s) (A T : Nat) (r : GPURenderBuffer)
    (hr : heapRead s.rbs A = some r) (hT : r.fb = some T) :
    ∃ f, heapRead s.fbs T = some f ∧ RbHeld f r A := by
  obtain ⟨f, hf, h⟩ := hc.2.1 A (heapRead_lt _ _ _ hr) r hr T hT
  exact ⟨f, hf, h⟩

theorem consistent_intro (s : GPUState)
    (h1 : ∀ A t T, heapRead s.texs A = some t → t.fb = some T →
      ∃ f, heapRead s.fbs T = some f ∧ TexHeld f t A)
    (h2 : ∀ A r T, heapRead s.rbs A = some r → r.fb = some T →
      ∃ f, heapRead s.fbs T = some f ∧ RbHeld f r A)
    (h3 : ∀ T f, heapRead s.fbs T = some f → TableOK s T f) : Consistent s := by
  refine ⟨?_, ?_, ?_⟩
  · intro A _ t ht T hT
    obtain ⟨f, hf, h⟩ := h1 A t T ht hT
    exact ⟨f, hf, h⟩
  · intro A _ r hr T hT
    obtain ⟨f, hf, h⟩ := h2 A r T hr hT
    exact ⟨f, hf, h⟩
  · intro T _ f hf
    have ok := h3 T f hf
    refine ⟨⟨?_, ?_⟩, ?_, ?_⟩
    · intro A hA
      obtain ⟨t, ht, h⟩ := ok.depthtex A hA
      exact ⟨t, ht, h⟩
    · intro i A hA
      obtain ⟨t, ht, h⟩ := ok.colortex i A hA
      exact ⟨t, ht, h⟩
    · intro A hA
      obtain ⟨r, hr, h⟩ := ok.depthrb A hA
      exact ⟨r, hr, h⟩
    · intro i A hA
      obtain ⟨r, hr, h⟩ := ok.colorrb i A hA
      exact ⟨r, hr, h⟩

theorem rbHeld_congr (f f' : GPUFrameBuffer) (r : GPURenderBuffer) (A : Nat)
    (h1 : f'.colorrb = f.colorrb) (h2 : f'.depthrb = f.depthrb) :
    RbHeld f' r A ↔ RbHeld f r A := by
  unfold RbHeld
  rw [h1, h2]

theorem texHeld_congr (f f' : GPUFrameBuffer) (t : GPUTexture) (A : Nat)
    (h1 : f'.colortex = f.colortex) (h2 : f'.depthtex = f.depthtex) :
    TexHeld f' t A ↔ TexHeld f t A := by
  unfold TexHeld
  rw [h1, h2]

/-- Consistency survives an update of one framebuffer struct `T` and one texture struct `A`,
when the tables of `T` are consistent afterwards, its renderbuffer tables are untouched, the
new back-reference of `A` is matched by a table, the other textures held by `T` stay where
they were, and `A` was not held by another framebuffer. -/
theorem consistent_tex_update (s s' : GPUState) (T A : Nat) (f f' : GPUFrameBuffer)
    (t t' : GPUTexture) (hc : Consistent s)
    (hf : heapRead s.fbs T = some f) (ht : heapRead s.texs A = some t)
    (e_fbs : s'.fbs = heapWrite s.fbs T f') (e_texs : s'.texs = heapWrite s.texs A t')
    (e_rbs : s'.rbs = s.rbs)
    (ha : TableOK s' T f')
    (hb1 : f'.colorrb = f.colorrb) (hb2 : f'.depthrb = f.depthrb)
    (hcb : ∀ T0, t'.fb = some T0 → ∃ f0, heapRead s'.fbs T0 = some f0 ∧ TexHeld f0 t' A)
    (hd : ∀ B tB, B ≠ A → heapRead s.texs B = some tB → tB.fb = some T → TexHeld f tB B →
      TexHeld f' tB B)
    (he : ∀ T0, t.fb = some T0 → T0 = T) :
    Consistent s' := by
  have hf' : heapRead s'.fbs T = some f' := by
    rw [e_fbs]; exact heapRead_write_same _ _ _ _ hf
  have hfo : ∀ T0, T0 ≠ T → heapRead s'.fbs T0 = heapRead s.fbs T0 := by
    intro T0 h0
    rw [e_fbs]; exact heapRead_write_other _ _ _ _ (Ne.symm h0)
  have hto : ∀ B, B ≠ A → heapRead s'.texs B = heapRead s.texs B := by
    intro B h0
    rw [e_texs]; exact heapRead_write_other _ _ _ _ (Ne.symm h0)
  apply consistent_intro
  · intro B tB TB hB hTB
    by_cases hBA : B = A
    · subst hBA
      rw [e_texs, heapRead_write_same _ _ _ _ ht] at hB
      cases hB
      exact hcb TB hTB
    · rw [hto B hBA] at hB
      obtain ⟨fB, hfB, hheld⟩ := consistent_texBack s hc B TB tB hB hTB
      by_cases hT0 : TB = T
      · subst hT0
        rw [hf] at hfB
        cases hfB
        exact ⟨f', hf', hd B tB hBA hB hTB hheld⟩
      · exact ⟨fB, (hfo TB hT0).trans hfB, hheld⟩
  · intro R r TR hR hTR
    rw [e_rbs] at hR
    obtain ⟨fR, hfR, hheld⟩ := consistent_rbBack s hc R TR r hR hTR
    by_cases hT0 : TR = T
    · subst hT0
      rw [hf] at hfR
      cases hfR
      exact ⟨f', hf', (rbHeld_congr _ _ r R hb1 hb2).mpr hheld⟩
    · exact ⟨fR, (hfo TR hT0).trans hfR, hheld⟩
  · intro T0 f0 hf0
    by_cases hT0 : T0 = T
    · subst hT0
      rw [hf'] at hf0
      cases hf0
      exact ha
    · have hf0s : heapRead s.fbs T0 = some f0 := (hfo T0 hT0).symm.trans hf0
      have ok := Consistent.tableOK s hc T0 f0 hf0s
      have hne : ∀ B tB, heapRead s.texs B = some tB → tB.fb = some T0 → B ≠ A := by
        rintro B tB hB hfb rfl
        rw [ht] at hB
        cases hB
        exact hT0 (he T0 hfb)
      refine ⟨hf0, ?_, ?_, ?_, ?_⟩
      · intro B hB
        obtain ⟨tB, htB, hfb, hdp⟩ := ok.depthtex B hB
        exact ⟨tB, (hto B (hne B tB htB hfb)).trans htB, hfb, hdp⟩
      · intro i B hB
        obtain ⟨tB, htB, hfb, hdp⟩ := ok.colortex i B hB
        exact ⟨tB, (hto B (hne B tB htB hfb)).trans htB, hfb, hdp⟩
      · rw [e_rbs]; exact ok.depthrb
      · rw [e_rbs]; exact ok.colorrb

/-- Consistency survives an update of one framebuffer struct `T` and one renderbuffer struct
`A`, under the conditions of `consistent_tex_update`. -/
theorem consistent_rb_update (s s' : GPUState) (T A : Nat) (f f' : GPUFrameBuffer)
    (r r' : GPURenderBuffer) (hc : Consistent s)
    (hf : heapRead s.fbs T = some f) (hr : heapRead s.rbs A = some r)
    (e_fbs : s'.fbs = heapWrite s.fbs T f') (e_rbs : s'.rbs = heapWrite s.rbs A r')
    (e_texs : s'.texs = s.texs)
    (ha : TableOK s' T f')
    (hb1 : f'.colortex = f.colortex) (hb2 : f'.depthtex = f.depthtex)
    (hcb : ∀ T0, r'.fb = some T0 → ∃ f0, heapRead s'.fbs T0 = some f0 ∧ RbHeld f0 r' A)
    (hd : ∀ B rB, B ≠ A → heapRead s.rbs B = some rB → rB.fb = some T → RbHeld f rB B →
      RbHeld f' rB B)
    (he : ∀ T0, r.fb = some T0 → T0 = T) :
    Consistent s' := by
  have hf' : heapRead s'.fbs T = some f' := by
    rw [e_fbs]; exact heapRead_write_same _ _ _ _ hf
  have hfo : ∀ T0, T0 ≠ T → heapRead s'.fbs T0 = heapRead s.fbs T0 := by
    intro T0 h0
    rw [e_fbs]; exact heapRead_write_other _ _ _ _ (Ne.symm h0)
  have hro : ∀ B, B ≠ A → heapRead s'.rbs B = heapRead s.rbs B := by
    intro B h0
    rw [e_rbs]; exact heapRead_write_other _ _ _ _ (Ne.symm h0)
  apply consistent_intro
  · intro B tB TB hB hTB
    rw [e_texs] at hB
    obtain ⟨fB, hfB, hheld⟩ := consistent_texBack s hc B TB tB hB hTB
    by_cases hT0 : TB = T
    · subst hT0
      rw [hf] at hfB
      cases hfB
      exact ⟨f', hf', (texHeld_congr _ _ tB B hb1 hb2).mpr hheld⟩
    · exact ⟨fB, (hfo TB hT0).trans hfB, hheld⟩
  · intro B rB TB hB hTB
    by_cases hBA : B = A
    · subst hBA
      rw [e_rbs, heapRead_write_same _ _ _ _ hr] at hB
      cases hB
      exact hcb TB hTB
    · rw [hro B hBA] at hB
      obtain ⟨fB, hfB, hheld⟩ := consistent_rbBack s hc B TB rB hB hTB
      by_cases hT0 : TB = T
      · subst hT0
        rw [hf] at hfB
        cases hfB
        exact ⟨f', hf', hd B rB hBA hB hTB hheld⟩
      · exact ⟨fB, (hfo TB hT0).trans hfB, hheld⟩
  · intro T0 f0 hf0
    by_cases hT0 : T0 = T
    · subst hT0
      rw [hf'] at hf0
      cases hf0
      exact ha
    · have hf0s : heapRead s.fbs T0 = some f0 := (hfo T0 hT0).symm.trans hf0
      have ok := Consistent.tableOK s hc T0 f0 hf0s
      have hne : ∀ B rB, heapRead s.rbs B = some rB → rB.fb = some T0 → B ≠ A := by
        rintro B rB hB hfb rfl
        rw [hr] at hB
        cases hB
        exact hT0 (he T0 hfb)
      refine ⟨hf0, ?_, ?_, ?_, ?_⟩
      · rw [e_texs]; exact ok.depthtex
      · rw [e_texs]; exact ok.colortex
      · intro B hB
        obtain ⟨rB, hrB, hfb, hdp⟩ := ok.depthrb B hB
        exact ⟨rB, (hro B (hne B rB hrB hfb)).trans hrB, hfb, hdp⟩
      · intro i B hB
        obtain ⟨rB, hrB, hfb, hdp⟩ := ok.colorrb i B hB
        exact ⟨rB, (hro B (hne B rB hrB hfb)).trans hrB, hfb, hdp⟩

/-- The tables of `T` stay consistent when a texture `A` that `T` did not hold is attached:
every entry of the new struct is either the new place of `A` or an old entry. -/
theorem tableOK_attach_tex (s s' : GPUState) (T A : Nat) (f f' : GPUFrameBuffer)
    (t t' : GPUTexture) (ok : TableOK s T f) (ht : heapRead s.texs A = some t)
    (hun : t.fb ≠ some T)
    (e_fbs : s'.fbs = heapWrite s.fbs T f') (e_texs : s'.texs = heapWrite s.texs A t')
    (e_rbs : s'.rbs = s.rbs) (hrb1 : f'.colorrb = f.colorrb) (hrb2 : f'.depthrb = f.depthrb)
    (hfb' : t'.fb = some T)
    (hdepth : ∀ B, f'.depthtex = some B → (B = A ∧ t'.depth = true) ∨ f.depthtex = some B)
    (hcolor : ∀ j B, f'.colortex j = some B →
      (B = A ∧ t'.depth = false ∧ slotIdx t'.fb_attachment = some j) ∨
        f.colortex j = some B) :
    TableOK s' T f' := by
  have hA : heapRead s'.texs A = some t' := by
    rw [e_texs]; exact heapRead_write_same _ _ _ _ ht
  have hold : ∀ B tB, heapRead s.texs B = some tB → tB.fb = some T →
      heapRead s'.texs B = some tB := by
    intro B tB hB hfb
    have hne : A ≠ B := by
      rintro rfl
      rw [ht] at hB
      cases hB
      exact hun hfb
    rw [e_texs, heapRead_write_other _ _ _ _ hne]
    exact hB
  refine ⟨?_, ?_, ?_, ?_, ?_⟩
  · rw [e_fbs]; exact heapRead_write_same _ _ _ _ ok.live
  · intro B hB
    rcases hdepth B hB with ⟨rfl, hd⟩ | h
    · exact ⟨t', hA, hfb', hd⟩
    · obtain ⟨tB, htB, hfb, hd⟩ := ok.depthtex B h
      exact ⟨tB, hold B tB htB hfb, hfb, hd⟩
  · intro j B hB
    rcases hcolor j B hB with ⟨rfl, hd, hi⟩ | h
    · exact ⟨t', hA, hfb', hd, hi⟩
    · obtain ⟨tB, htB, hfb, hd, hi⟩ := ok.colortex j B h
      exact ⟨tB, hold B tB htB hfb, hfb, hd, hi⟩
  · rw [e_rbs, hrb2]; exact ok.depthrb
  · rw [e_rbs, hrb1]; exact ok.colorrb

/-- The tables of `T` stay consistent when a renderbuffer `A` that `T` did not hold is
attached. -/
theorem tableOK_attach_rb (s s' : GPUState) (T A : Nat) (f f' : GPUFrameBuffer)
    (r r' : GPURenderBuffer) (ok : TableOK s T f) (hr : heapRead s.rbs A = some r)
    (hun : r.fb ≠ some T)
    (e_fbs : s'.fbs = heapWrite s.fbs T f') (e_rbs : s'.rbs = heapWrite s.rbs A r')
    (e_texs : s'.texs = s.texs) (htx1 : f'.colortex = f.colortex)
    (htx2 : f'.depthtex = f.depthtex)
    (hfb' : r'.fb = some T)
    (hdepth : ∀ B, f'.depthrb = some B → (B = A ∧ r'.depth = true) ∨ f.depthrb = some B)
    (hcolor : ∀ j B, f'.colorrb j = some B →
      (B = A ∧ r'.depth = false ∧ slotIdx r'.fb_attachment = some j) ∨
        f.colorrb j = some B) :
    TableOK s' T f' := by
  have hA : heapRead s'.rbs A = some r' := by
    rw [e_rbs]; exact heapRead_write_same _ _ _ _ hr
  have hold : ∀ B rB, heapRead s.rbs B = some rB → rB.fb = some T →
      heapRead s'.rbs B = some rB := by
    intro B rB hB hfb
    have hne : A ≠ B := by
      rintro rfl
      rw [hr] at hB
      cases hB
      exact hun hfb
    rw [e_rbs, heapRead_write_other _ _ _ _ hne]
    exact hB
  refine ⟨?_, ?_, ?_, ?_, ?_⟩
  · rw [e_fbs]; exact heapRead_write_same _ _ _ _ ok.live
  · rw [e_texs, htx2]; exact ok.depthtex
  · rw [e_texs, htx1]; exact ok.colortex
  · intro B hB
    rcases hdepth B hB with ⟨rfl, hd⟩ | h
    · exact ⟨r', hA, hfb', hd⟩
    · obtain ⟨rB, hrB, hfb, hd⟩ := ok.depthrb B h
      exact ⟨rB, hold B rB hrB hfb, hfb, hd⟩
  · intro j B hB
    rcases hcolor j B hB with ⟨rfl, hd, hi⟩ | h
    · exact ⟨r', hA, hfb', hd, hi⟩
    · obtain ⟨rB, hrB, hfb, hd, hi⟩ := ok.colorrb j B h
      exact ⟨rB, hold B rB hrB hfb, hfb, hd, hi⟩

/-- Attaching an unattached texture to an empty entry keeps the state consistent. -/
theorem consistent_texture_attach (s s' : GPUState) (T A : Nat) (slot : Int) (okb : Bool)
    (f : GPUFrameBuffer) (t : GPUTexture) (hc : Consistent s)
    (hf : heapRead s.fbs T = some f) (ht : heapRead s.texs A = some t) (hun : t.fb = none)
    (hempty : if t.depth then f.depthtex = none
      else ∀ i, slotIdx slot = some i → f.colortex i = none)
    (h : GPU_framebuffer_texture_attach T A slot s = some (okb, s')) : Consistent s' := by
  by_cases h4 : 4 ≤ slot
  · have h4' : slot ≥ GPU_FB_MAX_SLOTS := by unfold GPU_FB_MAX_SLOTS; omega
    simp [GPU_framebuffer_texture_attach, GPU_framebuffer_texture_attach_target, h4', ht] at h
    rw [← h.2]
    exact hc
  · have h4' : slot < 4 := by omega
    have ok := Consistent.tableOK s hc T f hf
    have hunT : t.fb ≠ some T := by rw [hun]; simp
    cases hd : t.depth with
    | true =>
      rw [hd] at hempty
      simp only [if_true] at hempty
      rw [texture_attach_depth_eq s T A slot f t hf ht hd h4'] at h
      simp only [Option.some.injEq, Prod.mk.injEq] at h
      obtain ⟨-, rfl⟩ := h
      refine consistent_tex_update s _ T A f { f with depthtex := some A } t
        (GPU_texture_framebuffer_set t (some T) slot) hc hf ht rfl rfl rfl ?_ rfl rfl ?_ ?_ ?_
      · refine tableOK_attach_tex s _ T A f _ t _ ok ht hunT rfl rfl rfl rfl rfl rfl ?_ ?_
        · intro B hB
          simp only [Option.some.injEq] at hB
          exact Or.inl ⟨hB.symm, hd⟩
        · intro j B hB
          exact Or.inr hB
      · intro T0 hT0
        simp only [GPU_texture_framebuffer_set, Option.some.injEq] at hT0
        subst hT0
        refine ⟨_, heapRead_write_same _ _ _ _ hf, ?_⟩
        simp [TexHeld, GPU_texture_framebuffer_set, hd]
      · intro B tB _ _ _ hheld
        unfold TexHeld at hheld ⊢
        by_cases hdB : tB.depth = true
        · rw [if_pos hdB] at hheld
          rw [hempty] at hheld
          cases hheld
        · rw [if_neg hdB] at hheld ⊢
          exact hheld
      · intro T0 hT0
        rw [hun] at hT0
        cases hT0
    | false =>
      rw [hd] at hempty
      simp only [Bool.false_eq_true, if_false] at hempty
      cases hi : slotIdx slot with
      | none =>
        simp [GPU_framebuffer_texture_attach, GPU_framebuffer_texture_attach_target,
          not_ge_max_slots slot h4', ht, hf, hd, hi] at h
      | some i =>
        rw [texture_attach_color_eq s T A slot i f t hf ht hd hi] at h
        simp only [Option.some.injEq, Prod.mk.injEq] at h
        obtain ⟨-, rfl⟩ := h
        refine consistent_tex_update s _ T A f
          { f with colortex := setSlot f.colortex i (some A) } t
          (GPU_texture_framebuffer_set t (some T) slot) hc hf ht rfl rfl rfl ?_ rfl rfl
          ?_ ?_ ?_
        · refine tableOK_attach_tex s _ T A f _ t _ ok ht hunT rfl rfl rfl rfl rfl rfl ?_ ?_
          · intro B hB
            exact Or.inr hB
          · intro j B hB
            by_cases hj : j = i
            · subst hj
              simp only [setSlot, if_true, Option.some.injEq] at hB
              exact Or.inl ⟨hB.symm, hd, hi⟩
            · simp only [setSlot, hj, if_false] at hB
              exact Or.inr hB
        · intro T0 hT0
          simp only [GPU_texture_framebuffer_set, Option.some.injEq] at hT0
          subst hT0
          refine ⟨_, heapRead_write_same _ _ _ _ hf, ?_⟩
          simp only [TexHeld, GPU_texture_framebuffer_set, hd, Bool.false_eq_true, if_false]
          exact ⟨i, hi, setSlot_same _ _ _⟩
        · intro B tB _ _ _ hheld
          unfold TexHeld at hheld ⊢
          by_cases hdB : tB.depth = true
          · rw [if_pos hdB] at hheld ⊢
            exact hheld
          · rw [if_neg hdB] at hheld ⊢
            obtain ⟨j, hj, hjB⟩ := hheld
            have hji : j ≠ i := by
              rintro rfl
              rw [hempty j hi] at hjB
              cases hjB
            exact ⟨j, hj, by simpa [setSlot, hji] using hjB⟩
        · intro T0 hT0
          rw [hun] at hT0
          cases hT0

/-- Attaching an unattached renderbuffer to an empty entry keeps the state consistent. -/
theorem consistent_renderbuffer_attach (s s' : GPUState) (T A : Nat) (slot : Int)
    (okb : Bool) (f : GPUFrameBuffer) (r : GPURenderBuffer) (hc : Consistent s)
    (hf : heapRead s.fbs T = some f) (hr : heapRead s.rbs A = some r) (hun : r.fb = none)
    (hempty : if r.depth then f.depthrb = none
      else ∀ i, slotIdx slot = some i → f.colorrb i = none)
    (h : GPU_framebuffer_renderbuffer_attach T A slot s = some (okb, s')) :
    Consistent s' := by
  by_cases h4 : 4 ≤ slot
  · have h4' : slot ≥ GPU_FB_MAX_SLOTS := by unfold GPU_FB_MAX_SLOTS; omega
    simp [GPU_framebuffer_renderbuffer_attach, h4', hr] at h
    rw [← h.2]
    exact hc
  · have h4' : slot < 4 := by omega
    have ok := Consistent.tableOK s hc T f hf
    have hunT : r.fb ≠ some T := by rw [hun]; simp
    cases hd : r.depth with
    | true =>
      rw [hd] at hempty
      simp only [if_true] at hempty
      rw [renderbuffer_attach_depth_eq s T A slot f r hf hr hd h4'] at h
      simp only [Option.some.injEq, Prod.mk.injEq] at h
      obtain ⟨-, rfl⟩ := h
      refine consistent_rb_update s _ T A f { f with depthrb := some A } r
        (GPU_renderbuffer_framebuffer_set r (some T) slot) hc hf hr rfl rfl rfl ?_ rfl rfl
        ?_ ?_ ?_
      · refine tableOK_attach_rb s _ T A f _ r _ ok hr hunT rfl rfl rfl rfl rfl rfl ?_ ?_
        · intro B hB
          simp only [Option.some.injEq] at hB
          exact Or.inl ⟨hB.symm, hd⟩
        · intro j B hB
          exact Or.inr hB
      · intro T0 hT0
        simp only [GPU_renderbuffer_framebuffer_set, Option.some.injEq] at hT0
        subst hT0
        refine ⟨_, heapRead_write_same _ _ _ _ hf, ?_⟩
        simp [RbHeld, GPU_renderbuffer_framebuffer_set, hd]
      · intro B rB _ _ _ hheld
        unfold RbHeld at hheld ⊢
        by_cases hdB : rB.depth = true
        · rw [if_pos hdB] at hheld
          rw [hempty] at hheld
          cases hheld
        · rw [if_neg hdB] at hheld ⊢
          exact hheld
      · intro T0 hT0
        rw [hun] at hT0
        cases hT0
    | false =>
      rw [hd] at hempty
      simp only [Bool.false_eq_true, if_false] at hempty
      cases hi : slotIdx slot with
      | none =>
        simp [GPU_framebuffer_renderbuffer_attach, not_ge_max_slots slot h4', hr, hf, hd,
          hi] at h
      | some i =>
        rw [renderbuffer_attach_color_eq s T A slot i f r hf hr hd hi] at h
        simp only [Option.some.injEq, Prod.mk.injEq] at h
        obtain ⟨-, rfl⟩ := h
        refine consistent_rb_update s _ T A f
          { f with colorrb := setSlot f.colorrb i (some A) } r
          (GPU_renderbuffer_framebuffer_set r (some T) slot) hc hf hr rfl rfl rfl ?_ rfl rfl
          ?_ ?_ ?_
        · refine tableOK_attach_rb s _ T A f _ r _ ok hr hunT rfl rfl rfl rfl rfl rfl ?_ ?_
          · intro B hB
            exact Or.inr hB
          · intro j B hB
            by_cases hj : j = i
            · subst hj
              simp only [setSlot, if_true, Option.some.injEq] at hB
              exact Or.inl ⟨hB.symm, hd, hi⟩
            · simp only [setSlot, hj, if_false] at hB
              exact Or.inr hB
        · intro T0 hT0
          simp only [GPU_renderbuffer_framebuffer_set, Option.some.injEq] at hT0
          subst hT0
          refine ⟨_, heapRead_write_same _ _ _ _ hf, ?_⟩
          simp only [RbHeld, GPU_renderbuffer_framebuffer_set, hd, Bool.false_eq_true,
            if_false]
          exact ⟨i, hi, setSlot_same _ _ _⟩
        · intro B rB _ _ _ hheld
          unfold RbHeld at hheld ⊢
          by_cases hdB : rB.depth = true
          · rw [if_pos hdB] at hheld ⊢
            exact hheld
          · rw [if_neg hdB] at hheld ⊢
            obtain ⟨j, hj, hjB⟩ := hheld
            have hji : j ≠ i := by
              rintro rfl
              rw [hempty j hi] at hjB
              cases hjB
            exact ⟨j, hj, by simpa [setSlot, hji] using hjB⟩
        · intro T0 hT0
          rw [hun] at hT0
          cases hT0

/-- Detaching a texture keeps the state consistent. -/
theorem consistent_texture_detach (s s' : GPUState) (A : Nat) (hc : Consistent s)
    (h : GPU_framebuffer_texture_detach A s = some s') : Consistent s' := by
  cases ht : heapRead s.texs A with
  | none => simp [GPU_framebuffer_texture_detach, ht] at h
  | some t =>
    cases hT : t.fb with
    | none =>
      rw [texture_detach_unattached s A t ht hT] at h
      cases h
      exact hc
    | some T =>
      obtain ⟨f, hf, hheld⟩ := consistent_texBack s hc A T t ht hT
      have ok := Consistent.tableOK s hc T f hf
      cases hd : t.depth with
      | true =>
        simp only [TexHeld, hd, if_true] at hheld
        obtain ⟨s1, f1, h1, prog, -, -⟩ := texture_detach_depth_step s T A f ok hheld
        have e := texture_detach_depth_eq s T A f t ht hT hf hd
        rw [h] at h1 e
        cases h1
        have ok1 := prog.ok
        simp only [Option.some.injEq] at e
        subst e
        have hf1 : f1 = { f with depthtex := none } := by
          have := ok1.live
          rw [heapRead_write_same _ _ _ _ hf] at this
          cases this
          rfl
        subst hf1
        refine consistent_tex_update s _ T A f { f with depthtex := none } t
          (GPU_texture_framebuffer_set t none (-1)) hc hf ht rfl rfl rfl ok1 rfl rfl
          ?_ ?_ ?_
        · intro T0 hT0
          simp [GPU_texture_framebuffer_set] at hT0
        · intro B tB hBA _ _ hheldB
          unfold TexHeld at hheldB ⊢
          by_cases hdB : tB.depth = true
          · rw [if_pos hdB] at hheldB
            rw [hheld] at hheldB
            cases hheldB
            exact absurd rfl hBA
          · rw [if_neg hdB] at hheldB ⊢
            exact hheldB
        · intro T0 hT0
          rw [hT] at hT0
          cases hT0
          rfl
      | false =>
        simp only [TexHeld, hd, Bool.false_eq_true, if_false] at hheld
        obtain ⟨i, hi, hiA⟩ := hheld
        obtain ⟨s1, f1, h1, prog, -, -⟩ := texture_detach_color_step s T A i f ok hiA
        have e := texture_detach_color_eq s T A i f t ht hT hf hd hi
        rw [h] at h1 e
        cases h1
        have ok1 := prog.ok
        simp only [Option.some.injEq] at e
        subst e
        have hf1 : f1 = { f with colortex := setSlot f.colortex i none } := by
          have := ok1.live
          rw [heapRead_write_same _ _ _ _ hf] at this
          cases this
          rfl
        subst hf1
        refine consistent_tex_update s _ T A f
          { f with colortex := setSlot f.colortex i none } t
          (GPU_texture_framebuffer_set t none (-1)) hc hf ht rfl rfl rfl ok1 rfl rfl
          ?_ ?_ ?_
        · intro T0 hT0
          simp [GPU_texture_framebuffer_set] at hT0
        · intro B tB hBA _ _ hheldB
          unfold TexHeld at hheldB ⊢
          by_cases hdB : tB.depth = true
          · rw [if_pos hdB] at hheldB ⊢
            exact hheldB
          · rw [if_neg hdB] at hheldB ⊢
            obtain ⟨j, hj, hjB⟩ := hheldB
            have hji : j ≠ i := by
              rintro rfl
              rw [hiA] at hjB
              cases hjB
              exact hBA rfl
            exact ⟨j, hj, by simpa [setSlot, hji] using hjB⟩
        · intro T0 hT0
          rw [hT] at hT0
          cases hT0
          rfl

/-- Detaching a renderbuffer keeps the state consistent. -/
theorem consistent_renderbuffer_detach (s s' : GPUState) (A : Nat) (hc : Consistent s)
    (h : GPU_framebuffer_renderbuffer_detach A s = some s') : Consistent s' := by
  cases hr : heapRead s.rbs A with
  | none => simp [GPU_framebuffer_renderbuffer_detach, hr] at h
  | some r =>
    cases hT : r.fb with
    | none =>
      rw [renderbuffer_detach_unattached s A r hr hT] at h
      cases h
      exact hc
    | some T =>
      obtain ⟨f, hf, hheld⟩ := consistent_rbBack s hc A T r hr hT
      have ok := Consistent.tableOK s hc T f hf
      cases hd : r.depth with
      | true =>
        simp only [RbHeld, hd, if_true] at hheld
        obtain ⟨s1, f1, h1, prog, -, -⟩ := renderbuffer_detach_depth_step s T A f ok hheld
        have e := renderbuffer_detach_depth_eq s T A f r hr hT hf hd
        rw [h] at h1 e
        cases h1
        have ok1 := prog.ok
        simp only [Option.some.injEq] at e
        subst e
        have hf1 : f1 = { f with depthrb := none } := by
          have := ok1.live
          rw [heapRead_write_same _ _ _ _ hf] at this
          cases this
          rfl
        subst hf1
        refine consistent_rb_update s _ T A f { f with depthrb := none } r
          (GPU_renderbuffer_framebuffer_set r none (-1)) hc hf hr rfl rfl rfl ok1 rfl rfl
          ?_ ?_ ?_
        · intro T0 hT0
          simp [GPU_renderbuffer_framebuffer_set] at hT0
        · intro B rB hBA _ _ hheldB
          unfold RbHeld at hheldB ⊢
          by_cases hdB : rB.depth = true
          · rw [if_pos hdB] at hheldB
            rw [hheld] at hheldB
            cases hheldB
            exact absurd rfl hBA
          · rw [if_neg hdB] at hheldB ⊢
            exact hheldB
        · intro T0 hT0
          rw [hT] at hT0
          cases hT0
          rfl
      | false =>
        simp only [RbHeld, hd, Bool.false_eq_true, if_false] at hheld
        obtain ⟨i, hi, hiA⟩ := hheld
        obtain ⟨s1, f1, h1, prog, -, -⟩ := renderbuffer_detach_color_step s T A i f ok hiA
        have e := renderbuffer_detach_color_eq s T A i f r hr hT hf hd hi
        rw [h] at h1 e
        cases h1
        have ok1 := prog.ok
        simp only [Option.some.injEq] at e
        subst e
        have hf1 : f1 = { f with colorrb := setSlot f.colorrb i none } := by
          have := ok1.live
          rw [heapRead_write_same _ _ _ _ hf] at this
          cases this
          rfl
        subst hf1
        refine consistent_rb_update s _ T A f
          { f with colorrb := setSlot f.colorrb i none } r
          (GPU_renderbuffer_framebuffer_set r none (-1)) hc hf hr rfl rfl rfl ok1 rfl rfl
          ?_ ?_ ?_
        · intro T0 hT0
          simp [GPU_renderbuffer_framebuffer_set] at hT0
        · intro B rB hBA _ _ hheldB
          unfold RbHeld at hheldB ⊢
          by_cases hdB : rB.depth = true
          · rw [if_pos hdB] at hheldB ⊢
            exact hheldB
          · rw [if_neg hdB] at hheldB ⊢
            obtain ⟨j, hj, hjB⟩ := hheldB
            have hji : j ≠ i := by
              rintro rfl
              rw [hiA] at hjB
              cases hjB
              exact hBA rfl
            exact ⟨j, hj, by simpa [setSlot, hji] using hjB⟩
        · intro T0 hT0
          rw [hT] at hT0
          cases hT0
          rfl

/-- Every round of the detaching loops of `GPU_framebuffer_free` keeps the state
consistent. -/
theorem consistent_freeColortexStep (T : Nat) (s s' : GPUState) (i : Fin 4)
    (hc : Consistent s) (h : freeColortexStep T s i = some s') : Consistent s' := by
  unfold freeColortexStep at h
  cases hf : heapRead s.fbs T with
  | none => simp [hf] at h
  | some f =>
    cases hA : f.colortex i with
    | none =>
      simp [hf, hA] at h
      rw [← h]
      exact hc
    | some A =>
      simp [hf, hA] at h
      exact consistent_texture_detach s s' A hc h

theorem consistent_freeColorrbStep (T : Nat) (s s' : GPUState) (i : Fin 4)
    (hc : Consistent s) (h : freeColorrbStep T s i = some s') : Consistent s' := by
  unfold freeColorrbStep at h
  cases hf : heapRead s.fbs T with
  | none => simp [hf] at h
  | some f =>
    cases hA : f.colorrb i with
    | none =>
      simp [hf, hA] at h
      rw [← h]
      exact hc
    | some A =>
      simp [hf, hA] at h
      exact consistent_renderbuffer_detach s s' A hc h

theorem consistent_freeDepthtexStep (T : Nat) (s s' : GPUState)
    (hc : Consistent s) (h : freeDepthtexStep T s = some s') : Consistent s' := by
  unfold freeDepthtexStep at h
  cases hf : heapRead s.fbs T with
  | none => simp [hf] at h
  | some f =>
    cases hA : f.depthtex with
    | none =>
      simp [hf, hA] at h
      rw [← h]
      exact hc
    | some A =>
      simp [hf, hA] at h
      exact consistent_texture_detach s s' A hc h

theorem consistent_freeDepthrbStep (T : Nat) (s s' : GPUState)
    (hc : Consistent s) (h : freeDepthrbStep T s = some s') : Consistent s' := by
  unfold freeDepthrbStep at h
  cases hf : heapRead s.fbs T with
  | none => simp [hf] at h
  | some f =>
    cases hA : f.depthrb with
    | none =>
      simp [hf, hA] at h
      rw [← h]
      exact hc
    | some A =>
      simp [hf, hA] at h
      exact consistent_renderbuffer_detach s s' A hc h

/-- A monadic fold whose rounds keep an invariant keeps the invariant. -/
theorem foldlM_option_invariant {α β : Type} (P : β → Prop) (step : β → α → Option β)
    (hstep : ∀ b a b', P b → step b a = some b' → P b') :
    ∀ (l : List α) (b b' : β), P b → l.foldlM step b = some b' → P b' := by
  intro l
  induction l with
  | nil =>
    intro b b' hb h
    simp only [List.foldlM, pure, Option.some.injEq] at h
    rw [← h]
    exact hb
  | cons a l ih =>
    intro b b' hb h
    simp only [List.foldlM_cons] at h
    cases h1 : step b a with
    | none => simp [h1] at h
    | some b1 =>
      simp only [h1, Option.bind_eq_bind, Option.some_bind] at h
      exact ih b1 b' (hstep b a b1 hb h1) h

/-- The detaching part of `GPU_framebuffer_free` keeps the state consistent. -/
theorem consistent_freeDetachAll (T : Nat) (s s' : GPUState) (hc : Consistent s)
    (h : freeDetachAll T s = some s') : Consistent s' := by
  unfold freeDetachAll at h
  cases h1 : freeDepthtexStep T s with
  | none => simp [h1] at h
  | some s1 =>
    simp only [h1, Option.bind_eq_bind, Option.some_bind] at h
    have c1 := consistent_freeDepthtexStep T s s1 hc h1
    cases h2 : (List.finRange 4).foldlM (freeColortexStep T) s1 with
    | none => simp [h2] at h
    | some s2 =>
      simp only [h2, Option.some_bind] at h
      have c2 := foldlM_option_invariant Consistent (freeColortexStep T)
        (fun b a b' hb hs => consistent_freeColortexStep T b b' a hb hs) _ s1 s2 c1 h2
      cases h3 : freeDepthrbStep T s2 with
      | none => simp [h3] at h
      | some s3 =>
        simp only [h3, Option.some_bind] at h
        have c3 := consistent_freeDepthrbStep T s2 s3 c2 h3
        exact foldlM_option_invariant Consistent (freeColorrbStep T)
          (fun b a b' hb hs => consistent_freeColorrbStep T b b' a hb hs) _ s3 s' c3 h

/-- The tables of `T` stay consistent in a state that keeps the struct of `T` and every
resource referring to `T`. -/
theorem tableOK_transfer (s s' : GPUState) (T : Nat) (f : GPUFrameBuffer) (ok : TableOK s T f)
    (hfb : heapRead s'.fbs T = some f)
    (htex : ∀ A t, heapRead s.texs A = some t → heapRead s'.texs A = some t)
    (hrb : ∀ A r, heapRead s.rbs A = some r → heapRead s'.rbs A = some r) :
    TableOK s' T f := by
  refine ⟨hfb, ?_, ?_, ?_, ?_⟩
  · intro A hA
    obtain ⟨t, ht, h⟩ := ok.depthtex A hA
    exact ⟨t, htex A t ht, h⟩
  · intro i A hA
    obtain ⟨t, ht, h⟩ := ok.colortex i A hA
    exact ⟨t, htex A t ht, h⟩
  · intro A hA
    obtain ⟨r, hr, h⟩ := ok.depthrb A hA
    exact ⟨r, hrb A r hr, h⟩
  · intro i A hA
    obtain ⟨r, hr, h⟩ := ok.colorrb i A hA
    exact ⟨r, hrb A r hr, h⟩

/-- Releasing the struct of a framebuffer whose tables are all empty keeps the state
consistent. -/
theorem consistent_free_fb (s s' : GPUState) (T : Nat) (f : GPUFrameBuffer)
    (hc : Consistent s) (hf : heapRead s.fbs T = some f)
    (e1 : f.depthtex = none) (e2 : ∀ i, f.colortex i = none)
    (e3 : f.depthrb = none) (e4 : ∀ i, f.colorrb i = none)
    (h1 : s'.fbs = heapFree s.fbs T) (h2 : s'.texs = s.texs) (h3 : s'.rbs = s.rbs) :
    Consistent s' := by
  refine consistent_intro s' ?_ ?_ ?_
  · intro A t T0 ht hT0
    rw [h2] at ht
    obtain ⟨f0, hf0, hheld⟩ := consistent_texBack s hc A T0 t ht hT0
    by_cases hT : T = T0
    · subst hT
      rw [hf] at hf0
      cases hf0
      unfold TexHeld at hheld
      by_cases hd : t.depth = true
      · rw [if_pos hd, e1] at hheld
        cases hheld
      · rw [if_neg hd] at hheld
        obtain ⟨i, -, hi⟩ := hheld
        rw [e2 i] at hi
        cases hi
    · exact ⟨f0, by rw [h1, heapRead_free_other _ _ _ hT]; exact hf0, hheld⟩
  · intro A r T0 hr hT0
    rw [h3] at hr
    obtain ⟨f0, hf0, hheld⟩ := consistent_rbBack s hc A T0 r hr hT0
    by_cases hT : T = T0
    · subst hT
      rw [hf] at hf0
      cases hf0
      unfold RbHeld at hheld
      by_cases hd : r.depth = true
      · rw [if_pos hd, e3] at hheld
        cases hheld
      · rw [if_neg hd] at hheld
        obtain ⟨i, -, hi⟩ := hheld
        rw [e4 i] at hi
        cases hi
    · exact ⟨f0, by rw [h1, heapRead_free_other _ _ _ hT]; exact hf0, hheld⟩
  · intro T0 f0 hf0
    have hT : T ≠ T0 := by
      rintro rfl
      rw [h1, heapRead_free_same] at hf0
      cases hf0
    have hf0' : heapRead s.fbs T0 = some f0 := by
      rw [h1, heapRead_free_other _ _ _ hT] at hf0
      exact hf0
    exact tableOK_transfer s s' T0 f0 (Consistent.tableOK s hc T0 f0 hf0') hf0
      (fun A t ht => by rw [h2]; exact ht) (fun A r hr => by rw [h3]; exact hr)

/-- Allocating a framebuffer cell that is released or holds an empty struct keeps the state
consistent. -/
theorem consistent_append_fb (s s' : GPUState) (c : Option GPUFrameBuffer)
    (hc : Consistent s)
    (hcell : ∀ f, c = some f → f.depthtex = none ∧ (∀ i, f.colortex i = none) ∧
      f.depthrb = none ∧ ∀ i, f.colorrb i = none)
    (h1 : s'.fbs = s.fbs ++ [c]) (h2 : s'.texs = s.texs) (h3 : s'.rbs = s.rbs) :
    Consistent s' := by
  refine consistent_intro s' ?_ ?_ ?_
  · intro A t T0 ht hT0
    rw [h2] at ht
    obtain ⟨f0, hf0, hheld⟩ := consistent_texBack s hc A T0 t ht hT0
    exact ⟨f0, by rw [h1]; exact heapRead_append_some _ _ _ _ hf0, hheld⟩
  · intro A r T0 hr hT0
    rw [h3] at hr
    obtain ⟨f0, hf0, hheld⟩ := consistent_rbBack s hc A T0 r hr hT0
    exact ⟨f0, by rw [h1]; exact heapRead_append_some _ _ _ _ hf0, hheld⟩
  · intro T0 f0 hf0
    by_cases hT : T0 = s.fbs.length
    · subst hT
      have hf0' := hf0
      rw [h1, heapRead_append_length] at hf0'
      obtain ⟨e1, e2, e3, e4⟩ := hcell f0 hf0'
      refine ⟨hf0, ?_, ?_, ?_, ?_⟩
      · intro A hA
        rw [e1] at hA
        cases hA
      · intro i A hA
        rw [e2 i] at hA
        cases hA
      · intro A hA
        rw [e3] at hA
        cases hA
      · intro i A hA
        rw [e4 i] at hA
        cases hA
    · have hf0' : heapRead s.fbs T0 = some f0 := by
        rw [h1, heapRead_append_ne _ _ _ hT] at hf0
        exact hf0
      exact tableOK_transfer s s' T0 f0 (Consistent.tableOK s hc T0 f0 hf0') hf0
        (fun A t ht => by rw [h2]; exact ht) (fun A r hr => by rw [h3]; exact hr)

/-- Allocating a texture cell that is released or holds an unattached texture keeps the
state consistent. -/
theorem consistent_append_tex (s s' : GPUState) (c : Option GPUTexture)
    (hc : Consistent s) (hcell : ∀ t, c = some t → t.fb = none)
    (h1 : s'.fbs = s.fbs) (h2 : s'.texs = s.texs ++ [c]) (h3 : s'.rbs = s.rbs) :
    Consistent s' := by
  refine consistent_intro s' ?_ ?_ ?_
  · intro A t T0 ht hT0
    by_cases hA : A = s.texs.length
    · subst hA
      rw [h2, heapRead_append_length] at ht
      rw [hcell t ht] at hT0
      cases hT0
    · rw [h2, heapRead_append_ne _ _ _ hA] at ht
      obtain ⟨f0, hf0, hheld⟩ := consistent_texBack s hc A T0 t ht hT0
      exact ⟨f0, by rw [h1]; exact hf0, hheld⟩
  · intro A r T0 hr hT0
    rw [h3] at hr
    obtain ⟨f0, hf0, hheld⟩ := consistent_rbBack s hc A T0 r hr hT0
    exact ⟨f0, by rw [h1]; exact hf0, hheld⟩
  · intro T0 f0 hf0
    have hf0' : heapRead s.fbs T0 = some f0 := by
      rw [h1] at hf0
      exact hf0
    exact tableOK_transfer s s' T0 f0 (Consistent.tableOK s hc T0 f0 hf0') hf0
      (fun A t ht => by rw [h2]; exact heapRead_append_some _ _ _ _ ht)
      (fun A r hr => by rw [h3]; exact hr)

/-- Allocating a renderbuffer cell that is released or holds an unattached renderbuffer keeps
the state consistent. -/
theorem consistent_append_rb (s s' : GPUState) (c : Option GPURenderBuffer)
    (hc : Consistent s) (hcell : ∀ r, c = some r → r.fb = none)
    (h1 : s'.fbs = s.fbs) (h2 : s'.texs = s.texs) (h3 : s'.rbs = s.rbs ++ [c]) :
    Consistent s' := by
  refine consistent_intro s' ?_ ?_ ?_
  · intro A t T0 ht hT0
    rw [h2] at ht
    obtain ⟨f0, hf0, hheld⟩ := consistent_texBack s hc A T0 t ht hT0
    exact ⟨f0, by rw [h1]; exact hf0, hheld⟩
  · intro A r T0 hr hT0
    by_cases hA : A = s.rbs.length
    · subst hA
      rw [h3, heapRead_append_length] at hr
      rw [hcell r hr] at hT0
      cases hT0
    · rw [h3, heapRead_append_ne _ _ _ hA] at hr
      obtain ⟨f0, hf0, hheld⟩ := consistent_rbBack s hc A T0 r hr hT0
      exact ⟨f0, by rw [h1]; exact hf0, hheld⟩
  · intro T0 f0 hf0
    have hf0' : heapRead s.fbs T0 = some f0 := by
      rw [h1] at hf0
      exact hf0
    exact tableOK_transfer s s' T0 f0 (Consistent.tableOK s hc T0 f0 hf0') hf0
      (fun A t ht => by rw [h2]; exact ht)
      (fun A r hr => by rw [h3]; exact heapRead_append_some _ _ _ _ hr)

/-- Function `GPU_framebuffer_free` keeps the state consistent. -/
theorem consistent_framebuffer_free (s s' : GPUState) (T : Nat) (hc : Consistent s)
    (h : GPU_framebuffer_free T s = some s') : Consistent s' := by
  cases hf : heapRead s.fbs T with
  | none => simp [GPU_framebuffer_free, freeDetachAll, freeDepthtexStep, hf] at h
  | some f =>
    obtain ⟨s1, f1, h1, p, e1, e2, e3, e4⟩ :=
      freeDetachAll_progress s T f (Consistent.tableOK s hc T f hf)
    have c1 := consistent_freeDetachAll T s s1 hc h1
    obtain ⟨s2, h2, htex, hrb, hfbs, -⟩ := framebuffer_free_tail s s1 T f1 h1 p.ok.live
    rw [h] at h2
    cases h2
    exact consistent_free_fb s1 s' T f1 c1 p.ok.live e1 e2 e3 e4 hfbs htex hrb

/-- Function `GPU_framebuffer_create` keeps the state consistent. -/
theorem consistent_framebuffer_create (s s' : GPUState) (name : Nat) (res : Option Nat)
    (hc : Consistent s) (h : GPU_framebuffer_create name s = some (res, s')) :
    Consistent s' := by
  by_cases hname : name = 0
  · subst hname
    rw [framebuffer_create_fails] at h
    simp only [Option.some.injEq, Prod.mk.injEq] at h
    obtain ⟨-, rfl⟩ := h
    exact consistent_append_fb s _ none hc (fun f hf => by cases hf) rfl rfl rfl
  · rw [framebuffer_create_ok s name hname] at h
    simp only [Option.some.injEq, Prod.mk.injEq] at h
    obtain ⟨-, rfl⟩ := h
    refine consistent_append_fb s _ (some (emptyFrameBuffer name)) hc ?_ rfl rfl rfl
    intro f hf
    cases hf
    exact ⟨rfl, fun _ => rfl, rfl, fun _ => rfl⟩

/-- Function `GPU_texture_create_multisample` keeps the state consistent. -/
theorem consistent_texture_create (s : GPUState) (w h smp : Int) (depth : Bool) (name : Nat)
    (hc : Consistent s) :
    Consistent (GPU_texture_create_multisample w h smp depth name s).2 := by
  by_cases hname : name = 0
  · subst hname
    rw [texture_create_fails]
    exact hc
  · rw [texture_create_ok s w h smp depth name hname]
    refine consistent_append_tex s _ _ hc ?_ rfl rfl rfl
    intro t ht
    cases ht
    rfl

/-- Function `GPU_renderbuffer_create` keeps the state consistent. -/
theorem consistent_renderbuffer_create (s s' : GPUState) (w h smp : Int) (hdr : GPUHDRType)
    (type : GPURenderBufferType) (name : Nat) (res : Option Nat) (hc : Consistent s)
    (hcr : GPU_renderbuffer_create w h smp hdr type name s = some (res, s')) :
    Consistent s' := by
  by_cases hname : name = 0
  · subst hname
    rw [renderbuffer_create_fails] at hcr
    simp only [Option.some.injEq, Prod.mk.injEq] at hcr
    obtain ⟨-, rfl⟩ := hcr
    exact consistent_append_rb s _ none hc (fun r hr => by cases hr) rfl rfl rfl
  · rw [renderbuffer_create_ok s w h smp hdr type name hname _ rfl] at hcr
    simp only [Option.some.injEq, Prod.mk.injEq] at hcr
    obtain ⟨-, rfl⟩ := hcr
    refine consistent_append_rb s _ _ hc ?_ rfl rfl rfl
    intro r hr
    cases hr
    rfl

/-- The empty state is consistent. -/
theorem consistent_emptyState : Consistent emptyState := by decide

/-- The state `emptySlotState` is reached by create, create, attach. -/
theorem emptySlotState_reachable : Reachable emptySlotState :=
  Reachable.texture_attach
    (GPU_texture_create_multisample 16 16 0 false 5
      { emptyState with
        fbs := [some (emptyFrameBuffer 7)]
        gl := { emptyState.gl with framebuffers := [7] } }).2
    emptySlotState 0 0 0 true (emptyFrameBuffer 7) (exampleTexture 5 false)
    (Reachable.texture_create _ 16 16 0 false 5
      (Reachable.framebuffer_create emptyState _ 7 (some 0) Reachable.empty rfl))
    (by decide) (by decide) rfl rfl rfl (fun _ _ => rfl) rfl

/-- C4, amended: in every state reachable from the empty state by framebuffer, texture and
renderbuffer creation, attach at a slot in `0..3` of an unattached resource to an empty entry,
detach, and framebuffer free, the back-references and the attachment tables agree in both
directions. -/
theorem reachable_consistent (s : GPUState) (h : Reachable s) : Consistent s := by
  induction h with
  | empty => exact consistent_emptyState
  | framebuffer_create s s' name res _ hop ih =>
    exact consistent_framebuffer_create s s' name res ih hop
  | texture_create s w h samples depth name _ ih =>
    exact consistent_texture_create s w h samples depth name ih
  | renderbuffer_create s s' w h samples hdrtype type name res _ hop ih =>
    exact consistent_renderbuffer_create s s' w h samples hdrtype type name res ih hop
  | texture_attach s s' T A slot ok f t _ _ _ hf ht hun hempty hop ih =>
    exact consistent_texture_attach s s' T A slot ok f t ih hf ht hun hempty hop
  | renderbuffer_attach s s' T A slot ok f r _ _ _ hf hr hun hempty hop ih =>
    exact consistent_renderbuffer_attach s s' T A slot ok f r ih hf hr hun hempty hop
  | texture_detach s s' A _ hop ih => exact consistent_texture_detach s s' A ih hop
  | renderbuffer_detach s s' A _ hop ih => exact consistent_renderbuffer_detach s s' A ih hop
  | framebuffer_free s s' T _ hop ih => exact consistent_framebuffer_free s s' T ih hop

/-- C4, amended, at the state after create, create, attach to the empty slot `0`. -/
theorem reachable_consistent_witness :
    Reachable emptySlotState ∧ Consistent emptySlotState :=
  ⟨emptySlotState_reachable, reachable_consistent emptySlotState emptySlotState_reachable⟩

/-- Function `GPU_framebuffer_restore` leaves the tracker at `0`. -/
theorem framebuffer_restore_currentfb (s : GPUState) :
    (GPU_framebuffer_restore s).currentfb = 0 := by
  unfold GPU_framebuffer_restore
  split_ifs with h
  · rfl
  · simpa using h

/-- C11, counterexample: framebuffer `9` is bound and tracked when the offscreen `0` is bound
with `save = true`; after the matching `GPU_offscreen_unbind(ofs, true)` the tracker is `0`,
not `9`. -/
theorem bind_unbind_loses_previous_target :
    ∃ s s1 s2, otherTargetBoundRun = some s ∧ s.currentfb = 9 ∧ trackerInSync s ∧
      GPU_offscreen_bind 0 true s = some s1 ∧ s1.currentfb = 1 ∧
      GPU_offscreen_unbind 0 true s1 = some s2 ∧ s2.currentfb = 0 ∧
      s2.currentfb ≠ s.currentfb :=
  ⟨_, _, _, rfl, rfl, by decide, rfl, rfl, rfl, rfl, by decide⟩

/-- C11, amended: for every live offscreen whose colour texture is live (attached to a live
framebuffer or unattached) and every value of the tracker before the call,
`GPU_offscreen_bind(ofs, true)` followed by `GPU_offscreen_unbind(ofs, true)` returns and
leaves the tracker at `0`, the default target; the tracker equals its value before the bind
exactly when that value was `0`. -/
theorem bind_unbind_restores_default (s : GPUState) (ofs color : Nat) (o : GPUOffScreen)
    (t : GPUTexture) (ho : heapRead s.ofss ofs = some o) (hcol : o.color = some color)
    (ht : heapRead s.texs color = some t)
    (hfb : ∀ fb, t.fb = some fb → (heapRead s.fbs fb).isSome = true) :
    ∃ s1 s2, GPU_offscreen_bind ofs true s = some s1 ∧
      GPU_offscreen_unbind ofs true s1 = some s2 ∧ s2.currentfb = 0 ∧
      (s2.currentfb = s.currentfb ↔ s.currentfb = 0) := by
  have hbind : ∃ s1, GPU_offscreen_bind ofs true s = some s1 ∧ s1.ofss = s.ofss := by
    cases hT : t.fb with
    | none =>
      exact ⟨s, by simp [GPU_offscreen_bind, ho, hcol, GPU_texture_bind_as_framebuffer, ht, hT],
        rfl⟩
    | some fb =>
      have h := hfb fb hT
      cases hf : heapRead s.fbs fb with
      | none => simp [hf] at h
      | some f =>
        exact ⟨{ s with
            gl := glBindFramebuffer GL_FRAMEBUFFER f.object s.gl, currentfb := f.object },
          by simp [GPU_offscreen_bind, ho, hcol, GPU_texture_bind_as_framebuffer, ht, hT, hf],
          rfl⟩
  obtain ⟨s1, h1, hofs⟩ := hbind
  refine ⟨s1, GPU_framebuffer_restore s1, h1, ?_, framebuffer_restore_currentfb s1, ?_⟩
  · simp [GPU_offscreen_unbind, offscreenUnbindPop, hofs, ho, GPU_framebuffer_texture_unbind]
  · rw [framebuffer_restore_currentfb]
    exact eq_comm

/-- C11, amended, at the state where framebuffer `9` is bound: the pair of calls ends with
the tracker at `0`. -/
theorem bind_unbind_restores_default_witness :
    ∃ s s1 s2, otherTargetBoundRun = some s ∧ GPU_offscreen_bind 0 true s = some s1 ∧
      GPU_offscreen_unbind 0 true s1 = some s2 ∧ s2.currentfb = 0 := by
  obtain ⟨s1, s2, h1, h2, h3, -⟩ := bind_unbind_restores_default
    (otherTargetBoundRun.getD emptyState) 0 0
    { fb := some 0, color := some 0, depth := some 1, rbcolor := none, rbdepth := none,
      samples := 0 }
    (GPU_texture_framebuffer_set
      { w := 16, h := 16, samples := 0, number := -1, target := GL_TEXTURE_2D, bindcode := 2,
        depth := false, fb := none, fb_attachment := -1 } (some 0) 0)
    rfl rfl rfl (by intro fb hfb; cases hfb; rfl)
  exact ⟨_, s1, s2, rfl, h1, h2, h3⟩

/-- The failure exit of `GPU_offscreen_create` returns no object. -/
theorem offscreenAbort_result (ofs : Nat) (s s' : GPUState) (res : Option Nat)
    (h : offscreenAbort ofs s = some (res, s')) : res = none := by
  unfold offscreenAbort at h
  cases hf : GPU_offscreen_free ofs s with
  | none => simp [hf] at h
  | some s1 =>
    simp only [hf, Option.bind_eq_bind, Option.some_bind, Option.some.injEq,
      Prod.mk.injEq] at h
    exact h.1.symm

/-- A successful end of `GPU_offscreen_create` is the one after `GPU_framebuffer_restore`. -/
theorem offscreenCreateCheck_tracker (ofs fb : Nat) (err_out : Bool) (status : Nat)
    (s s' : GPUState) (p : Nat)
    (h : offscreenCreateCheck ofs fb err_out status s = some (some p, s')) :
    s'.currentfb = 0 := by
  unfold offscreenCreateCheck at h
  cases hv : GPU_framebuffer_check_valid fb err_out status s with
  | none => simp [hv] at h
  | some v =>
    obtain ⟨ok, msg, s1⟩ := v
    simp only [hv, Option.bind_eq_bind, Option.some_bind] at h
    cases ok with
    | false =>
      simp only [Bool.not_false, if_true] at h
      have := offscreenAbort_result ofs s1 s' (some p) h
      cases this
    | true =>
      simp only [Bool.not_true, Bool.false_eq_true, if_false, Option.some.injEq,
        Prod.mk.injEq] at h
      rw [← h.2]
      exact framebuffer_restore_currentfb s1

theorem offscreenCreateResources_tracker (ofs fb : Nat) (w h smp : Int) (hdr : GPUHDRType)
    (mode : Nat) (err_out : Bool) (r : GLReplies) (s s' : GPUState) (p : Nat)
    (hres : offscreenCreateResources ofs fb w h smp hdr mode err_out r s = some (some p, s')) :
    s'.currentfb = 0 := by
  unfold offscreenCreateResources at hres
  cases hc : offscreenColorBlock ofs fb w h smp hdr mode r.colorName s with
  | none => simp [hc] at hres
  | some c =>
    simp only [hc, Option.bind_eq_bind, Option.some_bind] at hres
    cases c with
    | inl s1 =>
      have := offscreenAbort_result ofs s1 s' (some p) hres
      cases this
    | inr s1 =>
      simp only at hres
      cases hd : offscreenDepthBlock ofs fb w h smp mode r.depthName s1 with
      | none => simp [hd] at hres
      | some d =>
        simp only [hd, Option.some_bind] at hres
        cases d with
        | inl s2 =>
          have := offscreenAbort_result ofs s2 s' (some p) hres
          cases this
        | inr s2 => exact offscreenCreateCheck_tracker ofs fb err_out r.status s2 s' p hres

/-- C14: after every successful `GPU_offscreen_create` (the call returns an object)
`GG.currentfb` is `0`, whatever the state before the call was. -/
theorem offscreen_create_leaves_default_bound (s s' : GPUState) (w h smp : Int)
    (hdr : GPUHDRType) (mode : Nat) (err_out : Bool) (r : GLReplies) (ofs : Nat)
    (hres : GPU_offscreen_create w h smp hdr mode err_out r s = some (some ofs, s')) :
    s'.currentfb = 0 := by
  unfold GPU_offscreen_create at hres
  simp only [Option.bind_eq_bind] at hres
  cases hfb : GPU_framebuffer_create r.fbName { s with ofss := (heapAlloc s.ofss
      { fb := none, color := none, depth := none, rbcolor := none, rbdepth := none,
        samples := 0 }).2 } with
  | none => simp [hfb] at hres
  | some v =>
    obtain ⟨fb, s1⟩ := v
    simp only [hfb, Option.some_bind] at hres
    cases hu : ofsUpdate (heapAlloc s.ofss
      { fb := none, color := none, depth := none, rbcolor := none, rbdepth := none,
        samples := 0 }).1 (fun o => { o with fb := fb }) s1 with
    | none => simp [hu] at hres
    | some s2 =>
      simp only [hu, Option.some_bind] at hres
      cases fb with
      | none =>
        have := offscreenAbort_result _ s2 s' (some ofs) hres
        cases this
      | some F =>
        simp only at hres
        cases hu2 : ofsUpdate (heapAlloc s.ofss
          { fb := none, color := none, depth := none, rbcolor := none, rbdepth := none,
            samples := 0 }).1
          (fun o => { o with samples := offscreenSamples s2.gl mode smp }) s2 with
        | none => simp [hu2] at hres
        | some s3 =>
          simp only [hu2, Option.some_bind] at hres
          exact offscreenCreateResources_tracker _ F w h _ hdr mode err_out r s3 s' ofs hres

/-- C14 on the state `attachedState`, where framebuffer `7` is bound and tracked: the call
succeeds and the tracker is `0` afterwards. -/
theorem offscreen_create_leaves_default_bound_witness :
    attachedState.currentfb = 7 ∧
    ∃ s', GPU_offscreen_create 16 16 0 GPUHDRType.GPU_HDR_NONE 0 true
        ⟨8, 9, 10, GL_FRAMEBUFFER_COMPLETE⟩ attachedState = some (some 0, s') ∧
      s'.currentfb = 0 :=
  ⟨rfl, _, rfl, offscreen_create_leaves_default_bound attachedState _ 16 16 0
    GPUHDRType.GPU_HDR_NONE 0 true ⟨8, 9, 10, GL_FRAMEBUFFER_COMPLETE⟩ 0 rfl⟩

/-- Binding a framebuffer changes no capability flag. -/
theorem glBindFramebuffer_caps (target name : Nat) (gl : GLState) :
    (glBindFramebuffer target name gl).EXT_framebuffer_multisample
      = gl.EXT_framebuffer_multisample ∧
    (glBindFramebuffer target name gl).ARB_texture_multisample = gl.ARB_texture_multisample ∧
    (glBindFramebuffer target name gl).EXT_framebuffer_blit = gl.EXT_framebuffer_blit := by
  unfold glBindFramebuffer
  split_ifs <;> exact ⟨rfl, rfl, rfl⟩

/-- The sample count kept depends on the context only through the three capability flags. -/
theorem offscreenSamples_congr (gl gl' : GLState) (mode : Nat) (smp : Int)
    (h1 : gl'.EXT_framebuffer_multisample = gl.EXT_framebuffer_multisample)
    (h2 : gl'.ARB_texture_multisample = gl.ARB_texture_multisample)
    (h3 : gl'.EXT_framebuffer_blit = gl.EXT_framebuffer_blit) :
    offscreenSamples gl' mode smp = offscreenSamples gl mode smp := by
  unfold offscreenSamples
  rw [h1, h2, h3]

/-- The success path of `GPU_offscreen_create`: when the driver generates three fresh names
and reports a complete framebuffer, the call returns the new offscreen, whose struct records
the sample count chosen by the `if (samples)` block and holds, for colour and for depth, a
renderbuffer when the mode flag is set and a texture otherwise. -/
theorem offscreen_create_success (s : GPUState) (w h smp : Int) (hdr : GPUHDRType)
    (mode : Nat) (err_out : Bool) (r : GLReplies)
    (h1 : r.fbName ≠ 0) (h2 : r.colorName ≠ 0) (h3 : r.depthName ≠ 0)
    (h4 : r.status = GL_FRAMEBUFFER_COMPLETE)
    (fresh_fb : r.fbName ∉ s.gl.framebuffers)
    (fresh_c :
      if mode &&& GPU_OFFSCREEN_RENDERBUFFER_COLOR ≠ 0 then r.colorName ∉ s.gl.renderbuffers
      else r.colorName ∉ s.gl.textures)
    (fresh_d :
      if mode &&& GPU_OFFSCREEN_RENDERBUFFER_DEPTH ≠ 0 then r.depthName ∉ s.gl.renderbuffers
      else r.depthName ∉ s.gl.textures) :
    ∃ s' o, GPU_offscreen_create w h smp hdr mode err_out r s = some (some s.ofss.length, s') ∧
      heapRead s'.ofss s.ofss.length = some o ∧
      o.samples = offscreenSamples s.gl mode smp ∧
      (mode &&& GPU_OFFSCREEN_RENDERBUFFER_COLOR ≠ 0 → o.rbcolor ≠ none ∧ o.color = none) ∧
      (¬ mode &&& GPU_OFFSCREEN_RENDERBUFFER_COLOR ≠ 0 → o.color ≠ none ∧ o.rbcolor = none) ∧
      (mode &&& GPU_OFFSCREEN_RENDERBUFFER_DEPTH ≠ 0 → o.rbdepth ≠ none ∧ o.depth = none) ∧
      (¬ mode &&& GPU_OFFSCREEN_RENDERBUFFER_DEPTH ≠ 0 → o.depth ≠ none ∧ o.rbdepth = none) := by
  have e1 := framebuffer_create_ok { s with ofss := s.ofss ++ [some blankOffScreen] }
    r.fbName h1
  have e2 := ofsUpdate_eq
    { s with
      ofss := s.ofss ++ [some blankOffScreen]
      fbs := s.fbs ++ [some (emptyFrameBuffer r.fbName)]
      gl := glBindFramebuffer GL_FRAMEBUFFER 0 (glBindFramebuffer GL_FRAMEBUFFER r.fbName
        { s.gl with framebuffers := r.fbName :: s.gl.framebuffers }) }
    s.ofss blankOffScreen (fun o => { o with fb := some s.fbs.length }) rfl
  have e3 := ofsUpdate_eq
    { s with
      ofss := s.ofss ++ [some { blankOffScreen with fb := some s.fbs.length }]
      fbs := s.fbs ++ [some (emptyFrameBuffer r.fbName)]
      gl := glBindFramebuffer GL_FRAMEBUFFER 0 (glBindFramebuffer GL_FRAMEBUFFER r.fbName
        { s.gl with framebuffers := r.fbName :: s.gl.framebuffers }) }
    s.ofss { blankOffScreen with fb := some s.fbs.length }
    (fun o => { o with samples := (offscreenSamples
      (glBindFramebuffer GL_FRAMEBUFFER 0 (glBindFramebuffer GL_FRAMEBUFFER r.fbName
        { s.gl with framebuffers := r.fbName :: s.gl.framebuffers })) mode smp) }) rfl
  have hsmp : offscreenSamples
      (glBindFramebuffer GL_FRAMEBUFFER 0 (glBindFramebuffer GL_FRAMEBUFFER r.fbName
        { s.gl with framebuffers := r.fbName :: s.gl.framebuffers })) mode smp
      = offscreenSamples s.gl mode smp := by
    apply offscreenSamples_congr
    · rw [(glBindFramebuffer_caps _ _ _).1, (glBindFramebuffer_caps _ _ _).1]
    · rw [(glBindFramebuffer_caps _ _ _).2.1, (glBindFramebuffer_caps _ _ _).2.1]
    · rw [(glBindFramebuffer_caps _ _ _).2.2, (glBindFramebuffer_caps _ _ _).2.2]
  rw [hsmp] at e3
  have b := Building.init_ok s
    { blankOffScreen with
      fb := some s.fbs.length
      samples := offscreenSamples s.gl mode smp }
    r.fbName
    (glBindFramebuffer GL_FRAMEBUFFER 0 (glBindFramebuffer GL_FRAMEBUFFER r.fbName
      { s.gl with framebuffers := r.fbName :: s.gl.framebuffers }))
    h1 fresh_fb rfl rfl rfl rfl rfl
    (((glBindFramebuffer_names _ _ _).1).trans (glBindFramebuffer_names _ _ _).1)
    (((glBindFramebuffer_names _ _ _).2.1).trans (glBindFramebuffer_names _ _ _).2.1)
    (((glBindFramebuffer_names _ _ _).2.2).trans (glBindFramebuffer_names _ _ _).2.2)
  -- colour block
  have hcol : ∃ S1 o1,
      offscreenColorBlock s.ofss.length s.fbs.length w h (offscreenSamples s.gl mode smp) hdr
        mode r.colorName
        { s with
          ofss := s.ofss ++ [some { blankOffScreen with
            fb := some s.fbs.length, samples := offscreenSamples s.gl mode smp }]
          fbs := s.fbs ++ [some (emptyFrameBuffer r.fbName)]
          gl := glBindFramebuffer GL_FRAMEBUFFER 0 (glBindFramebuffer GL_FRAMEBUFFER r.fbName
            { s.gl with framebuffers := r.fbName :: s.gl.framebuffers }) }
        = some (Sum.inr S1) ∧
      Building s S1 s.ofss.length o1 ∧ o1.fb = some s.fbs.length ∧
      o1.samples = offscreenSamples s.gl mode smp ∧ o1.depth = none ∧ o1.rbdepth = none ∧
      (mode &&& GPU_OFFSCREEN_RENDERBUFFER_COLOR ≠ 0 → o1.rbcolor ≠ none ∧ o1.color = none) ∧
      (¬ mode &&& GPU_OFFSCREEN_RENDERBUFFER_COLOR ≠ 0 →
        o1.color ≠ none ∧ o1.rbcolor = none) := by
    by_cases hm : mode &&& GPU_OFFSCREEN_RENDERBUFFER_COLOR ≠ 0
    · simp only [offscreenColorBlock, if_pos hm] at fresh_c ⊢
      obtain ⟨S', e, b'⟩ := (offscreenColorRb_spec s _ _ _ _ w h
        (offscreenSamples s.gl mode smp) hdr r.colorName b rfl rfl (fun _ => fresh_c)).2 h2
      exact ⟨S', _, e, b', rfl, rfl, rfl, rfl, fun _ => ⟨by simp, rfl⟩,
        fun hn => absurd hm hn⟩
    · simp only [offscreenColorBlock, if_neg hm] at fresh_c ⊢
      obtain ⟨S', e, b'⟩ := (offscreenColorTex_spec s _ _ _ _ w h
        (offscreenSamples s.gl mode smp) r.colorName b rfl rfl (fun _ => fresh_c)).2 h2
      exact ⟨S', _, e, b', rfl, rfl, rfl, rfl, fun hn => absurd hn hm,
        fun _ => ⟨by simp, rfl⟩⟩
  obtain ⟨S1, o1, ec, b1, hF1, hs1, hd1, hrd1, hc1, hc1'⟩ := hcol
  -- depth block
  have hdep : ∃ S2 o2,
      offscreenDepthBlock s.ofss.length s.fbs.length w h (offscreenSamples s.gl mode smp)
        mode r.depthName S1 = some (Sum.inr S2) ∧
      Building s S2 s.ofss.length o2 ∧ o2.fb = some s.fbs.length ∧
      o2.samples = offscreenSamples s.gl mode smp ∧
      o2.color = o1.color ∧ o2.rbcolor = o1.rbcolor ∧
      (mode &&& GPU_OFFSCREEN_RENDERBUFFER_DEPTH ≠ 0 → o2.rbdepth ≠ none ∧ o2.depth = none) ∧
      (¬ mode &&& GPU_OFFSCREEN_RENDERBUFFER_DEPTH ≠ 0 →
        o2.depth ≠ none ∧ o2.rbdepth = none) := by
    by_cases hm : mode &&& GPU_OFFSCREEN_RENDERBUFFER_DEPTH ≠ 0
    · simp only [offscreenDepthBlock, if_pos hm] at fresh_d ⊢
      obtain ⟨S', e, b'⟩ := (offscreenDepthRb_spec s S1 _ _ o1 w h
        (offscreenSamples s.gl mode smp) r.depthName b1 hF1 hrd1 (fun _ => fresh_d)).2 h3
      exact ⟨S', _, e, b', hF1, hs1, rfl, rfl, fun _ => ⟨by simp, hd1⟩,
        fun hn => absurd hm hn⟩
    · simp only [offscreenDepthBlock, if_neg hm] at fresh_d ⊢
      obtain ⟨S', e, b'⟩ := (offscreenDepthTex_spec s S1 _ _ o1 w h
        (offscreenSamples s.gl mode smp) r.depthName b1 hF1 hd1 (fun _ => fresh_d)).2 h3
      exact ⟨S', _, e, b', hF1, hs1, rfl, rfl, fun hn => absurd hn hm,
        fun _ => ⟨by simp, hrd1⟩⟩
  obtain ⟨S2, o2, ed, b2, hF2, hs2, hcc, hrc, hd2, hd2'⟩ := hdep
  -- completeness check
  obtain ⟨f, ok⟩ := b2.table _ hF2
  have ek : offscreenCreateCheck s.ofss.length s.fbs.length err_out r.status S2
      = some (some s.ofss.length, GPU_framebuffer_restore
          { S2 with
            gl := glBindFramebuffer GL_FRAMEBUFFER f.object S2.gl, currentfb := f.object }) := by
    simp [offscreenCreateCheck, GPU_framebuffer_check_valid, ok.live, h4]
  refine ⟨GPU_framebuffer_restore
    { S2 with gl := glBindFramebuffer GL_FRAMEBUFFER f.object S2.gl, currentfb := f.object },
    o2, ?_, ?_, hs2, ?_, ?_, hd2, hd2'⟩
  · simp only [GPU_offscreen_create, heapAlloc_fst, heapAlloc_snd]
    simp only [blankOffScreen] at e1 e2 e3 ec
    simp only [e1, Option.bind_eq_bind, Option.some_bind, e2]
    rw [hsmp]
    simp only [e3, Option.some_bind, offscreenCreateResources, ec, Option.bind_eq_bind, ed, ek]
  · rw [(framebuffer_restore_fields _).2.2.2.1]
    show heapRead S2.ofss s.ofss.length = some o2
    rw [b2.ofs, heapRead_append_length]
  · intro hm
    rw [hcc, hrc]
    exact hc1 hm
  · intro hm
    rw [hcc, hrc]
    exact hc1' hm

/-- The value of the `if (samples)` block of `GPU_offscreen_create` in closed form. -/
theorem offscreenSamples_eq (gl : GLState) (mode : Nat) (N : Int) :
    offscreenSamples gl mode N =
      if N = 0 ∨ (gl.EXT_framebuffer_multisample = true ∧ gl.EXT_framebuffer_blit = true ∧
          (gl.ARB_texture_multisample = true ∨
            (mode &&& GPU_OFFSCREEN_RENDERBUFFER_COLOR ≠ 0 ∧
              mode &&& GPU_OFFSCREEN_RENDERBUFFER_DEPTH ≠ 0))) then N
      else 0 := by
  unfold offscreenSamples
  by_cases hN : N = 0
  · simp [hN]
  · cases h1 : gl.EXT_framebuffer_multisample <;> cases h2 : gl.EXT_framebuffer_blit <;>
      cases h3 : gl.ARB_texture_multisample <;>
      by_cases h4 : mode &&& GPU_OFFSCREEN_RENDERBUFFER_COLOR = 0 <;>
      by_cases h5 : mode &&& GPU_OFFSCREEN_RENDERBUFFER_DEPTH = 0 <;>
      simp [hN, h4, h5]

/-- C12: the sample count recorded by a successful `GPU_offscreen_create` for a request of
`N >= 0` samples is `N` when `N = 0` or when framebuffer-multisample and framebuffer-blit are
supported and (multisample-texture is supported or the mode has both renderbuffer flags), and
`0` in every other case; it never exceeds `N` and is `0` whenever the blit capability is
absent. -/
theorem offscreen_create_sample_count (s : GPUState) (w h N : Int) (hdr : GPUHDRType)
    (mode : Nat) (err_out : Bool) (r : GLReplies) (hN : 0 ≤ N)
    (h1 : r.fbName ≠ 0) (h2 : r.colorName ≠ 0) (h3 : r.depthName ≠ 0)
    (h4 : r.status = GL_FRAMEBUFFER_COMPLETE)
    (fresh_fb : r.fbName ∉ s.gl.framebuffers)
    (fresh_c :
      if mode &&& GPU_OFFSCREEN_RENDERBUFFER_COLOR ≠ 0 then r.colorName ∉ s.gl.renderbuffers
      else r.colorName ∉ s.gl.textures)
    (fresh_d :
      if mode &&& GPU_OFFSCREEN_RENDERBUFFER_DEPTH ≠ 0 then r.depthName ∉ s.gl.renderbuffers
      else r.depthName ∉ s.gl.textures) :
    ∃ s' o, GPU_offscreen_create w h N hdr mode err_out r s = some (some s.ofss.length, s') ∧
      heapRead s'.ofss s.ofss.length = some o ∧
      o.samples =
        (if N = 0 ∨ (s.gl.EXT_framebuffer_multisample = true ∧
            s.gl.EXT_framebuffer_blit = true ∧
            (s.gl.ARB_texture_multisample = true ∨
              (mode &&& GPU_OFFSCREEN_RENDERBUFFER_COLOR ≠ 0 ∧
                mode &&& GPU_OFFSCREEN_RENDERBUFFER_DEPTH ≠ 0))) then N
        else 0) ∧
      o.samples ≤ N ∧ (s.gl.EXT_framebuffer_blit = false → o.samples = 0) := by
  obtain ⟨s', o, hc, ho, hs, -⟩ := offscreen_create_success s w h N hdr mode err_out r h1 h2 h3
    h4 fresh_fb fresh_c fresh_d
  rw [offscreenSamples_eq] at hs
  refine ⟨s', o, hc, ho, hs, ?_, ?_⟩
  · rw [hs]
    split_ifs
    · exact le_refl N
    · exact hN
  · intro hb
    rw [hs]
    split_ifs with hcond
    · rcases hcond with h0 | ⟨-, hblit, -⟩
      · exact h0
      · rw [hb] at hblit
        cases hblit
    · rfl

/-- C12 on the empty state (all capabilities present) with 4 samples requested and
renderbuffer storage for colour only: the offscreen records 4 samples. -/
theorem offscreen_create_sample_count_witness :
    ∃ s' o, GPU_offscreen_create 16 16 4 GPUHDRType.GPU_HDR_NONE
        GPU_OFFSCREEN_RENDERBUFFER_COLOR true ⟨1, 2, 3, GL_FRAMEBUFFER_COMPLETE⟩ emptyState
          = some (some 0, s') ∧
      heapRead s'.ofss 0 = some o ∧ o.samples = 4 := by
  obtain ⟨s', o, h1, h2, h3, -⟩ := offscreen_create_sample_count emptyState 16 16 4
    GPUHDRType.GPU_HDR_NONE GPU_OFFSCREEN_RENDERBUFFER_COLOR true
    ⟨1, 2, 3, GL_FRAMEBUFFER_COMPLETE⟩ (by decide) (by decide) (by decide) (by decide) rfl
    (by decide) (by decide) (by decide)
  exact ⟨s', o, h1, h2, h3⟩

/-- Conversion to `unsigned int` keeps a value in `0 .. 2^32 - 1`. -/
theorem toUnsignedInt_of_range (x : Int) (h0 : 0 ≤ x) (h1 : x < 2 ^ 32) :
    (toUnsignedInt x : Int) = x := by
  unfold toUnsignedInt
  rw [Int.emod_eq_of_lt h0 h1]
  exact Int.toNat_of_nonneg h0

/-- Function `Update` returns the pool it was given when width and height are the recorded
ones. -/
theorem update_same_dims (canvas : RAS_ICanvas) (p : RAS_Rasterizer.OffScreens)
    (hw : toUnsignedInt (canvas.width + 1) = p.m_width)
    (hh : toUnsignedInt (canvas.height + 1) = p.m_height) :
    RAS_Rasterizer.OffScreens.Update canvas p = p := by
  simp [RAS_Rasterizer.OffScreens.Update, hw, hh]

/-- Function `Update` resets the pool when width or height is not the recorded one. -/
theorem update_other_dims (canvas : RAS_ICanvas) (p : RAS_Rasterizer.OffScreens)
    (h : ¬ (toUnsignedInt (canvas.width + 1) = p.m_width ∧
      toUnsignedInt (canvas.height + 1) = p.m_height)) :
    RAS_Rasterizer.OffScreens.Update canvas p =
      { m_width := toUnsignedInt (canvas.width + 1)
        m_height := toUnsignedInt (canvas.height + 1)
        m_samples := canvas.samples
        m_hdr := canvas.hdr
        m_offScreens := fun _ => none } := by
  simp only [RAS_Rasterizer.OffScreens.Update, if_neg h]

/-- C15: `OffScreens::Update` changes the pool if and only if the canvas dimensions differ
from the recorded baseline.  For a canvas of width `W` and height `H` (C `int`s, `W + 1` and
`H + 1` not overflowing): when `(W + 1, H + 1)` is the recorded `(m_width, m_height)` the
pool is returned as it was; otherwise every slot is emptied, `m_width`, `m_height`,
`m_samples`, `m_hdr` are set from the canvas, and the pool differs from the one before.  In
both cases a second `Update` with the same canvas changes nothing. -/
theorem update_changes_iff_resized (canvas : RAS_ICanvas) (p : RAS_Rasterizer.OffScreens)
    (hw0 : 0 ≤ canvas.width) (hw1 : canvas.width < 2 ^ 31 - 1)
    (hh0 : 0 ≤ canvas.height) (hh1 : canvas.height < 2 ^ 31 - 1) :
    (canvas.width + 1 = p.m_width ∧ canvas.height + 1 = p.m_height →
      RAS_Rasterizer.OffScreens.Update canvas p = p) ∧
    (¬ (canvas.width + 1 = p.m_width ∧ canvas.height + 1 = p.m_height) →
      (∀ t, (RAS_Rasterizer.OffScreens.Update canvas p).m_offScreens t = none) ∧
      ((RAS_Rasterizer.OffScreens.Update canvas p).m_width : Int) = canvas.width + 1 ∧
      ((RAS_Rasterizer.OffScreens.Update canvas p).m_height : Int) = canvas.height + 1 ∧
      (RAS_Rasterizer.OffScreens.Update canvas p).m_samples = canvas.samples ∧
      (RAS_Rasterizer.OffScreens.Update canvas p).m_hdr = canvas.hdr ∧
      RAS_Rasterizer.OffScreens.Update canvas p ≠ p) ∧
    RAS_Rasterizer.OffScreens.Update canvas (RAS_Rasterizer.OffScreens.Update canvas p)
      = RAS_Rasterizer.OffScreens.Update canvas p := by
  have ew := toUnsignedInt_of_range (canvas.width + 1) (by omega) (by omega)
  have eh := toUnsignedInt_of_range (canvas.height + 1) (by omega) (by omega)
  have hiff : (canvas.width + 1 = p.m_width ∧ canvas.height + 1 = p.m_height) ↔
      (toUnsignedInt (canvas.width + 1) = p.m_width ∧
        toUnsignedInt (canvas.height + 1) = p.m_height) := by
    rw [← ew, ← eh]
    simp only [Nat.cast_inj]
    rw [ew, eh]
  refine ⟨?_, ?_, ?_⟩
  · intro h
    exact update_same_dims canvas p (hiff.mp h).1 (hiff.mp h).2
  · intro h
    have h' := fun hc => h (hiff.mpr hc)
    rw [update_other_dims canvas p h']
    refine ⟨fun _ => rfl, ew, eh, rfl, rfl, ?_⟩
    intro heq
    apply h'
    rw [← heq]
    exact ⟨rfl, rfl⟩
  · by_cases h : toUnsignedInt (canvas.width + 1) = p.m_width ∧
        toUnsignedInt (canvas.height + 1) = p.m_height
    · rw [update_same_dims canvas p h.1 h.2, update_same_dims canvas p h.1 h.2]
    · rw [update_other_dims canvas p h]
      exact update_same_dims canvas _ rfl rfl

/-- C15 on the fresh pool and the 800 x 600 canvas: the first `Update` records the baseline
`(801, 601)`, the second one returns the pool unchanged. -/
theorem update_changes_iff_resized_witness :
    (RAS_Rasterizer.OffScreens.Update exampleCanvas RAS_Rasterizer.OffScreens.new).m_width
      = 801 ∧
    RAS_Rasterizer.OffScreens.Update exampleCanvas
        (RAS_Rasterizer.OffScreens.Update exampleCanvas RAS_Rasterizer.OffScreens.new)
      = RAS_Rasterizer.OffScreens.Update exampleCanvas RAS_Rasterizer.OffScreens.new :=
  ⟨rfl, (update_changes_iff_resized exampleCanvas RAS_Rasterizer.OffScreens.new (by decide)
    (by decide) (by decide) (by decide)).2.2⟩

/-- C16, counterexample: the pool `examplePool` has the baseline of the 800 x 600 canvas, 4
recorded samples and a surface in the left-eye primary slot.  `Update` for the same canvas
asking for 2 samples leaves that surface in its slot and the recorded sample count at 4. -/
theorem update_ignores_sample_change :
    ∃ ofs, examplePool.m_samples = 4 ∧
      examplePool.m_offScreens RAS_OFFSCREEN_EYE_LEFT0 = some ofs ∧
      (RAS_Rasterizer.OffScreens.Update { exampleCanvas with samples := 2 }
        examplePool).m_offScreens RAS_OFFSCREEN_EYE_LEFT0 = some ofs ∧
      (RAS_Rasterizer.OffScreens.Update { exampleCanvas with samples := 2 }
        examplePool).m_samples = 4 :=
  ⟨{ width := 801, height := 601, samples := 4, hdrtype := GPUHDRType.GPU_HDR_NONE,
     mode := 3, type := RAS_OFFSCREEN_EYE_LEFT0 }, rfl, rfl, rfl, rfl⟩

/-- C16, amended: when the canvas width and height are the recorded ones, `Update` returns
the pool as it was, whatever sample count the canvas requests: every slot keeps its surface
and `m_samples` keeps its value, also when it differs from the requested one. -/
theorem update_same_size_keeps_slots (canvas : RAS_ICanvas) (p : RAS_Rasterizer.OffScreens)
    (hw0 : 0 ≤ canvas.width) (hw1 : canvas.width < 2 ^ 31 - 1)
    (hh0 : 0 ≤ canvas.height) (hh1 : canvas.height < 2 ^ 31 - 1)
    (hw : canvas.width + 1 = p.m_width) (hh : canvas.height + 1 = p.m_height) :
    RAS_Rasterizer.OffScreens.Update canvas p = p ∧
    (∀ t, (RAS_Rasterizer.OffScreens.Update canvas p).m_offScreens t = p.m_offScreens t) ∧
    (RAS_Rasterizer.OffScreens.Update canvas p).m_samples = p.m_samples := by
  have ew := toUnsignedInt_of_range (canvas.width + 1) (by omega) (by omega)
  have eh := toUnsignedInt_of_range (canvas.height + 1) (by omega) (by omega)
  have e := update_same_dims canvas p (Int.ofNat_inj.mp (ew.trans hw))
    (Int.ofNat_inj.mp (eh.trans hh))
  rw [e]
  exact ⟨rfl, fun _ => rfl, rfl⟩

/-- C16, amended, on `examplePool` and the same canvas asking for 2 samples. -/
theorem update_same_size_keeps_slots_witness :
    (RAS_Rasterizer.OffScreens.Update { exampleCanvas with samples := 2 }
      examplePool).m_samples = examplePool.m_samples ∧
    examplePool.m_samples ≠ 2 :=
  ⟨(update_same_size_keeps_slots { exampleCanvas with samples := 2 } examplePool (by decide)
    (by decide) (by decide) (by decide) rfl rfl).2.2, by decide⟩

/-- The loop ends at the largest valid sample count. -/
theorem getOffScreenLoop_found (valid : RAS_OffScreen → Bool) (p : RAS_Rasterizer.OffScreens)
    (type : RAS_Rasterizer.OffScreenType) (M : Nat)
    (hM : valid (offScreenRequest p type M) = true) :
    ∀ k, M ≤ k → (∀ j : Nat, M < j → j ≤ k → valid (offScreenRequest p type j) = false) →
      (getOffScreenLoop valid p type k).2 = some (offScreenRequest p type M, (M : Int)) := by
  intro k
  induction k with
  | zero =>
    intro hk _
    have h0 : M = 0 := by omega
    subst h0
    simp only [Nat.cast_zero] at hM ⊢
    simp [getOffScreenLoop, hM]
  | succ k ih =>
    intro hk hno
    by_cases hMk : M = k + 1
    · subst hMk
      simp only [Nat.cast_add, Nat.cast_one] at hM ⊢
      simp [getOffScreenLoop, hM]
    · have hf := hno (k + 1) (by omega) (le_refl _)
      simp only [Nat.cast_add, Nat.cast_one] at hf
      simp only [getOffScreenLoop, hf, Bool.false_eq_true, if_false]
      exact ih (by omega) (fun j h1 h2 => hno j h1 (by omega))

/-- The loop ends without a surface when no sample count is valid. -/
theorem getOffScreenLoop_none (valid : RAS_OffScreen → Bool) (p : RAS_Rasterizer.OffScreens)
    (type : RAS_Rasterizer.OffScreenType) :
    ∀ k, (∀ j : Nat, j ≤ k → valid (offScreenRequest p type j) = false) →
      (getOffScreenLoop valid p type k).2 = none := by
  intro k
  induction k with
  | zero =>
    intro hno
    have hf := hno 0 (le_refl _)
    simp only [Nat.cast_zero] at hf
    simp [getOffScreenLoop, hf]
  | succ k ih =>
    intro hno
    have hf := hno (k + 1) (le_refl _)
    simp only [Nat.cast_add, Nat.cast_one] at hf
    simp only [getOffScreenLoop, hf, Bool.false_eq_true, if_false]
    exact ih (fun j h => hno j (by omega))

/-- The loop ends with a surface when creation is valid at `0` samples. -/
theorem getOffScreenLoop_some (valid : RAS_OffScreen → Bool) (p : RAS_Rasterizer.OffScreens)
    (type : RAS_Rasterizer.OffScreenType) (h0 : valid (offScreenRequest p type 0) = true) :
    ∀ k, ∃ ofs smp, (getOffScreenLoop valid p type k).2 = some (ofs, smp) := by
  intro k
  induction k with
  | zero => exact ⟨offScreenRequest p type 0, 0, by simp [getOffScreenLoop, h0]⟩
  | succ k ih =>
    by_cases hv : valid (offScreenRequest p type ((k : Int) + 1)) = true
    · exact ⟨offScreenRequest p type ((k : Int) + 1), (k : Int) + 1,
        by simp [getOffScreenLoop, hv]⟩
    · obtain ⟨ofs, smp, h⟩ := ih
      exact ⟨ofs, smp, by simp [getOffScreenLoop, hv, h]⟩

/-- Every request of the loop is the request of a round `j` in `0..k`. -/
theorem getOffScreenLoop_attempts (valid : RAS_OffScreen → Bool)
    (p : RAS_Rasterizer.OffScreens) (type : RAS_Rasterizer.OffScreenType) :
    ∀ k ofs, ofs ∈ (getOffScreenLoop valid p type k).1 →
      ∃ j : Nat, j ≤ k ∧ ofs = offScreenRequest p type j := by
  intro k
  induction k with
  | zero =>
    intro ofs h
    refine ⟨0, le_refl _, ?_⟩
    simp only [getOffScreenLoop] at h
    split_ifs at h <;> simpa using h
  | succ k ih =>
    intro ofs h
    simp only [getOffScreenLoop] at h
    split_ifs at h
    · refine ⟨k + 1, le_refl _, ?_⟩
      simpa using h
    · rcases List.mem_cons.mp h with h | h
      · refine ⟨k + 1, le_refl _, ?_⟩
        simpa using h
      · obtain ⟨j, hj, e⟩ := ih ofs h
        exact ⟨j, by omega, e⟩

/-- C17: for an empty sample-eligible slot (`EYE_LEFT0` or `EYE_RIGHT0`), a pool sample count
`N >= 0` and a validity predicate on creation requests: if `M <= N` is the largest sample
count whose request is valid, `GetOffScreen` returns and stores the surface created with `M`
samples, sets `m_samples` to `M` and touches no other slot; if the request at `0` is valid a
surface is returned; if no count in `0..N` is valid, no surface is returned and the pool,
`m_samples` included, is unchanged. -/
theorem getOffScreen_sample_fallback (valid : RAS_OffScreen → Bool)
    (p : RAS_Rasterizer.OffScreens) (type : RAS_Rasterizer.OffScreenType) (N : Nat)
    (htype : type = RAS_OFFSCREEN_EYE_LEFT0 ∨ type = RAS_OFFSCREEN_EYE_RIGHT0)
    (hempty : p.m_offScreens type = none) (hN : p.m_samples = N) :
    (∀ M : Nat, M ≤ N → valid (offScreenRequest p type M) = true →
      (∀ j : Nat, M < j → j ≤ N → valid (offScreenRequest p type j) = false) →
      (RAS_Rasterizer.OffScreens.GetOffScreen valid type p).1
        = some (offScreenRequest p type M) ∧
      (offScreenRequest p type M).samples = M ∧
      (RAS_Rasterizer.OffScreens.GetOffScreen valid type p).2.1.m_offScreens type
        = some (offScreenRequest p type M) ∧
      (RAS_Rasterizer.OffScreens.GetOffScreen valid type p).2.1.m_samples = M ∧
      ∀ t, t ≠ type →
        (RAS_Rasterizer.OffScreens.GetOffScreen valid type p).2.1.m_offScreens t
          = p.m_offScreens t) ∧
    (valid (offScreenRequest p type 0) = true →
      ∃ ofs, (RAS_Rasterizer.OffScreens.GetOffScreen valid type p).1 = some ofs ∧
        (RAS_Rasterizer.OffScreens.GetOffScreen valid type p).2.1.m_offScreens type
          = some ofs) ∧
    ((∀ j : Nat, j ≤ N → valid (offScreenRequest p type j) = false) →
      (RAS_Rasterizer.OffScreens.GetOffScreen valid type p).1 = none ∧
      (RAS_Rasterizer.OffScreens.GetOffScreen valid type p).2.1 = p) := by
  have hnn : ¬ p.m_samples < 0 := by rw [hN]; omega
  have htn : p.m_samples.toNat = N := by rw [hN]; simp
  refine ⟨?_, ?_, ?_⟩
  · intro M hM hv hno
    have hl := getOffScreenLoop_found valid p type M hv N hM hno
    have hs : (offScreenRequest p type M).samples = M := by
      rcases htype with h | h <;> simp [offScreenRequest, h]
    have hg : RAS_Rasterizer.OffScreens.GetOffScreen valid type p =
        (some (offScreenRequest p type M),
         { p with
           m_offScreens := fun t =>
             if t = type then some (offScreenRequest p type M) else p.m_offScreens t
           m_samples := (M : Int) },
         (getOffScreenLoop valid p type N).1) := by
      simp only [RAS_Rasterizer.OffScreens.GetOffScreen, hempty, hnn, if_false, htn, hl]
    rw [hg]
    refine ⟨rfl, hs, by simp, rfl, ?_⟩
    intro t ht
    simp [ht]
  · intro h0
    obtain ⟨ofs, smp, hl⟩ := getOffScreenLoop_some valid p type h0 N
    have hg : RAS_Rasterizer.OffScreens.GetOffScreen valid type p =
        (some ofs,
         { p with
           m_offScreens := fun t => if t = type then some ofs else p.m_offScreens t
           m_samples := smp },
         (getOffScreenLoop valid p type N).1) := by
      simp only [RAS_Rasterizer.OffScreens.GetOffScreen, hempty, hnn, if_false, htn, hl]
    rw [hg]
    exact ⟨ofs, rfl, by simp⟩
  · intro hno
    have hl := getOffScreenLoop_none valid p type N hno
    have hg : RAS_Rasterizer.OffScreens.GetOffScreen valid type p =
        (none, p, (getOffScreenLoop valid p type N).1) := by
      simp only [RAS_Rasterizer.OffScreens.GetOffScreen, hempty, hnn, if_false, htn, hl]
    rw [hg]
    exact ⟨rfl, rfl⟩

/-- C17 on a pool with 4 recorded samples where creation works up to 2 samples: the left-eye
primary slot gets the surface made with 2 samples and `m_samples` becomes 2. -/
theorem getOffScreen_sample_fallback_witness :
    (RAS_Rasterizer.OffScreens.GetOffScreen validUpToTwo RAS_OFFSCREEN_EYE_LEFT0
      (RAS_Rasterizer.OffScreens.Update exampleCanvas RAS_Rasterizer.OffScreens.new)).1
      = some { width := 801, height := 601, samples := 2,
               hdrtype := GPUHDRType.GPU_HDR_NONE, mode := 3,
               type := RAS_OFFSCREEN_EYE_LEFT0 } ∧
    (RAS_Rasterizer.OffScreens.GetOffScreen validUpToTwo RAS_OFFSCREEN_EYE_LEFT0
      (RAS_Rasterizer.OffScreens.Update exampleCanvas
        RAS_Rasterizer.OffScreens.new)).2.1.m_samples = 2 :=
  have h := (getOffScreen_sample_fallback validUpToTwo
    (RAS_Rasterizer.OffScreens.Update exampleCanvas RAS_Rasterizer.OffScreens.new)
    RAS_OFFSCREEN_EYE_LEFT0 4 (Or.inl rfl) rfl rfl).1 2 (by decide) rfl
    (by
      intro j h1 h2
      have : j = 3 ∨ j = 4 := by omega
      rcases this with rfl | rfl <;> rfl)
  ⟨h.1, h.2.2.2.1⟩

/-- The creation requests of `GetOffScreen` are those of the loop rounds `0..m_samples`. -/
theorem getOffScreen_attempts (valid : RAS_OffScreen → Bool) (p : RAS_Rasterizer.OffScreens)
    (type : RAS_Rasterizer.OffScreenType) (ofs : RAS_OffScreen)
    (h : ofs ∈ (RAS_Rasterizer.OffScreens.GetOffScreen valid type p).2.2) :
    ∃ j : Nat, (j : Int) ≤ p.m_samples ∧ ofs = offScreenRequest p type j := by
  unfold RAS_Rasterizer.OffScreens.GetOffScreen at h
  cases hs : p.m_offScreens type with
  | some o => simp [hs] at h
  | none =>
    simp only [hs] at h
    by_cases hn : p.m_samples < 0
    · simp [hn] at h
    · simp only [hn, if_false] at h
      have hmem : ofs ∈ (getOffScreenLoop valid p type p.m_samples.toNat).1 := by
        cases hl : (getOffScreenLoop valid p type p.m_samples.toNat).2 with
        | none => simpa [hl] using h
        | some v => simpa [hl] using h
      obtain ⟨j, hj, e⟩ := getOffScreenLoop_attempts valid p type _ ofs hmem
      exact ⟨j, by omega, e⟩

/-- C18: every creation request made by `GetOffScreen` is for the slot asked for.  For a slot
other than `EYE_LEFT0` and `EYE_RIGHT0` it asks for `0` samples and storage mode
`GPU_OFFSCREEN_MODE_NONE`, whatever `m_samples` is.  For `EYE_LEFT0` and `EYE_RIGHT0` the
request of the round with sample count `s` (`0 <= s <= m_samples`) asks for `s` samples, with
both renderbuffer flags when `s > 0` and with mode `GPU_OFFSCREEN_MODE_NONE` when `s = 0`. -/
theorem getOffScreen_request_storage (valid : RAS_OffScreen → Bool)
    (p : RAS_Rasterizer.OffScreens) (type : RAS_Rasterizer.OffScreenType) (ofs : RAS_OffScreen)
    (h : ofs ∈ (RAS_Rasterizer.OffScreens.GetOffScreen valid type p).2.2) :
    ofs.type = type ∧
    (if type = RAS_OFFSCREEN_EYE_LEFT0 ∨ type = RAS_OFFSCREEN_EYE_RIGHT0 then
      (∃ s : Nat, (s : Int) ≤ p.m_samples ∧ ofs = offScreenRequest p type s ∧
        ofs.samples = s) ∧
      (0 < ofs.samples → ofs.mode
        = GPU_OFFSCREEN_RENDERBUFFER_COLOR ||| GPU_OFFSCREEN_RENDERBUFFER_DEPTH) ∧
      (ofs.samples = 0 → ofs.mode = GPU_OFFSCREEN_MODE_NONE)
    else ofs.samples = 0 ∧ ofs.mode = GPU_OFFSCREEN_MODE_NONE) := by
  obtain ⟨j, hj, rfl⟩ := getOffScreen_attempts valid p type ofs h
  refine ⟨rfl, ?_⟩
  by_cases ht : type = RAS_OFFSCREEN_EYE_LEFT0 ∨ type = RAS_OFFSCREEN_EYE_RIGHT0
  · rw [if_pos ht]
    have hs : (offScreenRequest p type j).samples = j := by
      rcases ht with h | h <;> simp [offScreenRequest, h]
    refine ⟨⟨j, hj, rfl, hs⟩, ?_, ?_⟩
    · intro hpos
      rw [hs] at hpos
      rcases ht with h | h <;> simp [offScreenRequest, h, hpos]
    · intro hz
      rw [hs] at hz
      rcases ht with h | h <;> simp [offScreenRequest, h, hz]
  · rw [if_neg ht]
    have h1 : type ≠ RAS_OFFSCREEN_EYE_LEFT0 := fun e => ht (Or.inl e)
    have h2 : type ≠ RAS_OFFSCREEN_EYE_RIGHT0 := fun e => ht (Or.inr e)
    simp [offScreenRequest, h1, h2]

/-- C18 on a pool with 4 recorded samples where creation works up to 2 samples: the requests
for the left-eye primary slot are those of the rounds 4, 3, 2, and the one of round 3 asks
for 3 samples with both renderbuffer flags. -/
theorem getOffScreen_request_storage_witness :
    (RAS_Rasterizer.OffScreens.GetOffScreen validUpToTwo RAS_OFFSCREEN_EYE_LEFT0
      (RAS_Rasterizer.OffScreens.Update exampleCanvas RAS_Rasterizer.OffScreens.new)).2.2
      = [{ width := 801, height := 601, samples := 4, hdrtype := GPUHDRType.GPU_HDR_NONE,
           mode := 3, type := RAS_OFFSCREEN_EYE_LEFT0 },
         { width := 801, height := 601, samples := 3, hdrtype := GPUHDRType.GPU_HDR_NONE,
           mode := 3, type := RAS_OFFSCREEN_EYE_LEFT0 },
         { width := 801, height := 601, samples := 2, hdrtype := GPUHDRType.GPU_HDR_NONE,
           mode := 3, type := RAS_OFFSCREEN_EYE_LEFT0 }] ∧
    (offScreenRequest (RAS_Rasterizer.OffScreens.Update exampleCanvas
        RAS_Rasterizer.OffScreens.new) RAS_OFFSCREEN_EYE_LEFT0 3).mode
      = GPU_OFFSCREEN_RENDERBUFFER_COLOR ||| GPU_OFFSCREEN_RENDERBUFFER_DEPTH :=
  ⟨rfl, (getOffScreen_request_storage validUpToTwo
    (RAS_Rasterizer.OffScreens.Update exampleCanvas RAS_Rasterizer.OffScreens.new)
    RAS_OFFSCREEN_EYE_LEFT0
    (offScreenRequest (RAS_Rasterizer.OffScreens.Update exampleCanvas
      RAS_Rasterizer.OffScreens.new) RAS_OFFSCREEN_EYE_LEFT0 3)
    (by decide)).2.2.1 (by decide)⟩

/-- C19: on the four eye slots `NextRenderOffScreen` does not reach `BLI_assert(false)` and
swaps `EYE_LEFT0` with `EYE_LEFT1` and `EYE_RIGHT0` with `EYE_RIGHT1`, so applying it twice
gives the slot back and applying it once gives another slot; for every other slot it reaches
`BLI_assert(false)`. -/
theorem nextRenderOffScreen_involution :
    RAS_Rasterizer.NextRenderOffScreen RAS_OFFSCREEN_EYE_LEFT0
      = (false, RAS_OFFSCREEN_EYE_LEFT1) ∧
    RAS_Rasterizer.NextRenderOffScreen RAS_OFFSCREEN_EYE_LEFT1
      = (false, RAS_OFFSCREEN_EYE_LEFT0) ∧
    RAS_Rasterizer.NextRenderOffScreen RAS_OFFSCREEN_EYE_RIGHT0
      = (false, RAS_OFFSCREEN_EYE_RIGHT1) ∧
    RAS_Rasterizer.NextRenderOffScreen RAS_OFFSCREEN_EYE_RIGHT1
      = (false, RAS_OFFSCREEN_EYE_RIGHT0) ∧
    ∀ x : RAS_Rasterizer.OffScreenType,
      if x = RAS_OFFSCREEN_EYE_LEFT0 ∨ x = RAS_OFFSCREEN_EYE_LEFT1 ∨
          x = RAS_OFFSCREEN_EYE_RIGHT0 ∨ x = RAS_OFFSCREEN_EYE_RIGHT1 then
        (RAS_Rasterizer.NextRenderOffScreen x).1 = false ∧
        (RAS_Rasterizer.NextRenderOffScreen (RAS_Rasterizer.NextRenderOffScreen x).2)
          = (false, x) ∧
        (RAS_Rasterizer.NextRenderOffScreen x).2 ≠ x
      else (RAS_Rasterizer.NextRenderOffScreen x).1 = true := by
  refine ⟨rfl, rfl, rfl, rfl, ?_⟩
  intro x
  cases x <;> simp [RAS_Rasterizer.NextRenderOffScreen]

/-- C20: `NextFilterOffScreen` maps `FILTER0` to `FILTER1`, and `FILTER1` and every non-filter
slot to `FILTER0`; the result is always a filter slot, and on the filter slots applying it
twice gives the slot back. -/
theorem nextFilterOffScreen_alternates :
    RAS_Rasterizer.NextFilterOffScreen RAS_OFFSCREEN_FILTER0 = RAS_OFFSCREEN_FILTER1 ∧
    RAS_Rasterizer.NextFilterOffScreen RAS_OFFSCREEN_FILTER1 = RAS_OFFSCREEN_FILTER0 ∧
    ∀ x : RAS_Rasterizer.OffScreenType,
      (RAS_Rasterizer.NextFilterOffScreen x = RAS_OFFSCREEN_FILTER0 ∨
        RAS_Rasterizer.NextFilterOffScreen x = RAS_OFFSCREEN_FILTER1) ∧
      (if x = RAS_OFFSCREEN_FILTER0 ∨ x = RAS_OFFSCREEN_FILTER1 then
        RAS_Rasterizer.NextFilterOffScreen (RAS_Rasterizer.NextFilterOffScreen x) = x
      else RAS_Rasterizer.NextFilterOffScreen x = RAS_OFFSCREEN_FILTER0) := by
  refine ⟨rfl, rfl, ?_⟩
  intro x
  cases x <;> simp [RAS_Rasterizer.NextFilterOffScreen]

/-- The truncating division of C is the floor division on a dividend that is not negative. -/
theorem tdiv_two_of_nonneg (x : Int) (h : 0 ≤ x) : Int.tdiv x 2 = x / 2 :=
  Int.tdiv_eq_ediv h (by decide)

/-- C21: for every canvas of width `W >= 0` in side-by-side mode `GetRenderArea` gives the
left eye `(left 0, bottom 0, right W/2, top H)` and the right eye
`(left W/2, bottom 0, right W, top H)`: the right side of the first is the left side of the
second, so no column lies inside both, and every column of `[0, W]` lies in one of them. -/
theorem renderArea_sideBySide (n : Int) (canvas : RAS_ICanvas) (hW : 0 ≤ canvas.width) :
    RAS_Rasterizer.GetRenderArea n canvas RAS_Rasterizer.StereoMode.RAS_STEREO_SIDEBYSIDE
        RAS_Rasterizer.StereoEye.RAS_STEREO_LEFTEYE
      = { left := 0, bottom := 0, right := canvas.width / 2, top := canvas.height } ∧
    RAS_Rasterizer.GetRenderArea n canvas RAS_Rasterizer.StereoMode.RAS_STEREO_SIDEBYSIDE
        RAS_Rasterizer.StereoEye.RAS_STEREO_RIGHTEYE
      = { left := canvas.width / 2, bottom := 0, right := canvas.width,
          top := canvas.height } ∧
    (∀ x : Int, ¬ (0 < x ∧ x < canvas.width / 2 ∧ canvas.width / 2 < x ∧ x < canvas.width)) ∧
    (∀ x : Int, 0 ≤ x → x ≤ canvas.width →
      (0 ≤ x ∧ x ≤ canvas.width / 2) ∨ (canvas.width / 2 ≤ x ∧ x ≤ canvas.width)) := by
  refine ⟨?_, ?_, ?_, ?_⟩
  · simp only [RAS_Rasterizer.GetRenderArea, tdiv_two_of_nonneg _ hW]
  · simp only [RAS_Rasterizer.GetRenderArea, tdiv_two_of_nonneg _ hW]
  · intro x hx
    omega
  · intro x h0 h1
    omega

/-- C21 for the 800 x 600 canvas: `(0,0)-(400,600)` and `(400,0)-(800,600)`. -/
theorem renderArea_sideBySide_witness :
    RAS_Rasterizer.GetRenderArea 32 exampleCanvas
        RAS_Rasterizer.StereoMode.RAS_STEREO_SIDEBYSIDE
        RAS_Rasterizer.StereoEye.RAS_STEREO_LEFTEYE
      = { left := 0, bottom := 0, right := 400, top := 600 } ∧
    RAS_Rasterizer.GetRenderArea 32 exampleCanvas
        RAS_Rasterizer.StereoMode.RAS_STEREO_SIDEBYSIDE
        RAS_Rasterizer.StereoEye.RAS_STEREO_RIGHTEYE
      = { left := 400, bottom := 0, right := 800, top := 600 } :=
  have h := renderArea_sideBySide 32 exampleCanvas (by decide)
  ⟨h.1, h.2.1⟩

/-- C22: in the two vertical-split modes, for a canvas `W x H` with `H >= 0`, the left eye
gets the upper rectangle ending at `top = H`, the right eye the lower rectangle starting at
`bottom = 0`, both span the full width and have the same height `h`: `h = H/2` for 3DTV
top-bottom and, when `H >= n`, `h = (H - n)/2` for above/below, where the rows between the
two rectangles number at least `n`. -/
theorem renderArea_vertical_split (n : Int) (canvas : RAS_ICanvas) (hH : 0 ≤ canvas.height) :
    (RAS_Rasterizer.GetRenderArea n canvas RAS_Rasterizer.StereoMode.RAS_STEREO_3DTVTOPBOTTOM
        RAS_Rasterizer.StereoEye.RAS_STEREO_LEFTEYE
      = { left := 0, bottom := canvas.height - canvas.height / 2, right := canvas.width,
          top := canvas.height } ∧
     RAS_Rasterizer.GetRenderArea n canvas RAS_Rasterizer.StereoMode.RAS_STEREO_3DTVTOPBOTTOM
        RAS_Rasterizer.StereoEye.RAS_STEREO_RIGHTEYE
      = { left := 0, bottom := 0, right := canvas.width, top := canvas.height / 2 } ∧
     canvas.height - (canvas.height - canvas.height / 2) = canvas.height / 2 ∧
     canvas.height / 2 ≤ canvas.height - canvas.height / 2) ∧
    (n ≤ canvas.height →
     RAS_Rasterizer.GetRenderArea n canvas RAS_Rasterizer.StereoMode.RAS_STEREO_ABOVEBELOW
        RAS_Rasterizer.StereoEye.RAS_STEREO_LEFTEYE
      = { left := 0, bottom := canvas.height - (canvas.height - n) / 2,
          right := canvas.width, top := canvas.height } ∧
     RAS_Rasterizer.GetRenderArea n canvas RAS_Rasterizer.StereoMode.RAS_STEREO_ABOVEBELOW
        RAS_Rasterizer.StereoEye.RAS_STEREO_RIGHTEYE
      = { left := 0, bottom := 0, right := canvas.width, top := (canvas.height - n) / 2 } ∧
     canvas.height - (canvas.height - (canvas.height - n) / 2) = (canvas.height - n) / 2 ∧
     n ≤ (canvas.height - (canvas.height - n) / 2) - (canvas.height - n) / 2) := by
  refine ⟨⟨?_, ?_, by omega, by omega⟩, ?_⟩
  · simp only [RAS_Rasterizer.GetRenderArea, tdiv_two_of_nonneg _ hH]
  · simp only [RAS_Rasterizer.GetRenderArea, tdiv_two_of_nonneg _ hH]
  · intro hn
    have h0 : 0 ≤ canvas.height - n := by omega
    refine ⟨?_, ?_, by omega, by omega⟩
    · simp only [RAS_Rasterizer.GetRenderArea, tdiv_two_of_nonneg _ h0]
    · simp only [RAS_Rasterizer.GetRenderArea, tdiv_two_of_nonneg _ h0]

/-- C22 for the 800 x 600 canvas and 32 scanlines: above/below gives `(0,316)-(800,600)` and
`(0,0)-(800,284)`, each 284 rows high with 32 rows between them. -/
theorem renderArea_vertical_split_witness :
    RAS_Rasterizer.GetRenderArea 32 exampleCanvas
        RAS_Rasterizer.StereoMode.RAS_STEREO_ABOVEBELOW
        RAS_Rasterizer.StereoEye.RAS_STEREO_LEFTEYE
      = { left := 0, bottom := 316, right := 800, top := 600 } ∧
    RAS_Rasterizer.GetRenderArea 32 exampleCanvas
        RAS_Rasterizer.StereoMode.RAS_STEREO_ABOVEBELOW
        RAS_Rasterizer.StereoEye.RAS_STEREO_RIGHTEYE
      = { left := 0, bottom := 0, right := 800, top := 284 } :=
  have h := (renderArea_vertical_split 32 exampleCanvas (by decide)).2 (by decide)
  ⟨h.1, h.2.1⟩

/-- Conversion to `float` is exact below `2^24`. -/
theorem floatOfInt_of_small (x : Int) (h : x.natAbs < 2 ^ 24) : floatOfInt x = x := by
  unfold floatOfInt
  have hsh : floatShift 8 x.natAbs = 0 := by
    simp only [floatShift, h, if_true]
  simp only [hsh, if_true]

/-- Conversion to `float` rounds `2^24 + 1` down to `2^24` and `2^24 + 3` up to `2^24 + 4`. -/
theorem floatOfInt_examples :
    floatOfInt 16777217 = 16777216 ∧ floatOfInt 16777219 = 16777220 ∧
    floatOfInt (-16777217) = -16777216 ∧ floatOfInt 2147483647 = 2147483648 := by
  decide

/-- On sizes below `2^24` the function `min_ff` is the minimum. -/
theorem min_ff_of_small (a b : Int) (ha : a.natAbs < 2 ^ 24) (hb : b.natAbs < 2 ^ 24) :
    min_ff a b = min a b := by
  unfold min_ff
  rw [floatOfInt_of_small a ha, floatOfInt_of_small b hb]

/-- The colour bit and the depth bit of the blit mask. -/
theorem blitMask_bits (color depth : Bool) :
    (blitMask color depth &&& GL_COLOR_BUFFER_BIT ≠ 0 ↔ color = true) ∧
    (blitMask color depth &&& GL_DEPTH_BUFFER_BIT ≠ 0 ↔ depth = true) := by
  cases color <;> cases depth <;> decide

/-- C23: for live source and destination offscreens (sizes below `2^24`, which `float`
holds exactly) `GPU_offscreen_blit` binds the source for reading and the destination for
drawing, copies the rectangle `(0,0)-(min(srcWidth, dstWidth), min(srcHeight, dstHeight))`
onto the same rectangle with a mask that has the colour bit exactly when `color` and the depth
bit exactly when `depth`, and leaves `GG.currentfb` at the handle of the destination
framebuffer. -/
theorem offscreen_blit_spec (s : GPUState) (srcofs dstofs : Nat) (color depth : Bool)
    (so dofs : GPUOffScreen) (sfb dfb : Nat) (sf df : GPUFrameBuffer) (ws hs wd hd : Int)
    (h1 : heapRead s.ofss srcofs = some so) (h2 : so.fb = some sfb)
    (h3 : heapRead s.fbs sfb = some sf)
    (h4 : heapRead s.ofss dstofs = some dofs) (h5 : dofs.fb = some dfb)
    (h6 : heapRead s.fbs dfb = some df)
    (hws : GPU_offscreen_width srcofs s = some ws)
    (hhs : GPU_offscreen_height srcofs s = some hs)
    (hwd : GPU_offscreen_width dstofs s = some wd)
    (hhd : GPU_offscreen_height dstofs s = some hd)
    (bws : ws.natAbs < 2 ^ 24) (bhs : hs.natAbs < 2 ^ 24)
    (bwd : wd.natAbs < 2 ^ 24) (bhd : hd.natAbs < 2 ^ 24) :
    ∃ blit s', GPU_offscreen_blit srcofs dstofs color depth s = some (blit, s') ∧
      blit.srcX0 = 0 ∧ blit.srcY0 = 0 ∧ blit.srcX1 = min ws wd ∧ blit.srcY1 = min hs hd ∧
      blit.dstX0 = 0 ∧ blit.dstY0 = 0 ∧ blit.dstX1 = min ws wd ∧ blit.dstY1 = min hs hd ∧
      (blit.mask &&& GL_COLOR_BUFFER_BIT ≠ 0 ↔ color = true) ∧
      (blit.mask &&& GL_DEPTH_BUFFER_BIT ≠ 0 ↔ depth = true) ∧
      blit.readfb = sf.object ∧ blit.drawfb = df.object ∧
      s'.currentfb = df.object := by
  have e : GPU_offscreen_blit srcofs dstofs color depth s = some
      ({ srcX0 := 0, srcY0 := 0, srcX1 := min ws wd, srcY1 := min hs hd
         dstX0 := 0, dstY0 := 0, dstX1 := min ws wd, dstY1 := min hs hd
         mask := blitMask color depth, filter := GL_NEAREST
         readfb := (glBindFramebuffer GL_DRAW_FRAMEBUFFER df.object
           (glBindFramebuffer GL_READ_FRAMEBUFFER sf.object s.gl)).readfb
         drawfb := (glBindFramebuffer GL_DRAW_FRAMEBUFFER df.object
           (glBindFramebuffer GL_READ_FRAMEBUFFER sf.object s.gl)).drawfb },
       { s with
         gl := glBindFramebuffer GL_FRAMEBUFFER df.object
           (glBindFramebuffer GL_DRAW_FRAMEBUFFER df.object
             (glBindFramebuffer GL_READ_FRAMEBUFFER sf.object s.gl))
         currentfb := df.object }) := by
    simp only [GPU_offscreen_blit, h1, h2, h3, h4, h5, h6, hws, hhs, hwd, hhd,
      Option.bind_eq_bind, Option.some_bind, GPU_framebuffer_bind_simple,
      min_ff_of_small ws wd bws bwd, min_ff_of_small hs hd bhs bhd]
  refine ⟨_, _, e, rfl, rfl, rfl, rfl, rfl, rfl, rfl, rfl, (blitMask_bits color depth).1,
    (blitMask_bits color depth).2, ?_, ?_, rfl⟩
  · simp [glBindFramebuffer, GL_DRAW_FRAMEBUFFER, GL_READ_FRAMEBUFFER, GL_FRAMEBUFFER]
  · simp [glBindFramebuffer, GL_DRAW_FRAMEBUFFER, GL_READ_FRAMEBUFFER, GL_FRAMEBUFFER]

/-- C23 for a 16 x 16 source and an 8 x 24 destination, colour only: the blit copies
`(0,0)-(8,16)`, its mask has the colour bit and not the depth bit, and the tracker ends at the
destination framebuffer, GL name `4`. -/
theorem offscreen_blit_spec_witness :
    ∃ s blit s', twoOffscreensRun = some s ∧
      GPU_offscreen_blit 0 1 true false s = some (blit, s') ∧
      blit.srcX1 = 8 ∧ blit.srcY1 = 16 ∧ blit.mask &&& GL_COLOR_BUFFER_BIT ≠ 0 ∧
      ¬ blit.mask &&& GL_DEPTH_BUFFER_BIT ≠ 0 ∧ s'.currentfb = 4 := by
  obtain ⟨blit, s', h, -, -, hx, hy, -, -, -, -, hmc, hmd, -, -, hc⟩ :=
    offscreen_blit_spec (twoOffscreensRun.getD emptyState) 0 1 true false
      { fb := some 0, color := some 0, depth := some 1, rbcolor := none, rbdepth := none,
        samples := 0 }
      { fb := some 1, color := some 2, depth := some 3, rbcolor := none, rbdepth := none,
        samples := 0 }
      0 1 _ _ 16 16 8 24 rfl rfl rfl rfl rfl rfl rfl rfl rfl rfl (by decide) (by decide)
      (by decide) (by decide)
  exact ⟨_, blit, s', rfl, h, hx, hy, hmc.mpr rfl, (fun hd => absurd (hmd.mp hd) (by decide)), hc⟩

theorem floatShift_le (fuel a : Nat) : floatShift fuel a ≤ fuel := by
  induction fuel generalizing a with
  | zero => simp [floatShift]
  | succ n ih =>
    simp only [floatShift]
    split_ifs
    · omega
    · have := ih (a / 2)
      omega

theorem floatShift_pos_large (fuel a : Nat) (h : floatShift fuel a ≠ 0) : 2 ^ 24 ≤ a := by
  cases fuel with
  | zero => simp [floatShift] at h
  | succ n =>
    simp only [floatShift] at h
    by_contra hc
    have hlt : a < 2 ^ 24 := Nat.lt_of_not_le hc
    exact h (by rw [if_pos hlt])

/-- Conversion to `float` sends no `int` other than `0` to `0`. -/
theorem floatOfInt_ne_zero (x : Int) (hx : x ≠ 0) : floatOfInt x ≠ 0 := by
  unfold floatOfInt
  by_cases hsh : floatShift 8 x.natAbs = 0
  · simp only [hsh, if_true]
    exact hx
  · simp only [hsh, if_false]
    have hle := floatShift_le 8 x.natAbs
    have hbig := floatShift_pos_large 8 x.natAbs hsh
    have hpow : 2 ^ floatShift 8 x.natAbs ≤ 2 ^ 8 := Nat.pow_le_pow_right (by decide) hle
    have hq : 1 ≤ x.natAbs / 2 ^ floatShift 8 x.natAbs := by
      rw [Nat.le_div_iff_mul_le (Nat.pos_pow_of_pos _ (by decide))]
      have : (2 : Nat) ^ 8 ≤ 2 ^ 24 := by decide
      omega
    have hq' : 1 ≤ (if x.natAbs % 2 ^ floatShift 8 x.natAbs > 2 ^ (floatShift 8 x.natAbs - 1) ∨
        (x.natAbs % 2 ^ floatShift 8 x.natAbs = 2 ^ (floatShift 8 x.natAbs - 1) ∧
          x.natAbs / 2 ^ floatShift 8 x.natAbs % 2 = 1)
        then x.natAbs / 2 ^ floatShift 8 x.natAbs + 1
        else x.natAbs / 2 ^ floatShift 8 x.natAbs) := by
      split_ifs <;> omega
    have hprod : 0 < (if x.natAbs % 2 ^ floatShift 8 x.natAbs >
          2 ^ (floatShift 8 x.natAbs - 1) ∨
        (x.natAbs % 2 ^ floatShift 8 x.natAbs = 2 ^ (floatShift 8 x.natAbs - 1) ∧
          x.natAbs / 2 ^ floatShift 8 x.natAbs % 2 = 1)
        then x.natAbs / 2 ^ floatShift 8 x.natAbs + 1
        else x.natAbs / 2 ^ floatShift 8 x.natAbs) * 2 ^ floatShift 8 x.natAbs :=
      Nat.mul_pos hq' (Nat.pos_pow_of_pos _ (by decide))
    intro h0
    rcases mul_eq_zero.mp h0 with h | h
    · exact hx (Int.sign_eq_zero_iff_zero.mp h)
    · have : ((0 : Nat) : Int) < _ := Int.ofNat_lt.mpr hprod
      omega

/-- C25, the code: every successful `GPU_renderbuffer_create` (the driver generated a name)
returns a renderbuffer whose owning framebuffer is `NULL` and whose slot is `0`, the value
left by `MEM_callocN`, and not `-1`. -/
theorem renderbuffer_create_slot_zero (S : GPUState) (w h smp : Int) (hdr : GPUHDRType)
    (type : GPURenderBufferType) (name : Nat) (hname : name ≠ 0) :
    ∃ s' r, GPU_renderbuffer_create w h smp hdr type name S = some (some S.rbs.length, s') ∧
      heapRead s'.rbs S.rbs.length = some r ∧ r.fb = none ∧ r.fb_attachment = 0 ∧
      r.fb_attachment ≠ -1 := by
  refine ⟨_, (⟨w, h, smp, none, 0,
      decide (type = GPURenderBufferType.GPU_RENDERBUFFER_DEPTH), name⟩ : GPURenderBuffer),
    renderbuffer_create_ok S w h smp hdr type name hname _ rfl, ?_, rfl, rfl, ?_⟩
  · exact heapRead_append_length _ _
  · show (0 : Int) ≠ -1
    decide

/-- C25 on a run: the renderbuffer comes out of `GPU_renderbuffer_create` with slot `0`; after
an attach and a detach the same renderbuffer is unattached with slot `-1`. -/
theorem renderbuffer_create_slot_zero_witness :
    (∃ s' r, GPU_renderbuffer_create 16 16 0 GPUHDRType.GPU_HDR_NONE
        GPURenderBufferType.GPU_RENDERBUFFER_COLOR 3 emptyState = some (some 0, s') ∧
      heapRead s'.rbs 0 = some r ∧ r.fb = none ∧ r.fb_attachment = 0 ∧
      r.fb_attachment ≠ -1) ∧
    ∃ created detached, renderbufferRoundRun = some (created, detached) ∧
      created.fb = none ∧ created.fb_attachment = 0 ∧
      detached.fb = none ∧ detached.fb_attachment = -1 :=
  ⟨renderbuffer_create_slot_zero emptyState 16 16 0 GPUHDRType.GPU_HDR_NONE
    GPURenderBufferType.GPU_RENDERBUFFER_COLOR 3 (by decide),
   ⟨_, _, rfl, rfl, rfl, rfl, rfl⟩⟩

/-- C26, the code: for a live framebuffer `T` and a slot in `0..3` whose colour-texture entry
is empty, `GPU_framebuffer_slots_bind` returns the state it was given, but
`GPU_framebuffer_bind_no_save` has no such test: it binds `T` and then dereferences the null
entry in `GPU_texture_width(fb->colortex[slot])`, which is undefined behaviour. -/
theorem bind_empty_slot (s : GPUState) (T : Nat) (f : GPUFrameBuffer) (slot : Int)
    (i : Fin 4) (hf : heapRead s.fbs T = some f) (hi : slotIdx slot = some i)
    (hempty : f.colortex i = none) :
    GPU_framebuffer_slots_bind T slot s = some s ∧
    GPU_framebuffer_bind_no_save T slot s = none := by
  constructor
  · simp [GPU_framebuffer_slots_bind, hf, hi, hempty]
  · simp [GPU_framebuffer_bind_no_save, hf, hi, hempty]

/-- C26 on the example state, whose framebuffer `0` has no attachment, for slot `0`. -/
theorem bind_empty_slot_witness :
    GPU_framebuffer_slots_bind 0 0 exampleState = some exampleState ∧
    GPU_framebuffer_bind_no_save 0 0 exampleState = none :=
  bind_empty_slot exampleState 0 (emptyFrameBuffer 7) 0 0 rfl rfl rfl

/-- C27, the code: a negative slot passes the only guard, `slot >= GPU_FB_MAX_SLOTS`.  For a
colour texture or colour renderbuffer the call goes on to the store `fb->colortex[slot] = tex`
resp. `fb->colorrb[slot] = rb` outside the array, which is undefined behaviour; for a depth
texture it succeeds and records the negative slot in the back-reference.  In no case is the
request rejected. -/
theorem attach_negative_slot (s : GPUState) (T A target : Nat) (slot : Int)
    (f : GPUFrameBuffer) (hf : heapRead s.fbs T = some f) (hneg : slot < 0) :
    ¬ slot ≥ GPU_FB_MAX_SLOTS ∧
    (∀ t, heapRead s.texs A = some t → t.depth = false →
      GPU_framebuffer_texture_attach_target T A target slot s = none ∧
      GPU_framebuffer_texture_attach T A slot s = none) ∧
    (∀ r, heapRead s.rbs A = some r → r.depth = false →
      GPU_framebuffer_renderbuffer_attach T A slot s = none) ∧
    (∀ t, heapRead s.texs A = some t → t.depth = true →
      ∃ s' t', GPU_framebuffer_texture_attach T A slot s = some (true, s') ∧
        heapRead s'.texs A = some t' ∧ t'.fb = some T ∧ t'.fb_attachment = slot) := by
  have h4 : ¬ slot ≥ GPU_FB_MAX_SLOTS := not_ge_max_slots slot (by omega)
  have hi : slotIdx slot = none := slotIdx_none_of_neg slot hneg
  refine ⟨h4, ?_, ?_, ?_⟩
  · intro t ht hd
    constructor
    · simp [GPU_framebuffer_texture_attach_target, h4, ht, hf, hd, hi]
    · simp [GPU_framebuffer_texture_attach, GPU_framebuffer_texture_attach_target, h4, ht, hf,
        hd, hi]
  · intro r hr hd
    simp [GPU_framebuffer_renderbuffer_attach, h4, hr, hf, hd, hi]
  · intro t ht hd
    refine ⟨_, GPU_texture_framebuffer_set t (some T) slot,
      texture_attach_depth_eq s T A slot f t hf ht hd (by omega), ?_, rfl, rfl⟩
    exact heapRead_write_same _ _ _ _ ht

/-- C27 on the example state: attaching colour texture `0` or colour renderbuffer `0` to
framebuffer `0` at slot `-1` is not rejected, it runs into the out-of-range store. -/
theorem attach_negative_slot_witness :
    ¬ (-1 : Int) ≥ GPU_FB_MAX_SLOTS ∧
    GPU_framebuffer_texture_attach 0 0 (-1) exampleState = none ∧
    GPU_framebuffer_texture_attach 0 0 (-1) exampleState ≠ some (false, exampleState) ∧
    GPU_framebuffer_renderbuffer_attach 0 0 (-1) exampleState = none :=
  have h := attach_negative_slot exampleState 0 0 GL_TEXTURE_2D (-1) (emptyFrameBuffer 7) rfl
    (by decide)
  ⟨h.1, (h.2.1 (exampleTexture 5 false) rfl rfl).2,
    (by rw [(h.2.1 (exampleTexture 5 false) rfl rfl).2]; simp),
    h.2.2.1 (exampleRenderBuffer 3 false) rfl rfl⟩

theorem trackerProgress_refl (s : GPUState) (f : GPUFrameBuffer) : TrackerProgress s s f f :=
  Or.inr ⟨rfl, rfl, rfl, rfl, rfl⟩

theorem trackerProgress_trans (s s1 s2 : GPUState) (f f1 f2 : GPUFrameBuffer)
    (hobj : f1.object = f.object) (p1 : TrackerProgress s s1 f f1)
    (p2 : TrackerProgress s1 s2 f1 f2) : TrackerProgress s s2 f f2 := by
  rcases p2 with h2 | ⟨h2, a2, b2, c2, d2⟩
  · exact Or.inl (h2.trans hobj)
  · rcases p1 with h1 | ⟨h1, a1, b1, c1, d1⟩
    · exact Or.inl (h2.trans h1)
    · exact Or.inr ⟨h2.trans h1, a2.trans a1, b2.trans b1, c2.trans c1, d2.trans d1⟩

/-- One round of the colour-texture loop, with its effect on the tracker. -/
theorem freeColortexStep_tracker (s : GPUState) (T : Nat) (i : Fin 4) (f : GPUFrameBuffer)
    (ok : TableOK s T f) :
    ∃ s' f', freeColortexStep T s i = some s' ∧ FreeProgress T s s' f f' ∧
      TrackerProgress s s' f f' := by
  cases hA : f.colortex i with
  | none =>
    exact ⟨s, f, by simp [freeColortexStep, ok.live, hA], freeProgress_refl T s f ok,
      trackerProgress_refl s f⟩
  | some A =>
    obtain ⟨s', f', h1, h2, -, h4⟩ := texture_detach_color_step s T A i f ok hA
    exact ⟨s', f', by simp [freeColortexStep, ok.live, hA, h1], h2, Or.inl h4⟩

/-- One round of the colour-renderbuffer loop, with its effect on the tracker. -/
theorem freeColorrbStep_tracker (s : GPUState) (T : Nat) (i : Fin 4) (f : GPUFrameBuffer)
    (ok : TableOK s T f) :
    ∃ s' f', freeColorrbStep T s i = some s' ∧ FreeProgress T s s' f f' ∧
      TrackerProgress s s' f f' := by
  cases hA : f.colorrb i with
  | none =>
    exact ⟨s, f, by simp [freeColorrbStep, ok.live, hA], freeProgress_refl T s f ok,
      trackerProgress_refl s f⟩
  | some A =>
    obtain ⟨s', f', h1, h2, -, h4⟩ := renderbuffer_detach_color_step s T A i f ok hA
    exact ⟨s', f', by simp [freeColorrbStep, ok.live, hA, h1], h2, Or.inl h4⟩

theorem freeColortexLoop_tracker (T : Nat) (l : List (Fin 4)) :
    ∀ (s : GPUState) (f : GPUFrameBuffer), TableOK s T f →
      ∃ s' f', l.foldlM (freeColortexStep T) s = some s' ∧ FreeProgress T s s' f f' ∧
        TrackerProgress s s' f f' := by
  induction l with
  | nil =>
    intro s f ok
    exact ⟨s, f, rfl, freeProgress_refl T s f ok, trackerProgress_refl s f⟩
  | cons i l ih =>
    intro s f ok
    obtain ⟨s1, f1, h1, p1, t1⟩ := freeColortexStep_tracker s T i f ok
    obtain ⟨s2, f2, h2, p2, t2⟩ := ih s1 f1 p1.ok
    exact ⟨s2, f2, by simp [List.foldlM_cons, h1, h2], freeProgress_trans T _ _ _ _ _ _ p1 p2,
      trackerProgress_trans _ _ _ _ _ _ p1.object t1 t2⟩

theorem freeColorrbLoop_tracker (T : Nat) (l : List (Fin 4)) :
    ∀ (s : GPUState) (f : GPUFrameBuffer), TableOK s T f →
      ∃ s' f', l.foldlM (freeColorrbStep T) s = some s' ∧ FreeProgress T s s' f f' ∧
        TrackerProgress s s' f f' := by
  induction l with
  | nil =>
    intro s f ok
    exact ⟨s, f, rfl, freeProgress_refl T s f ok, trackerProgress_refl s f⟩
  | cons i l ih =>
    intro s f ok
    obtain ⟨s1, f1, h1, p1, t1⟩ := freeColorrbStep_tracker s T i f ok
    obtain ⟨s2, f2, h2, p2, t2⟩ := ih s1 f1 p1.ok
    exact ⟨s2, f2, by simp [List.foldlM_cons, h1, h2], freeProgress_trans T _ _ _ _ _ _ p1 p2,
      trackerProgress_trans _ _ _ _ _ _ p1.object t1 t2⟩

/-- The detaching part of `GPU_framebuffer_free` with its effect on the tracker. -/
theorem freeDetachAll_tracker (s : GPUState) (T : Nat) (f : GPUFrameBuffer)
    (ok : TableOK s T f) :
    ∃ s' f', freeDetachAll T s = some s' ∧ FreeProgress T s s' f f' ∧
      TrackerProgress s s' f f' := by
  have step1 : ∃ s1 f1, freeDepthtexStep T s = some s1 ∧ FreeProgress T s s1 f f1 ∧
      TrackerProgress s s1 f f1 := by
    cases hA : f.depthtex with
    | none =>
      exact ⟨s, f, by simp [freeDepthtexStep, ok.live, hA], freeProgress_refl T s f ok,
        trackerProgress_refl s f⟩
    | some A =>
      obtain ⟨s', f', h1, h2, -, h4⟩ := texture_detach_depth_step s T A f ok hA
      exact ⟨s', f', by simp [freeDepthtexStep, ok.live, hA, h1], h2, Or.inl h4⟩
  obtain ⟨s1, f1, h1, p1, t1⟩ := step1
  obtain ⟨s2, f2, h2, p2, t2⟩ := freeColortexLoop_tracker T (List.finRange 4) s1 f1 p1.ok
  have step3 : ∃ s3 f3, freeDepthrbStep T s2 = some s3 ∧ FreeProgress T s2 s3 f2 f3 ∧
      TrackerProgress s2 s3 f2 f3 := by
    cases hA : f2.depthrb with
    | none =>
      exact ⟨s2, f2, by simp [freeDepthrbStep, p2.ok.live, hA],
        freeProgress_refl T s2 f2 p2.ok, trackerProgress_refl s2 f2⟩
    | some A =>
      obtain ⟨s', f', h1, h2, -, h4⟩ := renderbuffer_detach_depth_step s2 T A f2 p2.ok hA
      exact ⟨s', f', by simp [freeDepthrbStep, p2.ok.live, hA, h1], h2, Or.inl h4⟩
  obtain ⟨s3, f3, h3, p3, t3⟩ := step3
  obtain ⟨s4, f4, h4, p4, t4⟩ := freeColorrbLoop_tracker T (List.finRange 4) s3 f3 p3.ok
  have p12 := freeProgress_trans T _ _ _ _ _ _ p1 p2
  have p34 := freeProgress_trans T _ _ _ _ _ _ p3 p4
  have t12 := trackerProgress_trans _ _ _ _ _ _ p1.object t1 t2
  have t34 := trackerProgress_trans _ _ _ _ _ _ p3.object t3 t4
  refine ⟨s4, f4, ?_, freeProgress_trans T _ _ _ _ _ _ p12 p34,
    trackerProgress_trans _ _ _ _ _ _ p12.object t12 t34⟩
  unfold freeDetachAll
  simp only [Option.bind_eq_bind, Option.some_bind, h1, h2, h3, h4]

/-- C28: `GPU_framebuffer_free(T)` for a framebuffer with a non-zero handle, run from a
consistent state.  If `T` has at least one attachment, `GG.currentfb` is `0` afterwards,
whatever framebuffer was the bound target before the call (the first detach rebinds `T`, and
the end of the function finds `T` bound and restores the default target).  If `T` has no
attachment and was not the bound target, `GG.currentfb` is unchanged. -/
theorem framebuffer_free_tracker (s : GPUState) (T : Nat) (f : GPUFrameBuffer)
    (hc : Consistent s) (hf : heapRead s.fbs T = some f) (hobj : f.object ≠ 0) :
    ((f.depthtex ≠ none ∨ (∃ i, f.colortex i ≠ none) ∨ f.depthrb ≠ none ∨
        ∃ i, f.colorrb i ≠ none) →
      ∃ s', GPU_framebuffer_free T s = some s' ∧ s'.currentfb = 0) ∧
    (f.depthtex = none → (∀ i, f.colortex i = none) → f.depthrb = none →
      (∀ i, f.colorrb i = none) → s.currentfb ≠ f.object →
      ∃ s', GPU_framebuffer_free T s = some s' ∧ s'.currentfb = s.currentfb) := by
  constructor
  · intro hatt
    have ok := Consistent.tableOK s hc T f hf
    obtain ⟨s1, f1, h1, p, t⟩ := freeDetachAll_tracker s T f ok
    obtain ⟨s1', f1', h1', p', e1, e2, e3, e4⟩ := freeDetachAll_progress s T f ok
    rw [h1] at h1'
    cases h1'
    have hf1 : f1' = f1 := by
      have a := p.ok.live
      rw [p'.ok.live] at a
      exact Option.some.inj a
    subst hf1
    have hcur : s1.currentfb = f.object := by
      rcases t with h | ⟨-, a, b, c, d⟩
      · exact h
      · exfalso
        rcases hatt with h | ⟨i, h⟩ | h | ⟨i, h⟩
        · exact h (a ▸ e1)
        · exact h (b ▸ e2 i)
        · exact h (c ▸ e3)
        · exact h (d ▸ e4 i)
    obtain ⟨s', hs', -, -, -, hcur'⟩ := framebuffer_free_tail s s1 T f1' h1 p.ok.live
    refine ⟨s', hs', ?_⟩
    rw [hcur', p.object, hcur]
    simp [hobj]
  · intro e1 e2 e3 e4 hcur
    have h1 := freeDetachAll_empty s T f hf e1 e2 e3 e4
    obtain ⟨s', hs', -, -, -, hcur'⟩ := framebuffer_free_tail s s T f h1 hf
    refine ⟨s', hs', ?_⟩
    rw [hcur']
    simp [hcur]

/-- C28 on `otherTargetState`: framebuffer `1` (GL name `8`) is the bound target, framebuffer
`0` holds a texture; freeing framebuffer `0` leaves the tracker at `0`. -/
theorem framebuffer_free_tracker_witness :
    otherTargetState.currentfb = 8 ∧
    ∃ s', GPU_framebuffer_free 0 otherTargetState = some s' ∧ s'.currentfb = 0 :=
  ⟨rfl, (framebuffer_free_tracker otherTargetState 0
    { object := 7, colortex := setSlot (fun _ => none) 0 (some 0), depthtex := none,
      colorrb := fun _ => none, depthrb := none }
    (by decide) rfl (by decide)).1 (Or.inr (Or.inl ⟨0, by decide⟩))⟩

/-- C29: in every state where back-references and attachment tables are consistent, for every
attached colour texture `tex` with back-reference `(T, slot)` the slot is in `0..3`, the
lookup `fb->colortex[fb_attachment]` is in bounds and yields `tex`, so the condition of the
`BLI_assert` in the texture detach is true; likewise `fb->colorrb[fb_attachment] == rb` for
every attached colour renderbuffer. -/
theorem detach_assertions_hold (s : GPUState) (hc : Consistent s) :
    (∀ tex t T, heapRead s.texs tex = some t → t.fb = some T → t.depth = false →
      ∃ f i, heapRead s.fbs T = some f ∧ slotIdx t.fb_attachment = some i ∧
        0 ≤ t.fb_attachment ∧ t.fb_attachment < 4 ∧
        f.colortex i = some tex ∧ GPU_framebuffer_texture_detach_assert tex s = some true) ∧
    (∀ rb r T, heapRead s.rbs rb = some r → r.fb = some T → r.depth = false →
      ∃ f i, heapRead s.fbs T = some f ∧ slotIdx r.fb_attachment = some i ∧
        0 ≤ r.fb_attachment ∧ r.fb_attachment < 4 ∧
        f.colorrb i = some rb ∧ GPU_framebuffer_renderbuffer_detach_assert rb s = some true) := by
  have hrange : ∀ (slot : Int) (i : Fin 4), slotIdx slot = some i → 0 ≤ slot ∧ slot < 4 := by
    intro slot i h
    unfold slotIdx at h
    split_ifs at h with hr
    exact hr
  constructor
  · intro tex t T ht hT hd
    obtain ⟨f, hf, hheld⟩ := consistent_texBack s hc tex T t ht hT
    simp only [TexHeld, hd, Bool.false_eq_true, if_false] at hheld
    obtain ⟨i, hi, hA⟩ := hheld
    refine ⟨f, i, hf, hi, (hrange _ i hi).1, (hrange _ i hi).2, hA, ?_⟩
    simp [GPU_framebuffer_texture_detach_assert, ht, hT, hf, hd, hi, hA]
  · intro rb r T hr hT hd
    obtain ⟨f, hf, hheld⟩ := consistent_rbBack s hc rb T r hr hT
    simp only [RbHeld, hd, Bool.false_eq_true, if_false] at hheld
    obtain ⟨i, hi, hA⟩ := hheld
    refine ⟨f, i, hf, hi, (hrange _ i hi).1, (hrange _ i hi).2, hA, ?_⟩
    simp [GPU_framebuffer_renderbuffer_detach_assert, hr, hT, hf, hd, hi, hA]

/-- C29 on `attachedState`: colour texture `0` sits at slot `2` and colour renderbuffer `0` at
slot `1` of framebuffer `0`; both assertions hold. -/
theorem detach_assertions_hold_witness :
    Consistent attachedState ∧
    GPU_framebuffer_texture_detach_assert 0 attachedState = some true ∧
    GPU_framebuffer_renderbuffer_detach_assert 0 attachedState = some true := by
  have hc : Consistent attachedState := by decide
  have h := detach_assertions_hold attachedState hc
  obtain ⟨_, _, _, _, _, _, _, h1⟩ := h.1 0 _ 0 rfl rfl rfl
  obtain ⟨_, _, _, _, _, _, _, h2⟩ := h.2 0 _ 0 rfl rfl rfl
  exact ⟨hc, h1, h2⟩

/-- The `switch` of `Evaluate` computes the movement test `movedSpec`. -/
theorem evaluateAxisSwitch_eq (rnd : ℚ → ℚ) (cur : Vec3) (self : KX_MovementSensor) :
    evaluateAxisSwitch rnd cur self
      = movedSpec rnd self.m_axis self.m_threshold self.m_previousPosition cur := by
  unfold evaluateAxisSwitch movedSpec
  cases self.m_axis <;> simp [gt_iff_lt, Bool.or_assoc]

/-- C30: `KX_MovementSensor::Evaluate` is an edge detector.  With `moved` the axis test on
`current - previous` against the threshold, it returns `true` exactly when `moved` differs
from `m_triggered` before the call or `m_reset && m_level` holds; afterwards `m_triggered` and
`m_positionHasChanged` equal `moved`, `m_previousPosition` is the current position, and the
other members are unchanged. -/
theorem movementSensor_edge_detector (rnd : ℚ → ℚ) (cur : Vec3) (self : KX_MovementSensor) :
    (KX_MovementSensor.Evaluate rnd cur self).1
      = (decide (movedSpec rnd self.m_axis self.m_threshold self.m_previousPosition cur
          ≠ self.m_triggered) || (self.m_reset && self.m_level)) ∧
    (KX_MovementSensor.Evaluate rnd cur self).2
      = { self with
          m_triggered :=
            movedSpec rnd self.m_axis self.m_threshold self.m_previousPosition cur
          m_positionHasChanged :=
            movedSpec rnd self.m_axis self.m_threshold self.m_previousPosition cur
          m_previousPosition := cur } := by
  unfold KX_MovementSensor.Evaluate
  rw [evaluateAxisSwitch_eq]
  cases movedSpec rnd self.m_axis self.m_threshold self.m_previousPosition cur <;>
    cases ht : self.m_triggered <;> cases hr : self.m_reset <;> cases hl : self.m_level <;>
    simp [ht]

/-- The example sensor moved by 1 along X: `Evaluate` fires and sets the flag; evaluated
again at the same position it fires again, for the movement has stopped, and clears it. -/
theorem movementSensor_example :
    (KX_MovementSensor.Evaluate id { x := 1, y := 0, z := 0 } exampleSensor).1 = true ∧
    (KX_MovementSensor.Evaluate id { x := 1, y := 0, z := 0 } exampleSensor).2.m_triggered
      = true ∧
    (KX_MovementSensor.Evaluate id { x := 1, y := 0, z := 0 }
      (KX_MovementSensor.Evaluate id { x := 1, y := 0, z := 0 } exampleSensor).2).1 = true ∧
    (KX_MovementSensor.Evaluate id { x := 1, y := 0, z := 0 }
      (KX_MovementSensor.Evaluate id { x := 1, y := 0, z := 0 }
        exampleSensor).2).2.m_triggered = false := by
  have h1 : movedSpec id SensMovementAxis.SENS_MOVEMENT_X_AXIS (1 / 2)
      { x := 0, y := 0, z := 0 } { x := 1, y := 0, z := 0 } = true := by
    simp only [movedSpec, id]
    norm_num
  have h2 : movedSpec id SensMovementAxis.SENS_MOVEMENT_X_AXIS (1 / 2)
      { x := 1, y := 0, z := 0 } { x := 1, y := 0, z := 0 } = false := by
    simp only [movedSpec, id]
    norm_num
  have e1 : KX_MovementSensor.Evaluate id { x := 1, y := 0, z := 0 } exampleSensor
      = (true, { exampleSensor with
          m_triggered := true, m_positionHasChanged := true
          m_previousPosition := { x := 1, y := 0, z := 0 } }) := by
    simp only [KX_MovementSensor.Evaluate, evaluateAxisSwitch_eq, exampleSensor, h1]
    rfl
  rw [e1]
  have e2 : KX_MovementSensor.Evaluate id { x := 1, y := 0, z := 0 }
      { exampleSensor with
        m_triggered := true, m_positionHasChanged := true
        m_previousPosition := { x := 1, y := 0, z := 0 } }
      = (true, { exampleSensor with
          m_triggered := false, m_positionHasChanged := false
          m_previousPosition := { x := 1, y := 0, z := 0 } }) := by
    simp only [KX_MovementSensor.Evaluate, evaluateAxisSwitch_eq, exampleSensor, h2]
    rfl
  rw [e2]
  exact ⟨rfl, rfl, rfl, rfl⟩

theorem roundHalfEven_int (n : Int) : roundHalfEven n = n := by
  simp [roundHalfEven]

theorem roundHalfEven_up (x : ℚ) (f : Int) (h1 : (f : ℚ) + 1 / 2 < x) (h2 : x < f + 1) :
    roundHalfEven x = f + 1 := by
  have hfl : ⌊x⌋ = f := by
    rw [Int.floor_eq_iff]
    constructor <;> linarith
  unfold roundHalfEven
  simp only [hfl]
  have hr : ¬ (x - (f : ℚ) < 1 / 2) := by linarith
  have hr' : 1 / 2 < x - (f : ℚ) := by linarith
  simp only [hr, hr', if_false, if_true]

/-- The value of `roundFloat` at a number with binary exponent `e`. -/
theorem roundFloat_eq (x : ℚ) (e k : Int) (hx : x ≠ 0) (h1 : (2 : ℚ) ^ e ≤ |x|)
    (h2 : |x| < (2 : ℚ) ^ (e + 1)) (hk : roundHalfEven (x / 2 ^ (e - 23)) = k) :
    roundFloat x = k * 2 ^ (e - 23) := by
  have hpos : 0 < |x| := abs_pos.mpr hx
  have hlog : Int.log 2 |x| = e := by
    have a : e ≤ Int.log 2 |x| :=
      (Int.zpow_le_iff_le_log (by decide) hpos).mp (by exact_mod_cast h1)
    have b : Int.log 2 |x| < e + 1 :=
      (Int.lt_zpow_iff_log_lt (by decide) hpos).mp (by exact_mod_cast h2)
    omega
  unfold roundFloat
  simp only [hx, if_false, hlog, hk]

theorem roundFloat_zero : roundFloat 0 = 0 := by
  simp [roundFloat]

/-- The number `1/2` is a `float`. -/
theorem roundFloat_half : roundFloat (1 / 2) = 1 / 2 := by
  have hk : roundHalfEven ((1 / 2 : ℚ) / 2 ^ ((-1 : Int) - 23)) = 8388608 := by
    have e : (1 / 2 : ℚ) / 2 ^ ((-1 : Int) - 23) = ((8388608 : Int) : ℚ) := by
      norm_num [zpow_neg]
    rw [e]
    exact roundHalfEven_int _
  rw [roundFloat_eq (1 / 2) (-1) 8388608 (by norm_num)
    (by norm_num [abs_of_pos, zpow_neg]) (by norm_num [abs_of_pos]) hk]
  norm_num [zpow_neg]

/-- The number `1/6` is no `float`: it is rounded to `11184811 / 2^26`. -/
theorem roundFloat_sixth : roundFloat (1 / 6) = 11184811 / 67108864 := by
  have hk : roundHalfEven ((1 / 6 : ℚ) / 2 ^ ((-3 : Int) - 23)) = 11184810 + 1 := by
    apply roundHalfEven_up <;> norm_num [zpow_neg]
  rw [roundFloat_eq (1 / 6) (-3) (11184810 + 1) (by norm_num)
    (by norm_num [abs_of_pos, zpow_neg]) (by norm_num [abs_of_pos, zpow_neg]) hk]
  norm_num [zpow_neg]

/-- C24, counterexample: for `sharpness = 0.5` and a scratch texture 3 wide the horizontal
scale computed in `float` arithmetic is `11184811 / 2^26`, the `float` next to `1/6`, and not
the quotient `(1 - sharpness) / scratchWidth = 1/6`. -/
theorem blur_scale_not_exact_quotient :
    GPU_framebuffer_blur_scaleh roundFloat (1 / 2) 3
      = (some (11184811 / 67108864), some 0) ∧
    GPU_framebuffer_blur_scaleh roundFloat (1 / 2) 3
      ≠ (some ((1 - 1 / 2) / ((3 : Int) : ℚ)), some 0) := by
  have e : GPU_framebuffer_blur_scaleh roundFloat (1 / 2) 3
      = (some (11184811 / 67108864), some 0) := by
    have h3 : floatOfInt 3 = 3 := floatOfInt_of_small 3 (by decide)
    have h12 : (1 : ℚ) - 1 / 2 = 1 / 2 := by norm_num
    have h16 : (1 / 2 : ℚ) / ((3 : Int) : ℚ) = 1 / 6 := by norm_num
    have hne : ((3 : Int) : ℚ) ≠ 0 := by norm_num
    simp only [GPU_framebuffer_blur_scaleh, floatDiv, h3, h12, roundFloat_half, hne, if_false,
      h16, roundFloat_sixth]
  refine ⟨e, ?_⟩
  rw [e]
  norm_num

theorem roundHalfEven_error (y : ℚ) : |(roundHalfEven y : ℚ) - y| ≤ 1 / 2 := by
  have h1 : (⌊y⌋ : ℚ) ≤ y := Int.floor_le y
  have h2 : y < ⌊y⌋ + 1 := Int.lt_floor_add_one y
  unfold roundHalfEven
  simp only
  split_ifs with a b c
  · rw [abs_le]; constructor <;> linarith
  · rw [abs_le]; push_cast; constructor <;> linarith
  · rw [abs_le]; constructor <;> linarith
  · rw [abs_le]; push_cast; constructor <;> linarith

/-- The relative error of `roundFloat` is at most the unit roundoff `2^-24`. -/
theorem roundFloat_error (x : ℚ) : |roundFloat x - x| ≤ 1 / 16777216 * |x| := by
  by_cases hx : x = 0
  · simp [hx, roundFloat]
  have hpos : 0 < |x| := abs_pos.mpr hx
  have hle : ((2 : Nat) : ℚ) ^ Int.log 2 |x| ≤ |x| := Int.zpow_log_le_self (by decide) hpos
  have hu : (0 : ℚ) < 2 ^ (Int.log 2 |x| - 23) := by positivity
  have hsplit : ((2 : Nat) : ℚ) ^ Int.log 2 |x| = 8388608 * 2 ^ (Int.log 2 |x| - 23) := by
    rw [zpow_sub₀ (by norm_num)]
    norm_num
    ring
  have he := roundHalfEven_error (x / 2 ^ (Int.log 2 |x| - 23))
  have hval : roundFloat x - x
      = ((roundHalfEven (x / 2 ^ (Int.log 2 |x| - 23)) : ℚ) - x / 2 ^ (Int.log 2 |x| - 23))
          * 2 ^ (Int.log 2 |x| - 23) := by
    unfold roundFloat
    simp only [hx, if_false]
    field_simp
  rw [hval, abs_mul, abs_of_pos hu]
  have h3 := mul_le_mul_of_nonneg_right he hu.le
  rw [hsplit] at hle
  linarith

/-- The error of a quotient evaluated with two roundings of relative error at most `u`. -/
theorem rounded_quotient_error (rnd : ℚ → ℚ) (u : ℚ) (hr : ∀ x, |rnd x - x| ≤ u * |x|)
    (a w : ℚ) : |rnd (rnd a / w) - a / w| ≤ (2 * u + u ^ 2) * |a / w| := by
  have hu : 0 ≤ u := by
    have := hr 1
    have h0 := abs_nonneg (rnd 1 - 1)
    simp only [abs_one, mul_one] at this
    linarith
  have h1 := hr a
  have h2 := hr (rnd a / w)
  have ha : |rnd a| ≤ |a| + u * |a| := by
    have := abs_sub_abs_le_abs_sub (rnd a) a
    linarith
  have hw : 0 ≤ |w|⁻¹ := inv_nonneg.mpr (abs_nonneg w)
  have hq : |rnd a / w - a / w| ≤ u * |a| * |w|⁻¹ := by
    rw [← sub_div, abs_div, div_eq_mul_inv]
    exact mul_le_mul_of_nonneg_right h1 hw
  have hq2 : |rnd a / w| ≤ (|a| + u * |a|) * |w|⁻¹ := by
    rw [abs_div, div_eq_mul_inv]
    exact mul_le_mul_of_nonneg_right ha hw
  have h3 : |rnd (rnd a / w) - a / w| ≤ |rnd (rnd a / w) - rnd a / w| + |rnd a / w - a / w| := by
    have := abs_add (rnd (rnd a / w) - rnd a / w) (rnd a / w - a / w)
    simpa using this
  have h4 : u * |rnd a / w| ≤ u * ((|a| + u * |a|) * |w|⁻¹) := mul_le_mul_of_nonneg_left hq2 hu
  have hg : |a / w| = |a| * |w|⁻¹ := by rw [abs_div, div_eq_mul_inv]
  rw [hg]
  have e : (2 * u + u ^ 2) * (|a| * |w|⁻¹)
      = u * ((|a| + u * |a|) * |w|⁻¹) + u * |a| * |w|⁻¹ := by ring
  rw [e]
  linarith

/-- C24, amended: the scale vectors of `GPU_framebuffer_blur` are the quotients evaluated in
`float` arithmetic, for every rounding `rnd` of that arithmetic and non-zero sizes: the
horizontal one is `(rnd (rnd (1 - sharpness) / float(scratchWidth)), 0)` and the vertical one
`(0, rnd (rnd (1 - sharpness) / float(sourceHeight)))`.  For sizes below `2^24` they are the
exact quotients `(1 - sharpness) / scratchWidth` and `(1 - sharpness) / sourceHeight` when the
difference and the quotient are representable (fixed points of `rnd`), and otherwise, for a
rounding of relative error at most `u`, they are within relative error `2 u + u^2` of the exact
quotients.  For `sharpness = 1` both vectors are exactly `(0, 0)`. -/
theorem blur_scale_vectors (rnd : ℚ → ℚ) (sharpness : ℚ) (width height : Int)
    (hw : width ≠ 0) (hh : height ≠ 0) :
    (GPU_framebuffer_blur_scaleh rnd sharpness width
        = (some (rnd (rnd (1 - sharpness) / floatOfInt width)), some 0) ∧
     GPU_framebuffer_blur_scalev rnd sharpness height
        = (some 0, some (rnd (rnd (1 - sharpness) / floatOfInt height)))) ∧
    (rnd (1 - sharpness) = 1 - sharpness →
      (width.natAbs < 2 ^ 24 → rnd ((1 - sharpness) / width) = (1 - sharpness) / width →
        GPU_framebuffer_blur_scaleh rnd sharpness width
          = (some ((1 - sharpness) / width), some 0)) ∧
      (height.natAbs < 2 ^ 24 → rnd ((1 - sharpness) / height) = (1 - sharpness) / height →
        GPU_framebuffer_blur_scalev rnd sharpness height
          = (some 0, some ((1 - sharpness) / height)))) ∧
    (∀ u : ℚ, (∀ x, |rnd x - x| ≤ u * |x|) →
      (width.natAbs < 2 ^ 24 →
        ∃ sh, GPU_framebuffer_blur_scaleh rnd sharpness width = (some sh, some 0) ∧
          |sh - (1 - sharpness) / width| ≤ (2 * u + u ^ 2) * |(1 - sharpness) / width|) ∧
      (height.natAbs < 2 ^ 24 →
        ∃ sv, GPU_framebuffer_blur_scalev rnd sharpness height = (some 0, some sv) ∧
          |sv - (1 - sharpness) / height| ≤ (2 * u + u ^ 2) * |(1 - sharpness) / height|)) ∧
    (rnd 0 = 0 →
      GPU_framebuffer_blur_scaleh rnd 1 width = (some 0, some 0) ∧
      GPU_framebuffer_blur_scalev rnd 1 height = (some 0, some 0)) := by
  have hw' : ((floatOfInt width : Int) : ℚ) ≠ 0 := by
    exact_mod_cast floatOfInt_ne_zero width hw
  have hh' : ((floatOfInt height : Int) : ℚ) ≠ 0 := by
    exact_mod_cast floatOfInt_ne_zero height hh
  have eh : ∀ s : ℚ, GPU_framebuffer_blur_scaleh rnd s width
      = (some (rnd (rnd (1 - s) / floatOfInt width)), some 0) := by
    intro s
    simp only [GPU_framebuffer_blur_scaleh, floatDiv, hw', if_false]
  have ev : ∀ s : ℚ, GPU_framebuffer_blur_scalev rnd s height
      = (some 0, some (rnd (rnd (1 - s) / floatOfInt height))) := by
    intro s
    simp only [GPU_framebuffer_blur_scalev, floatDiv, hh', if_false]
  refine ⟨⟨eh _, ev _⟩, ?_, ?_, ?_⟩
  · intro hfix
    refine ⟨fun hs hq => ?_, fun hs hq => ?_⟩
    · rw [eh, hfix, floatOfInt_of_small width hs, hq]
    · rw [ev, hfix, floatOfInt_of_small height hs, hq]
  · intro u hr
    refine ⟨fun hs => ⟨_, eh _, ?_⟩, fun hs => ⟨_, ev _, ?_⟩⟩
    · rw [floatOfInt_of_small width hs]
      exact rounded_quotient_error rnd u hr _ _
    · rw [floatOfInt_of_small height hs]
      exact rounded_quotient_error rnd u hr _ _
  · intro h0
    rw [eh, ev]
    simp [h0]

/-- C24, instance: with the `float` rounding `roundFloat`, sharpness `0.5` and textures 3 wide
and 5 high, the horizontal scale is within relative error `2 u + u^2` (`u = 2^-24`) of `1/6`;
with sharpness `1` and textures 16 wide and high both scale vectors are `(0, 0)`. -/
theorem blur_scale_vectors_witness :
    ((3 : Int) ≠ 0 ∧ (5 : Int) ≠ 0 ∧
      ∃ sh, GPU_framebuffer_blur_scaleh roundFloat (1 / 2) 3 = (some sh, some 0) ∧
        |sh - (1 - 1 / 2) / ((3 : Int) : ℚ)|
          ≤ (2 * (1 / 16777216) + (1 / 16777216) ^ 2) * |(1 - 1 / 2) / ((3 : Int) : ℚ)|) ∧
    (GPU_framebuffer_blur_scaleh roundFloat 1 16 = (some 0, some 0) ∧
      GPU_framebuffer_blur_scalev roundFloat 1 16 = (some 0, some 0)) :=
  ⟨⟨by decide, by decide,
      ((blur_scale_vectors roundFloat (1 / 2) 3 5 (by decide) (by decide)).2.2.1
        (1 / 16777216) roundFloat_error).1 (by decide)⟩,
    (blur_scale_vectors roundFloat 1 16 16 (by decide) (by decide)).2.2.2 roundFloat_zero⟩

end GPUFramebuffer
